import Mathlib

/-!
Command stream receivers: the AUB (trace-dump) and the TBX (live-transport) backend; memory
objects and the CPU data transfer of the command queue.

A shallow embedding of
`runtime/command_stream/aub_command_stream_receiver_hw.inl`,
`runtime/command_stream/tbx_command_stream_receiver_hw.inl`, the mapping functions, the
destructor and `setDestructorCallback` of `runtime/mem_obj/mem_obj.cpp`, and
`runtime/command_queue/cpu_data_transfer_handler.cpp`.

Conventions of the embedding

* machine integers are `Nat`/`Int`, reduced explicitly where the C++ type matters
  (`uint32_t` ring tail, `size_t` lengths, the `(int)` cast of the task count);
* a pointer into the ring buffer is its byte offset from `pRingBuffer`;
* the output stream (`stream`) is the list of the calls made on it, oldest first;
* the destructor of a memory object is the list of the calls it makes, in order;
* stores into ring memory are additionally recorded, in program order, in `ringStores`;
* `DEBUG_BREAK_IF` is a debug-only trap without effect on state and is not modelled, except
  in `create`, where reaching it is counted;
  `UNRECOVERABLE_IF` aborts and is the error `FlushError.unrecoverable`;
* `alignedMalloc` is taken to succeed (a failed allocation crashes inside
  `initializeEngine` before any ring state is touched).
-/

namespace OCLRT

/-! ## Constants and helpers declared outside the two `.inl` files -/

/-- Modelled from the spec: `sizeof(MI_BATCH_BUFFER_START)` from `hw_cmds.h`, which is not part
of the sources at hand; the batch-buffer-start command is 12 bytes. -/
def sizeofMI_BATCH_BUFFER_START : Nat := 12

/-- Modelled from the spec: `sizeof(MI_LOAD_REGISTER_IMM)` from `hw_cmds.h`, which is not part
of the sources at hand; the load-register-immediate command is 12 bytes. -/
def sizeofMI_LOAD_REGISTER_IMM : Nat := 12

/-- Modelled from the spec: `sizeof(MI_NOOP)` from `hw_cmds.h`, which is not part of the sources
at hand; the no-op command is 4 bytes. -/
def sizeofMI_NOOP : Nat := 4

/-- Modelled from the spec: `alignUp` from `runtime/helpers/aligned_memory.h`, which is not part
of the sources at hand; rounds `before` up to the next multiple of `alignment`. -/
def alignUp (before alignment : Nat) : Nat :=
  (before + alignment - 1) / alignment * alignment

/-- Reduction to `uint32_t`. -/
def toUInt32 (n : Nat) : Nat := n % 2 ^ 32

/-- Reduction to a 64-bit `size_t` / `uintptr_t`. -/
def toSizeT (n : Nat) : Nat := n % 2 ^ 64

/-- Unsigned 64-bit subtraction `a - b` (wraps modulo `2^64`). -/
def subSizeT (a b : Nat) : Nat := (toSizeT a + 2 ^ 64 - toSizeT b) % 2 ^ 64

/-- Unsigned 32-bit subtraction `a - b` (wraps modulo `2^32`). -/
def subUInt32 (a b : Nat) : Nat := (toUInt32 a + 2 ^ 32 - toUInt32 b) % 2 ^ 32

/-- The cast `(int)x` of a `uint32_t` value (two's complement). -/
def toInt32 (n : Nat) : Int :=
  if n % 2 ^ 32 < 2 ^ 31 then ((n % 2 ^ 32 : Nat) : Int) else ((n % 2 ^ 32 : Nat) : Int) - 2 ^ 32

/-- Page size used by the page-walk callback (`static const size_t pageSize = 4096`). -/
def pageSize : Nat := 4096

/-- The mask operation `x & ~(pageSize - 1)` on a 64-bit value. -/
def pageAlignDown (x : Nat) : Nat := toSizeT x / pageSize * pageSize

/-! ## The output stream -/

/-- Values of `AubMemDump::DataTypeHintValues` used by the receivers, plus the per-engine
`csTraits.aubHintLRCA`. `TraceNotype` is the default argument of `addMemoryWrite`. -/
inductive DataTypeHint
  | TraceNotype
  | TraceBatchBufferPrimary
  | TraceCommandBuffer
  | aubHintLRCA (engineOrdinal : Nat)
  deriving DecidableEq, Repr

/-- Values of `AubMemDump::AddressSpaceValues` used by the receivers. -/
inductive AddressSpace
  | TraceNonlocal
  deriving DecidableEq, Repr

/-- Values of `CmdServicesMemTraceRegisterPoll::TimeoutActionValues`. -/
inductive TimeoutAction
  | Abort
  deriving DecidableEq, Repr

/-- What the source pointer of an `addMemoryWrite` refers to at the time of the call. -/
inductive MemSource
  /-- Bytes of the ring buffer starting at `offset`, as they are at the time of the call. -/
  | ring (offset : Nat) (bytes : List Nat)
  /-- The whole logical ring context, with the ring fields it carries at the time of the call. -/
  | lrca (ringHead ringTail ringBase ringCtrl : Nat)
  /-- The member `engineInfo.tailRingBuffer` / `engineInfo.tailRCS`, holding `value`. -/
  | tail (value : Nat)
  /-- Memory owned by the caller, at CPU address `ptr`. -/
  | host (ptr : Nat)
  deriving DecidableEq, Repr

/-- One call on the output stream. -/
inductive SinkEvent
  | writeMMIO (offset value : Nat)
  | addComment (space : String) (address : Nat)
  | reserveAddressGGTT (address size physical : Nat)
  | reserveAddressPPGTT (address size physical : Nat)
  | addMemoryWrite (physical : Nat) (source : MemSource) (size : Nat)
      (addressSpace : AddressSpace) (hint : DataTypeHint)
  | registerPoll (registerOffset mask value : Nat) (pollNotEqual : Bool)
      (timeoutAction : TimeoutAction)
  | readMemory (physical : Nat) (destination : Nat) (size : Nat)
  deriving DecidableEq, Repr

/-! ## Traits of the hardware family and collaborators -/

/-- The bit-field view `sData` of `AUB::MiContextDescriptorReg`, restricted to the fields that
`flush` assigns; the remaining fields stay zero. -/
structure MiContextDescriptorReg where
  Valid : Bool
  ForcePageDirRestore : Bool
  ForceRestore : Bool
  Legacy : Bool
  FaultSupport : Nat
  PrivilegeAccessOrPPGTT : Bool
  ADor64bitSupport : Bool
  LogicalRingCtxAddress : Nat
  ContextID : Nat
  deriving DecidableEq, Repr

/-- The ring fields of a logical ring context image (set through
`csTraits.setRingHead/Tail/Base/Ctrl`). -/
structure LrcaImage where
  ringHead : Nat
  ringTail : Nat
  ringBase : Nat
  ringCtrl : Nat
  deriving DecidableEq, Repr

/-- One invocation of the page-walk callback:
`walker(physAddress, size, offset)`. -/
structure PageChunk where
  physAddress : Nat
  size : Nat
  offset : Nat
  deriving DecidableEq, Repr

/-- Everything the two receivers take from declarations that are not part of the two `.inl`
files: the family tables (`AUBFamilyMapper<GfxFamily>`), the per-engine traits
(`AubMemDump::LrcaHelper`), the command encodings of `hw_cmds.h`, and the results of the
allocator and of the address-space objects `gttRemap`, `ggtt` and `ppgtt`.
Register offsets and GGTT addresses are small enough that the sums formed with them do not
wrap. -/
structure GfxFamily where
  /-- `AUBFamilyMapper<GfxFamily>::globalMMIO`. -/
  globalMMIO : List (Nat × Nat)
  /-- `*AUBFamilyMapper<GfxFamily>::perEngineMMIO[engineOrdinal]`. -/
  perEngineMMIO : Nat → List (Nat × Nat)
  /-- `getCsTraits(engineOrdinal).mmioBase`. -/
  mmioBase : Nat → Nat
  /-- `getCsTraits(engineOrdinal).sizeLRCA`. -/
  sizeLRCA : Nat → Nat
  /-- `getCsTraits(engineOrdinal).alignLRCA`. -/
  alignLRCA : Nat → Nat
  /-- Ring fields of the image left by `csTraits.initialize(pLRCABase)`. -/
  templateLRCA : Nat → LrcaImage
  /-- `AUB::Traits::addressingBits`. -/
  addressingBits : Nat
  /-- Byte `i` of an `MI_LOAD_REGISTER_IMM` with the given register offset and data dword. -/
  lriByte : Nat → Nat → Nat → Nat
  /-- Byte `i` of an `MI_BATCH_BUFFER_START` in PPGTT address space with the given address. -/
  bbsByte : Nat → Nat → Nat
  /-- Byte `i` of `MI_NOOP::sInit()`. -/
  noopByte : Nat → Nat
  /-- `contextDescriptor.ulData[i]`. -/
  ulData : MiContextDescriptorReg → Nat → Nat
  /-- `AUB::ptrToPPGTT`. -/
  ptrToPPGTT : Nat → Nat
  /-- Pointer returned by `alignedMalloc` for the status page of an engine. -/
  mallocHWSP : Nat → Nat
  /-- Pointer returned by `alignedMalloc` for the logical ring context of an engine. -/
  mallocLRCA : Nat → Nat
  /-- Pointer returned by `alignedMalloc` for the ring buffer of an engine. -/
  mallocRing : Nat → Nat
  /-- Contents of a freshly allocated block: block pointer, then byte offset. -/
  uninitialized : Nat → Nat → Nat
  /-- `gttRemap.map(ptr, size)`. -/
  gttRemapMap : Nat → Nat → Nat
  /-- `ggtt.map(address, size)`. -/
  ggttMap : Nat → Nat → Nat
  /-- `ppgtt.map(address, size)`. -/
  ppgttMap : Nat → Nat → Nat
  /-- The callbacks made by `ppgtt.pageWalk(address, size, offset, walker)`, in order. -/
  ppgttPageWalk : Nat → Nat → Nat → List PageChunk

/-- `GraphicsAllocation` (with `MemoryAllocation::allowAubFileWrite`). The CPU pointer, the GPU
address and the size are 64-bit values, so the casts to `uintptr_t` leave them as they are. -/
structure GraphicsAllocation where
  underlyingBuffer : Nat
  gpuAddress : Nat
  underlyingBufferSize : Nat
  residencyTaskCount : Int
  allowAubFileWrite : Bool
  deriving DecidableEq, Repr

/-- Modelled from the spec: `ObjectNotResident` from
`runtime/memory_manager/graphics_allocation.h`, which is not part of the sources at hand; the
"not resident" sentinel, a value below every task count. -/
def ObjectNotResident : Int := -1

/-- `BatchBuffer`. -/
structure BatchBuffer where
  commandBufferAllocation : GraphicsAllocation
  startOffset : Nat
  usedSize : Nat
  deriving DecidableEq, Repr

/-- Calls received by the memory manager. -/
inductive MemoryManagerCall
  | pushAllocationForResidency (gfxAllocation : GraphicsAllocation)
  | pushAllocationForEviction (gfxAllocation : GraphicsAllocation)
  deriving DecidableEq, Repr

/-! ## Ring memory -/

/-- One store into ring memory; `offset` is the byte offset of `pTail` from the ring start. -/
inductive RingStore
  /-- `memset(pTail, 0, size)`. -/
  | memset (offset size : Nat)
  /-- `*(MI_LOAD_REGISTER_IMM *)pTail = lri`. -/
  | loadRegisterImm (offset registerOffset dataDword : Nat)
  /-- `*(MI_BATCH_BUFFER_START *)pTail = bbs`. -/
  | batchBufferStart (offset address : Nat)
  /-- `*(MI_NOOP *)pTail = MI_NOOP::sInit()`. -/
  | noop (offset : Nat)
  deriving DecidableEq, Repr

/-- First byte offset written by a store. -/
def RingStore.offset : RingStore → Nat
  | .memset o _ => o
  | .loadRegisterImm o _ _ => o
  | .batchBufferStart o _ => o
  | .noop o => o

/-- Number of bytes written by a store. -/
def RingStore.size : RingStore → Nat
  | .memset _ n => n
  | .loadRegisterImm _ _ _ => sizeofMI_LOAD_REGISTER_IMM
  | .batchBufferStart _ _ => sizeofMI_BATCH_BUFFER_START
  | .noop _ => sizeofMI_NOOP

/-- Byte `i` of the value written by a store. -/
def RingStore.byte (fam : GfxFamily) : RingStore → Nat → Nat
  | .memset _ _, _ => 0
  | .loadRegisterImm _ r d, i => fam.lriByte r d i
  | .batchBufferStart _ a, i => fam.bbsByte a i
  | .noop _, i => fam.noopByte i

/-- Ring memory after a store. -/
def RingStore.apply (fam : GfxFamily) (st : RingStore) (mem : Nat → Nat) : Nat → Nat :=
  fun k => if st.offset ≤ k ∧ k < st.offset + st.size then st.byte fam (k - st.offset) else mem k

/-- The `n` bytes of ring memory starting at `offset`. -/
def readBytes (mem : Nat → Nat) (offset n : Nat) : List Nat :=
  (List.range n).map (fun i => mem (offset + i))

/-- Errors of a flush: `unrecoverable` is `UNRECOVERABLE_IF` firing; `outOfFuel` says that the
padding loop was still running when the iteration budget given to the model ran out. -/
inductive FlushError
  | unrecoverable
  | outOfFuel
  deriving DecidableEq, Repr

/-- The mutable locals of the ring block of `flush`. -/
structure RingCursor where
  /-- Offset of `pTail` from the ring start. -/
  pTail : Nat
  /-- The member `tailRingBuffer` / `tailRCS`. -/
  tail : Nat
  /-- Contents of the ring buffer. -/
  ringMemory : Nat → Nat
  /-- Stores made so far, oldest first. -/
  stores : List RingStore

/-- Perform a store into ring memory (`pTail` is not moved). -/
def RingCursor.write (fam : GfxFamily) (c : RingCursor) (st : RingStore) : RingCursor :=
  { c with ringMemory := st.apply fam c.ringMemory
           stores := c.stores ++ [st] }

/-- The pointer step `pTail = ((T *)pTail) + 1` for a command type of `n` bytes. -/
def RingCursor.advance (c : RingCursor) (n : Nat) : RingCursor :=
  { c with pTail := c.pTail + n }

/-- The assignment `tail = (uint32_t)ptrDiff(pTail, pRingBuffer)`. -/
def RingCursor.computeTail (c : RingCursor) : RingCursor :=
  { c with tail := toUInt32 c.pTail }

/-- What the ring block of `flush` leaves behind: the local `previousTail`, the cursor, and the
stream calls made while wrapping. -/
structure RingBlock where
  previousTail : Nat
  cursor : RingCursor
  events : List SinkEvent

/-- `submitLRCA`: the four writes to the execlist submit port. -/
def submitLRCA (fam : GfxFamily) (engineOrdinal : Nat)
    (contextDescriptor : MiContextDescriptorReg) : List SinkEvent :=
  let mmioBase := fam.mmioBase engineOrdinal
  [SinkEvent.writeMMIO (mmioBase + 0x2230) 0,
   SinkEvent.writeMMIO (mmioBase + 0x2230) 0,
   SinkEvent.writeMMIO (mmioBase + 0x2230) (fam.ulData contextDescriptor 1),
   SinkEvent.writeMMIO (mmioBase + 0x2230) (fam.ulData contextDescriptor 0)]

/-- `pollForCompletion`: one register poll on `EXECLIST_STATUS`. -/
def pollForCompletion (fam : GfxFamily) (engineOrdinal : Nat) : List SinkEvent :=
  let mmioBase := fam.mmioBase engineOrdinal
  let pollNotEqual := false
  [SinkEvent.registerPoll (mmioBase + 0x2234) 0x100 0x100 pollNotEqual TimeoutAction.Abort]

/-- The context descriptor built by `flush` for the logical context at `ggttLRCA`. -/
def contextDescriptor (fam : GfxFamily) (ggttLRCA : Nat) : MiContextDescriptorReg :=
  { Valid := true
    ForcePageDirRestore := false
    ForceRestore := false
    Legacy := true
    FaultSupport := 0
    PrivilegeAccessOrPPGTT := true
    ADor64bitSupport := decide (fam.addressingBits > 32)
    LogicalRingCtxAddress := (ggttLRCA / 4096) % 2 ^ 20
    ContextID := 0 }

/-- `initGlobalMMIO`: one `writeMMIO` per pair of the global table. -/
def initGlobalMMIO (fam : GfxFamily) : List SinkEvent :=
  fam.globalMMIO.map (fun mmioPair => SinkEvent.writeMMIO mmioPair.1 mmioPair.2)

/-- `initEngineMMIO`: one `writeMMIO` per pair of the engine's table. -/
def initEngineMMIO (fam : GfxFamily) (engineOrdinal : Nat) : List SinkEvent :=
  (fam.perEngineMMIO engineOrdinal).map (fun mmioPair => SinkEvent.writeMMIO mmioPair.1 mmioPair.2)

/-- The page-walk callback of `makeResident` (identical in both receivers): reserve the page
that holds the chunk, then write the chunk. -/
def residentWalker (cpuAddress gpuAddress : Nat) (chunk : PageChunk) : List SinkEvent :=
  let vmAddr := pageAlignDown (gpuAddress + chunk.offset)
  let pAddr := pageAlignDown chunk.physAddress
  [SinkEvent.reserveAddressPPGTT vmAddr pageSize pAddr,
   SinkEvent.addMemoryWrite chunk.physAddress (MemSource.host (toSizeT (cpuAddress + chunk.offset)))
     chunk.size AddressSpace.TraceNonlocal DataTypeHint.TraceNotype]

/-! ## The AUB (trace-dump) receiver -/

/-- `AUBCommandStreamReceiverHw::EngineInfo`, together with the contents of the ring buffer
block that `pRingBuffer` points to. A pointer is `none` when it is `nullptr`. -/
structure AUBCommandStreamReceiverHw.EngineInfo where
  pLRCA : Option Nat
  ggttLRCA : Nat
  pGlobalHWStatusPage : Option Nat
  ggttHWSP : Nat
  pRingBuffer : Option Nat
  ggttRingBuffer : Nat
  sizeRingBuffer : Nat
  tailRingBuffer : Nat
  ringMemory : Nat → Nat

/-- `AUBCommandStreamReceiverHw`: the engine table, the calls made so far on `stream`, the
stores made so far into each engine's ring, the task count of the base class and the calls
made so far on the memory manager. -/
structure AUBCommandStreamReceiverHw where
  engineInfoTable : Nat → AUBCommandStreamReceiverHw.EngineInfo
  stream : List SinkEvent
  ringStores : List (Nat × RingStore)
  taskCount : Nat
  memoryManager : List MemoryManagerCall

namespace AUBCommandStreamReceiverHw

/-- The constructor: every engine entry is cleared. -/
def construct : AUBCommandStreamReceiverHw :=
  { engineInfoTable := fun _ =>
      { pLRCA := none, ggttLRCA := 0, pGlobalHWStatusPage := none, ggttHWSP := 0,
        pRingBuffer := none, ggttRingBuffer := 0, sizeRingBuffer := 0, tailRingBuffer := 0,
        ringMemory := fun _ => 0 }
    stream := []
    ringStores := []
    taskCount := 0
    memoryManager := [] }

/-- Assignment to `engineInfoTable[engineOrdinal]`. -/
def setEngineInfo (csr : AUBCommandStreamReceiverHw) (engineOrdinal : Nat)
    (engineInfo : EngineInfo) : AUBCommandStreamReceiverHw :=
  { csr with engineInfoTable := fun i => if i = engineOrdinal then engineInfo
                                         else csr.engineInfoTable i }

/-- `initializeEngine`. -/
def initializeEngine (fam : GfxFamily) (csr : AUBCommandStreamReceiverHw) (engineOrdinal : Nat) :
    AUBCommandStreamReceiverHw :=
  let mmioBase := fam.mmioBase engineOrdinal
  let engineInfo := csr.engineInfoTable engineOrdinal
  let stream := csr.stream ++ initGlobalMMIO fam ++ initEngineMMIO fam engineOrdinal
  -- Global HW Status Page
  let sizeHWSP := 0x1000
  let pGlobalHWStatusPage := fam.mallocHWSP engineOrdinal
  let ggttHWSP := fam.gttRemapMap pGlobalHWStatusPage sizeHWSP
  let physHWSP := fam.ggttMap ggttHWSP sizeHWSP
  let stream := stream ++
    [SinkEvent.addComment "ggtt: " ggttHWSP,
     SinkEvent.reserveAddressGGTT ggttHWSP sizeHWSP physHWSP,
     SinkEvent.writeMMIO (mmioBase + 0x2080) ggttHWSP]
  -- Allocate the LRCA and bring it to a known state
  let sizeLRCA := fam.sizeLRCA engineOrdinal
  let pLRCABase := fam.mallocLRCA engineOrdinal
  let image := fam.templateLRCA engineOrdinal
  -- Reserve the ring buffer
  let sizeRingBuffer := 0x4 * 0x1000
  let pRingBuffer := fam.mallocRing engineOrdinal
  let ggttRingBuffer := fam.gttRemapMap pRingBuffer sizeRingBuffer
  let physRingBuffer := fam.ggttMap ggttRingBuffer sizeRingBuffer
  let stream := stream ++
    [SinkEvent.addComment "ggtt: " ggttRingBuffer,
     SinkEvent.reserveAddressGGTT ggttRingBuffer sizeRingBuffer physRingBuffer]
  -- Initialize the ring MMIO registers
  let ringHead := 0x000
  let ringTail := 0x000
  let ringBase := ggttRingBuffer
  let ringCtrl := toUInt32 ((sizeRingBuffer - 0x1000) ||| 1)
  let image := { image with ringHead := ringHead }
  let image := { image with ringTail := ringTail }
  let image := { image with ringBase := ringBase }
  let image := { image with ringCtrl := ringCtrl }
  -- Write our LRCA
  let ggttLRCA := fam.gttRemapMap pLRCABase sizeLRCA
  let lrcAddressPhys := fam.ggttMap ggttLRCA sizeLRCA
  let stream := stream ++
    [SinkEvent.addComment "ggtt: " ggttLRCA,
     SinkEvent.reserveAddressGGTT ggttLRCA sizeLRCA lrcAddressPhys,
     SinkEvent.addMemoryWrite lrcAddressPhys
       (MemSource.lrca image.ringHead image.ringTail image.ringBase image.ringCtrl)
       sizeLRCA AddressSpace.TraceNonlocal (DataTypeHint.aubHintLRCA engineOrdinal)]
  -- addContextToken() is an empty hook
  { setEngineInfo csr engineOrdinal
      { engineInfo with
        pGlobalHWStatusPage := some pGlobalHWStatusPage
        ggttHWSP := ggttHWSP
        pLRCA := some pLRCABase
        sizeRingBuffer := sizeRingBuffer
        pRingBuffer := some pRingBuffer
        ringMemory := fam.uninitialized pRingBuffer
        ggttRingBuffer := ggttRingBuffer
        ggttLRCA := ggttLRCA } with
    stream := stream }

/-- The lazy initialization at the head of `flush`:
`if (!engineInfo.pLRCA) initializeEngine(engineOrdinal)`. -/
def ensureInitialized (fam : GfxFamily) (csr : AUBCommandStreamReceiverHw) (engineOrdinal : Nat) :
    AUBCommandStreamReceiverHw :=
  if (csr.engineInfoTable engineOrdinal).pLRCA.isNone then initializeEngine fam csr engineOrdinal
  else csr

/-- `auto tailAlignment = sizeof(uint64_t)`. -/
def tailAlignment : Nat := 8

/-- The local `sizeNeeded` of `flush`, as a function of the engine entry it is computed for:
`alignUp(sizeof(MI_BATCH_BUFFER_START) + sizeof(MI_LOAD_REGISTER_IMM), tailAlignment)`. -/
def sizeNeeded (_engineInfo : EngineInfo) : Nat :=
  alignUp (sizeofMI_BATCH_BUFFER_START + sizeofMI_LOAD_REGISTER_IMM) tailAlignment

/-- The condition of the wraparound branch of `flush`. -/
def wraps (engineInfo : EngineInfo) : Bool :=
  decide (engineInfo.tailRingBuffer + sizeNeeded engineInfo ≥ engineInfo.sizeRingBuffer)

/-- The loop `while (tailRingBuffer % tailAlignment) { add a NOOP }`; `fuel` bounds the number
of times the loop condition is evaluated. -/
def addNoops (fam : GfxFamily) : Nat → RingCursor → Except FlushError RingCursor
  | 0, _ => Except.error FlushError.outOfFuel
  | fuel + 1, c =>
    if c.tail % tailAlignment ≠ 0 then
      addNoops fam fuel (((c.write fam (RingStore.noop c.pTail)).advance sizeofMI_NOOP).computeTail)
    else
      Except.ok c

/-- The first half of the ring block of `flush`: the wraparound branch, else the
load-register-immediate of the first submission. -/
def beginRing (fam : GfxFamily) (mmioBase : Nat) (engineInfo : EngineInfo) : RingBlock :=
  let previousTail := engineInfo.tailRingBuffer
  let pTail := engineInfo.tailRingBuffer
  let ggttTail := engineInfo.ggttRingBuffer + engineInfo.tailRingBuffer
  let c : RingCursor :=
    { pTail := pTail, tail := engineInfo.tailRingBuffer, ringMemory := engineInfo.ringMemory,
      stores := [] }
  if wraps engineInfo then
    -- Pad the remaining ring with NOOPs
    let sizeToWrap := subSizeT engineInfo.sizeRingBuffer engineInfo.tailRingBuffer
    let c := c.write fam (RingStore.memset pTail sizeToWrap)
    -- write remaining ring
    let physDumpStart := fam.ggttMap ggttTail sizeToWrap
    { previousTail := 0
      cursor := { c with tail := 0, pTail := 0 }
      events :=
        [SinkEvent.addMemoryWrite physDumpStart
          (MemSource.ring pTail (readBytes c.ringMemory pTail sizeToWrap)) sizeToWrap
          AddressSpace.TraceNonlocal DataTypeHint.TraceCommandBuffer] }
  else if engineInfo.tailRingBuffer = 0 then
    -- Add a LRI if this is our first submission
    { previousTail := previousTail
      cursor := (c.write fam (RingStore.loadRegisterImm pTail (mmioBase + 0x2244) 0x00010000)).advance
        sizeofMI_LOAD_REGISTER_IMM
      events := [] }
  else
    { previousTail := previousTail, cursor := c, events := [] }

/-- The ring block of `flush` up to and including the alignment check: wraparound or LRI, the
batch-buffer-start, the new tail, the NOOP padding and `UNRECOVERABLE_IF`. -/
def appendCommands (fam : GfxFamily) (fuel : Nat) (mmioBase : Nat) (engineInfo : EngineInfo)
    (pBatchBuffer : Nat) : Except FlushError RingBlock :=
  let b := beginRing fam mmioBase engineInfo
  -- Add our BBS
  let c := (b.cursor.write fam
    (RingStore.batchBufferStart b.cursor.pTail (fam.ptrToPPGTT pBatchBuffer))).advance
      sizeofMI_BATCH_BUFFER_START
  -- Compute our new ring tail.
  let c := c.computeTail
  -- Add NOOPs as needed as our tail needs to be aligned
  match addNoops fam fuel c with
  | Except.error err => Except.error err
  | Except.ok c =>
    if c.tail % tailAlignment ≠ 0 then Except.error FlushError.unrecoverable
    else Except.ok { b with cursor := c }

/-- The calls on the stream that dump the new ring commands and the new tail. -/
def dumpRing (fam : GfxFamily) (engineInfo : EngineInfo) (b : RingBlock) : List SinkEvent :=
  -- Only dump the new commands
  let ggttDumpStart := engineInfo.ggttRingBuffer + b.previousTail
  let dumpStart := b.previousTail
  let dumpLength := subUInt32 b.cursor.tail b.previousTail
  let physDumpStart := fam.ggttMap ggttDumpStart dumpLength
  -- update the ring mmio tail in the LRCA
  let physLRCA := fam.ggttMap engineInfo.ggttLRCA 4
  [SinkEvent.addComment "ggtt: " ggttDumpStart,
   SinkEvent.addMemoryWrite physDumpStart
     (MemSource.ring dumpStart (readBytes b.cursor.ringMemory dumpStart dumpLength)) dumpLength
     AddressSpace.TraceNonlocal DataTypeHint.TraceCommandBuffer,
   SinkEvent.addComment "ggtt: " (engineInfo.ggttLRCA + 0x101c),
   SinkEvent.addMemoryWrite (physLRCA + 0x101c) (MemSource.tail b.cursor.tail) 4
     AddressSpace.TraceNonlocal DataTypeHint.TraceNotype]

/-- The calls on the stream that write the batch buffer. -/
def writeBatchBuffer (fam : GfxFamily) (batchBuffer : BatchBuffer) : List SinkEvent :=
  let pBatchBuffer := batchBuffer.commandBufferAllocation.underlyingBuffer + batchBuffer.startOffset
  let currentOffset := batchBuffer.usedSize
  let sizeBatchBuffer := subSizeT currentOffset batchBuffer.startOffset
  let physBatchBuffer := fam.ppgttMap pBatchBuffer sizeBatchBuffer
  [SinkEvent.addComment "ppgtt: " pBatchBuffer,
   SinkEvent.reserveAddressPPGTT pBatchBuffer sizeBatchBuffer physBatchBuffer,
   SinkEvent.addMemoryWrite physBatchBuffer (MemSource.host pBatchBuffer) sizeBatchBuffer
     AddressSpace.TraceNonlocal DataTypeHint.TraceBatchBufferPrimary]

/-- `flush` (the parameter `allocationsForResidency` is not used by the function). Returns the
flush stamp and the receiver after the call. -/
def flush (fam : GfxFamily) (fuel : Nat) (csr : AUBCommandStreamReceiverHw)
    (batchBuffer : BatchBuffer) (engineOrdinal : Nat) :
    Except FlushError (Nat × AUBCommandStreamReceiverHw) :=
  let mmioBase := fam.mmioBase engineOrdinal
  let csr := ensureInitialized fam csr engineOrdinal
  let engineInfo := csr.engineInfoTable engineOrdinal
  -- Write our batch buffer
  let pBatchBuffer := batchBuffer.commandBufferAllocation.underlyingBuffer + batchBuffer.startOffset
  let stream := csr.stream ++ writeBatchBuffer fam batchBuffer
  -- Add a batch buffer start to the ring buffer
  match appendCommands fam fuel mmioBase engineInfo pBatchBuffer with
  | Except.error err => Except.error err
  | Except.ok b =>
    let engineInfo' :=
      { engineInfo with tailRingBuffer := b.cursor.tail, ringMemory := b.cursor.ringMemory }
    let stream := stream ++ b.events ++ dumpRing fam engineInfo' b
    -- Submit our execlist by submitting to the execlist submit ports
    let stream := stream ++ submitLRCA fam engineOrdinal (contextDescriptor fam engineInfo'.ggttLRCA)
    let stream := stream ++ pollForCompletion fam engineOrdinal
    Except.ok (0,
      { setEngineInfo csr engineOrdinal engineInfo' with
        stream := stream
        ringStores := csr.ringStores ++ b.cursor.stores.map (fun st => (engineOrdinal, st)) })

/-- `makeResident`. Returns the receiver and the allocation after the call. -/
def makeResident (fam : GfxFamily) (csr : AUBCommandStreamReceiverHw)
    (gfxAllocation : GraphicsAllocation) : AUBCommandStreamReceiverHw × GraphicsAllocation :=
  if gfxAllocation.residencyTaskCount < toInt32 csr.taskCount then
    let cpuAddress := gfxAllocation.underlyingBuffer
    let gpuAddress := gfxAllocation.gpuAddress
    let size := gfxAllocation.underlyingBufferSize
    if size = 0 ∨ ¬ gfxAllocation.allowAubFileWrite = true then
      (csr, gfxAllocation)
    else
      let stream := csr.stream ++ [SinkEvent.addComment "ppgtt: " gpuAddress]
      let stream := stream ++
        (fam.ppgttPageWalk gpuAddress size 0).flatMap (residentWalker cpuAddress gpuAddress)
      ({ csr with
          stream := stream
          memoryManager := csr.memoryManager ++
            [MemoryManagerCall.pushAllocationForResidency gfxAllocation] },
       { gfxAllocation with residencyTaskCount := toInt32 csr.taskCount })
  else
    (csr, { gfxAllocation with residencyTaskCount := toInt32 csr.taskCount })

/-- `makeNonResident`. Returns the receiver and the allocation after the call. -/
def makeNonResident (csr : AUBCommandStreamReceiverHw) (gfxAllocation : GraphicsAllocation) :
    AUBCommandStreamReceiverHw × GraphicsAllocation :=
  if gfxAllocation.residencyTaskCount ≠ ObjectNotResident then
    ({ csr with
        memoryManager := csr.memoryManager ++
          [MemoryManagerCall.pushAllocationForEviction gfxAllocation] },
     { gfxAllocation with residencyTaskCount := ObjectNotResident })
  else
    (csr, gfxAllocation)

end AUBCommandStreamReceiverHw

/-! ## The TBX (live-transport) receiver -/

/-- `TbxCommandStreamReceiverHw::EngineInfo`, together with the contents of the ring buffer
block that `pRCS` points to. A pointer is `none` when it is `nullptr`. -/
structure TbxCommandStreamReceiverHw.EngineInfo where
  pLRCA : Option Nat
  ggttLRCA : Nat
  pGlobalHWStatusPage : Option Nat
  ggttHWSP : Nat
  pRCS : Option Nat
  ggttRCS : Nat
  sizeRCS : Nat
  tailRCS : Nat
  ringMemory : Nat → Nat

/-- `TbxCommandStreamReceiverHw`: the engine table, the calls made so far on `stream`, the
stores made so far into each engine's ring, the task count of the base class and the calls
made so far on the memory manager. -/
structure TbxCommandStreamReceiverHw where
  engineInfoTable : Nat → TbxCommandStreamReceiverHw.EngineInfo
  stream : List SinkEvent
  ringStores : List (Nat × RingStore)
  taskCount : Nat
  memoryManager : List MemoryManagerCall

namespace TbxCommandStreamReceiverHw

/-- The constructor: every engine entry is cleared. -/
def construct : TbxCommandStreamReceiverHw :=
  { engineInfoTable := fun _ =>
      { pLRCA := none, ggttLRCA := 0, pGlobalHWStatusPage := none, ggttHWSP := 0,
        pRCS := none, ggttRCS := 0, sizeRCS := 0, tailRCS := 0,
        ringMemory := fun _ => 0 }
    stream := []
    ringStores := []
    taskCount := 0
    memoryManager := [] }

/-- Assignment to `engineInfoTable[engineOrdinal]`. -/
def setEngineInfo (csr : TbxCommandStreamReceiverHw) (engineOrdinal : Nat)
    (engineInfo : EngineInfo) : TbxCommandStreamReceiverHw :=
  { csr with engineInfoTable := fun i => if i = engineOrdinal then engineInfo
                                         else csr.engineInfoTable i }

/-- `initializeEngine`. -/
def initializeEngine (fam : GfxFamily) (csr : TbxCommandStreamReceiverHw) (engineOrdinal : Nat) :
    TbxCommandStreamReceiverHw :=
  let mmioBase := fam.mmioBase engineOrdinal
  let engineInfo := csr.engineInfoTable engineOrdinal
  let stream := csr.stream ++ initGlobalMMIO fam ++ initEngineMMIO fam engineOrdinal
  -- Global HW Status Page
  let sizeHWSP := 0x1000
  let pGlobalHWStatusPage := fam.mallocHWSP engineOrdinal
  let ggttHWSP := fam.gttRemapMap pGlobalHWStatusPage sizeHWSP
  let physHWSP := fam.ggttMap ggttHWSP sizeHWSP
  let stream := stream ++
    [SinkEvent.reserveAddressGGTT ggttHWSP sizeHWSP physHWSP,
     SinkEvent.writeMMIO (mmioBase + 0x2080) ggttHWSP]
  -- Allocate the LRCA and bring it to a known state
  let sizeLRCA := fam.sizeLRCA engineOrdinal
  let pLRCABase := fam.mallocLRCA engineOrdinal
  let image := fam.templateLRCA engineOrdinal
  -- Reserve the RCS ring buffer
  let sizeRCS := 0x4 * 0x1000
  let pRCS := fam.mallocRing engineOrdinal
  let ggttRCS := fam.gttRemapMap pRCS sizeRCS
  let physRCS := fam.ggttMap ggttRCS sizeRCS
  let stream := stream ++ [SinkEvent.reserveAddressGGTT ggttRCS sizeRCS physRCS]
  -- Initialize the ring MMIO registers
  let ringHead := 0x000
  let ringTail := 0x000
  let ringBase := ggttRCS
  let ringCtrl := toUInt32 ((sizeRCS - 0x1000) ||| 1)
  let image := { image with ringHead := ringHead }
  let image := { image with ringTail := ringTail }
  let image := { image with ringBase := ringBase }
  let image := { image with ringCtrl := ringCtrl }
  -- Write our LRCA
  let ggttLRCA := fam.gttRemapMap pLRCABase sizeLRCA
  let lrcAddressPhys := fam.ggttMap ggttLRCA sizeLRCA
  let stream := stream ++
    [SinkEvent.reserveAddressGGTT ggttLRCA sizeLRCA lrcAddressPhys,
     SinkEvent.addMemoryWrite lrcAddressPhys
       (MemSource.lrca image.ringHead image.ringTail image.ringBase image.ringCtrl)
       sizeLRCA AddressSpace.TraceNonlocal (DataTypeHint.aubHintLRCA engineOrdinal)]
  { setEngineInfo csr engineOrdinal
      { engineInfo with
        pGlobalHWStatusPage := some pGlobalHWStatusPage
        ggttHWSP := ggttHWSP
        pLRCA := some pLRCABase
        sizeRCS := sizeRCS
        pRCS := some pRCS
        ringMemory := fam.uninitialized pRCS
        ggttRCS := ggttRCS
        ggttLRCA := ggttLRCA } with
    stream := stream }

/-- The lazy initialization at the head of `flush`:
`if (!engineInfo.pLRCA) initializeEngine(engineOrdinal)`. -/
def ensureInitialized (fam : GfxFamily) (csr : TbxCommandStreamReceiverHw) (engineOrdinal : Nat) :
    TbxCommandStreamReceiverHw :=
  if (csr.engineInfoTable engineOrdinal).pLRCA.isNone then initializeEngine fam csr engineOrdinal
  else csr

/-- The local `sizeNeeded` of `flush`, as a function of the engine entry it is computed for:
`sizeof(MI_BATCH_BUFFER_START) + sizeof(MI_NOOP) + sizeof(MI_LOAD_REGISTER_IMM)`. -/
def sizeNeeded (_engineInfo : EngineInfo) : Nat :=
  sizeofMI_BATCH_BUFFER_START + sizeofMI_NOOP + sizeofMI_LOAD_REGISTER_IMM

/-- The condition of the wraparound branch of `flush`. -/
def wraps (engineInfo : EngineInfo) : Bool :=
  decide (engineInfo.tailRCS + sizeNeeded engineInfo ≥ engineInfo.sizeRCS)

/-- The first half of the ring block of `flush`: the wraparound branch, else the
load-register-immediate of the first submission. -/
def beginRing (fam : GfxFamily) (mmioBase : Nat) (engineInfo : EngineInfo) : RingBlock :=
  let previousTail := engineInfo.tailRCS
  let pTail := engineInfo.tailRCS
  let ggttTail := engineInfo.ggttRCS + engineInfo.tailRCS
  let c : RingCursor :=
    { pTail := pTail, tail := engineInfo.tailRCS, ringMemory := engineInfo.ringMemory,
      stores := [] }
  if wraps engineInfo then
    -- Pad the remaining ring with NOOPs
    let sizeToWrap := subSizeT engineInfo.sizeRCS engineInfo.tailRCS
    let c := c.write fam (RingStore.memset pTail sizeToWrap)
    -- write remaining ring
    let physDumpStart := fam.ggttMap ggttTail sizeToWrap
    { previousTail := 0
      cursor := { c with tail := 0, pTail := 0 }
      events :=
        [SinkEvent.addMemoryWrite physDumpStart
          (MemSource.ring pTail (readBytes c.ringMemory pTail sizeToWrap)) sizeToWrap
          AddressSpace.TraceNonlocal DataTypeHint.TraceCommandBuffer] }
  else if engineInfo.tailRCS = 0 then
    -- Add a LRI if this is our first submission
    { previousTail := previousTail
      cursor := (c.write fam (RingStore.loadRegisterImm pTail (mmioBase + 0x2244) 0x00010000)).advance
        sizeofMI_LOAD_REGISTER_IMM
      events := [] }
  else
    { previousTail := previousTail, cursor := c, events := [] }

/-- The ring block of `flush` up to the new tail: wraparound or LRI, the batch-buffer-start,
one NOOP, and the new tail. -/
def appendCommands (fam : GfxFamily) (mmioBase : Nat) (engineInfo : EngineInfo)
    (pBatchBuffer : Nat) : RingBlock :=
  let b := beginRing fam mmioBase engineInfo
  -- Add our BBS
  let c := (b.cursor.write fam
    (RingStore.batchBufferStart b.cursor.pTail (fam.ptrToPPGTT pBatchBuffer))).advance
      sizeofMI_BATCH_BUFFER_START
  -- Add a NOOP as our tail needs to be aligned to a QWORD
  let c := (c.write fam (RingStore.noop c.pTail)).advance sizeofMI_NOOP
  -- Compute our new ring tail.
  let c := c.computeTail
  { b with cursor := c }

/-- The calls on the stream that dump the new ring commands and the new tail. -/
def dumpRing (fam : GfxFamily) (engineInfo : EngineInfo) (b : RingBlock) : List SinkEvent :=
  -- Only dump the new commands
  let ggttDumpStart := engineInfo.ggttRCS + b.previousTail
  let dumpStart := b.previousTail
  let dumpLength := subUInt32 b.cursor.tail b.previousTail
  -- write RCS
  let physDumpStart := fam.ggttMap ggttDumpStart dumpLength
  -- update the RCS mmio tail in the LRCA
  let physLRCA := fam.ggttMap engineInfo.ggttLRCA 4
  [SinkEvent.addMemoryWrite physDumpStart
     (MemSource.ring dumpStart (readBytes b.cursor.ringMemory dumpStart dumpLength)) dumpLength
     AddressSpace.TraceNonlocal DataTypeHint.TraceCommandBuffer,
   SinkEvent.addMemoryWrite (physLRCA + 0x101c) (MemSource.tail b.cursor.tail) 4
     AddressSpace.TraceNonlocal DataTypeHint.TraceNotype]

/-- The calls on the stream that write the batch buffer. -/
def writeBatchBuffer (fam : GfxFamily) (batchBuffer : BatchBuffer) : List SinkEvent :=
  let pBatchBuffer := batchBuffer.commandBufferAllocation.underlyingBuffer + batchBuffer.startOffset
  let currentOffset := batchBuffer.usedSize
  let sizeBatchBuffer := subSizeT currentOffset batchBuffer.startOffset
  let physBatchBuffer := fam.ppgttMap pBatchBuffer sizeBatchBuffer
  [SinkEvent.reserveAddressPPGTT pBatchBuffer sizeBatchBuffer physBatchBuffer,
   SinkEvent.addMemoryWrite physBatchBuffer (MemSource.host pBatchBuffer) sizeBatchBuffer
     AddressSpace.TraceNonlocal DataTypeHint.TraceBatchBufferPrimary]

/-- `flush` (the parameter `allocationsForResidency` is not used by the function). Returns the
flush stamp and the receiver after the call. -/
def flush (fam : GfxFamily) (csr : TbxCommandStreamReceiverHw)
    (batchBuffer : BatchBuffer) (engineOrdinal : Nat) : Nat × TbxCommandStreamReceiverHw :=
  let mmioBase := fam.mmioBase engineOrdinal
  let csr := ensureInitialized fam csr engineOrdinal
  let engineInfo := csr.engineInfoTable engineOrdinal
  -- Write our batch buffer
  let pBatchBuffer := batchBuffer.commandBufferAllocation.underlyingBuffer + batchBuffer.startOffset
  let stream := csr.stream ++ writeBatchBuffer fam batchBuffer
  -- Add a batch buffer start to the RCS
  let b := appendCommands fam mmioBase engineInfo pBatchBuffer
  let engineInfo' :=
    { engineInfo with tailRCS := b.cursor.tail, ringMemory := b.cursor.ringMemory }
  let stream := stream ++ b.events ++ dumpRing fam engineInfo' b
  -- Submit our execlist by submitting to the execlist submit ports
  let stream := stream ++ submitLRCA fam engineOrdinal (contextDescriptor fam engineInfo'.ggttLRCA)
  let stream := stream ++ pollForCompletion fam engineOrdinal
  (0,
    { setEngineInfo csr engineOrdinal engineInfo' with
      stream := stream
      ringStores := csr.ringStores ++ b.cursor.stores.map (fun st => (engineOrdinal, st)) })

/-- `makeResident`. Returns the receiver and the allocation after the call. -/
def makeResident (fam : GfxFamily) (csr : TbxCommandStreamReceiverHw)
    (gfxAllocation : GraphicsAllocation) : TbxCommandStreamReceiverHw × GraphicsAllocation :=
  if gfxAllocation.residencyTaskCount < toInt32 csr.taskCount then
    let cpuAddress := gfxAllocation.underlyingBuffer
    let gpuAddress := gfxAllocation.gpuAddress
    let size := gfxAllocation.underlyingBufferSize
    if size = 0 ∨ ¬ gfxAllocation.allowAubFileWrite = true then
      (csr, gfxAllocation)
    else
      let stream := csr.stream ++
        (fam.ppgttPageWalk gpuAddress size 0).flatMap (residentWalker cpuAddress gpuAddress)
      ({ csr with
          stream := stream
          memoryManager := csr.memoryManager ++
            [MemoryManagerCall.pushAllocationForResidency gfxAllocation] },
       { gfxAllocation with residencyTaskCount := toInt32 csr.taskCount })
  else
    (csr, { gfxAllocation with residencyTaskCount := toInt32 csr.taskCount })

/-- `makeCoherent`: read each chunk of the range back from the simulated device. -/
def makeCoherent (fam : GfxFamily) (csr : TbxCommandStreamReceiverHw) (address length : Nat) :
    TbxCommandStreamReceiverHw :=
  if length ≠ 0 then
    { csr with
      stream := csr.stream ++
        (fam.ppgttPageWalk address length 0).map
          (fun chunk => SinkEvent.readMemory chunk.physAddress (address + chunk.offset) chunk.size) }
  else csr

end TbxCommandStreamReceiverHw

/-! ## Sequences of flushes -/

/-- One `flush` call: the batch buffer and the engine it is submitted to. -/
structure FlushCall where
  batchBuffer : BatchBuffer
  engineOrdinal : Nat
  deriving DecidableEq, Repr

/-- Run a sequence of `flush` calls on an AUB receiver, giving every call the same iteration
budget for its padding loop; the first error ends the run. -/
def AUBCommandStreamReceiverHw.run (fam : GfxFamily) (fuel : Nat) :
    AUBCommandStreamReceiverHw → List FlushCall → Except FlushError AUBCommandStreamReceiverHw
  | csr, [] => Except.ok csr
  | csr, call :: rest =>
    match AUBCommandStreamReceiverHw.flush fam fuel csr call.batchBuffer call.engineOrdinal with
    | Except.error err => Except.error err
    | Except.ok r => AUBCommandStreamReceiverHw.run fam fuel r.2 rest

/-- Run a sequence of `flush` calls on a TBX receiver. -/
def TbxCommandStreamReceiverHw.run (fam : GfxFamily) :
    TbxCommandStreamReceiverHw → List FlushCall → TbxCommandStreamReceiverHw
  | csr, [] => csr
  | csr, call :: rest =>
    TbxCommandStreamReceiverHw.run fam
      (TbxCommandStreamReceiverHw.flush fam csr call.batchBuffer call.engineOrdinal).2 rest

/-! ## A concrete family for evaluating the model -/

/-- A small family: one global and one per-engine register pair, MMIO base `0x2000`, a logical
context of `0x2000` bytes, identity address maps, and command bytes that tell the three
commands apart. -/
def sampleFamily : GfxFamily :=
  { globalMMIO := [(0x4000, 1)]
    perEngineMMIO := fun _ => [(0x229c, 2)]
    mmioBase := fun _ => 0x2000
    sizeLRCA := fun _ => 0x2000
    alignLRCA := fun _ => 0x1000
    templateLRCA := fun _ => { ringHead := 7, ringTail := 7, ringBase := 7, ringCtrl := 7 }
    addressingBits := 48
    lriByte := fun _ _ _ => 0x11
    bbsByte := fun _ _ => 0x18
    noopByte := fun _ => 0
    ulData := fun d i => if i = 0 then d.LogicalRingCtxAddress * 4096 + 1 else d.ContextID
    ptrToPPGTT := fun p => p
    mallocHWSP := fun e => 0x100000 + 0x10000 * e
    mallocLRCA := fun e => 0x101000 + 0x10000 * e
    mallocRing := fun e => 0x104000 + 0x10000 * e
    uninitialized := fun _ _ => 0xcd
    gttRemapMap := fun p _ => p
    ggttMap := fun a _ => a
    ppgttMap := fun a _ => a
    ppgttPageWalk := fun a n o =>
      if n = 0 then [] else [{ physAddress := a, size := n, offset := o }] }

/-- A batch buffer of 4096 bytes at CPU address `0x200000`. -/
def sampleBatchBuffer : BatchBuffer :=
  { commandBufferAllocation :=
      { underlyingBuffer := 0x200000, gpuAddress := 0x200000, underlyingBufferSize := 4096,
        residencyTaskCount := ObjectNotResident, allowAubFileWrite := true }
    startOffset := 0
    usedSize := 4096 }

/-- A receiver whose engine 0 is initialized for `sampleFamily` and whose ring tail is `tail`. -/
def AUBCommandStreamReceiverHw.sampleAt (tail : Nat) : AUBCommandStreamReceiverHw :=
  let csr := AUBCommandStreamReceiverHw.initializeEngine sampleFamily
    AUBCommandStreamReceiverHw.construct 0
  csr.setEngineInfo 0 { csr.engineInfoTable 0 with tailRingBuffer := tail }

/-- A receiver whose engine 0 is initialized for `sampleFamily` and whose ring tail is `tail`. -/
def TbxCommandStreamReceiverHw.sampleAt (tail : Nat) : TbxCommandStreamReceiverHw :=
  let csr := TbxCommandStreamReceiverHw.initializeEngine sampleFamily
    TbxCommandStreamReceiverHw.construct 0
  csr.setEngineInfo 0 { csr.engineInfoTable 0 with tailRCS := tail }

/-- The AUB receiver with its task count set to `n` (the task count belongs to the base
class and is advanced by the callers of the receiver). -/
def AUBCommandStreamReceiverHw.withTaskCount (csr : AUBCommandStreamReceiverHw) (n : Nat) :
    AUBCommandStreamReceiverHw :=
  { csr with taskCount := n }

/-- The TBX receiver with its task count set to `n` (the task count belongs to the base
class and is advanced by the callers of the receiver). -/
def TbxCommandStreamReceiverHw.withTaskCount (csr : TbxCommandStreamReceiverHw) (n : Nat) :
    TbxCommandStreamReceiverHw :=
  { csr with taskCount := n }

/-- An allocation of size zero that is not resident. -/
def sampleEmptyAllocation : GraphicsAllocation :=
  { underlyingBuffer := 0x300000, gpuAddress := 0x300000, underlyingBufferSize := 0,
    residencyTaskCount := ObjectNotResident, allowAubFileWrite := true }

/-! ## Observations used to state the properties -/

/-- Ring offset and length of a memory write whose source is ring memory. -/
def SinkEvent.ringDump : SinkEvent → Option (Nat × Nat)
  | SinkEvent.addMemoryWrite _ (MemSource.ring offset _) size _ _ => some (offset, size)
  | _ => none

/-- The ring ranges dumped by a list of stream calls, as pairs of offset and length. -/
def ringDumps (events : List SinkEvent) : List (Nat × Nat) :=
  events.filterMap SinkEvent.ringDump

/-- The ranges (offset, length) are non-empty and lie end to end from `a` to `b`. -/
def Contiguous : Nat → List (Nat × Nat) → Nat → Prop
  | a, [], b => a = b
  | a, r :: rest, b => r.1 = a ∧ 0 < r.2 ∧ Contiguous (r.1 + r.2) rest b

/-- An AUB engine entry that was never submitted to. -/
def AUBCommandStreamReceiverHw.EngineInfo.Fresh (info : AUBCommandStreamReceiverHw.EngineInfo) :
    Prop :=
  info.pLRCA = none ∧ info.tailRingBuffer = 0

/-- An AUB engine entry between two submissions: initialized, ring of 16384 bytes, tail a
multiple of 8 between 16 and 16368. -/
def AUBCommandStreamReceiverHw.EngineInfo.Ready (info : AUBCommandStreamReceiverHw.EngineInfo) :
    Prop :=
  info.pLRCA ≠ none ∧ info.sizeRingBuffer = 16384 ∧ info.tailRingBuffer % 8 = 0 ∧
    16 ≤ info.tailRingBuffer ∧ info.tailRingBuffer ≤ 16368

/-- A TBX engine entry that was never submitted to. -/
def TbxCommandStreamReceiverHw.EngineInfo.Fresh (info : TbxCommandStreamReceiverHw.EngineInfo) :
    Prop :=
  info.pLRCA = none ∧ info.tailRCS = 0

/-- A TBX engine entry between two submissions: initialized, ring of 16384 bytes, tail a
multiple of 4 between 16 and 16368. -/
def TbxCommandStreamReceiverHw.EngineInfo.Ready (info : TbxCommandStreamReceiverHw.EngineInfo) :
    Prop :=
  info.pLRCA ≠ none ∧ info.sizeRCS = 16384 ∧ info.tailRCS % 4 = 0 ∧
    16 ≤ info.tailRCS ∧ info.tailRCS ≤ 16368

/-- Whether every call of the run leaves the wraparound branch of `flush` untaken and
returns. -/
def AUBCommandStreamReceiverHw.runsWithoutWrap (fam : GfxFamily) (fuel : Nat) :
    AUBCommandStreamReceiverHw → List FlushCall → Bool
  | _, [] => true
  | csr, call :: rest =>
    (!AUBCommandStreamReceiverHw.wraps
      ((AUBCommandStreamReceiverHw.ensureInitialized fam csr call.engineOrdinal).engineInfoTable
        call.engineOrdinal)) &&
    match AUBCommandStreamReceiverHw.flush fam fuel csr call.batchBuffer call.engineOrdinal with
    | Except.error _ => false
    | Except.ok r => AUBCommandStreamReceiverHw.runsWithoutWrap fam fuel r.2 rest

/-- Whether every call of the run leaves the wraparound branch of `flush` untaken. -/
def TbxCommandStreamReceiverHw.runsWithoutWrap (fam : GfxFamily) :
    TbxCommandStreamReceiverHw → List FlushCall → Bool
  | _, [] => true
  | csr, call :: rest =>
    (!TbxCommandStreamReceiverHw.wraps
      ((TbxCommandStreamReceiverHw.ensureInitialized fam csr call.engineOrdinal).engineInfoTable
        call.engineOrdinal)) &&
    TbxCommandStreamReceiverHw.runsWithoutWrap fam
      (TbxCommandStreamReceiverHw.flush fam csr call.batchBuffer call.engineOrdinal).2 rest

/-- The `sizeNeeded` of the written specification for the AUB receiver: one batch-buffer-start,
plus one load-register-immediate on the first submission only (the tail is still 0), rounded up
to the tail alignment. -/
def AUBCommandStreamReceiverHw.specSizeNeeded (engineInfo : AUBCommandStreamReceiverHw.EngineInfo) :
    Nat :=
  alignUp (sizeofMI_BATCH_BUFFER_START +
    (if engineInfo.tailRingBuffer = 0 then sizeofMI_LOAD_REGISTER_IMM else 0))
    AUBCommandStreamReceiverHw.tailAlignment

/-- The `sizeNeeded` of the written specification for the TBX receiver: one batch-buffer-start,
plus one load-register-immediate on the first submission only (the tail is still 0), plus one
no-op instead of rounding. -/
def TbxCommandStreamReceiverHw.specSizeNeeded (engineInfo : TbxCommandStreamReceiverHw.EngineInfo) :
    Nat :=
  sizeofMI_BATCH_BUFFER_START +
    (if engineInfo.tailRCS = 0 then sizeofMI_LOAD_REGISTER_IMM else 0) + sizeofMI_NOOP

/-- Whether a call on the stream is a comment. -/
def SinkEvent.isComment : SinkEvent → Bool
  | SinkEvent.addComment _ _ => true
  | _ => false

/-- The calls of a trace that are not comments, in order. -/
def withoutComments (events : List SinkEvent) : List SinkEvent :=
  events.filter (fun ev => !ev.isComment)

/-- Whether a call on the stream is the memory write of the logical context image of engine
`engineOrdinal`, the last call of `initializeEngine`. -/
def SinkEvent.isLrcaWrite (engineOrdinal : Nat) : SinkEvent → Bool
  | SinkEvent.addMemoryWrite _ (MemSource.lrca _ _ _ _) _ _ (DataTypeHint.aubHintLRCA e) =>
    e == engineOrdinal
  | _ => false

/-- The writes of the logical context image of engine `engineOrdinal` in a trace. -/
def lrcaWrites (engineOrdinal : Nat) (events : List SinkEvent) : List SinkEvent :=
  events.filter (SinkEvent.isLrcaWrite engineOrdinal)

/-- One call on a receiver: a `flush`, or a `makeResident` made when the task count of the
base class is `taskCount`. -/
inductive ReceiverCall
  | flush (batchBuffer : BatchBuffer) (engineOrdinal : Nat)
  | makeResident (taskCount : Nat) (gfxAllocation : GraphicsAllocation)
  deriving DecidableEq, Repr

/-- Run a sequence of `flush` and `makeResident` calls on an AUB receiver, giving every flush
the same iteration budget for its padding loop; the first error ends the run. -/
def AUBCommandStreamReceiverHw.runCalls (fam : GfxFamily) (fuel : Nat) :
    AUBCommandStreamReceiverHw → List ReceiverCall → Except FlushError AUBCommandStreamReceiverHw
  | csr, [] => Except.ok csr
  | csr, ReceiverCall.flush batchBuffer engineOrdinal :: rest =>
    match AUBCommandStreamReceiverHw.flush fam fuel csr batchBuffer engineOrdinal with
    | Except.error err => Except.error err
    | Except.ok r => AUBCommandStreamReceiverHw.runCalls fam fuel r.2 rest
  | csr, ReceiverCall.makeResident taskCount gfxAllocation :: rest =>
    AUBCommandStreamReceiverHw.runCalls fam fuel
      (AUBCommandStreamReceiverHw.makeResident fam (csr.withTaskCount taskCount) gfxAllocation).1
      rest

/-- Run a sequence of `flush` and `makeResident` calls on a TBX receiver. -/
def TbxCommandStreamReceiverHw.runCalls (fam : GfxFamily) :
    TbxCommandStreamReceiverHw → List ReceiverCall → TbxCommandStreamReceiverHw
  | csr, [] => csr
  | csr, ReceiverCall.flush batchBuffer engineOrdinal :: rest =>
    TbxCommandStreamReceiverHw.runCalls fam
      (TbxCommandStreamReceiverHw.flush fam csr batchBuffer engineOrdinal).2 rest
  | csr, ReceiverCall.makeResident taskCount gfxAllocation :: rest =>
    TbxCommandStreamReceiverHw.runCalls fam
      (TbxCommandStreamReceiverHw.makeResident fam (csr.withTaskCount taskCount) gfxAllocation).1
      rest

/-- Whether a call on the stream is a reservation (in either address space) whose physical
range, `size` bytes from `physical` of the reservation, contains the `size` bytes at
`physical`. -/
def SinkEvent.reserves (physical size : Nat) : SinkEvent → Bool
  | SinkEvent.reserveAddressGGTT _ n p => decide (p ≤ physical ∧ physical + size ≤ p + n)
  | SinkEvent.reserveAddressPPGTT _ n p => decide (p ≤ physical ∧ physical + size ≤ p + n)
  | _ => false

/-- Whether a call on the stream is no memory write, or a memory write into a range reserved
by a call of `earlier`. -/
def SinkEvent.reservedIn (earlier : List SinkEvent) : SinkEvent → Bool
  | SinkEvent.addMemoryWrite physical _ size _ _ => earlier.any (SinkEvent.reserves physical size)
  | _ => true

/-- Whether every memory write of `events` falls in a range reserved by a call of `earlier`
or by a call of `events` before it. -/
def writesReservedAfter : List SinkEvent → List SinkEvent → Bool
  | _, [] => true
  | earlier, ev :: rest => ev.reservedIn earlier && writesReservedAfter (earlier ++ [ev]) rest

/-- Whether every memory write of a trace falls in a range reserved earlier in the trace. -/
def writesReserved (trace : List SinkEvent) : Bool :=
  writesReservedAfter [] trace

/-- The callbacks of a page walk over `[address, address + size)` that maps every address to
itself (as a 64-bit value): one chunk per page touched, none crossing a page. -/
def pageChunks (address size offset : Nat) : List PageChunk :=
  (List.range ((address % pageSize + size + pageSize - 1) / pageSize)).map (fun i =>
    let pageStart := address / pageSize * pageSize + i * pageSize
    let chunkStart := max address pageStart
    let chunkEnd := min (address + size) (pageStart + pageSize)
    { physAddress := toSizeT chunkStart, size := chunkEnd - chunkStart,
      offset := offset + (chunkStart - address) })

/-- The sample family with a page walk that splits a range at page boundaries. -/
def pagedFamily : GfxFamily :=
  { sampleFamily with ppgttPageWalk := pageChunks }

/-- An allocation of 8192 bytes that starts in the middle of a page. -/
def sampleUnalignedAllocation : GraphicsAllocation :=
  { underlyingBuffer := 0x300800, gpuAddress := 0x300800, underlyingBufferSize := 8192,
    residencyTaskCount := ObjectNotResident, allowAubFileWrite := true }

/-! ## Memory objects and the CPU data transfer of the command queue -/

/-- Modelled from the spec: the OpenCL status code `CL_SUCCESS` of `CL/cl.h`, which is not
part of the sources at hand. -/
def CL_SUCCESS : Int := 0

/-- Modelled from the spec: the OpenCL status code `CL_INVALID_VALUE` of `CL/cl.h`, which is
not part of the sources at hand. -/
def CL_INVALID_VALUE : Int := -30

/-- Modelled from the spec: the OpenCL status code `CL_INVALID_OPERATION` of `CL/cl.h`, which
is not part of the sources at hand. -/
def CL_INVALID_OPERATION : Int := -59

/-- Modelled from the spec: the OpenCL execution status `CL_COMPLETE` of `CL/cl.h`, which is
not part of the sources at hand. -/
def CL_COMPLETE : Int := 0

/-- Modelled from the spec: the memory flag `CL_MEM_USE_HOST_PTR` of `CL/cl.h`, which is not
part of the sources at hand. -/
def CL_MEM_USE_HOST_PTR : Nat := 8

/-- Modelled from the spec: the command type `CL_COMMAND_READ_BUFFER` of `CL/cl.h`, which is
not part of the sources at hand. -/
def CL_COMMAND_READ_BUFFER : Nat := 0x11F3

/-- Modelled from the spec: the command type `CL_COMMAND_WRITE_BUFFER` of `CL/cl.h`, which is
not part of the sources at hand. -/
def CL_COMMAND_WRITE_BUFFER : Nat := 0x11F4

/-- Modelled from the spec: the command type `CL_COMMAND_MAP_BUFFER` of `CL/cl.h`, which is
not part of the sources at hand. -/
def CL_COMMAND_MAP_BUFFER : Nat := 0x11FB

/-- Modelled from the spec: the command type `CL_COMMAND_MAP_IMAGE` of `CL/cl.h`, which is not
part of the sources at hand. -/
def CL_COMMAND_MAP_IMAGE : Nat := 0x11FC

/-- Modelled from the spec: the command type `CL_COMMAND_UNMAP_MEM_OBJECT` of `CL/cl.h`, which
is not part of the sources at hand. -/
def CL_COMMAND_UNMAP_MEM_OBJECT : Nat := 0x11FD

/-- Modelled from the spec: the command type `CL_COMMAND_MARKER` of `CL/cl.h`, which is not
part of the sources at hand. -/
def CL_COMMAND_MARKER : Nat := 0x11FE

/-- Modelled from the spec: `ptrOffset` of `runtime/helpers/ptr_math.h`, which is not part of
the sources at hand; the pointer `offset` bytes after `ptrBefore`. Pointers are addresses, the
null pointer is 0, and the sums formed here do not wrap. -/
def ptrOffset (ptrBefore offset : Nat) : Nat := ptrBefore + offset

/-- Modelled from the spec: `ErrorCodeHelper` of `runtime/helpers/error_mappers.h`, which is
not part of the sources at hand; its constructor and its `set` store a code through the
pointer to the caller's variable, whatever that held. -/
def ErrorCodeHelper.set (_errcodeRet : Int) (code : Int) : Int := code

/-- The fields of `cl_image_desc` read by the CPU data transfer. -/
structure ImageDesc where
  image_width : Nat
  image_height : Nat
  image_depth : Nat
  image_array_size : Nat
  image_row_pitch : Nat
  image_slice_pitch : Nat
  deriving DecidableEq, Repr

/-- What an `Image` adds to a `MemObj`, as far as the CPU data transfer reads it. -/
structure Image where
  imageDesc : ImageDesc
  ImageElementSizeInBytes : Nat
  hostPtrRowPitch : Nat
  hostPtrSlicePitch : Nat
  deriving DecidableEq, Repr

/-- `MemObj::DestructorCallback`: the function pointer and the user data given to
`setDestructorCallback`. -/
structure DestructorCallback where
  funcNotify : Nat
  userData : Nat
  deriving DecidableEq, Repr

/-- The fields of `MemObj` used by the mapping functions and by the destructor. Pointers are
addresses, the null pointer is 0. `image` is what
`castToObject<Image>` finds: `none` for an object that is not an image. -/
structure MemObj where
  flags : Nat
  size : Nat
  memoryStorage : Nat
  hostPtr : Nat
  isZeroCopy : Bool
  mapCount : Nat
  mappedPtr : Nat
  allocatedMappedPtr : Nat
  image : Option Image
  /-- The pointer `memoryManager`, taken from the context in the constructor. -/
  memoryManager : Nat := 0
  /-- The pointer `graphicsAllocation`. -/
  graphicsAllocation : Nat := 0
  /-- The pointer `mcsAllocation`. -/
  mcsAllocation : Nat := 0
  /-- The pointer `associatedMemObject`. -/
  associatedMemObject : Nat := 0
  isObjectRedescribed : Bool := false
  isHostPtrSVM : Bool := false
  /-- The vector `destructorCallbacks`, first registered first. -/
  destructorCallbacks : List DestructorCallback := []
  deriving DecidableEq, Repr

/-- Modelled from the spec: `ObjectNotUsed` of `runtime/memory_manager/graphics_allocation.h`,
which is not part of the sources at hand; the task count of an allocation that was never
used, the largest `uint32_t`. -/
def ObjectNotUsed : Nat := 0xFFFFFFFF

/-- What `~MemObj` takes from outside the object: the debug flag
`EnableAsyncDestroyAllocations`, whether `memoryManager->device` is not null, the value at the
tag address of the device when `destroyGraphicsAllocation` reads it, the `taskCount` of the
graphics allocation at an address, and the graphics allocation of the associated object. -/
structure DestructionEnvironment where
  EnableAsyncDestroyAllocations : Bool
  device : Bool
  currentTag : Nat
  taskCount : Nat → Nat
  associatedGraphicsAllocation : Nat

/-- The calls `~MemObj` makes on the command stream receiver
(`waitForCompletionWithTimeout`), on the memory manager, on the associated object and on the
registered callbacks. -/
inductive DestructorAction
  | waitForCompletionWithTimeout (enableTimeout : Bool) (taskCountToWait : Nat)
  | storeAllocation (allocation : Nat)
  | freeGraphicsMemory (allocation : Nat)
  | freeSystemMemory (ptr : Nat)
  | decRefInternal (memObj : Nat)
  | funcNotify (callbackFunction memObj userData : Nat)
  deriving DecidableEq, Repr

/-- `DestructorCallback::invoke`: the call `funcNotify(memObj, userData)`. -/
def DestructorCallback.invoke (callback : DestructorCallback) (memObj : Nat) : DestructorAction :=
  DestructorAction.funcNotify callback.funcNotify memObj callback.userData

namespace MemObj

/-- `getCpuAddress`. -/
def getCpuAddress (memObj : MemObj) : Nat := memObj.memoryStorage

/-- `getHostPtr`. -/
def getHostPtr (memObj : MemObj) : Nat := memObj.hostPtr

/-- `getSize`. -/
def getSize (memObj : MemObj) : Nat := memObj.size

/-- `getMappedPtr`. -/
def getMappedPtr (memObj : MemObj) : Nat :=
  if memObj.allocatedMappedPtr ≠ 0 then memObj.allocatedMappedPtr
  else memObj.mappedPtr

/-- `setMappedPtr` (the `DEBUG_BREAK_IF` has no effect on the state). -/
def setMappedPtr (memObj : MemObj) (mappedPtr : Nat) : MemObj :=
  { memObj with mappedPtr := mappedPtr }

/-- `incMapCount`: `mapCount++` on a `cl_uint`. -/
def incMapCount (memObj : MemObj) : MemObj :=
  { memObj with mapCount := toUInt32 (memObj.mapCount + 1) }

/-- `decMapCount`: `mapCount--` on a `cl_uint`. -/
def decMapCount (memObj : MemObj) : MemObj :=
  { memObj with mapCount := subUInt32 memObj.mapCount 1 }

/-- `isMemObjZeroCopy`. -/
def isMemObjZeroCopy (memObj : MemObj) : Bool := memObj.isZeroCopy

/-- `getCpuAddressForMapping`. -/
def getCpuAddressForMapping (memObj : MemObj) : Nat :=
  if memObj.flags &&& CL_MEM_USE_HOST_PTR ≠ 0 then memObj.hostPtr
  else memObj.memoryStorage

/-- `getCpuAddressForMemoryTransfer`. -/
def getCpuAddressForMemoryTransfer (memObj : MemObj) : Nat :=
  if memObj.flags &&& CL_MEM_USE_HOST_PTR ≠ 0 ∧ memObj.isMemObjZeroCopy = true then memObj.hostPtr
  else memObj.memoryStorage

/-- `setAndReturnMappedPtr`: the returned pointer and the object after the call. -/
def setAndReturnMappedPtr (memObj : MemObj) (offset : Nat) : Nat × MemObj :=
  let ptrToReturn := ptrOffset memObj.getCpuAddressForMapping offset
  let memObj := memObj.setMappedPtr ptrToReturn
  let memObj := memObj.incMapCount
  (ptrToReturn, memObj)

/-- `setDestructorCallback`: the returned code and the object after the call. -/
def setDestructorCallback (memObj : MemObj) (funcNotify userData : Nat) : Int × MemObj :=
  let cb : DestructorCallback := { funcNotify := funcNotify, userData := userData }
  (CL_SUCCESS, { memObj with destructorCallbacks := memObj.destructorCallbacks ++ [cb] })

/-- `waitForCsrCompletion`. -/
def waitForCsrCompletion (env : DestructionEnvironment) (memObj : MemObj) :
    List DestructorAction :=
  if env.device = true ∧ memObj.graphicsAllocation ≠ 0 then
    [DestructorAction.waitForCompletionWithTimeout false (env.taskCount memObj.graphicsAllocation)]
  else []

/-- `destroyGraphicsAllocation`. -/
def destroyGraphicsAllocation (env : DestructionEnvironment) (allocation : Nat)
    (asyncDestroy : Bool) : List DestructorAction :=
  if asyncDestroy = true ∧ env.device = true ∧ env.taskCount allocation ≠ ObjectNotUsed then
    let currentTag := env.currentTag
    if currentTag < env.taskCount allocation then
      [DestructorAction.storeAllocation allocation]
    else
      [DestructorAction.freeGraphicsMemory allocation]
  else
    [DestructorAction.freeGraphicsMemory allocation]

/-- `releaseAllocatedMappedPtr` (the `DEBUG_BREAK_IF` has no effect on the calls made). -/
def releaseAllocatedMappedPtr (memObj : MemObj) : List DestructorAction :=
  if memObj.allocatedMappedPtr ≠ 0 then
    [DestructorAction.freeSystemMemory memObj.allocatedMappedPtr]
  else []

/-- The local `needWait` of `~MemObj` before the memory manager block. -/
def needWait (memObj : MemObj) : Bool :=
  let needWait := false
  let needWait := if memObj.allocatedMappedPtr ≠ 0 then true else needWait
  let needWait :=
    if memObj.mappedPtr ≠ 0 ∧ memObj.getCpuAddressForMapping = 0 then true else needWait
  if ¬ memObj.destructorCallbacks.isEmpty = true then true else needWait

/-- The block `if (graphicsAllocation && !associatedMemObject && !isObjectRedescribed &&
!isHostPtrSVM)` of `~MemObj`: the calls made for the graphics allocation the object owns, and
the pointer `graphicsAllocation` after the block. -/
def destroyOwnedAllocation (env : DestructionEnvironment) (memObj : MemObj) :
    List DestructorAction × Nat :=
  if memObj.graphicsAllocation ≠ 0 ∧ memObj.associatedMemObject = 0 ∧
      ¬ memObj.isObjectRedescribed = true ∧ ¬ memObj.isHostPtrSVM = true then
    let doAsyncDestrucions := env.EnableAsyncDestroyAllocations
    let needWait := if ¬ doAsyncDestrucions = true then true else memObj.needWait
    let waited :=
      if needWait = true ∧ env.taskCount memObj.graphicsAllocation ≠ ObjectNotUsed then
        memObj.waitForCsrCompletion env
      else []
    (waited ++ destroyGraphicsAllocation env memObj.graphicsAllocation doAsyncDestrucions, 0)
  else ([], memObj.graphicsAllocation)

/-- The block `if (memoryManager)` of `~MemObj`: the calls that release what the object
holds. -/
def releaseResources (env : DestructionEnvironment) (memObj : MemObj) : List DestructorAction :=
  if memObj.memoryManager ≠ 0 then
    let owned := memObj.destroyOwnedAllocation env
    let graphicsAllocation := owned.2
    owned.1 ++
    memObj.releaseAllocatedMappedPtr ++
    (if memObj.mcsAllocation ≠ 0 then destroyGraphicsAllocation env memObj.mcsAllocation false
      else []) ++
    (if memObj.mappedPtr ≠ 0 ∧ memObj.getCpuAddressForMapping = 0 then
        [DestructorAction.freeSystemMemory memObj.mappedPtr]
      else []) ++
    (if memObj.associatedMemObject ≠ 0 then
        (if env.associatedGraphicsAllocation ≠ graphicsAllocation then
          destroyGraphicsAllocation env graphicsAllocation false
        else []) ++
        [DestructorAction.decRefInternal memObj.associatedMemObject]
      else [])
  else []

/-- `~MemObj` for the object at address `self`: the calls it makes, in order. -/
def destroy (env : DestructionEnvironment) (self : Nat) (memObj : MemObj) :
    List DestructorAction :=
  memObj.releaseResources env ++
  (if ¬ memObj.destructorCallbacks.isEmpty = true then
    memObj.destructorCallbacks.reverse.map (fun callback => callback.invoke self)
  else [])

end MemObj

/-- `TransferProperties`: `offset i` is `offset[i]` and `size` is `*size`. -/
structure TransferProperties where
  memObj : MemObj
  cmdType : Nat
  blocking : Bool
  offset : Nat → Nat
  size : Nat
  ptr : Nat

/-- `EventsRequest`: `outEvent` tells whether the pointer `outEvent` is not null. -/
structure EventsRequest where
  numEventsInWaitList : Nat
  outEvent : Bool
  deriving DecidableEq, Repr

/-- What `cpuDataTransferHandler` takes from the queue, the context and the wait list:
the results of `obtainTaskLevelAndBlockedStatus`, of `Event::waitForEvents`, of
`isProvidingPerformanceHints` and of `getValidParam`, and the task count of the queue. -/
structure TransferEnvironment where
  blockQueue : Bool
  taskLevel : Nat
  waitForEvents : Int
  isProvidingPerformanceHints : Bool
  getValidParam : Nat → Nat
  taskCount : Nat

/-- The operation type passed to `enqueueBlockedMapUnmapOperation`. -/
inductive MapOperationType
  | MAP
  | UNMAP
  deriving DecidableEq, Repr

/-- The level of a performance hint. -/
inductive DiagnosticsLevel
  | CL_CONTEXT_DIAGNOSTICS_LEVEL_BAD_INTEL
  | CL_CONTEXT_DIAGNOSTICS_LEVEL_GOOD_INTEL
  deriving DecidableEq, Repr

/-- The performance hints given by `cpuDataTransferHandler`. -/
inductive PerformanceHint
  | CL_ENQUEUE_MAP_BUFFER_REQUIRES_COPY_DATA
  | CL_ENQUEUE_MAP_BUFFER_DOESNT_REQUIRE_COPY_DATA
  | CL_ENQUEUE_MAP_IMAGE_REQUIRES_COPY_DATA
  | CL_ENQUEUE_MAP_IMAGE_DOESNT_REQUIRE_COPY_DATA
  | CL_ENQUEUE_UNMAP_MEM_OBJ_REQUIRES_COPY_DATA
  | CL_ENQUEUE_UNMAP_MEM_OBJ_DOESNT_REQUIRE_COPY_DATA
  | CL_ENQUEUE_READ_BUFFER_REQUIRES_COPY_DATA
  | CL_ENQUEUE_WRITE_BUFFER_REQUIRES_COPY_DATA
  deriving DecidableEq, Repr

/-- Calls made by `cpuDataTransferHandler` on the event it created. -/
inductive EventCall
  | setQueueTimeStamp
  | setCPUProfilingPath (isCPUProfilingPath : Bool)
  | setTaskLevel (taskLevel : Nat)
  | setSubmitTimeStamp
  | setStartTimeStamp
  | setEndTimeStamp
  | updateTaskCount (taskCount : Nat)
  | setStatus (status : Int)
  | updateExecutionStatus
  deriving DecidableEq, Repr

/-- Calls made by `cpuDataTransferHandler` on the queue, the context, the memory object's
transfer functions and the C library, and the stores through `retRowPitch` and
`retSlicePitch`. -/
inductive TransferCall
  | enqueueBlockedMapUnmapOperation (opType : MapOperationType)
  | waitForEvents (numEvents : Nat)
  | finish (dcFlush : Bool)
  | providePerformanceHint (level : DiagnosticsLevel) (hint : PerformanceHint)
  | transferDataToHostPtr (copySize : Nat × Nat × Nat) (copyOffset : Nat × Nat × Nat)
  | transferDataFromHostPtr (copySize : Nat × Nat × Nat) (copyOffset : Nat × Nat × Nat)
  | memcpy_s (dst dstSize src count : Nat)
  | setRetSlicePitch (value : Nat)
  | setRetRowPitch (value : Nat)
  deriving DecidableEq, Repr

/-- The state `cpuDataTransferHandler` works on: the caller's `retVal`, the memory object, the
calls made on the created event (`none` when no event was created), the other calls made, and
the local `eventCompleted`. -/
structure TransferState where
  retVal : Int
  memObj : MemObj
  event : Option (List EventCall)
  calls : List TransferCall
  eventCompleted : Bool
  deriving DecidableEq, Repr

namespace TransferState

/-- A call on the created event, `if (eventBuilder.getEvent())`. -/
def onEvent (st : TransferState) (call : EventCall) : TransferState :=
  { st with event := st.event.map (fun calls => calls ++ [call]) }

/-- A call on a collaborator. -/
def call (st : TransferState) (c : TransferCall) : TransferState :=
  { st with calls := st.calls ++ [c] }

/-- `if (context->isProvidingPerformanceHints()) context->providePerformanceHint(...)`. -/
def hint (st : TransferState) (env : TransferEnvironment) (level : DiagnosticsLevel)
    (h : PerformanceHint) : TransferState :=
  if env.isProvidingPerformanceHints then st.call (TransferCall.providePerformanceHint level h)
  else st

end TransferState

/-- The result of `cpuDataTransferHandler`: the returned pointer, and the state it leaves. -/
structure TransferResult where
  ptr : Nat
  retVal : Int
  memObj : MemObj
  event : Option (List EventCall)
  calls : List TransferCall
  deriving DecidableEq, Repr

namespace CommandQueue

/-- The copy size of a whole image. -/
def imageCopySize (env : TransferEnvironment) (imgDesc : ImageDesc) : Nat × Nat × Nat :=
  (env.getValidParam imgDesc.image_width, env.getValidParam imgDesc.image_height,
    env.getValidParam (max imgDesc.image_depth imgDesc.image_array_size))

/-- The `switch (transferProperties.cmdType)` of `cpuDataTransferHandler`; `none` when the
null `image` pointer of an object that is not an image is dereferenced. -/
def transferSwitch (env : TransferEnvironment) (transferProperties : TransferProperties)
    (st : TransferState) : Option TransferState :=
  let image := st.memObj.image
  if transferProperties.cmdType = CL_COMMAND_MAP_BUFFER then
    let st :=
      if ¬ st.memObj.isMemObjZeroCopy = true then
        let st := st.hint env DiagnosticsLevel.CL_CONTEXT_DIAGNOSTICS_LEVEL_BAD_INTEL
          PerformanceHint.CL_ENQUEUE_MAP_BUFFER_REQUIRES_COPY_DATA
        let st := st.call (TransferCall.transferDataToHostPtr (st.memObj.getSize, 0, 0) (0, 0, 0))
        { st with eventCompleted := true }
      else
        st.hint env DiagnosticsLevel.CL_CONTEXT_DIAGNOSTICS_LEVEL_GOOD_INTEL
          PerformanceHint.CL_ENQUEUE_MAP_BUFFER_DOESNT_REQUIRE_COPY_DATA
    some { st with memObj := st.memObj.incMapCount }
  else if transferProperties.cmdType = CL_COMMAND_MAP_IMAGE then
    match image with
    | none => none
    | some image =>
      let st :=
        if ¬ st.memObj.isMemObjZeroCopy = true then
          let st := st.hint env DiagnosticsLevel.CL_CONTEXT_DIAGNOSTICS_LEVEL_BAD_INTEL
            PerformanceHint.CL_ENQUEUE_MAP_IMAGE_REQUIRES_COPY_DATA
          let imgDesc := image.imageDesc
          let copySize := imageCopySize env imgDesc
          let st := st.call (TransferCall.transferDataToHostPtr copySize (0, 0, 0))
          let st := st.call (TransferCall.setRetSlicePitch image.hostPtrSlicePitch)
          let st := st.call (TransferCall.setRetRowPitch image.hostPtrRowPitch)
          { st with eventCompleted := true }
        else
          let st := st.hint env DiagnosticsLevel.CL_CONTEXT_DIAGNOSTICS_LEVEL_GOOD_INTEL
            PerformanceHint.CL_ENQUEUE_MAP_IMAGE_DOESNT_REQUIRE_COPY_DATA
          let st := st.call (TransferCall.setRetSlicePitch image.imageDesc.image_slice_pitch)
          st.call (TransferCall.setRetRowPitch image.imageDesc.image_row_pitch)
      some { st with memObj := st.memObj.incMapCount }
  else if transferProperties.cmdType = CL_COMMAND_UNMAP_MEM_OBJECT then
    let st :=
      if ¬ st.memObj.isMemObjZeroCopy = true then
        let st := st.hint env DiagnosticsLevel.CL_CONTEXT_DIAGNOSTICS_LEVEL_BAD_INTEL
          PerformanceHint.CL_ENQUEUE_UNMAP_MEM_OBJ_REQUIRES_COPY_DATA
        let copySize : Nat × Nat × Nat :=
          match image with
          | some image => imageCopySize env image.imageDesc
          | none => (st.memObj.getSize, 0, 0)
        let st := st.call (TransferCall.transferDataFromHostPtr copySize (0, 0, 0))
        { st with eventCompleted := true }
      else
        st.hint env DiagnosticsLevel.CL_CONTEXT_DIAGNOSTICS_LEVEL_GOOD_INTEL
          PerformanceHint.CL_ENQUEUE_UNMAP_MEM_OBJ_DOESNT_REQUIRE_COPY_DATA
    some { st with memObj := st.memObj.decMapCount }
  else if transferProperties.cmdType = CL_COMMAND_READ_BUFFER then
    let st := st.hint env DiagnosticsLevel.CL_CONTEXT_DIAGNOSTICS_LEVEL_BAD_INTEL
      PerformanceHint.CL_ENQUEUE_READ_BUFFER_REQUIRES_COPY_DATA
    let st := st.call (TransferCall.memcpy_s transferProperties.ptr transferProperties.size
      (ptrOffset st.memObj.getCpuAddressForMemoryTransfer (transferProperties.offset 0))
      transferProperties.size)
    some { st with eventCompleted := true }
  else if transferProperties.cmdType = CL_COMMAND_WRITE_BUFFER then
    let st := st.hint env DiagnosticsLevel.CL_CONTEXT_DIAGNOSTICS_LEVEL_BAD_INTEL
      PerformanceHint.CL_ENQUEUE_WRITE_BUFFER_REQUIRES_COPY_DATA
    let st := st.call (TransferCall.memcpy_s
      (ptrOffset st.memObj.getCpuAddressForMemoryTransfer (transferProperties.offset 0))
      transferProperties.size transferProperties.ptr transferProperties.size)
    some { st with eventCompleted := true }
  else if transferProperties.cmdType = CL_COMMAND_MARKER then
    some st
  else
    some { st with retVal := ErrorCodeHelper.set st.retVal CL_INVALID_OPERATION }

/-- The head of `cpuDataTransferHandler`, up to the release of the two ownerships: the error
code helper, the event, the blocked status and the blocked map or unmap operation. -/
def beginTransfer (env : TransferEnvironment) (transferProperties : TransferProperties)
    (eventsRequest : EventsRequest) (retVal : Int) : TransferState :=
  let st : TransferState :=
    { retVal := ErrorCodeHelper.set retVal CL_SUCCESS
      memObj := transferProperties.memObj
      event := none
      calls := []
      eventCompleted := false }
  let st :=
    if eventsRequest.outEvent then
      ({ st with event := some [] }.onEvent EventCall.setQueueTimeStamp).onEvent
        (EventCall.setCPUProfilingPath true)
    else st
  let blockQueue := env.blockQueue
  let taskLevel := env.taskLevel
  let st := if eventsRequest.outEvent then st.onEvent (EventCall.setTaskLevel taskLevel) else st
  if blockQueue = true ∧
      (transferProperties.cmdType = CL_COMMAND_MAP_BUFFER ∨
       transferProperties.cmdType = CL_COMMAND_MAP_IMAGE ∨
       transferProperties.cmdType = CL_COMMAND_UNMAP_MEM_OBJECT) then
    st.call (TransferCall.enqueueBlockedMapUnmapOperation
      (if transferProperties.cmdType = CL_COMMAND_UNMAP_MEM_OBJECT then MapOperationType.UNMAP
        else MapOperationType.MAP))
  else st

/-- The block `if (!blockQueue || transferProperties.blocking)` of `cpuDataTransferHandler`. -/
def waitAndTransfer (env : TransferEnvironment) (transferProperties : TransferProperties)
    (eventsRequest : EventsRequest) (st : TransferState) : Option TransferState :=
  -- read/write buffers are always blocking
  if ¬ env.blockQueue = true ∨ transferProperties.blocking = true then
    let st := st.call (TransferCall.waitForEvents eventsRequest.numEventsInWaitList)
    let st := { st with retVal := ErrorCodeHelper.set st.retVal env.waitForEvents }
    let st := st.onEvent EventCall.setSubmitTimeStamp
    -- wait for the completness of previous commands
    let st :=
      if transferProperties.cmdType ≠ CL_COMMAND_UNMAP_MEM_OBJECT then
        if ¬ st.memObj.isMemObjZeroCopy = true ∨ transferProperties.blocking = true then
          { st.call (TransferCall.finish true) with eventCompleted := true }
        else st
      else st
    let st := st.onEvent EventCall.setStartTimeStamp
    match transferSwitch env transferProperties st with
    | none => none
    | some st =>
      let st := st.onEvent EventCall.setEndTimeStamp
      let st := st.onEvent (EventCall.updateTaskCount env.taskCount)
      some (if st.eventCompleted then st.onEvent (EventCall.setStatus CL_COMPLETE)
        else st.onEvent EventCall.updateExecutionStatus)
  else some st

/-- The tail of `cpuDataTransferHandler`: the pointer returned for the two map commands, and
`nullptr` for every other command. -/
def returnPointer (transferProperties : TransferProperties) (st : TransferState) :
    Option TransferResult :=
  if transferProperties.cmdType = CL_COMMAND_MAP_BUFFER then
    let r := st.memObj.setAndReturnMappedPtr (transferProperties.offset 0)
    some { ptr := r.1, retVal := st.retVal, memObj := r.2, event := st.event, calls := st.calls }
  else if transferProperties.cmdType = CL_COMMAND_MAP_IMAGE then
    match st.memObj.image with
    | none => none
    | some image =>
      let mapOffset := toSizeT
        (image.ImageElementSizeInBytes * transferProperties.offset 0 +
         image.imageDesc.image_row_pitch * transferProperties.offset 1 +
         image.imageDesc.image_slice_pitch * transferProperties.offset 2)
      let ptrToReturn :=
        if st.memObj.isMemObjZeroCopy then ptrOffset st.memObj.getCpuAddress mapOffset
        else ptrOffset st.memObj.getHostPtr mapOffset
      some { ptr := ptrToReturn, retVal := st.retVal, memObj := st.memObj.setMappedPtr ptrToReturn,
             event := st.event, calls := st.calls }
  else
    -- only map returns pointer
    some { ptr := 0, retVal := st.retVal, memObj := st.memObj, event := st.event,
           calls := st.calls }

/-- `CommandQueue::cpuDataTransferHandler`; `none` when the null `image` pointer of an object
that is not an image is dereferenced. -/
def cpuDataTransferHandler (env : TransferEnvironment) (transferProperties : TransferProperties)
    (eventsRequest : EventsRequest) (retVal : Int) : Option TransferResult :=
  match waitAndTransfer env transferProperties eventsRequest
      (beginTransfer env transferProperties eventsRequest retVal) with
  | none => none
  | some st => returnPointer transferProperties st

end CommandQueue

/-- A buffer of 128 bytes created with `CL_MEM_USE_HOST_PTR` over the host block at `0x7000`,
with its own storage at `0x9000` (not zero-copy), never mapped. -/
def sampleUseHostPtrBuffer : MemObj :=
  { flags := CL_MEM_USE_HOST_PTR, size := 128, memoryStorage := 0x9000, hostPtr := 0x7000,
    isZeroCopy := false, mapCount := 0, mappedPtr := 0, allocatedMappedPtr := 0, image := none }

/-- A queue that is not blocked, whose wait list completes with `CL_SUCCESS`. -/
def sampleEnvironment : TransferEnvironment :=
  { blockQueue := false, taskLevel := 0, waitForEvents := CL_SUCCESS,
    isProvidingPerformanceHints := false, getValidParam := fun n => n, taskCount := 5 }

/-- A blocking `CL_COMMAND_MAP_BUFFER` of `memObj` at `offset`. -/
def mapBufferAt (memObj : MemObj) (offset : Nat) : TransferProperties :=
  { memObj := memObj, cmdType := CL_COMMAND_MAP_BUFFER, blocking := true,
    offset := fun _ => offset, size := 2, ptr := 0 }

/-! ## Creation of the AUB receiver -/

/-- The lifecycle calls `create` makes on the stream: `open(fileName)` and
`init(steppingValue, device)`, which adds the file header. -/
inductive LifecycleCall
  | openFile (fileName : String)
  | init (steppingValue device : Nat)
  deriving DecidableEq, Repr

/-- What `create` leaves behind: the pointer it returns (`none` for `nullptr`), whether
`stream.fileHandle` is open, the lifecycle calls made on the stream, and how often a
`DEBUG_BREAK_IF` with a true condition was reached (a break in a debug build, nothing in a
release build). -/
structure AUBCommandStreamReceiverHw.Created where
  csr : Option AUBCommandStreamReceiverHw
  fileHandleIsOpen : Bool
  lifecycle : List LifecycleCall
  debugBreaks : Nat

/-- `create`. `opens` tells which file names the file system lets `stream.open` open for
writing; `steppingA` and `device` stand for `AubMemDump::SteppingValues::A` and
`AUB::Traits::device`. -/
def AUBCommandStreamReceiverHw.create (opens : String → Bool) (steppingA device : Nat)
    (fileName : String) : AUBCommandStreamReceiverHw.Created :=
  let csr := AUBCommandStreamReceiverHw.construct
  -- Open our file
  let lifecycle := [LifecycleCall.openFile fileName]
  let fileHandleIsOpen := opens fileName
  let debugBreaks := if ¬ fileHandleIsOpen = true then 1 else 0
  -- Add the file header.
  let lifecycle := lifecycle ++ [LifecycleCall.init steppingA device]
  { csr := some csr, fileHandleIsOpen := fileHandleIsOpen, lifecycle := lifecycle,
    debugBreaks := debugBreaks }

/-! ## Observations on ring stores and on the destructor of a memory object -/

/-- Whether a ring store is the store of an `MI_NOOP`. -/
def RingStore.isNoop : RingStore → Bool
  | RingStore.noop _ => true
  | _ => false

/-- Register a sequence of destructor callbacks, given as pairs of function pointer and user
data, by one call of `setDestructorCallback` each, first to last. -/
def MemObj.setDestructorCallbacks (memObj : MemObj) : List (Nat × Nat) → MemObj
  | [] => memObj
  | registration :: rest =>
    MemObj.setDestructorCallbacks (memObj.setDestructorCallback registration.1 registration.2).2
      rest

/-- Whether a call of `~MemObj` is the invocation of a destructor callback. -/
def DestructorAction.isCallback : DestructorAction → Bool
  | DestructorAction.funcNotify _ _ _ => true
  | _ => false

/-- Whether a call of `~MemObj` gives up the graphics allocation `allocation`: it frees it or
stores it as a temporary allocation. -/
def DestructorAction.releases (allocation : Nat) : DestructorAction → Bool
  | DestructorAction.freeGraphicsMemory a => decide (a = allocation)
  | DestructorAction.storeAllocation a => decide (a = allocation)
  | _ => false

/-- A buffer of 128 bytes that owns the graphics allocation at `0x5000` and has a memory
manager. -/
def sampleOwnedBuffer : MemObj :=
  { flags := 0, size := 128, memoryStorage := 0x9000, hostPtr := 0, isZeroCopy := true,
    mappedPtr := 0, allocatedMappedPtr := 0, mapCount := 0, image := none,
    memoryManager := 0x100, graphicsAllocation := 0x5000 }

/-- Asynchronous destruction enabled, a device whose tag is 3, and task count 5 for every
allocation. -/
def sampleDestructionEnvironment : DestructionEnvironment :=
  { EnableAsyncDestroyAllocations := true, device := true, currentTag := 3,
    taskCount := fun _ => 5, associatedGraphicsAllocation := 0 }

end OCLRT

/-! # Properties -/

namespace OCLRT

/-! ## Lemmas on ring memory and on the ring ranges dumped by stream calls -/

theorem ringDumps_append (xs ys : List SinkEvent) :
    ringDumps (xs ++ ys) = ringDumps xs ++ ringDumps ys := by
  simp [ringDumps, List.filterMap_append]

theorem ringDumps_initGlobalMMIO (fam : GfxFamily) : ringDumps ( initGlobalMMIO fam) = [] := by
  unfold initGlobalMMIO ringDumps
  induction fam.globalMMIO with
  | nil => rfl
  | cons p ps ih => simp [List.filterMap_cons, SinkEvent.ringDump]

theorem ringDumps_initEngineMMIO (fam : GfxFamily) (e : Nat) :
    ringDumps ( initEngineMMIO fam e) = [] := by
  unfold initEngineMMIO ringDumps
  induction fam.perEngineMMIO e with
  | nil => rfl
  | cons p ps ih => simp [List.filterMap_cons, SinkEvent.ringDump]

theorem ringDumps_submitLRCA (fam : GfxFamily) (e : Nat) (d : MiContextDescriptorReg) :
    ringDumps (submitLRCA fam e d) = [] := by
  simp [submitLRCA, ringDumps, SinkEvent.ringDump]

theorem ringDumps_pollForCompletion (fam : GfxFamily) (e : Nat) :
    ringDumps (pollForCompletion fam e) = [] := by
  simp [pollForCompletion, ringDumps, SinkEvent.ringDump]

theorem ringDumps_ringWrite (p o n : Nat) (bs : List Nat) (a : AddressSpace) (h : DataTypeHint) :
    ringDumps [SinkEvent.addMemoryWrite p (MemSource.ring o bs) n a h] = [(o, n)] := by
  simp [ringDumps, SinkEvent.ringDump]

theorem subUInt32_of_le (a b : Nat) (h : b ≤ a) (ha : a < 2 ^ 32) : subUInt32 a b = a - b := by
  unfold subUInt32 toUInt32
  omega

theorem readBytes_memset (fam : GfxFamily) (mem : Nat → Nat) (t n : Nat) :
    readBytes ((RingStore.memset t n).apply fam mem) t n = List.replicate n 0 := by
  apply List.eq_replicate_iff.mpr
  refine ⟨by simp [readBytes], ?_⟩
  intro b hb
  simp only [readBytes, List.mem_map, List.mem_range] at hb
  obtain ⟨i, hi, rfl⟩ := hb
  simp [RingStore.apply, RingStore.offset, RingStore.size, RingStore.byte, hi]

theorem wrap_leaves_zero_fill (fam : GfxFamily) (mem : Nat → Nat) (t a k : Nat)
    (ht : 16 ≤ t) (hk : t ≤ k) (hk' : k < 16384) :
    (RingStore.noop 12).apply fam ((RingStore.batchBufferStart 0 a).apply fam
      ((RingStore.memset t (16384 - t)).apply fam mem)) k = 0 := by
  have h1 : ¬ (12 ≤ k ∧ k < 12 + 4) := by omega
  have h2 : ¬ (k < 12) := by omega
  have h3 : t ≤ k ∧ k < t + (16384 - t) := by omega
  simp [RingStore.apply, RingStore.offset, RingStore.size, RingStore.byte,
    sizeofMI_BATCH_BUFFER_START, sizeofMI_NOOP, h1, h2, h3]


/-! ## Lemmas on the AUB receiver -/

section AubLemmas
open AUBCommandStreamReceiverHw

theorem aub_addNoops_ok_aligned (fam : GfxFamily) :
    ∀ (fuel : Nat) (c c' : RingCursor), addNoops fam fuel c = Except.ok c' → c'.tail % 8 = 0
  | 0, c, c', h => by simp [addNoops] at h
  | fuel + 1, c, c', h => by
    unfold addNoops at h
    by_cases hc : c.tail % tailAlignment ≠ 0
    · rw [if_pos hc] at h
      exact aub_addNoops_ok_aligned fam fuel _ _ h
    · rw [if_neg hc] at h
      cases h
      simpa [tailAlignment] using hc

theorem aub_addNoops_ne_unrecoverable (fam : GfxFamily) :
    ∀ (fuel : Nat) (c : RingCursor), addNoops fam fuel c ≠ Except.error FlushError.unrecoverable
  | 0, c => by simp [addNoops]
  | fuel + 1, c => by
    unfold addNoops
    by_cases hc : c.tail % tailAlignment ≠ 0
    · rw [if_pos hc]
      exact aub_addNoops_ne_unrecoverable fam fuel _
    · rw [if_neg hc]
      simp

theorem aub_appendCommands_ne_unrecoverable (fam : GfxFamily) (fuel mmioBase : Nat)
    (engineInfo : EngineInfo) (p : Nat) :
    appendCommands fam fuel mmioBase engineInfo p ≠ Except.error FlushError.unrecoverable := by
  unfold appendCommands
  simp only []
  intro h
  split at h
  · rename_i err he
    cases h
    exact aub_addNoops_ne_unrecoverable fam _ _ he
  · rename_i c hc
    have := aub_addNoops_ok_aligned fam _ _ _ hc
    simp [tailAlignment, this] at h

theorem aub_flush_ne_unrecoverable (fam : GfxFamily) (fuel : Nat) (csr : AUBCommandStreamReceiverHw)
    (bb : BatchBuffer) (e : Nat) :
    flush fam fuel csr bb e ≠ Except.error FlushError.unrecoverable := by
  unfold flush
  simp only []
  intro h
  split at h
  · rename_i err he
    cases h
    exact aub_appendCommands_ne_unrecoverable fam _ _ _ _ he
  · cases h

theorem aub_run_ne_unrecoverable (fam : GfxFamily) (fuel : Nat) :
    ∀ (calls : List FlushCall) (csr : AUBCommandStreamReceiverHw),
      run fam fuel csr calls ≠ Except.error FlushError.unrecoverable
  | [], csr => by simp [run]
  | call :: rest, csr => by
    unfold run
    intro h
    split at h
    · rename_i err he
      cases h
      exact aub_flush_ne_unrecoverable fam _ _ _ _ he
    · exact aub_run_ne_unrecoverable fam fuel rest _ h

/-- The block left by the wraparound branch. -/
theorem aub_appendCommands_wrap (fam : GfxFamily) (fuel mmioBase : Nat) (engineInfo : EngineInfo)
    (p : Nat) (h : wraps engineInfo = true) :
    appendCommands fam (fuel + 2) mmioBase engineInfo p = Except.ok
      { previousTail := 0
        cursor :=
          { pTail := 16, tail := 16
            ringMemory := (RingStore.noop 12).apply fam
              ((RingStore.batchBufferStart 0 (fam.ptrToPPGTT p)).apply fam
                ((RingStore.memset engineInfo.tailRingBuffer
                  (subSizeT engineInfo.sizeRingBuffer engineInfo.tailRingBuffer)).apply fam
                    engineInfo.ringMemory))
            stores := [RingStore.memset engineInfo.tailRingBuffer
                  (subSizeT engineInfo.sizeRingBuffer engineInfo.tailRingBuffer),
                RingStore.batchBufferStart 0 (fam.ptrToPPGTT p), RingStore.noop 12] }
        events := [SinkEvent.addMemoryWrite
          (fam.ggttMap (engineInfo.ggttRingBuffer + engineInfo.tailRingBuffer)
            (subSizeT engineInfo.sizeRingBuffer engineInfo.tailRingBuffer))
          (MemSource.ring engineInfo.tailRingBuffer
            (readBytes ((RingStore.memset engineInfo.tailRingBuffer
                  (subSizeT engineInfo.sizeRingBuffer engineInfo.tailRingBuffer)).apply fam
                    engineInfo.ringMemory) engineInfo.tailRingBuffer
              (subSizeT engineInfo.sizeRingBuffer engineInfo.tailRingBuffer)))
          (subSizeT engineInfo.sizeRingBuffer engineInfo.tailRingBuffer)
          AddressSpace.TraceNonlocal DataTypeHint.TraceCommandBuffer] } := by
  simp [appendCommands, beginRing, h, addNoops, RingCursor.write, RingCursor.advance,
    RingCursor.computeTail, toUInt32, tailAlignment, sizeofMI_BATCH_BUFFER_START, sizeofMI_NOOP]

/-- The block left by the first submission. -/
theorem aub_appendCommands_first (fam : GfxFamily) (fuel mmioBase : Nat) (engineInfo : EngineInfo)
    (p : Nat) (h : wraps engineInfo = false) (h0 : engineInfo.tailRingBuffer = 0) :
    appendCommands fam (fuel + 1) mmioBase engineInfo p = Except.ok
      { previousTail := 0
        cursor :=
          { pTail := 24, tail := 24
            ringMemory := (RingStore.batchBufferStart 12 (fam.ptrToPPGTT p)).apply fam
                ((RingStore.loadRegisterImm 0 (mmioBase + 0x2244) 0x00010000).apply fam
                    engineInfo.ringMemory)
            stores := [RingStore.loadRegisterImm 0 (mmioBase + 0x2244) 0x00010000,
                RingStore.batchBufferStart 12 (fam.ptrToPPGTT p)] }
        events := [] } := by
  simp [appendCommands, beginRing, h, h0, addNoops, RingCursor.write, RingCursor.advance,
    RingCursor.computeTail, toUInt32, tailAlignment, sizeofMI_BATCH_BUFFER_START, sizeofMI_NOOP,
    sizeofMI_LOAD_REGISTER_IMM]

/-- The block left by a later submission that does not wrap. -/
theorem aub_appendCommands_next (fam : GfxFamily) (fuel mmioBase : Nat) (engineInfo : EngineInfo)
    (p : Nat) (h : wraps engineInfo = false) (h0 : engineInfo.tailRingBuffer ≠ 0)
    (h8 : engineInfo.tailRingBuffer % 8 = 0) (hlt : engineInfo.tailRingBuffer + 16 < 2 ^ 32) :
    appendCommands fam (fuel + 2) mmioBase engineInfo p = Except.ok
      { previousTail := engineInfo.tailRingBuffer
        cursor :=
          { pTail := engineInfo.tailRingBuffer + 16, tail := engineInfo.tailRingBuffer + 16
            ringMemory := (RingStore.noop (engineInfo.tailRingBuffer + 12)).apply fam
              ((RingStore.batchBufferStart engineInfo.tailRingBuffer (fam.ptrToPPGTT p)).apply fam
                    engineInfo.ringMemory)
            stores := [RingStore.batchBufferStart engineInfo.tailRingBuffer (fam.ptrToPPGTT p),
                RingStore.noop (engineInfo.tailRingBuffer + 12)] }
        events := [] } := by
  have e1 : (engineInfo.tailRingBuffer + 12) % 4294967296 = engineInfo.tailRingBuffer + 12 := by
    omega
  have e2 : (engineInfo.tailRingBuffer + 12 + 4) % 4294967296 = engineInfo.tailRingBuffer + 16 := by
    omega
  have e3 : ¬ (engineInfo.tailRingBuffer + 12) % 8 = 0 := by omega
  have e4 : (engineInfo.tailRingBuffer + 16) % 8 = 0 := by omega
  simp [appendCommands, beginRing, h, h0, addNoops, RingCursor.write, RingCursor.advance,
    RingCursor.computeTail, toUInt32, tailAlignment, sizeofMI_BATCH_BUFFER_START, sizeofMI_NOOP,
    e1, e2, e3, e4, Nat.add_assoc]


theorem aub_flush_of_appendCommands (fam : GfxFamily) (fuel : Nat) (csr : AUBCommandStreamReceiverHw)
    (bb : BatchBuffer) (e : Nat) (b : RingBlock)
    (h : appendCommands fam fuel (fam.mmioBase e) ((ensureInitialized fam csr e).engineInfoTable e)
      (bb.commandBufferAllocation.underlyingBuffer + bb.startOffset) = Except.ok b) :
    flush fam fuel csr bb e = Except.ok (0,
      { setEngineInfo (ensureInitialized fam csr e) e
          { (ensureInitialized fam csr e).engineInfoTable e with
            tailRingBuffer := b.cursor.tail, ringMemory := b.cursor.ringMemory } with
        stream := (ensureInitialized fam csr e).stream ++ writeBatchBuffer fam bb ++ b.events ++
          dumpRing fam { (ensureInitialized fam csr e).engineInfoTable e with
            tailRingBuffer := b.cursor.tail, ringMemory := b.cursor.ringMemory } b ++
          submitLRCA fam e (contextDescriptor fam
            ((ensureInitialized fam csr e).engineInfoTable e).ggttLRCA) ++
          pollForCompletion fam e
        ringStores := (ensureInitialized fam csr e).ringStores ++
          b.cursor.stores.map (fun st => (e, st)) }) := by
  unfold flush
  simp only [h]

theorem aub_ensureInitialized_other (fam : GfxFamily) (csr : AUBCommandStreamReceiverHw) (e e' : Nat)
    (h : e' ≠ e) :
    (ensureInitialized fam csr e).engineInfoTable e' = csr.engineInfoTable e' := by
  unfold ensureInitialized
  split
  · simp [initializeEngine, setEngineInfo, h]
  · rfl

theorem aub_ensureInitialized_tail (fam : GfxFamily) (csr : AUBCommandStreamReceiverHw) (e : Nat) :
    ((ensureInitialized fam csr e).engineInfoTable e).tailRingBuffer =
      (csr.engineInfoTable e).tailRingBuffer := by
  unfold ensureInitialized
  split
  · simp [initializeEngine, setEngineInfo]
  · rfl

theorem aub_ensureInitialized_pLRCA (fam : GfxFamily) (csr : AUBCommandStreamReceiverHw) (e : Nat) :
    ((ensureInitialized fam csr e).engineInfoTable e).pLRCA ≠ none := by
  unfold ensureInitialized
  split
  · simp [initializeEngine, setEngineInfo]
  · rename_i h
    intro h'
    simp [h'] at h

theorem aub_ensureInitialized_size (fam : GfxFamily) (csr : AUBCommandStreamReceiverHw) (e : Nat)
    (h : (csr.engineInfoTable e).pLRCA ≠ none → (csr.engineInfoTable e).sizeRingBuffer = 16384) :
    ((ensureInitialized fam csr e).engineInfoTable e).sizeRingBuffer = 16384 := by
  unfold ensureInitialized
  split
  · simp [initializeEngine, setEngineInfo]
  · rename_i h'
    apply h
    intro h''
    simp [h''] at h'

theorem aub_ensureInitialized_ringStores (fam : GfxFamily) (csr : AUBCommandStreamReceiverHw)
    (e : Nat) : (ensureInitialized fam csr e).ringStores = csr.ringStores := by
  unfold ensureInitialized
  split
  · simp [initializeEngine, setEngineInfo]
  · rfl

theorem aub_ensureInitialized_of_initialized (fam : GfxFamily) (csr : AUBCommandStreamReceiverHw)
    (e : Nat) (h : (csr.engineInfoTable e).pLRCA ≠ none) : ensureInitialized fam csr e = csr := by
  unfold ensureInitialized
  cases hp : (csr.engineInfoTable e).pLRCA with
  | none => exact absurd hp h
  | some p => simp

theorem aub_initializeEngine_stream (fam : GfxFamily) (csr : AUBCommandStreamReceiverHw) (e : Nat) :
    (initializeEngine fam csr e).stream = csr.stream ++
      ( initGlobalMMIO fam ++ initEngineMMIO fam e ++
        [SinkEvent.addComment "ggtt: " (fam.gttRemapMap (fam.mallocHWSP e) 0x1000),
         SinkEvent.reserveAddressGGTT (fam.gttRemapMap (fam.mallocHWSP e) 0x1000) 0x1000
           (fam.ggttMap (fam.gttRemapMap (fam.mallocHWSP e) 0x1000) 0x1000),
         SinkEvent.writeMMIO (fam.mmioBase e + 0x2080) (fam.gttRemapMap (fam.mallocHWSP e) 0x1000),
         SinkEvent.addComment "ggtt: " (fam.gttRemapMap (fam.mallocRing e) 16384),
         SinkEvent.reserveAddressGGTT (fam.gttRemapMap (fam.mallocRing e) 16384) 16384
           (fam.ggttMap (fam.gttRemapMap (fam.mallocRing e) 16384) 16384),
         SinkEvent.addComment "ggtt: " (fam.gttRemapMap (fam.mallocLRCA e) (fam.sizeLRCA e)),
         SinkEvent.reserveAddressGGTT (fam.gttRemapMap (fam.mallocLRCA e) (fam.sizeLRCA e))
           (fam.sizeLRCA e)
           (fam.ggttMap (fam.gttRemapMap (fam.mallocLRCA e) (fam.sizeLRCA e)) (fam.sizeLRCA e)),
         SinkEvent.addMemoryWrite
           (fam.ggttMap (fam.gttRemapMap (fam.mallocLRCA e) (fam.sizeLRCA e)) (fam.sizeLRCA e))
           (MemSource.lrca 0 0 (fam.gttRemapMap (fam.mallocRing e) 16384) 0x3001)
           (fam.sizeLRCA e) AddressSpace.TraceNonlocal (DataTypeHint.aubHintLRCA e)]) := by
  simp [initializeEngine, setEngineInfo, toUInt32]

theorem aub_ensureInitialized_stream (fam : GfxFamily) (csr : AUBCommandStreamReceiverHw) (e : Nat) :
    ∃ pre, (ensureInitialized fam csr e).stream = csr.stream ++ pre ∧ ringDumps pre = [] ∧
      ((csr.engineInfoTable e).pLRCA ≠ none → pre = []) := by
  unfold ensureInitialized
  split
  · rename_i h
    refine ⟨_, aub_initializeEngine_stream fam csr e, ?_, ?_⟩
    · simp [ringDumps_append, ringDumps_initGlobalMMIO, ringDumps_initEngineMMIO]
      simp [ringDumps, SinkEvent.ringDump]
    · intro hne
      cases hp : (csr.engineInfoTable e).pLRCA with
      | none => exact absurd hp hne
      | some p => simp [hp] at h
  · exact ⟨[], by simp, rfl, fun _ => rfl⟩


theorem aub_ringDumps_writeBatchBuffer (fam : GfxFamily) (bb : BatchBuffer) :
    ringDumps (writeBatchBuffer fam bb) = [] := by
  simp [writeBatchBuffer, ringDumps, SinkEvent.ringDump]

theorem aub_wraps_eq (info : EngineInfo) :
    wraps info = decide (info.tailRingBuffer + 24 ≥ info.sizeRingBuffer) := by
  simp [wraps, sizeNeeded, alignUp, sizeofMI_BATCH_BUFFER_START, sizeofMI_LOAD_REGISTER_IMM,
    tailAlignment]

/-- What a flush leaves behind, in terms of the block its ring part produced. -/
theorem aub_flush_facts (fam : GfxFamily) (fuel : Nat) (csr : AUBCommandStreamReceiverHw)
    (bb : BatchBuffer) (e : Nat) (b : RingBlock)
    (h : appendCommands fam fuel (fam.mmioBase e) ((ensureInitialized fam csr e).engineInfoTable e)
      (bb.commandBufferAllocation.underlyingBuffer + bb.startOffset) = Except.ok b) :
    ∃ csr' pre, flush fam fuel csr bb e = Except.ok (0, csr') ∧
      ringDumps pre = [] ∧
      csr'.stream = csr.stream ++ (pre ++ (b.events ++
        (dumpRing fam (csr'.engineInfoTable e) b ++ (submitLRCA fam e (contextDescriptor fam
            (csr'.engineInfoTable e).ggttLRCA) ++ pollForCompletion fam e)))) ∧
      csr'.ringStores = csr.ringStores ++ b.cursor.stores.map (fun st => (e, st)) ∧
      (∀ e', e' ≠ e → csr'.engineInfoTable e' = csr.engineInfoTable e') ∧
      (csr'.engineInfoTable e).tailRingBuffer = b.cursor.tail ∧
      (csr'.engineInfoTable e).ringMemory = b.cursor.ringMemory ∧
      (csr'.engineInfoTable e).pLRCA ≠ none ∧
      (csr'.engineInfoTable e).sizeRingBuffer =
        ((ensureInitialized fam csr e).engineInfoTable e).sizeRingBuffer ∧
      (csr'.engineInfoTable e).ggttRingBuffer =
        ((ensureInitialized fam csr e).engineInfoTable e).ggttRingBuffer ∧
      (csr'.engineInfoTable e).ggttLRCA =
        ((ensureInitialized fam csr e).engineInfoTable e).ggttLRCA ∧
      csr'.taskCount = (ensureInitialized fam csr e).taskCount ∧
      csr'.memoryManager = (ensureInitialized fam csr e).memoryManager ∧
      ((csr.engineInfoTable e).pLRCA ≠ none → pre = writeBatchBuffer fam bb) := by
  obtain ⟨pre0, hpre0, hd0, hnil⟩ := aub_ensureInitialized_stream fam csr e
  refine ⟨_, pre0 ++ writeBatchBuffer fam bb, aub_flush_of_appendCommands fam fuel csr bb e b h,
    ?_, ?_, ?_, ?_, ?_, ?_, ?_, ?_, ?_, ?_, ?_, ?_, ?_⟩
  · simp [ringDumps_append, hd0, aub_ringDumps_writeBatchBuffer]
  · simp [hpre0, setEngineInfo]
  · simp [aub_ensureInitialized_ringStores]
  · intro e' he'
    simp [setEngineInfo, he', aub_ensureInitialized_other fam csr e e' he']
  · simp [setEngineInfo]
  · simp [setEngineInfo]
  · simpa [setEngineInfo] using aub_ensureInitialized_pLRCA fam csr e
  · simp [setEngineInfo]
  · simp [setEngineInfo]
  · simp [setEngineInfo]
  · rfl
  · rfl
  · intro hinit
    rw [hnil hinit, List.nil_append]

/-- The ring block of a flush from a ring of 16384 bytes whose tail is a multiple of 8 and at
most 16368. -/
theorem aub_appendCommands_step (fam : GfxFamily) (fuel mmioBase : Nat) (info : EngineInfo) (p : Nat)
    (hsize : info.sizeRingBuffer = 16384) (h8 : info.tailRingBuffer % 8 = 0)
    (hle : info.tailRingBuffer ≤ 16368) :
    ∃ b, appendCommands fam (fuel + 2) mmioBase info p = Except.ok b ∧
      b.previousTail = (if info.tailRingBuffer + 24 ≥ 16384 then 0 else info.tailRingBuffer) ∧
      b.previousTail < b.cursor.tail ∧ b.cursor.tail ≤ 16368 ∧ b.cursor.tail % 8 = 0 ∧
      16 ≤ b.cursor.tail ∧
      (∀ st ∈ b.cursor.stores, st.offset + st.size ≤ 16384) ∧
      (info.tailRingBuffer = 0 →
        b.cursor.tail = 24 ∧ b.events = [] ∧
        b.cursor.stores = [RingStore.loadRegisterImm 0 (mmioBase + 0x2244) 0x00010000,
          RingStore.batchBufferStart 12 (fam.ptrToPPGTT p)]) ∧
      (0 < info.tailRingBuffer → info.tailRingBuffer + 24 < 16384 →
        b.cursor.tail = info.tailRingBuffer + 16 ∧ b.events = [] ∧
        b.cursor.stores = [RingStore.batchBufferStart info.tailRingBuffer (fam.ptrToPPGTT p),
          RingStore.noop (info.tailRingBuffer + 12)]) ∧
      (info.tailRingBuffer + 24 ≥ 16384 →
        b.cursor.tail = 16 ∧
        b.events = [SinkEvent.addMemoryWrite
          (fam.ggttMap (info.ggttRingBuffer + info.tailRingBuffer) (16384 - info.tailRingBuffer))
          (MemSource.ring info.tailRingBuffer
            (readBytes ((RingStore.memset info.tailRingBuffer
              (16384 - info.tailRingBuffer)).apply fam info.ringMemory) info.tailRingBuffer
              (16384 - info.tailRingBuffer)))
          (16384 - info.tailRingBuffer)
          AddressSpace.TraceNonlocal DataTypeHint.TraceCommandBuffer] ∧
        b.cursor.stores = [RingStore.memset info.tailRingBuffer (16384 - info.tailRingBuffer),
          RingStore.batchBufferStart 0 (fam.ptrToPPGTT p), RingStore.noop 12] ∧
        b.cursor.ringMemory = (RingStore.noop 12).apply fam
          ((RingStore.batchBufferStart 0 (fam.ptrToPPGTT p)).apply fam
            ((RingStore.memset info.tailRingBuffer (16384 - info.tailRingBuffer)).apply fam
              info.ringMemory))) := by
  by_cases hw : wraps info = true
  · have hw' := hw
    rw [aub_wraps_eq, hsize] at hw'
    have hge : info.tailRingBuffer + 24 ≥ 16384 := by
      simp at hw'; omega
    have hsub : subSizeT info.sizeRingBuffer info.tailRingBuffer = 16384 - info.tailRingBuffer := by
      rw [hsize]
      unfold subSizeT toSizeT
      omega
    refine ⟨_, aub_appendCommands_wrap fam fuel mmioBase info p hw, ?_, ?_, ?_, ?_, ?_, ?_, ?_, ?_, ?_⟩
    · simp [hge]
    · simp
    · simp
    · simp
    · simp
    · intro st hmem
      simp only [List.mem_cons, List.mem_singleton, List.not_mem_nil, or_false] at hmem
      rcases hmem with h | h | h <;> subst h <;>
        simp [RingStore.offset, RingStore.size, hsub, sizeofMI_BATCH_BUFFER_START, sizeofMI_NOOP]
      omega
    · intro h0; omega
    · intro _ hlt; omega
    · intro _
      rw [hsub]
      exact ⟨rfl, rfl, rfl, rfl⟩
  · have hw0 : wraps info = false := by simpa using hw
    have hw' := hw0
    rw [aub_wraps_eq, hsize] at hw'
    have hlt : info.tailRingBuffer + 24 < 16384 := by
      simp at hw'; omega
    have hnge : ¬ info.tailRingBuffer + 24 ≥ 16384 := by omega
    by_cases h0 : info.tailRingBuffer = 0
    · refine ⟨_, aub_appendCommands_first fam (fuel + 1) mmioBase info p hw0 h0, ?_, ?_, ?_, ?_, ?_,
        ?_, ?_, ?_, ?_⟩
      · simp [h0]
      · simp
      · simp
      · simp
      · simp
      · intro st hmem
        simp only [List.mem_cons, List.mem_singleton, List.not_mem_nil, or_false] at hmem
        rcases hmem with h | h <;> subst h <;>
          simp [RingStore.offset, RingStore.size, sizeofMI_BATCH_BUFFER_START,
            sizeofMI_LOAD_REGISTER_IMM]
      · intro _
        exact ⟨rfl, rfl, rfl⟩
      · intro hpos; omega
      · intro hge; omega
    · refine ⟨_, aub_appendCommands_next fam fuel mmioBase info p hw0 h0 h8 (by omega), ?_, ?_, ?_,
        ?_, ?_, ?_, ?_, ?_, ?_⟩
      · simp [hnge]
      · simp
      · simp only; omega
      · simp only; omega
      · simp only; omega
      · intro st hmem
        simp only [List.mem_cons, List.mem_singleton, List.not_mem_nil, or_false] at hmem
        rcases hmem with h | h <;> subst h <;>
          simp [RingStore.offset, RingStore.size, sizeofMI_BATCH_BUFFER_START,
            sizeofMI_NOOP] <;> omega
      · intro h; exact absurd h h0
      · intro _ _
        exact ⟨rfl, rfl, rfl⟩
      · intro hge; omega

/-- One flush from an engine entry that is fresh or ready: the call returns, and the receiver it
leaves behind is described by the block `b` of its ring part. -/
theorem aub_flush_step (fam : GfxFamily) (fuel : Nat) (csr : AUBCommandStreamReceiverHw)
    (bb : BatchBuffer) (e : Nat)
    (hinv : (csr.engineInfoTable e).Fresh ∨ (csr.engineInfoTable e).Ready) :
    ∃ csr' b pre, flush fam (fuel + 2) csr bb e = Except.ok (0, csr') ∧
      ringDumps pre = [] ∧
      csr'.stream = csr.stream ++ (pre ++ (b.events ++
        (dumpRing fam (csr'.engineInfoTable e) b ++ (submitLRCA fam e (contextDescriptor fam
            (csr'.engineInfoTable e).ggttLRCA) ++ pollForCompletion fam e)))) ∧
      csr'.ringStores = csr.ringStores ++ b.cursor.stores.map (fun st => (e, st)) ∧
      (∀ e', e' ≠ e → csr'.engineInfoTable e' = csr.engineInfoTable e') ∧
      (csr'.engineInfoTable e).Ready ∧
      (csr'.engineInfoTable e).tailRingBuffer = b.cursor.tail ∧
      (csr'.engineInfoTable e).ringMemory = b.cursor.ringMemory ∧
      b.previousTail = (if (csr.engineInfoTable e).tailRingBuffer + 24 ≥ 16384 then 0
        else (csr.engineInfoTable e).tailRingBuffer) ∧
      b.previousTail < b.cursor.tail ∧
      (∀ st ∈ b.cursor.stores, st.offset + st.size ≤ 16384) ∧
      ((csr.engineInfoTable e).tailRingBuffer = 0 →
        b.cursor.tail = 24 ∧ b.events = [] ∧
        b.cursor.stores = [RingStore.loadRegisterImm 0 (fam.mmioBase e + 0x2244) 0x00010000,
          RingStore.batchBufferStart 12
            (fam.ptrToPPGTT (bb.commandBufferAllocation.underlyingBuffer + bb.startOffset))]) ∧
      (0 < (csr.engineInfoTable e).tailRingBuffer →
        (csr.engineInfoTable e).tailRingBuffer + 24 < 16384 →
        b.cursor.tail = (csr.engineInfoTable e).tailRingBuffer + 16 ∧ b.events = [] ∧
        b.cursor.stores = [RingStore.batchBufferStart (csr.engineInfoTable e).tailRingBuffer
            (fam.ptrToPPGTT (bb.commandBufferAllocation.underlyingBuffer + bb.startOffset)),
          RingStore.noop ((csr.engineInfoTable e).tailRingBuffer + 12)]) ∧
      ((csr.engineInfoTable e).tailRingBuffer + 24 ≥ 16384 →
        b.cursor.tail = 16 ∧
        b.events = [SinkEvent.addMemoryWrite
          (fam.ggttMap ((csr'.engineInfoTable e).ggttRingBuffer +
            (csr.engineInfoTable e).tailRingBuffer) (16384 - (csr.engineInfoTable e).tailRingBuffer))
          (MemSource.ring (csr.engineInfoTable e).tailRingBuffer
            (readBytes ((RingStore.memset (csr.engineInfoTable e).tailRingBuffer
              (16384 - (csr.engineInfoTable e).tailRingBuffer)).apply fam
                (csr.engineInfoTable e).ringMemory) (csr.engineInfoTable e).tailRingBuffer
              (16384 - (csr.engineInfoTable e).tailRingBuffer)))
          (16384 - (csr.engineInfoTable e).tailRingBuffer)
          AddressSpace.TraceNonlocal DataTypeHint.TraceCommandBuffer] ∧
        b.cursor.stores = [RingStore.memset (csr.engineInfoTable e).tailRingBuffer
            (16384 - (csr.engineInfoTable e).tailRingBuffer),
          RingStore.batchBufferStart 0
            (fam.ptrToPPGTT (bb.commandBufferAllocation.underlyingBuffer + bb.startOffset)),
          RingStore.noop 12] ∧
        b.cursor.ringMemory = (RingStore.noop 12).apply fam
          ((RingStore.batchBufferStart 0
            (fam.ptrToPPGTT (bb.commandBufferAllocation.underlyingBuffer + bb.startOffset))).apply
            fam ((RingStore.memset (csr.engineInfoTable e).tailRingBuffer
              (16384 - (csr.engineInfoTable e).tailRingBuffer)).apply fam
              (csr.engineInfoTable e).ringMemory))) := by
  have htail := aub_ensureInitialized_tail fam csr e
  have hsize : ((ensureInitialized fam csr e).engineInfoTable e).sizeRingBuffer = 16384 := by
    apply aub_ensureInitialized_size
    intro hne
    rcases hinv with hf | hr
    · exact absurd hf.1 hne
    · exact hr.2.1
  have hbound : (csr.engineInfoTable e).tailRingBuffer ≤ 16368 ∧
      (csr.engineInfoTable e).tailRingBuffer % 8 = 0 := by
    rcases hinv with hf | hr
    · rw [hf.2]; omega
    · exact ⟨hr.2.2.2.2, hr.2.2.1⟩
  obtain ⟨b, hb, hb1, hb2, hb3, hb4, hb5, hb6, hb7, hb8, hb9⟩ :=
    aub_appendCommands_step fam fuel (fam.mmioBase e)
    ((ensureInitialized fam csr e).engineInfoTable e)
    (bb.commandBufferAllocation.underlyingBuffer + bb.startOffset) hsize
    (by rw [htail]; exact hbound.2) (by rw [htail]; exact hbound.1)
  obtain ⟨csr', pre, hfl, hpre, hstream, hstores, hoth, ht, hm, hp, hsz, hgr, -, -, -⟩ :=
    aub_flush_facts fam (fuel + 2) csr bb e b hb
  rw [htail] at hb1 hb7 hb8 hb9
  refine ⟨csr', b, pre, hfl, hpre, hstream, hstores, hoth, ⟨hp, ?_, ?_, ?_, ?_⟩, ht, hm,
    hb1, hb2, hb6, hb7, hb8, ?_⟩
  · rw [hsz, hsize]
  · rw [ht]; exact hb4
  · rw [ht]; exact hb5
  · rw [ht]; exact hb3
  · intro hge
    have hready : (csr.engineInfoTable e).pLRCA ≠ none := by
      rcases hinv with hf | hr
      · have := hf.2; omega
      · exact hr.1
    have hsame := aub_ensureInitialized_of_initialized fam csr e hready
    obtain ⟨h1, h2, h3, h4⟩ := hb9 hge
    rw [hgr]
    rw [hsame] at h2 h4 ⊢
    exact ⟨h1, h2, h3, h4⟩

/-- Every run from a receiver whose engines are fresh or ready returns, and leaves every engine
fresh or ready; an engine is ready afterwards exactly if it was ready before or was flushed. -/
theorem aub_run_inv (fam : GfxFamily) (fuel : Nat) :
    ∀ (calls : List FlushCall) (csr : AUBCommandStreamReceiverHw),
      (∀ e, (csr.engineInfoTable e).Fresh ∨ (csr.engineInfoTable e).Ready) →
      (∀ p ∈ csr.ringStores, p.2.offset + p.2.size ≤ 16384) →
      ∃ csr', run fam (fuel + 2) csr calls = Except.ok csr' ∧
        (∀ e, (csr'.engineInfoTable e).Fresh ∨ (csr'.engineInfoTable e).Ready) ∧
        (∀ p ∈ csr'.ringStores, p.2.offset + p.2.size ≤ 16384) ∧
        (∀ e, (csr'.engineInfoTable e).Ready ↔
          ((csr.engineInfoTable e).Ready ∨ ∃ c ∈ calls, c.engineOrdinal = e))
  | [], csr, hinv, hst => ⟨csr, rfl, hinv, hst, by simp⟩
  | call :: rest, csr, hinv, hst => by
    obtain ⟨csr1, b, pre, hfl, -, -, hstores, hoth, hready, -, -, -, -, hbst, -⟩ :=
      aub_flush_step fam fuel csr call.batchBuffer call.engineOrdinal (hinv call.engineOrdinal)
    have hinv1 : ∀ e, (csr1.engineInfoTable e).Fresh ∨ (csr1.engineInfoTable e).Ready := by
      intro e
      by_cases he : e = call.engineOrdinal
      · subst he; exact Or.inr hready
      · rw [hoth e he]; exact hinv e
    have hst1 : ∀ p ∈ csr1.ringStores, p.2.offset + p.2.size ≤ 16384 := by
      intro p hp
      rw [hstores, List.mem_append] at hp
      rcases hp with hp | hp
      · exact hst p hp
      · obtain ⟨st, hmem, rfl⟩ := List.mem_map.mp hp
        exact hbst st hmem
    obtain ⟨csr2, hrun, hinv2, hst2, hiff⟩ := aub_run_inv fam fuel rest csr1 hinv1 hst1
    refine ⟨csr2, ?_, hinv2, hst2, ?_⟩
    · simp only [run, hfl]
      exact hrun
    · intro e
      rw [hiff e]
      by_cases he : e = call.engineOrdinal
      · subst he
        simp [hready]
      · rw [hoth e he]
        constructor
        · rintro (h | ⟨c, hc, rfl⟩)
          · exact Or.inl h
          · exact Or.inr ⟨c, List.mem_cons_of_mem _ hc, rfl⟩
        · rintro (h | ⟨c, hc, rfl⟩)
          · exact Or.inl h
          · rcases List.mem_cons.mp hc with rfl | hc
            · exact absurd rfl he
            · exact Or.inr ⟨c, hc, rfl⟩


end AubLemmas

/-! ## Lemmas on the TBX receiver -/

section TbxLemmas
open TbxCommandStreamReceiverHw

theorem tbx_ensureInitialized_other (fam : GfxFamily) (csr : TbxCommandStreamReceiverHw) (e e' : Nat)
    (h : e' ≠ e) :
    (ensureInitialized fam csr e).engineInfoTable e' = csr.engineInfoTable e' := by
  unfold ensureInitialized
  split
  · simp [initializeEngine, setEngineInfo, h]
  · rfl

theorem tbx_ensureInitialized_tail (fam : GfxFamily) (csr : TbxCommandStreamReceiverHw) (e : Nat) :
    ((ensureInitialized fam csr e).engineInfoTable e).tailRCS =
      (csr.engineInfoTable e).tailRCS := by
  unfold ensureInitialized
  split
  · simp [initializeEngine, setEngineInfo]
  · rfl

theorem tbx_ensureInitialized_pLRCA (fam : GfxFamily) (csr : TbxCommandStreamReceiverHw) (e : Nat) :
    ((ensureInitialized fam csr e).engineInfoTable e).pLRCA ≠ none := by
  unfold ensureInitialized
  split
  · simp [initializeEngine, setEngineInfo]
  · rename_i h
    intro h'
    simp [h'] at h

theorem tbx_ensureInitialized_size (fam : GfxFamily) (csr : TbxCommandStreamReceiverHw) (e : Nat)
    (h : (csr.engineInfoTable e).pLRCA ≠ none → (csr.engineInfoTable e).sizeRCS = 16384) :
    ((ensureInitialized fam csr e).engineInfoTable e).sizeRCS = 16384 := by
  unfold ensureInitialized
  split
  · simp [initializeEngine, setEngineInfo]
  · rename_i h'
    apply h
    intro h''
    simp [h''] at h'

theorem tbx_ensureInitialized_ringStores (fam : GfxFamily) (csr : TbxCommandStreamReceiverHw)
    (e : Nat) : (ensureInitialized fam csr e).ringStores = csr.ringStores := by
  unfold ensureInitialized
  split
  · simp [initializeEngine, setEngineInfo]
  · rfl

theorem tbx_ensureInitialized_of_initialized (fam : GfxFamily) (csr : TbxCommandStreamReceiverHw)
    (e : Nat) (h : (csr.engineInfoTable e).pLRCA ≠ none) : ensureInitialized fam csr e = csr := by
  unfold ensureInitialized
  cases hp : (csr.engineInfoTable e).pLRCA with
  | none => exact absurd hp h
  | some p => simp

theorem tbx_initializeEngine_stream (fam : GfxFamily) (csr : TbxCommandStreamReceiverHw) (e : Nat) :
    (initializeEngine fam csr e).stream = csr.stream ++
      ( initGlobalMMIO fam ++ initEngineMMIO fam e ++
        [SinkEvent.reserveAddressGGTT (fam.gttRemapMap (fam.mallocHWSP e) 0x1000) 0x1000
           (fam.ggttMap (fam.gttRemapMap (fam.mallocHWSP e) 0x1000) 0x1000),
         SinkEvent.writeMMIO (fam.mmioBase e + 0x2080) (fam.gttRemapMap (fam.mallocHWSP e) 0x1000),
         SinkEvent.reserveAddressGGTT (fam.gttRemapMap (fam.mallocRing e) 16384) 16384
           (fam.ggttMap (fam.gttRemapMap (fam.mallocRing e) 16384) 16384),
         SinkEvent.reserveAddressGGTT (fam.gttRemapMap (fam.mallocLRCA e) (fam.sizeLRCA e))
           (fam.sizeLRCA e)
           (fam.ggttMap (fam.gttRemapMap (fam.mallocLRCA e) (fam.sizeLRCA e)) (fam.sizeLRCA e)),
         SinkEvent.addMemoryWrite
           (fam.ggttMap (fam.gttRemapMap (fam.mallocLRCA e) (fam.sizeLRCA e)) (fam.sizeLRCA e))
           (MemSource.lrca 0 0 (fam.gttRemapMap (fam.mallocRing e) 16384) 0x3001)
           (fam.sizeLRCA e) AddressSpace.TraceNonlocal (DataTypeHint.aubHintLRCA e)]) := by
  simp [initializeEngine, setEngineInfo, toUInt32]

theorem tbx_ensureInitialized_stream (fam : GfxFamily) (csr : TbxCommandStreamReceiverHw) (e : Nat) :
    ∃ pre, (ensureInitialized fam csr e).stream = csr.stream ++ pre ∧ ringDumps pre = [] ∧
      ((csr.engineInfoTable e).pLRCA ≠ none → pre = []) := by
  unfold ensureInitialized
  split
  · rename_i h
    refine ⟨_, tbx_initializeEngine_stream fam csr e, ?_, ?_⟩
    · simp [ringDumps_append, ringDumps_initGlobalMMIO, ringDumps_initEngineMMIO]
      simp [ringDumps, SinkEvent.ringDump]
    · intro hne
      cases hp : (csr.engineInfoTable e).pLRCA with
      | none => exact absurd hp hne
      | some p => simp [hp] at h
  · exact ⟨[], by simp, rfl, fun _ => rfl⟩

theorem tbx_ringDumps_writeBatchBuffer (fam : GfxFamily) (bb : BatchBuffer) :
    ringDumps (writeBatchBuffer fam bb) = [] := by
  simp [writeBatchBuffer, ringDumps, SinkEvent.ringDump]

theorem tbx_wraps_eq (info : EngineInfo) :
    wraps info = decide (info.tailRCS + 28 ≥ info.sizeRCS) := by
  simp [wraps, sizeNeeded, sizeofMI_BATCH_BUFFER_START, sizeofMI_LOAD_REGISTER_IMM, sizeofMI_NOOP]

/-- The block left by the wraparound branch. -/
theorem tbx_appendCommands_wrap (fam : GfxFamily) (mmioBase : Nat) (engineInfo : EngineInfo)
    (p : Nat) (h : wraps engineInfo = true) :
    appendCommands fam mmioBase engineInfo p =
      { previousTail := 0
        cursor :=
          { pTail := 16, tail := 16
            ringMemory := (RingStore.noop 12).apply fam
              ((RingStore.batchBufferStart 0 (fam.ptrToPPGTT p)).apply fam
                ((RingStore.memset engineInfo.tailRCS
                  (subSizeT engineInfo.sizeRCS engineInfo.tailRCS)).apply fam
                    engineInfo.ringMemory))
            stores := [RingStore.memset engineInfo.tailRCS
                  (subSizeT engineInfo.sizeRCS engineInfo.tailRCS),
                RingStore.batchBufferStart 0 (fam.ptrToPPGTT p), RingStore.noop 12] }
        events := [SinkEvent.addMemoryWrite
          (fam.ggttMap (engineInfo.ggttRCS + engineInfo.tailRCS)
            (subSizeT engineInfo.sizeRCS engineInfo.tailRCS))
          (MemSource.ring engineInfo.tailRCS
            (readBytes ((RingStore.memset engineInfo.tailRCS
                  (subSizeT engineInfo.sizeRCS engineInfo.tailRCS)).apply fam
                    engineInfo.ringMemory) engineInfo.tailRCS
              (subSizeT engineInfo.sizeRCS engineInfo.tailRCS)))
          (subSizeT engineInfo.sizeRCS engineInfo.tailRCS)
          AddressSpace.TraceNonlocal DataTypeHint.TraceCommandBuffer] } := by
  simp [appendCommands, beginRing, h, RingCursor.write, RingCursor.advance,
    RingCursor.computeTail, toUInt32, sizeofMI_BATCH_BUFFER_START, sizeofMI_NOOP]

/-- The block left by the first submission. -/
theorem tbx_appendCommands_first (fam : GfxFamily) (mmioBase : Nat) (engineInfo : EngineInfo)
    (p : Nat) (h : wraps engineInfo = false) (h0 : engineInfo.tailRCS = 0) :
    appendCommands fam mmioBase engineInfo p =
      { previousTail := 0
        cursor :=
          { pTail := 28, tail := 28
            ringMemory := (RingStore.noop 24).apply fam
              ((RingStore.batchBufferStart 12 (fam.ptrToPPGTT p)).apply fam
                ((RingStore.loadRegisterImm 0 (mmioBase + 0x2244) 0x00010000).apply fam
                    engineInfo.ringMemory))
            stores := [RingStore.loadRegisterImm 0 (mmioBase + 0x2244) 0x00010000,
                RingStore.batchBufferStart 12 (fam.ptrToPPGTT p), RingStore.noop 24] }
        events := [] } := by
  simp [appendCommands, beginRing, h, h0, RingCursor.write, RingCursor.advance,
    RingCursor.computeTail, toUInt32, sizeofMI_BATCH_BUFFER_START, sizeofMI_NOOP,
    sizeofMI_LOAD_REGISTER_IMM]

/-- The block left by a later submission that does not wrap. -/
theorem tbx_appendCommands_next (fam : GfxFamily) (mmioBase : Nat) (engineInfo : EngineInfo)
    (p : Nat) (h : wraps engineInfo = false) (h0 : engineInfo.tailRCS ≠ 0)
    (hlt : engineInfo.tailRCS + 16 < 2 ^ 32) :
    appendCommands fam mmioBase engineInfo p =
      { previousTail := engineInfo.tailRCS
        cursor :=
          { pTail := engineInfo.tailRCS + 16, tail := engineInfo.tailRCS + 16
            ringMemory := (RingStore.noop (engineInfo.tailRCS + 12)).apply fam
              ((RingStore.batchBufferStart engineInfo.tailRCS (fam.ptrToPPGTT p)).apply fam
                    engineInfo.ringMemory)
            stores := [RingStore.batchBufferStart engineInfo.tailRCS (fam.ptrToPPGTT p),
                RingStore.noop (engineInfo.tailRCS + 12)] }
        events := [] } := by
  have e2 : (engineInfo.tailRCS + (12 + 4)) % 4294967296 = engineInfo.tailRCS + 16 := by
    omega
  simp [appendCommands, beginRing, h, h0, RingCursor.write, RingCursor.advance,
    RingCursor.computeTail, toUInt32, sizeofMI_BATCH_BUFFER_START, sizeofMI_NOOP,
    e2, Nat.add_assoc]

/-- What a flush leaves behind, in terms of the block its ring part produced. -/
theorem tbx_flush_facts (fam : GfxFamily) (csr : TbxCommandStreamReceiverHw)
    (bb : BatchBuffer) (e : Nat) (b : RingBlock)
    (h : appendCommands fam (fam.mmioBase e) ((ensureInitialized fam csr e).engineInfoTable e)
      (bb.commandBufferAllocation.underlyingBuffer + bb.startOffset) = b) :
    ∃ csr' pre, flush fam csr bb e = (0, csr') ∧
      ringDumps pre = [] ∧
      csr'.stream = csr.stream ++ (pre ++ (b.events ++
        (dumpRing fam (csr'.engineInfoTable e) b ++ (submitLRCA fam e (contextDescriptor fam
            (csr'.engineInfoTable e).ggttLRCA) ++ pollForCompletion fam e)))) ∧
      csr'.ringStores = csr.ringStores ++ b.cursor.stores.map (fun st => (e, st)) ∧
      (∀ e', e' ≠ e → csr'.engineInfoTable e' = csr.engineInfoTable e') ∧
      (csr'.engineInfoTable e).tailRCS = b.cursor.tail ∧
      (csr'.engineInfoTable e).ringMemory = b.cursor.ringMemory ∧
      (csr'.engineInfoTable e).pLRCA ≠ none ∧
      (csr'.engineInfoTable e).sizeRCS =
        ((ensureInitialized fam csr e).engineInfoTable e).sizeRCS ∧
      (csr'.engineInfoTable e).ggttRCS =
        ((ensureInitialized fam csr e).engineInfoTable e).ggttRCS ∧
      (csr'.engineInfoTable e).ggttLRCA =
        ((ensureInitialized fam csr e).engineInfoTable e).ggttLRCA ∧
      csr'.taskCount = (ensureInitialized fam csr e).taskCount ∧
      csr'.memoryManager = (ensureInitialized fam csr e).memoryManager ∧
      ((csr.engineInfoTable e).pLRCA ≠ none → pre = writeBatchBuffer fam bb) := by
  subst h
  obtain ⟨pre0, hpre0, hd0, hnil⟩ := tbx_ensureInitialized_stream fam csr e
  refine ⟨_, pre0 ++ writeBatchBuffer fam bb, rfl, ?_, ?_, ?_, ?_, ?_, ?_, ?_, ?_, ?_, ?_, ?_, ?_,
    ?_⟩
  · simp [ringDumps_append, hd0, tbx_ringDumps_writeBatchBuffer]
  · simp [flush, hpre0, setEngineInfo]
  · simp [flush, tbx_ensureInitialized_ringStores]
  · intro e' he'
    simp [flush, setEngineInfo, he', tbx_ensureInitialized_other fam csr e e' he']
  · simp [flush, setEngineInfo]
  · simp [flush, setEngineInfo]
  · simpa [flush, setEngineInfo] using tbx_ensureInitialized_pLRCA fam csr e
  · simp [flush, setEngineInfo]
  · simp [flush, setEngineInfo]
  · simp [flush, setEngineInfo]
  · rfl
  · rfl
  · intro hinit
    rw [hnil hinit, List.nil_append]

/-- The ring block of a flush from a ring of 16384 bytes whose tail is a multiple of 4 and at
most 16368. -/
theorem tbx_appendCommands_step (fam : GfxFamily) (mmioBase : Nat) (info : EngineInfo) (p : Nat)
    (hsize : info.sizeRCS = 16384) (h4 : info.tailRCS % 4 = 0) (hle : info.tailRCS ≤ 16368) :
    ∃ b, appendCommands fam mmioBase info p = b ∧
      b.previousTail = (if info.tailRCS + 28 ≥ 16384 then 0 else info.tailRCS) ∧
      b.previousTail < b.cursor.tail ∧ b.cursor.tail ≤ 16368 ∧ b.cursor.tail % 4 = 0 ∧
      16 ≤ b.cursor.tail ∧
      (∀ st ∈ b.cursor.stores, st.offset + st.size ≤ 16384) ∧
      (info.tailRCS = 0 →
        b.cursor.tail = 28 ∧ b.events = [] ∧
        b.cursor.stores = [RingStore.loadRegisterImm 0 (mmioBase + 0x2244) 0x00010000,
          RingStore.batchBufferStart 12 (fam.ptrToPPGTT p), RingStore.noop 24]) ∧
      (0 < info.tailRCS → info.tailRCS + 28 < 16384 →
        b.cursor.tail = info.tailRCS + 16 ∧ b.events = [] ∧
        b.cursor.stores = [RingStore.batchBufferStart info.tailRCS (fam.ptrToPPGTT p),
          RingStore.noop (info.tailRCS + 12)]) ∧
      (info.tailRCS + 28 ≥ 16384 →
        b.cursor.tail = 16 ∧
        b.events = [SinkEvent.addMemoryWrite
          (fam.ggttMap (info.ggttRCS + info.tailRCS) (16384 - info.tailRCS))
          (MemSource.ring info.tailRCS
            (readBytes ((RingStore.memset info.tailRCS
              (16384 - info.tailRCS)).apply fam info.ringMemory) info.tailRCS
              (16384 - info.tailRCS)))
          (16384 - info.tailRCS)
          AddressSpace.TraceNonlocal DataTypeHint.TraceCommandBuffer] ∧
        b.cursor.stores = [RingStore.memset info.tailRCS (16384 - info.tailRCS),
          RingStore.batchBufferStart 0 (fam.ptrToPPGTT p), RingStore.noop 12] ∧
        b.cursor.ringMemory = (RingStore.noop 12).apply fam
          ((RingStore.batchBufferStart 0 (fam.ptrToPPGTT p)).apply fam
            ((RingStore.memset info.tailRCS (16384 - info.tailRCS)).apply fam
              info.ringMemory))) := by
  by_cases hw : wraps info = true
  · have hw' := hw
    rw [tbx_wraps_eq, hsize] at hw'
    have hge : info.tailRCS + 28 ≥ 16384 := by
      simp at hw'; omega
    have hsub : subSizeT info.sizeRCS info.tailRCS = 16384 - info.tailRCS := by
      rw [hsize]
      unfold subSizeT toSizeT
      omega
    refine ⟨_, tbx_appendCommands_wrap fam mmioBase info p hw, ?_, ?_, ?_, ?_, ?_, ?_, ?_, ?_, ?_⟩
    · simp [hge]
    · simp
    · simp
    · simp
    · simp
    · intro st hmem
      simp only [List.mem_cons, List.mem_singleton, List.not_mem_nil, or_false] at hmem
      rcases hmem with h | h | h <;> subst h <;>
        simp [RingStore.offset, RingStore.size, hsub, sizeofMI_BATCH_BUFFER_START, sizeofMI_NOOP]
      omega
    · intro h0; omega
    · intro _ hlt; omega
    · intro _
      rw [hsub]
      exact ⟨rfl, rfl, rfl, rfl⟩
  · have hw0 : wraps info = false := by simpa using hw
    have hw' := hw0
    rw [tbx_wraps_eq, hsize] at hw'
    have hlt : info.tailRCS + 28 < 16384 := by
      simp at hw'; omega
    have hnge : ¬ info.tailRCS + 28 ≥ 16384 := by omega
    by_cases h0 : info.tailRCS = 0
    · refine ⟨_, tbx_appendCommands_first fam mmioBase info p hw0 h0, ?_, ?_, ?_, ?_, ?_,
        ?_, ?_, ?_, ?_⟩
      · simp [h0]
      · simp
      · simp
      · simp
      · simp
      · intro st hmem
        simp only [List.mem_cons, List.mem_singleton, List.not_mem_nil, or_false] at hmem
        rcases hmem with h | h | h <;> subst h <;>
          simp [RingStore.offset, RingStore.size, sizeofMI_BATCH_BUFFER_START,
            sizeofMI_LOAD_REGISTER_IMM, sizeofMI_NOOP]
      · intro _
        exact ⟨rfl, rfl, rfl⟩
      · intro hpos; omega
      · intro hge; omega
    · refine ⟨_, tbx_appendCommands_next fam mmioBase info p hw0 h0 (by omega), ?_, ?_, ?_,
        ?_, ?_, ?_, ?_, ?_, ?_⟩
      · simp [hnge]
      · simp
      · simp only; omega
      · simp only; omega
      · simp only; omega
      · intro st hmem
        simp only [List.mem_cons, List.mem_singleton, List.not_mem_nil, or_false] at hmem
        rcases hmem with h | h <;> subst h <;>
          simp [RingStore.offset, RingStore.size, sizeofMI_BATCH_BUFFER_START,
            sizeofMI_NOOP] <;> omega
      · intro h; exact absurd h h0
      · intro _ _
        exact ⟨rfl, rfl, rfl⟩
      · intro hge; omega

/-- One flush from an engine entry that is fresh or ready: the receiver it leaves behind is
described by the block `b` of its ring part. -/
theorem tbx_flush_step (fam : GfxFamily) (csr : TbxCommandStreamReceiverHw)
    (bb : BatchBuffer) (e : Nat)
    (hinv : (csr.engineInfoTable e).Fresh ∨ (csr.engineInfoTable e).Ready) :
    ∃ csr' b pre, flush fam csr bb e = (0, csr') ∧
      ringDumps pre = [] ∧
      csr'.stream = csr.stream ++ (pre ++ (b.events ++
        (dumpRing fam (csr'.engineInfoTable e) b ++ (submitLRCA fam e (contextDescriptor fam
            (csr'.engineInfoTable e).ggttLRCA) ++ pollForCompletion fam e)))) ∧
      csr'.ringStores = csr.ringStores ++ b.cursor.stores.map (fun st => (e, st)) ∧
      (∀ e', e' ≠ e → csr'.engineInfoTable e' = csr.engineInfoTable e') ∧
      (csr'.engineInfoTable e).Ready ∧
      (csr'.engineInfoTable e).tailRCS = b.cursor.tail ∧
      (csr'.engineInfoTable e).ringMemory = b.cursor.ringMemory ∧
      b.previousTail = (if (csr.engineInfoTable e).tailRCS + 28 ≥ 16384 then 0
        else (csr.engineInfoTable e).tailRCS) ∧
      b.previousTail < b.cursor.tail ∧
      (∀ st ∈ b.cursor.stores, st.offset + st.size ≤ 16384) ∧
      ((csr.engineInfoTable e).tailRCS = 0 →
        b.cursor.tail = 28 ∧ b.events = [] ∧
        b.cursor.stores = [RingStore.loadRegisterImm 0 (fam.mmioBase e + 0x2244) 0x00010000,
          RingStore.batchBufferStart 12
            (fam.ptrToPPGTT (bb.commandBufferAllocation.underlyingBuffer + bb.startOffset)),
          RingStore.noop 24]) ∧
      (0 < (csr.engineInfoTable e).tailRCS →
        (csr.engineInfoTable e).tailRCS + 28 < 16384 →
        b.cursor.tail = (csr.engineInfoTable e).tailRCS + 16 ∧ b.events = [] ∧
        b.cursor.stores = [RingStore.batchBufferStart (csr.engineInfoTable e).tailRCS
            (fam.ptrToPPGTT (bb.commandBufferAllocation.underlyingBuffer + bb.startOffset)),
          RingStore.noop ((csr.engineInfoTable e).tailRCS + 12)]) ∧
      ((csr.engineInfoTable e).tailRCS + 28 ≥ 16384 →
        b.cursor.tail = 16 ∧
        b.events = [SinkEvent.addMemoryWrite
          (fam.ggttMap ((csr'.engineInfoTable e).ggttRCS +
            (csr.engineInfoTable e).tailRCS) (16384 - (csr.engineInfoTable e).tailRCS))
          (MemSource.ring (csr.engineInfoTable e).tailRCS
            (readBytes ((RingStore.memset (csr.engineInfoTable e).tailRCS
              (16384 - (csr.engineInfoTable e).tailRCS)).apply fam
                (csr.engineInfoTable e).ringMemory) (csr.engineInfoTable e).tailRCS
              (16384 - (csr.engineInfoTable e).tailRCS)))
          (16384 - (csr.engineInfoTable e).tailRCS)
          AddressSpace.TraceNonlocal DataTypeHint.TraceCommandBuffer] ∧
        b.cursor.stores = [RingStore.memset (csr.engineInfoTable e).tailRCS
            (16384 - (csr.engineInfoTable e).tailRCS),
          RingStore.batchBufferStart 0
            (fam.ptrToPPGTT (bb.commandBufferAllocation.underlyingBuffer + bb.startOffset)),
          RingStore.noop 12] ∧
        b.cursor.ringMemory = (RingStore.noop 12).apply fam
          ((RingStore.batchBufferStart 0
            (fam.ptrToPPGTT (bb.commandBufferAllocation.underlyingBuffer + bb.startOffset))).apply
            fam ((RingStore.memset (csr.engineInfoTable e).tailRCS
              (16384 - (csr.engineInfoTable e).tailRCS)).apply fam
              (csr.engineInfoTable e).ringMemory))) := by
  have htail := tbx_ensureInitialized_tail fam csr e
  have hsize : ((ensureInitialized fam csr e).engineInfoTable e).sizeRCS = 16384 := by
    apply tbx_ensureInitialized_size
    intro hne
    rcases hinv with hf | hr
    · exact absurd hf.1 hne
    · exact hr.2.1
  have hbound : (csr.engineInfoTable e).tailRCS ≤ 16368 ∧
      (csr.engineInfoTable e).tailRCS % 4 = 0 := by
    rcases hinv with hf | hr
    · rw [hf.2]; omega
    · exact ⟨hr.2.2.2.2, hr.2.2.1⟩
  obtain ⟨b, hb, hb1, hb2, hb3, hb4, hb5, hb6, hb7, hb8, hb9⟩ :=
    tbx_appendCommands_step fam (fam.mmioBase e)
    ((ensureInitialized fam csr e).engineInfoTable e)
    (bb.commandBufferAllocation.underlyingBuffer + bb.startOffset) hsize
    (by rw [htail]; exact hbound.2) (by rw [htail]; exact hbound.1)
  obtain ⟨csr', pre, hfl, hpre, hstream, hstores, hoth, ht, hm, hp, hsz, hgr, -, -, -⟩ :=
    tbx_flush_facts fam csr bb e b hb
  rw [htail] at hb1 hb7 hb8 hb9
  refine ⟨csr', b, pre, hfl, hpre, hstream, hstores, hoth, ⟨hp, ?_, ?_, ?_, ?_⟩, ht, hm,
    hb1, hb2, hb6, hb7, hb8, ?_⟩
  · rw [hsz, hsize]
  · rw [ht]; exact hb4
  · rw [ht]; exact hb5
  · rw [ht]; exact hb3
  · intro hge
    have hready : (csr.engineInfoTable e).pLRCA ≠ none := by
      rcases hinv with hf | hr
      · have := hf.2; omega
      · exact hr.1
    have hsame := tbx_ensureInitialized_of_initialized fam csr e hready
    obtain ⟨h1, h2, h3, h4⟩ := hb9 hge
    rw [hgr]
    rw [hsame] at h2 h4 ⊢
    exact ⟨h1, h2, h3, h4⟩

/-- Every run from a receiver whose engines are fresh or ready leaves every engine fresh or
ready; an engine is ready afterwards exactly if it was ready before or was flushed. -/
theorem tbx_run_inv (fam : GfxFamily) :
    ∀ (calls : List FlushCall) (csr : TbxCommandStreamReceiverHw),
      (∀ e, (csr.engineInfoTable e).Fresh ∨ (csr.engineInfoTable e).Ready) →
      (∀ p ∈ csr.ringStores, p.2.offset + p.2.size ≤ 16384) →
        (∀ e, ((run fam csr calls).engineInfoTable e).Fresh ∨
          ((run fam csr calls).engineInfoTable e).Ready) ∧
        (∀ p ∈ (run fam csr calls).ringStores, p.2.offset + p.2.size ≤ 16384) ∧
        (∀ e, ((run fam csr calls).engineInfoTable e).Ready ↔
          ((csr.engineInfoTable e).Ready ∨ ∃ c ∈ calls, c.engineOrdinal = e))
  | [], csr, hinv, hst => ⟨hinv, hst, by simp [run]⟩
  | call :: rest, csr, hinv, hst => by
    obtain ⟨csr1, b, pre, hfl, -, -, hstores, hoth, hready, -, -, -, -, hbst, -⟩ :=
      tbx_flush_step fam csr call.batchBuffer call.engineOrdinal (hinv call.engineOrdinal)
    have hinv1 : ∀ e, (csr1.engineInfoTable e).Fresh ∨ (csr1.engineInfoTable e).Ready := by
      intro e
      by_cases he : e = call.engineOrdinal
      · subst he; exact Or.inr hready
      · rw [hoth e he]; exact hinv e
    have hst1 : ∀ p ∈ csr1.ringStores, p.2.offset + p.2.size ≤ 16384 := by
      intro p hp
      rw [hstores, List.mem_append] at hp
      rcases hp with hp | hp
      · exact hst p hp
      · obtain ⟨st, hmem, rfl⟩ := List.mem_map.mp hp
        exact hbst st hmem
    obtain ⟨hinv2, hst2, hiff⟩ := tbx_run_inv fam rest csr1 hinv1 hst1
    have hrun : run fam csr (call :: rest) = run fam csr1 rest := by
      simp only [run, hfl]
    rw [hrun]
    refine ⟨hinv2, hst2, ?_⟩
    intro e
    rw [hiff e]
    by_cases he : e = call.engineOrdinal
    · subst he
      simp [hready]
    · rw [hoth e he]
      constructor
      · rintro (h | ⟨c, hc, rfl⟩)
        · exact Or.inl h
        · exact Or.inr ⟨c, List.mem_cons_of_mem _ hc, rfl⟩
      · rintro (h | ⟨c, hc, rfl⟩)
        · exact Or.inl h
        · rcases List.mem_cons.mp hc with rfl | hc
          · exact absurd rfl he
          · exact Or.inr ⟨c, hc, rfl⟩

end TbxLemmas

/-! ## The stream around the ring dump of a flush -/

theorem aub_construct_fresh (e : Nat) :
    (AUBCommandStreamReceiverHw.construct.engineInfoTable e).Fresh := ⟨rfl, rfl⟩

theorem tbx_construct_fresh (e : Nat) :
    (TbxCommandStreamReceiverHw.construct.engineInfoTable e).Fresh := ⟨rfl, rfl⟩

/-- The stream of an AUB flush around the dump of its new ring commands, in terms of the block
its ring part produced. -/
theorem aub_flush_dump_of_block (fam : GfxFamily) (fuel : Nat) (csr : AUBCommandStreamReceiverHw)
    (bb : BatchBuffer) (e : Nat) (b : RingBlock)
    (hb : AUBCommandStreamReceiverHw.appendCommands fam fuel (fam.mmioBase e)
      ((AUBCommandStreamReceiverHw.ensureInitialized fam csr e).engineInfoTable e)
      (bb.commandBufferAllocation.underlyingBuffer + bb.startOffset) = Except.ok b)
    (hle : b.previousTail ≤ b.cursor.tail) (h32 : b.cursor.tail < 2 ^ 32) :
    ∃ csr' pre post,
      AUBCommandStreamReceiverHw.flush fam fuel csr bb e = Except.ok (0, csr') ∧
      (csr'.engineInfoTable e).tailRingBuffer = b.cursor.tail ∧
      (csr'.engineInfoTable e).ringMemory = b.cursor.ringMemory ∧
      csr'.ringStores = csr.ringStores ++ b.cursor.stores.map (fun st => (e, st)) ∧
      csr'.stream = csr.stream ++ pre ++
        [SinkEvent.addMemoryWrite
          (fam.ggttMap ((csr'.engineInfoTable e).ggttRingBuffer + b.previousTail)
            (b.cursor.tail - b.previousTail))
          (MemSource.ring b.previousTail
            (readBytes (csr'.engineInfoTable e).ringMemory b.previousTail
              (b.cursor.tail - b.previousTail)))
          (b.cursor.tail - b.previousTail) AddressSpace.TraceNonlocal
          DataTypeHint.TraceCommandBuffer] ++ post ∧
      ringDumps post = [] ∧
      ringDumps pre = ringDumps b.events ∧
      (∃ pre0, ringDumps pre0 = [] ∧ pre = pre0 ++ b.events ++ [SinkEvent.addComment "ggtt: "
        ((csr'.engineInfoTable e).ggttRingBuffer + b.previousTail)] ∧
        ((csr.engineInfoTable e).pLRCA ≠ none →
          pre0 = AUBCommandStreamReceiverHw.writeBatchBuffer fam bb)) := by
  obtain ⟨csr', pre, hfl, hpre, hstream, hstores, -, ht, hm, -, -, -, -, -, -, hinit⟩ :=
    aub_flush_facts fam fuel csr bb e b hb
  have hsub := subUInt32_of_le _ _ hle h32
  refine ⟨csr', pre ++ b.events ++
      [SinkEvent.addComment "ggtt: " ((csr'.engineInfoTable e).ggttRingBuffer + b.previousTail)],
    [SinkEvent.addComment "ggtt: " ((csr'.engineInfoTable e).ggttLRCA + 0x101c),
      SinkEvent.addMemoryWrite (fam.ggttMap (csr'.engineInfoTable e).ggttLRCA 4 + 0x101c)
        (MemSource.tail b.cursor.tail) 4 AddressSpace.TraceNonlocal DataTypeHint.TraceNotype] ++
      (submitLRCA fam e (contextDescriptor fam (csr'.engineInfoTable e).ggttLRCA) ++
        pollForCompletion fam e),
    hfl, ht, hm, hstores, ?_, ?_, ?_, ⟨pre, hpre, rfl, hinit⟩⟩
  · rw [hstream, hm]
    simp [AUBCommandStreamReceiverHw.dumpRing, hsub]
  · rw [ringDumps_append, ringDumps_append, ringDumps_submitLRCA, ringDumps_pollForCompletion]
    simp [ringDumps, SinkEvent.ringDump]
  · rw [ringDumps_append, ringDumps_append, hpre]
    simp [ringDumps, SinkEvent.ringDump]

/-- The stream of a TBX flush around the dump of its new ring commands, in terms of the block
its ring part produced. -/
theorem tbx_flush_dump_of_block (fam : GfxFamily) (csr : TbxCommandStreamReceiverHw)
    (bb : BatchBuffer) (e : Nat) (b : RingBlock)
    (hb : TbxCommandStreamReceiverHw.appendCommands fam (fam.mmioBase e)
      ((TbxCommandStreamReceiverHw.ensureInitialized fam csr e).engineInfoTable e)
      (bb.commandBufferAllocation.underlyingBuffer + bb.startOffset) = b)
    (hle : b.previousTail ≤ b.cursor.tail) (h32 : b.cursor.tail < 2 ^ 32) :
    ∃ csr' pre post,
      TbxCommandStreamReceiverHw.flush fam csr bb e = (0, csr') ∧
      (csr'.engineInfoTable e).tailRCS = b.cursor.tail ∧
      (csr'.engineInfoTable e).ringMemory = b.cursor.ringMemory ∧
      csr'.ringStores = csr.ringStores ++ b.cursor.stores.map (fun st => (e, st)) ∧
      csr'.stream = csr.stream ++ pre ++
        [SinkEvent.addMemoryWrite
          (fam.ggttMap ((csr'.engineInfoTable e).ggttRCS + b.previousTail)
            (b.cursor.tail - b.previousTail))
          (MemSource.ring b.previousTail
            (readBytes (csr'.engineInfoTable e).ringMemory b.previousTail
              (b.cursor.tail - b.previousTail)))
          (b.cursor.tail - b.previousTail) AddressSpace.TraceNonlocal
          DataTypeHint.TraceCommandBuffer] ++ post ∧
      ringDumps post = [] ∧
      ringDumps pre = ringDumps b.events ∧
      (∃ pre0, ringDumps pre0 = [] ∧ pre = pre0 ++ b.events ∧
        ((csr.engineInfoTable e).pLRCA ≠ none →
          pre0 = TbxCommandStreamReceiverHw.writeBatchBuffer fam bb)) := by
  obtain ⟨csr', pre, hfl, hpre, hstream, hstores, -, ht, hm, -, -, -, -, -, -, hinit⟩ :=
    tbx_flush_facts fam csr bb e b hb
  have hsub := subUInt32_of_le _ _ hle h32
  refine ⟨csr', pre ++ b.events,
    [SinkEvent.addMemoryWrite (fam.ggttMap (csr'.engineInfoTable e).ggttLRCA 4 + 0x101c)
        (MemSource.tail b.cursor.tail) 4 AddressSpace.TraceNonlocal DataTypeHint.TraceNotype] ++
      (submitLRCA fam e (contextDescriptor fam (csr'.engineInfoTable e).ggttLRCA) ++
        pollForCompletion fam e),
    hfl, ht, hm, hstores, ?_, ?_, ?_, ⟨pre, hpre, rfl, hinit⟩⟩
  · rw [hstream, hm]
    simp [TbxCommandStreamReceiverHw.dumpRing, hsub]
  · rw [ringDumps_append, ringDumps_append, ringDumps_submitLRCA, ringDumps_pollForCompletion]
    simp [ringDumps, SinkEvent.ringDump]
  · rw [ringDumps_append, hpre]
    simp

/-- The ring dump of an AUB flush from a fresh or ready engine entry. -/
theorem aub_flush_dump (fam : GfxFamily) (fuel : Nat) (csr : AUBCommandStreamReceiverHw)
    (bb : BatchBuffer) (e : Nat)
    (hinv : (csr.engineInfoTable e).Fresh ∨ (csr.engineInfoTable e).Ready) :
    ∃ csr' pre post previousTail newTail,
      AUBCommandStreamReceiverHw.flush fam (fuel + 2) csr bb e = Except.ok (0, csr') ∧
      previousTail = (if (csr.engineInfoTable e).tailRingBuffer + 24 ≥ 16384 then 0
        else (csr.engineInfoTable e).tailRingBuffer) ∧
      newTail = (csr'.engineInfoTable e).tailRingBuffer ∧
      previousTail < newTail ∧
      csr'.stream = csr.stream ++ pre ++
        [SinkEvent.addMemoryWrite
          (fam.ggttMap ((csr'.engineInfoTable e).ggttRingBuffer + previousTail)
            (newTail - previousTail))
          (MemSource.ring previousTail
            (readBytes (csr'.engineInfoTable e).ringMemory previousTail (newTail - previousTail)))
          (newTail - previousTail) AddressSpace.TraceNonlocal DataTypeHint.TraceCommandBuffer] ++
        post ∧
      ringDumps post = [] ∧
      ringDumps pre = (if (csr.engineInfoTable e).tailRingBuffer + 24 ≥ 16384
        then [((csr.engineInfoTable e).tailRingBuffer,
          16384 - (csr.engineInfoTable e).tailRingBuffer)] else []) := by
  obtain ⟨csr', b, pre, hfl, hpre, hstream, -, -, hready, ht, hm, hprev, hlt, -, h0, h1, h2⟩ :=
    aub_flush_step fam fuel csr bb e hinv
  have hsub : subUInt32 b.cursor.tail b.previousTail = b.cursor.tail - b.previousTail := by
    apply subUInt32_of_le _ _ (Nat.le_of_lt hlt)
    have := hready.2.2.2.2
    rw [ht] at this
    omega
  refine ⟨csr', pre ++ b.events ++
      [SinkEvent.addComment "ggtt: " ((csr'.engineInfoTable e).ggttRingBuffer + b.previousTail)],
    [SinkEvent.addComment "ggtt: " ((csr'.engineInfoTable e).ggttLRCA + 0x101c),
      SinkEvent.addMemoryWrite (fam.ggttMap (csr'.engineInfoTable e).ggttLRCA 4 + 0x101c)
        (MemSource.tail b.cursor.tail) 4 AddressSpace.TraceNonlocal DataTypeHint.TraceNotype] ++
      (submitLRCA fam e (contextDescriptor fam (csr'.engineInfoTable e).ggttLRCA) ++
        pollForCompletion fam e),
    b.previousTail, b.cursor.tail, hfl, hprev, ht.symm, hlt, ?_, ?_, ?_⟩
  · rw [hstream, hm]
    simp [AUBCommandStreamReceiverHw.dumpRing, hsub]
  · rw [ringDumps_append, ringDumps_append, ringDumps_submitLRCA, ringDumps_pollForCompletion]
    simp [ringDumps, SinkEvent.ringDump]
  · rw [ringDumps_append, ringDumps_append, hpre]
    by_cases hge : (csr.engineInfoTable e).tailRingBuffer + 24 ≥ 16384
    · rw [if_pos hge, (h2 hge).2.1]
      simp [ringDumps, SinkEvent.ringDump]
    · rw [if_neg hge]
      have hev : b.events = [] := by
        by_cases hz : (csr.engineInfoTable e).tailRingBuffer = 0
        · exact (h0 hz).2.1
        · exact (h1 (Nat.pos_of_ne_zero hz) (by omega)).2.1
      rw [hev]
      simp [ringDumps, SinkEvent.ringDump]


/-- The ring dump of a TBX flush from a fresh or ready engine entry. -/
theorem tbx_flush_dump (fam : GfxFamily) (csr : TbxCommandStreamReceiverHw)
    (bb : BatchBuffer) (e : Nat)
    (hinv : (csr.engineInfoTable e).Fresh ∨ (csr.engineInfoTable e).Ready) :
    ∃ csr' pre post previousTail newTail,
      TbxCommandStreamReceiverHw.flush fam csr bb e = (0, csr') ∧
      previousTail = (if (csr.engineInfoTable e).tailRCS + 28 ≥ 16384 then 0
        else (csr.engineInfoTable e).tailRCS) ∧
      newTail = (csr'.engineInfoTable e).tailRCS ∧
      previousTail < newTail ∧
      csr'.stream = csr.stream ++ pre ++
        [SinkEvent.addMemoryWrite
          (fam.ggttMap ((csr'.engineInfoTable e).ggttRCS + previousTail)
            (newTail - previousTail))
          (MemSource.ring previousTail
            (readBytes (csr'.engineInfoTable e).ringMemory previousTail (newTail - previousTail)))
          (newTail - previousTail) AddressSpace.TraceNonlocal DataTypeHint.TraceCommandBuffer] ++
        post ∧
      ringDumps post = [] ∧
      ringDumps pre = (if (csr.engineInfoTable e).tailRCS + 28 ≥ 16384
        then [((csr.engineInfoTable e).tailRCS, 16384 - (csr.engineInfoTable e).tailRCS)]
        else []) := by
  obtain ⟨csr', b, pre, hfl, hpre, hstream, -, -, hready, ht, hm, hprev, hlt, -, h0, h1, h2⟩ :=
    tbx_flush_step fam csr bb e hinv
  have hsub : subUInt32 b.cursor.tail b.previousTail = b.cursor.tail - b.previousTail := by
    apply subUInt32_of_le _ _ (Nat.le_of_lt hlt)
    have := hready.2.2.2.2
    rw [ht] at this
    omega
  refine ⟨csr', pre ++ b.events,
    [SinkEvent.addMemoryWrite (fam.ggttMap (csr'.engineInfoTable e).ggttLRCA 4 + 0x101c)
        (MemSource.tail b.cursor.tail) 4 AddressSpace.TraceNonlocal DataTypeHint.TraceNotype] ++
      (submitLRCA fam e (contextDescriptor fam (csr'.engineInfoTable e).ggttLRCA) ++
        pollForCompletion fam e),
    b.previousTail, b.cursor.tail, hfl, hprev, ht.symm, hlt, ?_, ?_, ?_⟩
  · rw [hstream, hm]
    simp [TbxCommandStreamReceiverHw.dumpRing, hsub]
  · rw [ringDumps_append, ringDumps_append, ringDumps_submitLRCA, ringDumps_pollForCompletion]
    simp [ringDumps, SinkEvent.ringDump]
  · rw [ringDumps_append, hpre]
    by_cases hge : (csr.engineInfoTable e).tailRCS + 28 ≥ 16384
    · rw [if_pos hge, (h2 hge).2.1]
      simp [ringDumps, SinkEvent.ringDump]
    · rw [if_neg hge]
      have hev : b.events = [] := by
        by_cases hz : (csr.engineInfoTable e).tailRCS = 0
        · exact (h0 hz).2.1
        · exact (h1 (Nat.pos_of_ne_zero hz) (by omega)).2.1
      rw [hev]
      simp [ringDumps, SinkEvent.ringDump]

/-- C1: on the AUB receiver every sequence of flushes from a freshly constructed receiver
returns (given two iterations of budget for the padding loop), leaves the ring tail of every
engine a multiple of 8, and never fires the `UNRECOVERABLE_IF` alignment check, whatever the
budget. -/
theorem aub_tail_aligned_after_flushes (fam : GfxFamily) (fuel : Nat) (calls : List FlushCall) :
    (∃ csr, AUBCommandStreamReceiverHw.run fam (fuel + 2) AUBCommandStreamReceiverHw.construct
        calls = Except.ok csr ∧
      ∀ e, (csr.engineInfoTable e).tailRingBuffer % 8 = 0) ∧
    (∀ budget, AUBCommandStreamReceiverHw.run fam budget AUBCommandStreamReceiverHw.construct
        calls ≠ Except.error FlushError.unrecoverable) := by
  refine ⟨?_, fun budget => aub_run_ne_unrecoverable fam budget calls _⟩
  obtain ⟨csr, hrun, hinv, -, -⟩ := aub_run_inv fam fuel calls
    AUBCommandStreamReceiverHw.construct (fun e => Or.inl (aub_construct_fresh e))
    (by intro p hp; cases hp)
  refine ⟨csr, hrun, fun e => ?_⟩
  rcases hinv e with hf | hr
  · rw [hf.2]
  · exact hr.2.2.1

/-- C2: on both receivers, after every sequence of flushes from a freshly constructed receiver
the ring tail of every engine is below 16384, every engine that was flushed has a ring of
16384 bytes with its tail below that capacity, and every store made into a ring (zero fill,
LRI, BBS, NOOP) ends at or below offset 16384. -/
theorem ring_tail_and_stores_below_capacity (fam : GfxFamily) (fuel : Nat)
    (calls : List FlushCall) :
    (∃ csr, AUBCommandStreamReceiverHw.run fam (fuel + 2) AUBCommandStreamReceiverHw.construct
        calls = Except.ok csr ∧
      (∀ e, (csr.engineInfoTable e).tailRingBuffer < 16384) ∧
      (∀ c ∈ calls, (csr.engineInfoTable c.engineOrdinal).sizeRingBuffer = 16384 ∧
        (csr.engineInfoTable c.engineOrdinal).tailRingBuffer <
          (csr.engineInfoTable c.engineOrdinal).sizeRingBuffer) ∧
      (∀ p ∈ csr.ringStores, p.2.offset + p.2.size ≤ 16384)) ∧
    ((∀ e, ((TbxCommandStreamReceiverHw.run fam TbxCommandStreamReceiverHw.construct
        calls).engineInfoTable e).tailRCS < 16384) ∧
      (∀ c ∈ calls,
        ((TbxCommandStreamReceiverHw.run fam TbxCommandStreamReceiverHw.construct
          calls).engineInfoTable c.engineOrdinal).sizeRCS = 16384 ∧
        ((TbxCommandStreamReceiverHw.run fam TbxCommandStreamReceiverHw.construct
          calls).engineInfoTable c.engineOrdinal).tailRCS <
        ((TbxCommandStreamReceiverHw.run fam TbxCommandStreamReceiverHw.construct
          calls).engineInfoTable c.engineOrdinal).sizeRCS) ∧
      (∀ p ∈ (TbxCommandStreamReceiverHw.run fam TbxCommandStreamReceiverHw.construct
        calls).ringStores, p.2.offset + p.2.size ≤ 16384)) := by
  constructor
  · obtain ⟨csr, hrun, hinv, hst, hiff⟩ := aub_run_inv fam fuel calls
      AUBCommandStreamReceiverHw.construct (fun e => Or.inl (aub_construct_fresh e))
      (by intro p hp; cases hp)
    refine ⟨csr, hrun, fun e => ?_, fun c hc => ?_, hst⟩
    · rcases hinv e with hf | hr
      · rw [hf.2]; omega
      · have := hr.2.2.2.2; omega
    · have hr := (hiff c.engineOrdinal).mpr (Or.inr ⟨c, hc, rfl⟩)
      refine ⟨hr.2.1, ?_⟩
      rw [hr.2.1]
      have := hr.2.2.2.2; omega
  · obtain ⟨hinv, hst, hiff⟩ := tbx_run_inv fam calls
      TbxCommandStreamReceiverHw.construct (fun e => Or.inl (tbx_construct_fresh e))
      (by intro p hp; cases hp)
    refine ⟨fun e => ?_, fun c hc => ?_, hst⟩
    · rcases hinv e with hf | hr
      · rw [hf.2]; omega
      · have := hr.2.2.2.2; omega
    · have hr := (hiff c.engineOrdinal).mpr (Or.inr ⟨c, hc, rfl⟩)
      refine ⟨hr.2.1, ?_⟩
      rw [hr.2.1]
      have := hr.2.2.2.2; omega
/-- C3: a flush issued after any sequence of flushes from a freshly constructed receiver returns
and dumps its new ring commands with one command-buffer memory write that covers exactly the
ring offsets from `previousTail` to the new tail: its address is the ring's GGTT address plus
`previousTail`, its source is the ring at `previousTail`, its length is the new tail minus
`previousTail`, where `previousTail` is the tail before the flush, or 0 when the flush wrapped;
`previousTail` is below the new tail. The only other ring dump of the flush is the zero fill
of a wrap, which comes first. -/
theorem flush_dumps_exactly_the_new_commands (fam : GfxFamily) (fuel : Nat)
    (calls : List FlushCall) (bb : BatchBuffer) (e : Nat) :
    (∃ csr csr' pre post previousTail newTail,
      AUBCommandStreamReceiverHw.run fam (fuel + 2) AUBCommandStreamReceiverHw.construct calls =
        Except.ok csr ∧
      AUBCommandStreamReceiverHw.flush fam (fuel + 2) csr bb e = Except.ok (0, csr') ∧
      previousTail = (if (csr.engineInfoTable e).tailRingBuffer + 24 ≥ 16384 then 0
        else (csr.engineInfoTable e).tailRingBuffer) ∧
      newTail = (csr'.engineInfoTable e).tailRingBuffer ∧
      previousTail < newTail ∧
      csr'.stream = csr.stream ++ pre ++
        [SinkEvent.addMemoryWrite
          (fam.ggttMap ((csr'.engineInfoTable e).ggttRingBuffer + previousTail)
            (newTail - previousTail))
          (MemSource.ring previousTail
            (readBytes (csr'.engineInfoTable e).ringMemory previousTail (newTail - previousTail)))
          (newTail - previousTail) AddressSpace.TraceNonlocal DataTypeHint.TraceCommandBuffer] ++
        post ∧
      ringDumps post = [] ∧
      ringDumps pre = (if (csr.engineInfoTable e).tailRingBuffer + 24 ≥ 16384
        then [((csr.engineInfoTable e).tailRingBuffer,
          16384 - (csr.engineInfoTable e).tailRingBuffer)] else [])) ∧
    (∃ csr csr' pre post previousTail newTail,
      TbxCommandStreamReceiverHw.run fam TbxCommandStreamReceiverHw.construct calls = csr ∧
      TbxCommandStreamReceiverHw.flush fam csr bb e = (0, csr') ∧
      previousTail = (if (csr.engineInfoTable e).tailRCS + 28 ≥ 16384 then 0
        else (csr.engineInfoTable e).tailRCS) ∧
      newTail = (csr'.engineInfoTable e).tailRCS ∧
      previousTail < newTail ∧
      csr'.stream = csr.stream ++ pre ++
        [SinkEvent.addMemoryWrite
          (fam.ggttMap ((csr'.engineInfoTable e).ggttRCS + previousTail)
            (newTail - previousTail))
          (MemSource.ring previousTail
            (readBytes (csr'.engineInfoTable e).ringMemory previousTail (newTail - previousTail)))
          (newTail - previousTail) AddressSpace.TraceNonlocal DataTypeHint.TraceCommandBuffer] ++
        post ∧
      ringDumps post = [] ∧
      ringDumps pre = (if (csr.engineInfoTable e).tailRCS + 28 ≥ 16384
        then [((csr.engineInfoTable e).tailRCS, 16384 - (csr.engineInfoTable e).tailRCS)]
        else [])) := by
  constructor
  · obtain ⟨csr, hrun, hinv, -, -⟩ := aub_run_inv fam fuel calls
      AUBCommandStreamReceiverHw.construct (fun e => Or.inl (aub_construct_fresh e))
      (by intro p hp; cases hp)
    obtain ⟨csr', pre, post, previousTail, newTail, h⟩ :=
      aub_flush_dump fam fuel csr bb e (hinv e)
    exact ⟨csr, csr', pre, post, previousTail, newTail, hrun, h⟩
  · obtain ⟨hinv, -, -⟩ := tbx_run_inv fam calls
      TbxCommandStreamReceiverHw.construct (fun e => Or.inl (tbx_construct_fresh e))
      (by intro p hp; cases hp)
    obtain ⟨csr', pre, post, previousTail, newTail, h⟩ :=
      tbx_flush_dump fam _ bb e (hinv e)
    exact ⟨_, csr', pre, post, previousTail, newTail, rfl, h⟩

/-- C4: on both receivers, a flush that finds `tail + sizeNeeded >= capacity` (after the lazy
initialization, before the append) returns with the ring tail equal to the size of the commands
of this flush alone, one batch-buffer-start and one no-op, 16 bytes; it stores the zero fill
at the old tail, the batch-buffer-start at offset 0 and the no-op at offset 12, and no
load-register-immediate; and its dump of the new commands starts at ring offset 0 and is
16 bytes long. -/
theorem wrapping_flush_restarts_at_zero (fam : GfxFamily) (fuel : Nat)
    (csrA : AUBCommandStreamReceiverHw) (csrT : TbxCommandStreamReceiverHw)
    (bb : BatchBuffer) (e : Nat)
    (hA : ((AUBCommandStreamReceiverHw.ensureInitialized fam csrA e).engineInfoTable
        e).tailRingBuffer +
      AUBCommandStreamReceiverHw.sizeNeeded
        ((AUBCommandStreamReceiverHw.ensureInitialized fam csrA e).engineInfoTable e) ≥
      ((AUBCommandStreamReceiverHw.ensureInitialized fam csrA e).engineInfoTable e).sizeRingBuffer)
    (hT : ((TbxCommandStreamReceiverHw.ensureInitialized fam csrT e).engineInfoTable e).tailRCS +
      TbxCommandStreamReceiverHw.sizeNeeded
        ((TbxCommandStreamReceiverHw.ensureInitialized fam csrT e).engineInfoTable e) ≥
      ((TbxCommandStreamReceiverHw.ensureInitialized fam csrT e).engineInfoTable e).sizeRCS) :
    (∃ csr' pre post,
      AUBCommandStreamReceiverHw.flush fam (fuel + 2) csrA bb e = Except.ok (0, csr') ∧
      (csr'.engineInfoTable e).tailRingBuffer = sizeofMI_BATCH_BUFFER_START + sizeofMI_NOOP ∧
      (csr'.engineInfoTable e).tailRingBuffer = 16 ∧
      csr'.ringStores = csrA.ringStores ++
        [(e, RingStore.memset (csrA.engineInfoTable e).tailRingBuffer
            (subSizeT
              ((AUBCommandStreamReceiverHw.ensureInitialized fam csrA e).engineInfoTable
                e).sizeRingBuffer
              (csrA.engineInfoTable e).tailRingBuffer)),
          (e, RingStore.batchBufferStart 0
            (fam.ptrToPPGTT (bb.commandBufferAllocation.underlyingBuffer + bb.startOffset))),
          (e, RingStore.noop 12)] ∧
      csr'.stream = csrA.stream ++ pre ++
        [SinkEvent.addMemoryWrite
          (fam.ggttMap ((csr'.engineInfoTable e).ggttRingBuffer + 0) 16)
          (MemSource.ring 0 (readBytes (csr'.engineInfoTable e).ringMemory 0 16)) 16
          AddressSpace.TraceNonlocal DataTypeHint.TraceCommandBuffer] ++ post ∧
      ringDumps post = []) ∧
    (∃ csr' pre post,
      TbxCommandStreamReceiverHw.flush fam csrT bb e = (0, csr') ∧
      (csr'.engineInfoTable e).tailRCS = sizeofMI_BATCH_BUFFER_START + sizeofMI_NOOP ∧
      (csr'.engineInfoTable e).tailRCS = 16 ∧
      csr'.ringStores = csrT.ringStores ++
        [(e, RingStore.memset (csrT.engineInfoTable e).tailRCS
            (subSizeT
              ((TbxCommandStreamReceiverHw.ensureInitialized fam csrT e).engineInfoTable e).sizeRCS
              (csrT.engineInfoTable e).tailRCS)),
          (e, RingStore.batchBufferStart 0
            (fam.ptrToPPGTT (bb.commandBufferAllocation.underlyingBuffer + bb.startOffset))),
          (e, RingStore.noop 12)] ∧
      csr'.stream = csrT.stream ++ pre ++
        [SinkEvent.addMemoryWrite
          (fam.ggttMap ((csr'.engineInfoTable e).ggttRCS + 0) 16)
          (MemSource.ring 0 (readBytes (csr'.engineInfoTable e).ringMemory 0 16)) 16
          AddressSpace.TraceNonlocal DataTypeHint.TraceCommandBuffer] ++ post ∧
      ringDumps post = []) := by
  constructor
  · have hw : AUBCommandStreamReceiverHw.wraps
        ((AUBCommandStreamReceiverHw.ensureInitialized fam csrA e).engineInfoTable e) = true := by
      simpa [AUBCommandStreamReceiverHw.wraps] using hA
    obtain ⟨csr', pre, post, hfl, ht, -, hstores, hstream, hpost, -, -⟩ :=
      aub_flush_dump_of_block fam (fuel + 2) csrA bb e _
        (aub_appendCommands_wrap fam fuel _ _ _ hw) (by simp) (by simp)
    simp only [aub_ensureInitialized_tail] at hstores
    exact ⟨csr', pre, post, hfl, ht, ht, hstores, hstream, hpost⟩
  · have hw : TbxCommandStreamReceiverHw.wraps
        ((TbxCommandStreamReceiverHw.ensureInitialized fam csrT e).engineInfoTable e) = true := by
      simpa [TbxCommandStreamReceiverHw.wraps] using hT
    obtain ⟨csr', pre, post, hfl, ht, -, hstores, hstream, hpost, -, -⟩ :=
      tbx_flush_dump_of_block fam csrT bb e _
        (tbx_appendCommands_wrap fam _ _ _ hw) (by simp) (by simp)
    simp only [tbx_ensureInitialized_tail] at hstores
    exact ⟨csr', pre, post, hfl, ht, ht, hstores, hstream, hpost⟩

/-- Witness of C4: engine 0 of the sample family with its tail at 16368 (AUB) and 16364
(TBX). -/
theorem wrapping_flush_restarts_at_zero_witness :
    (∃ csr' pre post,
      AUBCommandStreamReceiverHw.flush sampleFamily 2 (AUBCommandStreamReceiverHw.sampleAt 16368)
        sampleBatchBuffer 0 = Except.ok (0, csr') ∧
      (csr'.engineInfoTable 0).tailRingBuffer = sizeofMI_BATCH_BUFFER_START + sizeofMI_NOOP ∧
      (csr'.engineInfoTable 0).tailRingBuffer = 16 ∧
      csr'.ringStores = (AUBCommandStreamReceiverHw.sampleAt 16368).ringStores ++
        [(0, RingStore.memset ((AUBCommandStreamReceiverHw.sampleAt 16368).engineInfoTable
              0).tailRingBuffer
            (subSizeT
              ((AUBCommandStreamReceiverHw.ensureInitialized sampleFamily
                (AUBCommandStreamReceiverHw.sampleAt 16368) 0).engineInfoTable 0).sizeRingBuffer
              ((AUBCommandStreamReceiverHw.sampleAt 16368).engineInfoTable 0).tailRingBuffer)),
          (0, RingStore.batchBufferStart 0
            (sampleFamily.ptrToPPGTT
              (sampleBatchBuffer.commandBufferAllocation.underlyingBuffer +
                sampleBatchBuffer.startOffset))),
          (0, RingStore.noop 12)] ∧
      csr'.stream = (AUBCommandStreamReceiverHw.sampleAt 16368).stream ++ pre ++
        [SinkEvent.addMemoryWrite
          (sampleFamily.ggttMap ((csr'.engineInfoTable 0).ggttRingBuffer + 0) 16)
          (MemSource.ring 0 (readBytes (csr'.engineInfoTable 0).ringMemory 0 16)) 16
          AddressSpace.TraceNonlocal DataTypeHint.TraceCommandBuffer] ++ post ∧
      ringDumps post = []) ∧
    (∃ csr' pre post,
      TbxCommandStreamReceiverHw.flush sampleFamily (TbxCommandStreamReceiverHw.sampleAt 16364)
        sampleBatchBuffer 0 = (0, csr') ∧
      (csr'.engineInfoTable 0).tailRCS = sizeofMI_BATCH_BUFFER_START + sizeofMI_NOOP ∧
      (csr'.engineInfoTable 0).tailRCS = 16 ∧
      csr'.ringStores = (TbxCommandStreamReceiverHw.sampleAt 16364).ringStores ++
        [(0, RingStore.memset ((TbxCommandStreamReceiverHw.sampleAt 16364).engineInfoTable
              0).tailRCS
            (subSizeT
              ((TbxCommandStreamReceiverHw.ensureInitialized sampleFamily
                (TbxCommandStreamReceiverHw.sampleAt 16364) 0).engineInfoTable 0).sizeRCS
              ((TbxCommandStreamReceiverHw.sampleAt 16364).engineInfoTable 0).tailRCS)),
          (0, RingStore.batchBufferStart 0
            (sampleFamily.ptrToPPGTT
              (sampleBatchBuffer.commandBufferAllocation.underlyingBuffer +
                sampleBatchBuffer.startOffset))),
          (0, RingStore.noop 12)] ∧
      csr'.stream = (TbxCommandStreamReceiverHw.sampleAt 16364).stream ++ pre ++
        [SinkEvent.addMemoryWrite
          (sampleFamily.ggttMap ((csr'.engineInfoTable 0).ggttRCS + 0) 16)
          (MemSource.ring 0 (readBytes (csr'.engineInfoTable 0).ringMemory 0 16)) 16
          AddressSpace.TraceNonlocal DataTypeHint.TraceCommandBuffer] ++ post ∧
      ringDumps post = []) :=
  wrapping_flush_restarts_at_zero sampleFamily 0 (AUBCommandStreamReceiverHw.sampleAt 16368)
    (TbxCommandStreamReceiverHw.sampleAt 16364) sampleBatchBuffer 0 (by decide) (by decide)

/-- C5: on both receivers, when the space left in the ring of an initialized engine is 8 bytes
less than `sizeNeeded`, the flush takes the wraparound branch: it zero-fills the ring from
the old tail to the capacity (these bytes are still zero when the flush returns), writes
them, all zero, as one command-buffer memory write at the old tail's ring address right after
the batch buffer, before the dump of the new commands, which covers the 16 bytes at offset 0,
and stores the batch-buffer-start at ring offset 0. -/
theorem short_ring_space_wraps_and_zero_fills (fam : GfxFamily) (fuel : Nat)
    (csrA : AUBCommandStreamReceiverHw) (csrT : TbxCommandStreamReceiverHw)
    (bb : BatchBuffer) (e : Nat)
    (hA : (csrA.engineInfoTable e).pLRCA ≠ none ∧ (csrA.engineInfoTable e).sizeRingBuffer = 16384 ∧
      (csrA.engineInfoTable e).sizeRingBuffer - (csrA.engineInfoTable e).tailRingBuffer + 8 =
        AUBCommandStreamReceiverHw.sizeNeeded (csrA.engineInfoTable e))
    (hT : (csrT.engineInfoTable e).pLRCA ≠ none ∧ (csrT.engineInfoTable e).sizeRCS = 16384 ∧
      (csrT.engineInfoTable e).sizeRCS - (csrT.engineInfoTable e).tailRCS + 8 =
        TbxCommandStreamReceiverHw.sizeNeeded (csrT.engineInfoTable e)) :
    (∃ csr' post,
      AUBCommandStreamReceiverHw.flush fam (fuel + 2) csrA bb e = Except.ok (0, csr') ∧
      AUBCommandStreamReceiverHw.wraps (csrA.engineInfoTable e) = true ∧
      (∀ k, (csrA.engineInfoTable e).tailRingBuffer ≤ k → k < 16384 →
        (csr'.engineInfoTable e).ringMemory k = 0) ∧
      csr'.ringStores = csrA.ringStores ++
        [(e, RingStore.memset (csrA.engineInfoTable e).tailRingBuffer
            (16384 - (csrA.engineInfoTable e).tailRingBuffer)),
          (e, RingStore.batchBufferStart 0
            (fam.ptrToPPGTT (bb.commandBufferAllocation.underlyingBuffer + bb.startOffset))),
          (e, RingStore.noop 12)] ∧
      csr'.stream = csrA.stream ++ AUBCommandStreamReceiverHw.writeBatchBuffer fam bb ++
        [SinkEvent.addMemoryWrite
          (fam.ggttMap ((csrA.engineInfoTable e).ggttRingBuffer +
            (csrA.engineInfoTable e).tailRingBuffer)
            (16384 - (csrA.engineInfoTable e).tailRingBuffer))
          (MemSource.ring (csrA.engineInfoTable e).tailRingBuffer
            (List.replicate (16384 - (csrA.engineInfoTable e).tailRingBuffer) 0))
          (16384 - (csrA.engineInfoTable e).tailRingBuffer)
          AddressSpace.TraceNonlocal DataTypeHint.TraceCommandBuffer] ++ post ∧
      ringDumps post = [(0, 16)]) ∧
    (∃ csr' post,
      TbxCommandStreamReceiverHw.flush fam csrT bb e = (0, csr') ∧
      TbxCommandStreamReceiverHw.wraps (csrT.engineInfoTable e) = true ∧
      (∀ k, (csrT.engineInfoTable e).tailRCS ≤ k → k < 16384 →
        (csr'.engineInfoTable e).ringMemory k = 0) ∧
      csr'.ringStores = csrT.ringStores ++
        [(e, RingStore.memset (csrT.engineInfoTable e).tailRCS
            (16384 - (csrT.engineInfoTable e).tailRCS)),
          (e, RingStore.batchBufferStart 0
            (fam.ptrToPPGTT (bb.commandBufferAllocation.underlyingBuffer + bb.startOffset))),
          (e, RingStore.noop 12)] ∧
      csr'.stream = csrT.stream ++ TbxCommandStreamReceiverHw.writeBatchBuffer fam bb ++
        [SinkEvent.addMemoryWrite
          (fam.ggttMap ((csrT.engineInfoTable e).ggttRCS + (csrT.engineInfoTable e).tailRCS)
            (16384 - (csrT.engineInfoTable e).tailRCS))
          (MemSource.ring (csrT.engineInfoTable e).tailRCS
            (List.replicate (16384 - (csrT.engineInfoTable e).tailRCS) 0))
          (16384 - (csrT.engineInfoTable e).tailRCS)
          AddressSpace.TraceNonlocal DataTypeHint.TraceCommandBuffer] ++ post ∧
      ringDumps post = [(0, 16)]) := by
  constructor
  · obtain ⟨hinit, hsize, hrem⟩ := hA
    have hsn : AUBCommandStreamReceiverHw.sizeNeeded (csrA.engineInfoTable e) = 24 := by
      simp [AUBCommandStreamReceiverHw.sizeNeeded, alignUp, sizeofMI_BATCH_BUFFER_START,
        sizeofMI_LOAD_REGISTER_IMM, AUBCommandStreamReceiverHw.tailAlignment]
    rw [hsn, hsize] at hrem
    have ht : (csrA.engineInfoTable e).tailRingBuffer = 16368 := by omega
    have hsame := aub_ensureInitialized_of_initialized fam csrA e hinit
    have hw : AUBCommandStreamReceiverHw.wraps (csrA.engineInfoTable e) = true := by
      rw [aub_wraps_eq, hsize, ht]; decide
    have hsub : subSizeT 16384 (csrA.engineInfoTable e).tailRingBuffer =
        16384 - (csrA.engineInfoTable e).tailRingBuffer := by
      unfold subSizeT toSizeT; omega
    have hb := aub_appendCommands_wrap fam fuel (fam.mmioBase e) (csrA.engineInfoTable e)
      (bb.commandBufferAllocation.underlyingBuffer + bb.startOffset) hw
    rw [hsize, hsub, readBytes_memset] at hb
    obtain ⟨csr', pre, post, hfl, -, hm, hstores, hstream, hpost, -, pre0, -, hpre, hpre0⟩ :=
      aub_flush_dump_of_block fam (fuel + 2) csrA bb e _ (by rw [hsame]; exact hb) (by simp)
        (by simp)
    rw [hpre, hpre0 hinit] at hstream
    refine ⟨csr', ?post, hfl, hw, ?zero, hstores, ?stream, ?dumps⟩
    case stream =>
      rw [hstream]
      simp only [List.append_assoc, List.cons_append, List.nil_append]
      exact rfl
    case zero =>
      intro k hk hk'
      rw [hm]
      exact wrap_leaves_zero_fill fam _ _ _ k (by omega) hk hk'
    case dumps =>
      rw [ringDumps, List.filterMap_cons, List.filterMap_cons]
      simp only [SinkEvent.ringDump]
      rw [← ringDumps, hpost]
  · obtain ⟨hinit, hsize, hrem⟩ := hT
    have hsn : TbxCommandStreamReceiverHw.sizeNeeded (csrT.engineInfoTable e) = 28 := by
      simp [TbxCommandStreamReceiverHw.sizeNeeded, sizeofMI_BATCH_BUFFER_START,
        sizeofMI_LOAD_REGISTER_IMM, sizeofMI_NOOP]
    rw [hsn, hsize] at hrem
    have ht : (csrT.engineInfoTable e).tailRCS = 16364 := by omega
    have hsame := tbx_ensureInitialized_of_initialized fam csrT e hinit
    have hw : TbxCommandStreamReceiverHw.wraps (csrT.engineInfoTable e) = true := by
      rw [tbx_wraps_eq, hsize, ht]; decide
    have hsub : subSizeT 16384 (csrT.engineInfoTable e).tailRCS =
        16384 - (csrT.engineInfoTable e).tailRCS := by
      unfold subSizeT toSizeT; omega
    have hb := tbx_appendCommands_wrap fam (fam.mmioBase e) (csrT.engineInfoTable e)
      (bb.commandBufferAllocation.underlyingBuffer + bb.startOffset) hw
    rw [hsize, hsub, readBytes_memset] at hb
    obtain ⟨csr', pre, post, hfl, -, hm, hstores, hstream, hpost, -, pre0, -, hpre, hpre0⟩ :=
      tbx_flush_dump_of_block fam csrT bb e _ rfl (by rw [hsame, hb]; simp)
        (by rw [hsame, hb]; simp)
    rw [hsame, hb] at hm hstores hstream hpre
    rw [hpre, hpre0 hinit] at hstream
    refine ⟨csr', ?postT, hfl, hw, ?zeroT, hstores, ?streamT, ?dumpsT⟩
    case streamT =>
      rw [hstream]
      simp only [List.append_assoc, List.cons_append, List.nil_append]
      exact rfl
    case zeroT =>
      intro k hk hk'
      rw [hm]
      exact wrap_leaves_zero_fill fam _ _ _ k (by omega) hk hk'
    case dumpsT =>
      rw [ringDumps, List.filterMap_cons]
      simp only [SinkEvent.ringDump]
      rw [← ringDumps, hpost]

/-- Witness of C5: engine 0 of the sample family with its tail at 16368 (AUB, 16 bytes left)
and at 16364 (TBX, 20 bytes left). -/
theorem short_ring_space_wraps_and_zero_fills_witness :
    (∃ csr' post,
      AUBCommandStreamReceiverHw.flush sampleFamily 2 (AUBCommandStreamReceiverHw.sampleAt 16368)
        sampleBatchBuffer 0 = Except.ok (0, csr') ∧
      (∀ k, 16368 ≤ k → k < 16384 → (csr'.engineInfoTable 0).ringMemory k = 0) ∧
      csr'.stream = (AUBCommandStreamReceiverHw.sampleAt 16368).stream ++
        AUBCommandStreamReceiverHw.writeBatchBuffer sampleFamily sampleBatchBuffer ++
        [SinkEvent.addMemoryWrite (0x104000 + 16368) (MemSource.ring 16368 (List.replicate 16 0))
          16 AddressSpace.TraceNonlocal DataTypeHint.TraceCommandBuffer] ++ post ∧
      ringDumps post = [(0, 16)]) ∧
    (∃ csr' post,
      TbxCommandStreamReceiverHw.flush sampleFamily (TbxCommandStreamReceiverHw.sampleAt 16364)
        sampleBatchBuffer 0 = (0, csr') ∧
      (∀ k, 16364 ≤ k → k < 16384 → (csr'.engineInfoTable 0).ringMemory k = 0) ∧
      csr'.stream = (TbxCommandStreamReceiverHw.sampleAt 16364).stream ++
        TbxCommandStreamReceiverHw.writeBatchBuffer sampleFamily sampleBatchBuffer ++
        [SinkEvent.addMemoryWrite (0x104000 + 16364) (MemSource.ring 16364 (List.replicate 20 0))
          20 AddressSpace.TraceNonlocal DataTypeHint.TraceCommandBuffer] ++ post ∧
      ringDumps post = [(0, 16)]) := by
  obtain ⟨⟨csrA, postA, h1, -, h3, -, h5, h6⟩, ⟨csrT, postT, k1, -, k3, -, k5, k6⟩⟩ :=
    short_ring_space_wraps_and_zero_fills sampleFamily 0
      (AUBCommandStreamReceiverHw.sampleAt 16368) (TbxCommandStreamReceiverHw.sampleAt 16364)
      sampleBatchBuffer 0 ⟨by decide, by decide, by decide⟩ ⟨by decide, by decide, by decide⟩
  exact ⟨⟨csrA, postA, h1, h3, h5, h6⟩, ⟨csrT, postT, k1, k3, k5, k6⟩⟩

/-- Ranges that lie end to end from `a` to `b` are non-empty, ordered without overlap, lie
between `a` and `b`, and cover exactly the offsets from `a` up to `b`. -/
theorem contiguous_facts : ∀ (rs : List (Nat × Nat)) (a b : Nat), Contiguous a rs b →
    a ≤ b ∧ (∀ r ∈ rs, 0 < r.2) ∧ (∀ r ∈ rs, a ≤ r.1 ∧ r.1 + r.2 ≤ b) ∧
    rs.Pairwise (fun r s => r.1 + r.2 ≤ s.1) ∧
    (∀ k, (∃ r ∈ rs, r.1 ≤ k ∧ k < r.1 + r.2) ↔ (a ≤ k ∧ k < b))
  | [], a, b, h => by
    simp only [Contiguous] at h
    subst h
    refine ⟨le_refl _, by simp, by simp, List.Pairwise.nil, fun k => ?_⟩
    constructor
    · rintro ⟨r, hr, -⟩; cases hr
    · rintro ⟨h1, h2⟩; omega
  | r :: rest, a, b, h => by
    simp only [Contiguous] at h
    obtain ⟨h1, h2, h3⟩ := h
    obtain ⟨i1, i2, i3, i4, i5⟩ := contiguous_facts rest (r.1 + r.2) b h3
    refine ⟨by omega, ?_, ?_, ?_, ?_⟩
    · intro s hs
      rcases List.mem_cons.mp hs with rfl | hs
      · exact h2
      · exact i2 s hs
    · intro s hs
      rcases List.mem_cons.mp hs with rfl | hs
      · omega
      · have := i3 s hs; omega
    · refine List.Pairwise.cons ?_ i4
      intro s hs
      exact (i3 s hs).1
    · intro k
      constructor
      · rintro ⟨s, hs, hk1, hk2⟩
        rcases List.mem_cons.mp hs with rfl | hs
        · omega
        · have := i3 s hs; omega
      · rintro ⟨hk1, hk2⟩
        by_cases hk : k < r.1 + r.2
        · exact ⟨r, List.mem_cons_self _ _, by omega, hk⟩
        · obtain ⟨s, hs, hs1, hs2⟩ := (i5 k).mpr ⟨by omega, hk2⟩
          exact ⟨s, List.mem_cons_of_mem _ hs, hs1, hs2⟩

/-- A run of AUB flushes to one engine that never wraps dumps ring ranges that lie end to end
from the tail before the run to the tail after it, one per flush. -/
theorem aub_run_without_wrap (fam : GfxFamily) (fuel e : Nat) :
    ∀ (bbs : List BatchBuffer) (csr : AUBCommandStreamReceiverHw),
      ((csr.engineInfoTable e).Fresh ∨ (csr.engineInfoTable e).Ready) →
      AUBCommandStreamReceiverHw.runsWithoutWrap fam (fuel + 2) csr
        (bbs.map (fun bb => FlushCall.mk bb e)) = true →
      ∃ csr' evs, AUBCommandStreamReceiverHw.run fam (fuel + 2) csr
          (bbs.map (fun bb => FlushCall.mk bb e)) = Except.ok csr' ∧
        csr'.stream = csr.stream ++ evs ∧
        Contiguous (csr.engineInfoTable e).tailRingBuffer (ringDumps evs)
          (csr'.engineInfoTable e).tailRingBuffer ∧
        (ringDumps evs).length = bbs.length ∧
        (csr'.engineInfoTable e).tailRingBuffer ≤ 16368
  | [], csr, hinv, _ => by
    refine ⟨csr, [], rfl, by simp, ?_, rfl, ?_⟩
    · simp [ringDumps, Contiguous]
    · rcases hinv with hf | hr
      · rw [hf.2]; omega
      · exact hr.2.2.2.2
  | bb :: rest, csr, hinv, hrun => by
    simp only [List.map_cons, AUBCommandStreamReceiverHw.runsWithoutWrap, Bool.and_eq_true,
      Bool.not_eq_true'] at hrun
    obtain ⟨hw, hrest⟩ := hrun
    obtain ⟨csr1, -, -, hfl, -, -, -, -, hready, -⟩ := aub_flush_step fam fuel csr bb e hinv
    obtain ⟨csr1', pre, post, previousTail, newTail, hfl', hprev, hnew, hlt, hstream, hpost,
      hpre⟩ := aub_flush_dump fam fuel csr bb e hinv
    rw [hfl] at hfl'
    obtain rfl : csr1 = csr1' := by
      have := Except.ok.inj hfl'
      exact (Prod.mk.inj this).2
    have hsize : ((AUBCommandStreamReceiverHw.ensureInitialized fam csr e).engineInfoTable
        e).sizeRingBuffer = 16384 := by
      apply aub_ensureInitialized_size
      intro hne
      rcases hinv with hf | hr
      · exact absurd hf.1 hne
      · exact hr.2.1
    rw [aub_wraps_eq, aub_ensureInitialized_tail, hsize] at hw
    have hnw : ¬ (csr.engineInfoTable e).tailRingBuffer + 24 ≥ 16384 := by
      simp at hw; omega
    rw [if_neg hnw] at hprev hpre
    simp only [hfl] at hrest
    obtain ⟨csr2, evs, hrun2, hstream2, hcont, hlen, hle⟩ :=
      aub_run_without_wrap fam fuel e rest csr1 (Or.inr hready) hrest
    refine ⟨csr2, pre ++ [SinkEvent.addMemoryWrite
          (fam.ggttMap ((csr1.engineInfoTable e).ggttRingBuffer + previousTail)
            (newTail - previousTail))
          (MemSource.ring previousTail
            (readBytes (csr1.engineInfoTable e).ringMemory previousTail (newTail - previousTail)))
          (newTail - previousTail) AddressSpace.TraceNonlocal DataTypeHint.TraceCommandBuffer] ++
        post ++ evs, ?_, ?_, ?_, ?_, hle⟩
    · simp only [List.map_cons, AUBCommandStreamReceiverHw.run, hfl]
      exact hrun2
    · rw [hstream2, hstream]
      simp only [List.append_assoc]
    · rw [ringDumps_append, ringDumps_append, ringDumps_append, hpre, hpost, ringDumps_ringWrite]
      simp only [List.nil_append, List.append_nil, List.singleton_append, Contiguous]
      refine ⟨hprev, by omega, ?_⟩
      have : previousTail + (newTail - previousTail) = (csr1.engineInfoTable e).tailRingBuffer := by
        omega
      rw [this]
      exact hcont
    · rw [ringDumps_append, ringDumps_append, ringDumps_append, hpre, hpost, ringDumps_ringWrite]
      simp [hlen]

/-- A run of TBX flushes to one engine that never wraps dumps ring ranges that lie end to end
from the tail before the run to the tail after it, one per flush. -/
theorem tbx_run_without_wrap (fam : GfxFamily) (e : Nat) :
    ∀ (bbs : List BatchBuffer) (csr : TbxCommandStreamReceiverHw),
      ((csr.engineInfoTable e).Fresh ∨ (csr.engineInfoTable e).Ready) →
      TbxCommandStreamReceiverHw.runsWithoutWrap fam csr
        (bbs.map (fun bb => FlushCall.mk bb e)) = true →
      ∃ evs, (TbxCommandStreamReceiverHw.run fam csr
          (bbs.map (fun bb => FlushCall.mk bb e))).stream = csr.stream ++ evs ∧
        Contiguous (csr.engineInfoTable e).tailRCS (ringDumps evs)
          ((TbxCommandStreamReceiverHw.run fam csr
            (bbs.map (fun bb => FlushCall.mk bb e))).engineInfoTable e).tailRCS ∧
        (ringDumps evs).length = bbs.length ∧
        ((TbxCommandStreamReceiverHw.run fam csr
          (bbs.map (fun bb => FlushCall.mk bb e))).engineInfoTable e).tailRCS ≤ 16368
  | [], csr, hinv, _ => by
    refine ⟨[], by simp [TbxCommandStreamReceiverHw.run], ?_, rfl, ?_⟩
    · simp [ringDumps, Contiguous, TbxCommandStreamReceiverHw.run]
    · simp only [List.map_nil, TbxCommandStreamReceiverHw.run]
      rcases hinv with hf | hr
      · rw [hf.2]; omega
      · exact hr.2.2.2.2
  | bb :: rest, csr, hinv, hrun => by
    simp only [List.map_cons, TbxCommandStreamReceiverHw.runsWithoutWrap, Bool.and_eq_true,
      Bool.not_eq_true'] at hrun
    obtain ⟨hw, hrest⟩ := hrun
    obtain ⟨csr1, -, -, hfl, -, -, -, -, hready, -⟩ := tbx_flush_step fam csr bb e hinv
    obtain ⟨csr1', pre, post, previousTail, newTail, hfl', hprev, hnew, hlt, hstream, hpost,
      hpre⟩ := tbx_flush_dump fam csr bb e hinv
    rw [hfl] at hfl'
    obtain rfl : csr1 = csr1' := (Prod.mk.inj hfl').2
    have hsize : ((TbxCommandStreamReceiverHw.ensureInitialized fam csr e).engineInfoTable
        e).sizeRCS = 16384 := by
      apply tbx_ensureInitialized_size
      intro hne
      rcases hinv with hf | hr
      · exact absurd hf.1 hne
      · exact hr.2.1
    rw [tbx_wraps_eq, tbx_ensureInitialized_tail, hsize] at hw
    have hnw : ¬ (csr.engineInfoTable e).tailRCS + 28 ≥ 16384 := by
      simp at hw; omega
    rw [if_neg hnw] at hprev hpre
    simp only [hfl] at hrest
    obtain ⟨evs, hstream2, hcont, hlen, hle⟩ :=
      tbx_run_without_wrap fam e rest csr1 (Or.inr hready) hrest
    have hrun2 : TbxCommandStreamReceiverHw.run fam csr
        ((bb :: rest).map (fun bb => FlushCall.mk bb e)) =
        TbxCommandStreamReceiverHw.run fam csr1 (rest.map (fun bb => FlushCall.mk bb e)) := by
      simp only [List.map_cons, TbxCommandStreamReceiverHw.run, hfl]
    rw [hrun2]
    refine ⟨pre ++ [SinkEvent.addMemoryWrite
          (fam.ggttMap ((csr1.engineInfoTable e).ggttRCS + previousTail)
            (newTail - previousTail))
          (MemSource.ring previousTail
            (readBytes (csr1.engineInfoTable e).ringMemory previousTail (newTail - previousTail)))
          (newTail - previousTail) AddressSpace.TraceNonlocal DataTypeHint.TraceCommandBuffer] ++
        post ++ evs, ?_, ?_, ?_, hle⟩
    · rw [hstream2, hstream]
      simp only [List.append_assoc]
    · rw [ringDumps_append, ringDumps_append, ringDumps_append, hpre, hpost, ringDumps_ringWrite]
      simp only [List.nil_append, List.append_nil, List.singleton_append, Contiguous]
      refine ⟨hprev, by omega, ?_⟩
      have : previousTail + (newTail - previousTail) = (csr1.engineInfoTable e).tailRCS := by
        omega
      rw [this]
      exact hcont
    · rw [ringDumps_append, ringDumps_append, ringDumps_append, hpre, hpost, ringDumps_ringWrite]
      simp [hlen]

/-- C6: for every run of flushes to one engine of a freshly constructed receiver (ring capacity
16384) in which no flush wraps, on both receivers the run returns and the ring ranges dumped
are one per flush, non-empty, ordered without overlap, and lie end to end starting at 0 and
ending at the final tail, so that an offset is below the final tail exactly if it lies in one
of the ranges; the final tail is at most 16384. -/
theorem dumps_without_wrap_are_contiguous (fam : GfxFamily) (fuel e : Nat)
    (bbs : List BatchBuffer)
    (hA : AUBCommandStreamReceiverHw.runsWithoutWrap fam (fuel + 2)
      AUBCommandStreamReceiverHw.construct (bbs.map (fun bb => FlushCall.mk bb e)) = true)
    (hT : TbxCommandStreamReceiverHw.runsWithoutWrap fam
      TbxCommandStreamReceiverHw.construct (bbs.map (fun bb => FlushCall.mk bb e)) = true) :
    (∃ csr, AUBCommandStreamReceiverHw.run fam (fuel + 2) AUBCommandStreamReceiverHw.construct
        (bbs.map (fun bb => FlushCall.mk bb e)) = Except.ok csr ∧
      (ringDumps csr.stream).length = bbs.length ∧
      (∀ r ∈ ringDumps csr.stream, 0 < r.2) ∧
      (ringDumps csr.stream).Pairwise (fun r s => r.1 + r.2 ≤ s.1) ∧
      Contiguous 0 (ringDumps csr.stream) (csr.engineInfoTable e).tailRingBuffer ∧
      (∀ k, k < (csr.engineInfoTable e).tailRingBuffer ↔
        ∃ r ∈ ringDumps csr.stream, r.1 ≤ k ∧ k < r.1 + r.2) ∧
      (csr.engineInfoTable e).tailRingBuffer ≤ 16384) ∧
    (∃ csr, TbxCommandStreamReceiverHw.run fam TbxCommandStreamReceiverHw.construct
        (bbs.map (fun bb => FlushCall.mk bb e)) = csr ∧
      (ringDumps csr.stream).length = bbs.length ∧
      (∀ r ∈ ringDumps csr.stream, 0 < r.2) ∧
      (ringDumps csr.stream).Pairwise (fun r s => r.1 + r.2 ≤ s.1) ∧
      Contiguous 0 (ringDumps csr.stream) (csr.engineInfoTable e).tailRCS ∧
      (∀ k, k < (csr.engineInfoTable e).tailRCS ↔
        ∃ r ∈ ringDumps csr.stream, r.1 ≤ k ∧ k < r.1 + r.2) ∧
      (csr.engineInfoTable e).tailRCS ≤ 16384) := by
  constructor
  · obtain ⟨csr, evs, hrun, hstream, hcont, hlen, hle⟩ := aub_run_without_wrap fam fuel e bbs
      AUBCommandStreamReceiverHw.construct (Or.inl (aub_construct_fresh e)) hA
    have hs : csr.stream = evs := by
      rw [hstream]; rfl
    rw [← hs] at hcont hlen
    have h0 : (AUBCommandStreamReceiverHw.construct.engineInfoTable e).tailRingBuffer = 0 := rfl
    rw [h0] at hcont
    obtain ⟨-, i2, -, i4, i5⟩ := contiguous_facts _ _ _ hcont
    refine ⟨csr, hrun, hlen, i2, i4, hcont, fun k => ?_, by omega⟩
    rw [i5 k]
    simp
  · obtain ⟨evs, hstream, hcont, hlen, hle⟩ := tbx_run_without_wrap fam e bbs
      TbxCommandStreamReceiverHw.construct (Or.inl (tbx_construct_fresh e)) hT
    have hs : (TbxCommandStreamReceiverHw.run fam TbxCommandStreamReceiverHw.construct
        (bbs.map (fun bb => FlushCall.mk bb e))).stream = evs := by
      rw [hstream]; rfl
    rw [← hs] at hcont hlen
    have h0 : (TbxCommandStreamReceiverHw.construct.engineInfoTable e).tailRCS = 0 := rfl
    rw [h0] at hcont
    obtain ⟨-, i2, -, i4, i5⟩ := contiguous_facts _ _ _ hcont
    refine ⟨_, rfl, hlen, i2, i4, hcont, fun k => ?_, by omega⟩
    rw [i5 k]
    simp

/-- Witness of C6: three flushes of the sample batch buffer to engine 0 of the sample family.
On the AUB receiver they dump the ring ranges [0,24), [24,40) and [40,56); on the TBX receiver
[0,28), [28,44) and [44,60). -/
theorem dumps_without_wrap_are_contiguous_witness :
    (∃ csr, AUBCommandStreamReceiverHw.run sampleFamily 2 AUBCommandStreamReceiverHw.construct
        [FlushCall.mk sampleBatchBuffer 0, FlushCall.mk sampleBatchBuffer 0,
          FlushCall.mk sampleBatchBuffer 0] = Except.ok csr ∧
      ringDumps csr.stream = [(0, 24), (24, 16), (40, 16)] ∧
      Contiguous 0 (ringDumps csr.stream) (csr.engineInfoTable 0).tailRingBuffer ∧
      (csr.engineInfoTable 0).tailRingBuffer = 56) ∧
    (ringDumps (TbxCommandStreamReceiverHw.run sampleFamily TbxCommandStreamReceiverHw.construct
        [FlushCall.mk sampleBatchBuffer 0, FlushCall.mk sampleBatchBuffer 0,
          FlushCall.mk sampleBatchBuffer 0]).stream = [(0, 28), (28, 16), (44, 16)] ∧
      Contiguous 0 (ringDumps (TbxCommandStreamReceiverHw.run sampleFamily
        TbxCommandStreamReceiverHw.construct
        [FlushCall.mk sampleBatchBuffer 0, FlushCall.mk sampleBatchBuffer 0,
          FlushCall.mk sampleBatchBuffer 0]).stream) 60) := by
  obtain ⟨⟨csr, hrun, -, -, -, hcont, -, -⟩, ⟨csrT, hrunT, -, -, -, hcontT, -, -⟩⟩ :=
    dumps_without_wrap_are_contiguous sampleFamily 0 0
      [sampleBatchBuffer, sampleBatchBuffer, sampleBatchBuffer] (by decide) (by decide)
  subst hrunT
  refine ⟨⟨csr, hrun, ?_, hcont, ?_⟩, by decide, hcontT⟩
  · have h := Except.ok.inj hrun
    subst h
    decide
  · have h := Except.ok.inj hrun
    subst h
    decide

/-- The stores of an AUB flush from a fresh or ready engine entry contain a
load-register-immediate exactly if the tail is 0, and then the one of the first submission. -/
theorem aub_flush_lri (fam : GfxFamily) (fuel : Nat) (csr : AUBCommandStreamReceiverHw)
    (bb : BatchBuffer) (e : Nat)
    (hinv : (csr.engineInfoTable e).Fresh ∨ (csr.engineInfoTable e).Ready) :
    ∃ (csr' : AUBCommandStreamReceiverHw) (sts : List RingStore),
      AUBCommandStreamReceiverHw.flush fam (fuel + 2) csr bb e = Except.ok (0, csr') ∧
      csr'.ringStores = csr.ringStores ++ sts.map (fun st => (e, st)) ∧
      (RingStore.loadRegisterImm 0 (fam.mmioBase e + 0x2244) 0x00010000 ∈ sts ↔
        (csr.engineInfoTable e).tailRingBuffer = 0) ∧
      (∀ off r d, RingStore.loadRegisterImm off r d ∈ sts →
        off = 0 ∧ r = fam.mmioBase e + 0x2244 ∧ d = 0x00010000) ∧
      ((csr.engineInfoTable e).tailRingBuffer + 24 ≥ 16384 →
        ∀ off r d, RingStore.loadRegisterImm off r d ∉ sts) ∧
      (csr'.engineInfoTable e).tailRingBuffer ≠ 0 := by
  obtain ⟨csr', b, pre, hfl, -, -, hstores, -, hready, -, -, -, -, -, h0, h1, h2⟩ :=
    aub_flush_step fam fuel csr bb e hinv
  have hne : (csr'.engineInfoTable e).tailRingBuffer ≠ 0 := by
    have := hready.2.2.2.1; omega
  refine ⟨csr', b.cursor.stores, hfl, hstores, ?_, ?_, ?_, hne⟩
  · by_cases hz : (csr.engineInfoTable e).tailRingBuffer = 0
    · rw [(h0 hz).2.2]; simp [hz]
    · by_cases hw : (csr.engineInfoTable e).tailRingBuffer + 24 ≥ 16384
      · rw [(h2 hw).2.2.1]; simp [hz]
      · rw [(h1 (Nat.pos_of_ne_zero hz) (by omega)).2.2]; simp [hz]
  · intro off r d hmem
    by_cases hz : (csr.engineInfoTable e).tailRingBuffer = 0
    · rw [(h0 hz).2.2] at hmem; simpa using hmem
    · by_cases hw : (csr.engineInfoTable e).tailRingBuffer + 24 ≥ 16384
      · rw [(h2 hw).2.2.1] at hmem; simp at hmem
      · rw [(h1 (Nat.pos_of_ne_zero hz) (by omega)).2.2] at hmem; simp at hmem
  · intro hw off r d hmem
    rw [(h2 hw).2.2.1] at hmem; simp at hmem

/-- The stores of a TBX flush from a fresh or ready engine entry contain a
load-register-immediate exactly if the tail is 0, and then the one of the first submission. -/
theorem tbx_flush_lri (fam : GfxFamily) (csr : TbxCommandStreamReceiverHw)
    (bb : BatchBuffer) (e : Nat)
    (hinv : (csr.engineInfoTable e).Fresh ∨ (csr.engineInfoTable e).Ready) :
    ∃ (csr' : TbxCommandStreamReceiverHw) (sts : List RingStore),
      TbxCommandStreamReceiverHw.flush fam csr bb e = (0, csr') ∧
      csr'.ringStores = csr.ringStores ++ sts.map (fun st => (e, st)) ∧
      (RingStore.loadRegisterImm 0 (fam.mmioBase e + 0x2244) 0x00010000 ∈ sts ↔
        (csr.engineInfoTable e).tailRCS = 0) ∧
      (∀ off r d, RingStore.loadRegisterImm off r d ∈ sts →
        off = 0 ∧ r = fam.mmioBase e + 0x2244 ∧ d = 0x00010000) ∧
      ((csr.engineInfoTable e).tailRCS + 28 ≥ 16384 →
        ∀ off r d, RingStore.loadRegisterImm off r d ∉ sts) ∧
      (csr'.engineInfoTable e).tailRCS ≠ 0 := by
  obtain ⟨csr', b, pre, hfl, -, -, hstores, -, hready, -, -, -, -, -, h0, h1, h2⟩ :=
    tbx_flush_step fam csr bb e hinv
  have hne : (csr'.engineInfoTable e).tailRCS ≠ 0 := by
    have := hready.2.2.2.1; omega
  refine ⟨csr', b.cursor.stores, hfl, hstores, ?_, ?_, ?_, hne⟩
  · by_cases hz : (csr.engineInfoTable e).tailRCS = 0
    · rw [(h0 hz).2.2]; simp [hz]
    · by_cases hw : (csr.engineInfoTable e).tailRCS + 28 ≥ 16384
      · rw [(h2 hw).2.2.1]; simp [hz]
      · rw [(h1 (Nat.pos_of_ne_zero hz) (by omega)).2.2]; simp [hz]
  · intro off r d hmem
    by_cases hz : (csr.engineInfoTable e).tailRCS = 0
    · rw [(h0 hz).2.2] at hmem; simpa using hmem
    · by_cases hw : (csr.engineInfoTable e).tailRCS + 28 ≥ 16384
      · rw [(h2 hw).2.2.1] at hmem; simp at hmem
      · rw [(h1 (Nat.pos_of_ne_zero hz) (by omega)).2.2] at hmem; simp at hmem
  · intro hw off r d hmem
    rw [(h2 hw).2.2.1] at hmem; simp at hmem

/-- C7: on both receivers, a flush to engine `e` issued after any sequence of flushes from a
freshly constructed receiver stores a load-register-immediate into the ring exactly if no
earlier flush of the sequence went to `e`; the command is then at ring offset 0, for register
`mmioBase + 0x2244` with value `0x00010000`. Between flushes the tail of an engine is 0 exactly
if no flush went to it yet, a flush that wraps stores no load-register-immediate, and the tail
is not 0 after a flush. -/
theorem lri_exactly_on_first_submission (fam : GfxFamily) (fuel : Nat) (calls : List FlushCall)
    (bb : BatchBuffer) (e : Nat) :
    (∃ (csr csr' : AUBCommandStreamReceiverHw) (sts : List RingStore),
      AUBCommandStreamReceiverHw.run fam (fuel + 2) AUBCommandStreamReceiverHw.construct calls =
        Except.ok csr ∧
      AUBCommandStreamReceiverHw.flush fam (fuel + 2) csr bb e = Except.ok (0, csr') ∧
      csr'.ringStores = csr.ringStores ++ sts.map (fun st => (e, st)) ∧
      (RingStore.loadRegisterImm 0 (fam.mmioBase e + 0x2244) 0x00010000 ∈ sts ↔
        ∀ c ∈ calls, c.engineOrdinal ≠ e) ∧
      (∀ off r d, RingStore.loadRegisterImm off r d ∈ sts →
        off = 0 ∧ r = fam.mmioBase e + 0x2244 ∧ d = 0x00010000) ∧
      ((csr.engineInfoTable e).tailRingBuffer = 0 ↔ ∀ c ∈ calls, c.engineOrdinal ≠ e) ∧
      ((csr.engineInfoTable e).tailRingBuffer + 24 ≥ 16384 →
        ∀ off r d, RingStore.loadRegisterImm off r d ∉ sts) ∧
      (csr'.engineInfoTable e).tailRingBuffer ≠ 0) ∧
    (∃ (csr csr' : TbxCommandStreamReceiverHw) (sts : List RingStore),
      TbxCommandStreamReceiverHw.run fam TbxCommandStreamReceiverHw.construct calls = csr ∧
      TbxCommandStreamReceiverHw.flush fam csr bb e = (0, csr') ∧
      csr'.ringStores = csr.ringStores ++ sts.map (fun st => (e, st)) ∧
      (RingStore.loadRegisterImm 0 (fam.mmioBase e + 0x2244) 0x00010000 ∈ sts ↔
        ∀ c ∈ calls, c.engineOrdinal ≠ e) ∧
      (∀ off r d, RingStore.loadRegisterImm off r d ∈ sts →
        off = 0 ∧ r = fam.mmioBase e + 0x2244 ∧ d = 0x00010000) ∧
      ((csr.engineInfoTable e).tailRCS = 0 ↔ ∀ c ∈ calls, c.engineOrdinal ≠ e) ∧
      ((csr.engineInfoTable e).tailRCS + 28 ≥ 16384 →
        ∀ off r d, RingStore.loadRegisterImm off r d ∉ sts) ∧
      (csr'.engineInfoTable e).tailRCS ≠ 0) := by
  constructor
  · obtain ⟨csr, hrun, hinv, -, hiff⟩ := aub_run_inv fam fuel calls
      AUBCommandStreamReceiverHw.construct (fun e => Or.inl (aub_construct_fresh e))
      (by intro p hp; cases hp)
    have hzero : (csr.engineInfoTable e).tailRingBuffer = 0 ↔
        ∀ c ∈ calls, c.engineOrdinal ≠ e := by
      have hnr : ¬ (AUBCommandStreamReceiverHw.construct.engineInfoTable e).Ready :=
        fun h => h.1 rfl
      constructor
      · intro hz c hc hce
        have hr := (hiff e).mpr (Or.inr ⟨c, hc, hce⟩)
        have := hr.2.2.2.1
        omega
      · intro hall
        rcases hinv e with hf | hr
        · exact hf.2
        · rcases (hiff e).mp hr with h | ⟨c, hc, hce⟩
          · exact absurd h hnr
          · exact absurd hce (hall c hc)
    obtain ⟨csr', sts, hfl, hst, h1, h2, h3, h4⟩ := aub_flush_lri fam fuel csr bb e (hinv e)
    exact ⟨csr, csr', sts, hrun, hfl, hst, h1.trans hzero, h2, hzero, h3, h4⟩
  · obtain ⟨hinv, -, hiff⟩ := tbx_run_inv fam calls
      TbxCommandStreamReceiverHw.construct (fun e => Or.inl (tbx_construct_fresh e))
      (by intro p hp; cases hp)
    have hzero : ((TbxCommandStreamReceiverHw.run fam TbxCommandStreamReceiverHw.construct
        calls).engineInfoTable e).tailRCS = 0 ↔ ∀ c ∈ calls, c.engineOrdinal ≠ e := by
      have hnr : ¬ (TbxCommandStreamReceiverHw.construct.engineInfoTable e).Ready :=
        fun h => h.1 rfl
      constructor
      · intro hz c hc hce
        have hr := (hiff e).mpr (Or.inr ⟨c, hc, hce⟩)
        have := hr.2.2.2.1
        omega
      · intro hall
        rcases hinv e with hf | hr
        · exact hf.2
        · rcases (hiff e).mp hr with h | ⟨c, hc, hce⟩
          · exact absurd h hnr
          · exact absurd hce (hall c hc)
    obtain ⟨csr', sts, hfl, hst, h1, h2, h3, h4⟩ := tbx_flush_lri fam _ bb e (hinv e)
    exact ⟨_, csr', sts, rfl, hfl, hst, h1.trans hzero, h2, hzero, h3, h4⟩

/-- Counterexample to C8 as stated: on a later submission (engine 0 of the sample family with
its tail at 24 on the AUB receiver, at 28 on the TBX receiver) the `sizeNeeded` of `flush` is
24 and 28, not the 16 bytes of a batch-buffer-start alone with its padding; and with the tail
at 16360 the AUB flush takes the wraparound branch although 16360 + 16 is below the capacity
16384. -/
theorem sizeNeeded_first_submission_only_counterexample :
    ((AUBCommandStreamReceiverHw.sampleAt 24).engineInfoTable 0).tailRingBuffer ≠ 0 ∧
    AUBCommandStreamReceiverHw.sizeNeeded
      ((AUBCommandStreamReceiverHw.sampleAt 24).engineInfoTable 0) = 24 ∧
    AUBCommandStreamReceiverHw.specSizeNeeded
      ((AUBCommandStreamReceiverHw.sampleAt 24).engineInfoTable 0) = 16 ∧
    ((TbxCommandStreamReceiverHw.sampleAt 28).engineInfoTable 0).tailRCS ≠ 0 ∧
    TbxCommandStreamReceiverHw.sizeNeeded
      ((TbxCommandStreamReceiverHw.sampleAt 28).engineInfoTable 0) = 28 ∧
    TbxCommandStreamReceiverHw.specSizeNeeded
      ((TbxCommandStreamReceiverHw.sampleAt 28).engineInfoTable 0) = 16 ∧
    AUBCommandStreamReceiverHw.wraps
      ((AUBCommandStreamReceiverHw.sampleAt 16360).engineInfoTable 0) = true ∧
    ((AUBCommandStreamReceiverHw.sampleAt 16360).engineInfoTable 0).tailRingBuffer +
      AUBCommandStreamReceiverHw.specSizeNeeded
        ((AUBCommandStreamReceiverHw.sampleAt 16360).engineInfoTable 0) <
      ((AUBCommandStreamReceiverHw.sampleAt 16360).engineInfoTable 0).sizeRingBuffer := by
  decide

/-- C8, amended: the `sizeNeeded` that `flush` compares against the ring capacity is the same
on every submission, whatever the engine entry: on the AUB receiver the sizes of one
batch-buffer-start and one load-register-immediate, rounded up to a multiple of 8 (24 bytes);
on the TBX receiver the sizes of one batch-buffer-start, one no-op and one
load-register-immediate (28 bytes). The wraparound branch is taken exactly if the tail plus
this constant reaches the ring size. -/
theorem sizeNeeded_counts_lri_on_every_submission
    (infoA : AUBCommandStreamReceiverHw.EngineInfo)
    (infoT : TbxCommandStreamReceiverHw.EngineInfo) :
    AUBCommandStreamReceiverHw.sizeNeeded infoA =
      alignUp (sizeofMI_BATCH_BUFFER_START + sizeofMI_LOAD_REGISTER_IMM) 8 ∧
    AUBCommandStreamReceiverHw.sizeNeeded infoA = 24 ∧
    (AUBCommandStreamReceiverHw.wraps infoA = true ↔
      infoA.tailRingBuffer + 24 ≥ infoA.sizeRingBuffer) ∧
    TbxCommandStreamReceiverHw.sizeNeeded infoT =
      sizeofMI_BATCH_BUFFER_START + sizeofMI_NOOP + sizeofMI_LOAD_REGISTER_IMM ∧
    TbxCommandStreamReceiverHw.sizeNeeded infoT = 28 ∧
    (TbxCommandStreamReceiverHw.wraps infoT = true ↔ infoT.tailRCS + 28 ≥ infoT.sizeRCS) := by
  refine ⟨rfl, rfl, ?_, rfl, rfl, ?_⟩
  · rw [aub_wraps_eq]; simp
  · rw [tbx_wraps_eq]; simp

theorem toInt32_of_lt (n : Nat) (h : n < 2 ^ 31) : toInt32 n = (n : Int) := by
  unfold toInt32
  have h1 : n % 2 ^ 32 = n := Nat.mod_eq_of_lt (by omega)
  rw [h1, if_pos h]

/-- C9: for every allocation and every task count below `2^31`, on both receivers
`makeResident` walks the pages of the whole extent of the allocation (GPU address, size) in the
per-context address space, reserving the page of each chunk and writing the chunk, and then
calls `pushAllocationForResidency` once, if `residencyTaskCount` is below the task count, the
size is not 0 and the allocation allows trace capture; in every other case it makes no call on
the stream and none on the memory manager. -/
theorem makeResident_transfers_exactly_when_stale (fam : GfxFamily)
    (csrA : AUBCommandStreamReceiverHw) (csrT : TbxCommandStreamReceiverHw)
    (g : GraphicsAllocation) (hA : csrA.taskCount < 2 ^ 31) (hT : csrT.taskCount < 2 ^ 31) :
    ((g.residencyTaskCount < (csrA.taskCount : Int) ∧ g.underlyingBufferSize ≠ 0 ∧
        g.allowAubFileWrite = true →
      (AUBCommandStreamReceiverHw.makeResident fam csrA g).1.stream =
        csrA.stream ++ [SinkEvent.addComment "ppgtt: " g.gpuAddress] ++
          (fam.ppgttPageWalk g.gpuAddress g.underlyingBufferSize 0).flatMap (fun chunk =>
            [SinkEvent.reserveAddressPPGTT ((g.gpuAddress + chunk.offset) % 2 ^ 64 / 4096 * 4096)
                4096 (chunk.physAddress % 2 ^ 64 / 4096 * 4096),
              SinkEvent.addMemoryWrite chunk.physAddress
                (MemSource.host ((g.underlyingBuffer + chunk.offset) % 2 ^ 64)) chunk.size
                AddressSpace.TraceNonlocal DataTypeHint.TraceNotype]) ∧
      (AUBCommandStreamReceiverHw.makeResident fam csrA g).1.memoryManager =
        csrA.memoryManager ++ [MemoryManagerCall.pushAllocationForResidency g]) ∧
     (¬ (g.residencyTaskCount < (csrA.taskCount : Int) ∧ g.underlyingBufferSize ≠ 0 ∧
        g.allowAubFileWrite = true) →
      (AUBCommandStreamReceiverHw.makeResident fam csrA g).1.stream = csrA.stream ∧
      (AUBCommandStreamReceiverHw.makeResident fam csrA g).1.memoryManager =
        csrA.memoryManager)) ∧
    ((g.residencyTaskCount < (csrT.taskCount : Int) ∧ g.underlyingBufferSize ≠ 0 ∧
        g.allowAubFileWrite = true →
      (TbxCommandStreamReceiverHw.makeResident fam csrT g).1.stream =
        csrT.stream ++
          (fam.ppgttPageWalk g.gpuAddress g.underlyingBufferSize 0).flatMap (fun chunk =>
            [SinkEvent.reserveAddressPPGTT ((g.gpuAddress + chunk.offset) % 2 ^ 64 / 4096 * 4096)
                4096 (chunk.physAddress % 2 ^ 64 / 4096 * 4096),
              SinkEvent.addMemoryWrite chunk.physAddress
                (MemSource.host ((g.underlyingBuffer + chunk.offset) % 2 ^ 64)) chunk.size
                AddressSpace.TraceNonlocal DataTypeHint.TraceNotype]) ∧
      (TbxCommandStreamReceiverHw.makeResident fam csrT g).1.memoryManager =
        csrT.memoryManager ++ [MemoryManagerCall.pushAllocationForResidency g]) ∧
     (¬ (g.residencyTaskCount < (csrT.taskCount : Int) ∧ g.underlyingBufferSize ≠ 0 ∧
        g.allowAubFileWrite = true) →
      (TbxCommandStreamReceiverHw.makeResident fam csrT g).1.stream = csrT.stream ∧
      (TbxCommandStreamReceiverHw.makeResident fam csrT g).1.memoryManager =
        csrT.memoryManager)) := by
  have hcA := toInt32_of_lt _ hA
  have hcT := toInt32_of_lt _ hT
  refine ⟨⟨?_, ?_⟩, ⟨?_, ?_⟩⟩
  · rintro ⟨h1, h2, h3⟩
    simp only [AUBCommandStreamReceiverHw.makeResident, hcA, h1, h2, h3, if_true, ne_eq,
      not_true_eq_false, or_self, if_false, List.append_assoc, and_true]
    rfl
  · intro h
    unfold AUBCommandStreamReceiverHw.makeResident
    rw [hcA]
    by_cases h1 : g.residencyTaskCount < (csrA.taskCount : Int)
    · have h2 : g.underlyingBufferSize = 0 ∨ ¬ g.allowAubFileWrite = true := by
        by_contra hc
        push_neg at hc
        exact h ⟨h1, hc.1, hc.2⟩
      simp only [if_pos h1, if_pos h2, and_self]
    · simp only [if_neg h1, and_self]
  · rintro ⟨h1, h2, h3⟩
    simp only [TbxCommandStreamReceiverHw.makeResident, hcT, h1, h2, h3, if_true, ne_eq,
      not_true_eq_false, or_self, if_false, and_true]
    rfl
  · intro h
    unfold TbxCommandStreamReceiverHw.makeResident
    rw [hcT]
    by_cases h1 : g.residencyTaskCount < (csrT.taskCount : Int)
    · have h2 : g.underlyingBufferSize = 0 ∨ ¬ g.allowAubFileWrite = true := by
        by_contra hc
        push_neg at hc
        exact h ⟨h1, hc.1, hc.2⟩
      simp only [if_pos h1, if_pos h2, and_self]
    · simp only [if_neg h1, and_self]

/-- Witness of C9: the sample allocation of 4096 bytes, not yet resident, at task count 1. -/
theorem makeResident_transfers_exactly_when_stale_witness :
    (AUBCommandStreamReceiverHw.makeResident sampleFamily
      (AUBCommandStreamReceiverHw.construct.withTaskCount 1)
      sampleBatchBuffer.commandBufferAllocation).1.stream =
      [SinkEvent.addComment "ppgtt: " 0x200000,
        SinkEvent.reserveAddressPPGTT 0x200000 4096 0x200000,
        SinkEvent.addMemoryWrite 0x200000 (MemSource.host 0x200000) 4096
          AddressSpace.TraceNonlocal DataTypeHint.TraceNotype] ∧
    (AUBCommandStreamReceiverHw.makeResident sampleFamily
      (AUBCommandStreamReceiverHw.construct.withTaskCount 1)
      sampleBatchBuffer.commandBufferAllocation).1.memoryManager =
      [MemoryManagerCall.pushAllocationForResidency sampleBatchBuffer.commandBufferAllocation] ∧
    (TbxCommandStreamReceiverHw.makeResident sampleFamily
      (TbxCommandStreamReceiverHw.construct.withTaskCount 1)
      sampleBatchBuffer.commandBufferAllocation).1.stream =
      [SinkEvent.reserveAddressPPGTT 0x200000 4096 0x200000,
        SinkEvent.addMemoryWrite 0x200000 (MemSource.host 0x200000) 4096
          AddressSpace.TraceNonlocal DataTypeHint.TraceNotype] ∧
    (TbxCommandStreamReceiverHw.makeResident sampleFamily
      (TbxCommandStreamReceiverHw.construct.withTaskCount 1)
      sampleBatchBuffer.commandBufferAllocation).1.memoryManager =
      [MemoryManagerCall.pushAllocationForResidency sampleBatchBuffer.commandBufferAllocation] := by
  obtain ⟨⟨hA, -⟩, ⟨hT, -⟩⟩ := makeResident_transfers_exactly_when_stale sampleFamily
    (AUBCommandStreamReceiverHw.construct.withTaskCount 1)
    (TbxCommandStreamReceiverHw.construct.withTaskCount 1)
    sampleBatchBuffer.commandBufferAllocation (by decide) (by decide)
  obtain ⟨h1, h2⟩ := hA ⟨by decide, by decide, rfl⟩
  obtain ⟨h3, h4⟩ := hT ⟨by decide, by decide, rfl⟩
  exact ⟨h1, h2, h3, h4⟩

section AubTrace
open AUBCommandStreamReceiverHw

theorem aub_initializeEngine_stream_eq (fam : GfxFamily) (csr : AUBCommandStreamReceiverHw)
    (e : Nat) :
    (initializeEngine fam csr e).stream =
      csr.stream ++ (initializeEngine fam construct e).stream := by
  rw [aub_initializeEngine_stream fam csr e, aub_initializeEngine_stream fam construct e]
  simp [construct]

theorem aub_ensureInitialized_stream_eq (fam : GfxFamily) (csr : AUBCommandStreamReceiverHw)
    (e : Nat) :
    (ensureInitialized fam csr e).stream = csr.stream ++
      (if (csr.engineInfoTable e).pLRCA = none then (initializeEngine fam construct e).stream
        else []) := by
  unfold ensureInitialized
  cases hp : (csr.engineInfoTable e).pLRCA with
  | none => simp [aub_initializeEngine_stream_eq fam csr e]
  | some p => simp

theorem aub_ensureInitialized_entry (fam : GfxFamily) (csr : AUBCommandStreamReceiverHw)
    (e : Nat) :
    (ensureInitialized fam csr e).engineInfoTable e =
      (if (csr.engineInfoTable e).pLRCA = none then
        { csr.engineInfoTable e with
          pGlobalHWStatusPage := some (fam.mallocHWSP e)
          ggttHWSP := fam.gttRemapMap (fam.mallocHWSP e) 0x1000
          pLRCA := some (fam.mallocLRCA e)
          sizeRingBuffer := 16384
          pRingBuffer := some (fam.mallocRing e)
          ringMemory := fam.uninitialized (fam.mallocRing e)
          ggttRingBuffer := fam.gttRemapMap (fam.mallocRing e) 16384
          ggttLRCA := fam.gttRemapMap (fam.mallocLRCA e) (fam.sizeLRCA e) }
      else csr.engineInfoTable e) := by
  unfold ensureInitialized
  cases hp : (csr.engineInfoTable e).pLRCA with
  | none => simp [initializeEngine, setEngineInfo]
  | some p => simp

/-- The exact calls a flush adds to the stream, from an engine that is fresh or ready. -/
theorem aub_flush_trace (fam : GfxFamily) (fuel : Nat) (csr : AUBCommandStreamReceiverHw)
    (bb : BatchBuffer) (e : Nat)
    (hinv : (csr.engineInfoTable e).Fresh ∨ (csr.engineInfoTable e).Ready) :
    ∃ csr' b, flush fam (fuel + 2) csr bb e = Except.ok (0, csr') ∧
      csr'.stream = csr.stream ++
        ((if (csr.engineInfoTable e).pLRCA = none then (initializeEngine fam construct e).stream
          else []) ++
        (writeBatchBuffer fam bb ++ (b.events ++
          (dumpRing fam (csr'.engineInfoTable e) b ++ (submitLRCA fam e (contextDescriptor fam
            (csr'.engineInfoTable e).ggttLRCA) ++ pollForCompletion fam e))))) ∧
      (∀ e', e' ≠ e → csr'.engineInfoTable e' = csr.engineInfoTable e') ∧
      (csr'.engineInfoTable e).Ready ∧
      csr'.engineInfoTable e =
        { (ensureInitialized fam csr e).engineInfoTable e with
          tailRingBuffer := b.cursor.tail, ringMemory := b.cursor.ringMemory } ∧
      csr'.taskCount = csr.taskCount ∧
      csr'.memoryManager = csr.memoryManager ∧
      b.previousTail < b.cursor.tail ∧ b.cursor.tail ≤ 16368 ∧
      (b.events = [] ∨ ∃ src, (csr.engineInfoTable e).pLRCA ≠ none ∧
        (csr.engineInfoTable e).tailRingBuffer ≤ 16368 ∧
        b.events = [SinkEvent.addMemoryWrite
          (fam.ggttMap ((csr.engineInfoTable e).ggttRingBuffer +
            (csr.engineInfoTable e).tailRingBuffer) (16384 - (csr.engineInfoTable e).tailRingBuffer))
          src (16384 - (csr.engineInfoTable e).tailRingBuffer)
          AddressSpace.TraceNonlocal DataTypeHint.TraceCommandBuffer]) := by
  have htail := aub_ensureInitialized_tail fam csr e
  have hsize : ((ensureInitialized fam csr e).engineInfoTable e).sizeRingBuffer = 16384 := by
    apply aub_ensureInitialized_size
    intro hne
    rcases hinv with hf | hr
    · exact absurd hf.1 hne
    · exact hr.2.1
  have hbound : (csr.engineInfoTable e).tailRingBuffer ≤ 16368 ∧
      (csr.engineInfoTable e).tailRingBuffer % 8 = 0 := by
    rcases hinv with hf | hr
    · rw [hf.2]; omega
    · exact ⟨hr.2.2.2.2, hr.2.2.1⟩
  obtain ⟨b, hb, hb1, hb2, hb3, hb4, hb5, hb6, hb7, hb8, hb9⟩ :=
    aub_appendCommands_step fam fuel (fam.mmioBase e)
    ((ensureInitialized fam csr e).engineInfoTable e)
    (bb.commandBufferAllocation.underlyingBuffer + bb.startOffset) hsize
    (by rw [htail]; exact hbound.2) (by rw [htail]; exact hbound.1)
  have hfl := aub_flush_of_appendCommands fam (fuel + 2) csr bb e b hb
  rw [htail] at hb1 hb7 hb8 hb9
  refine ⟨_, b, hfl, ?_, ?_, ?_, ?_, ?_, ?_, hb2, hb3, ?_⟩
  · simp [setEngineInfo, aub_ensureInitialized_stream_eq]
  · intro e' he'
    simp [setEngineInfo, he', aub_ensureInitialized_other fam csr e e' he']
  · refine ⟨?_, ?_, ?_, ?_, ?_⟩
    · simpa [setEngineInfo] using aub_ensureInitialized_pLRCA fam csr e
    · simpa [setEngineInfo] using hsize
    · simpa [setEngineInfo] using hb4
    · simpa [setEngineInfo] using hb5
    · simpa [setEngineInfo] using hb3
  · simp [setEngineInfo]
  · show (ensureInitialized fam csr e).taskCount = csr.taskCount
    unfold ensureInitialized
    split
    · simp [initializeEngine, setEngineInfo]
    · rfl
  · show (ensureInitialized fam csr e).memoryManager = csr.memoryManager
    unfold ensureInitialized
    split
    · simp [initializeEngine, setEngineInfo]
    · rfl
  · by_cases hz : (csr.engineInfoTable e).tailRingBuffer = 0
    · exact Or.inl (hb7 hz).2.1
    · by_cases hw : (csr.engineInfoTable e).tailRingBuffer + 24 < 16384
      · exact Or.inl (hb8 (by omega) hw).2.1
      · have hready : (csr.engineInfoTable e).pLRCA ≠ none := by
          rcases hinv with hf | hr
          · exact absurd hf.2 hz
          · exact hr.1
        have hsame := aub_ensureInitialized_of_initialized fam csr e hready
        obtain ⟨-, h2, -, -⟩ := hb9 (by omega)
        rw [hsame] at h2
        exact Or.inr ⟨_, hready, hbound.1, h2⟩

end AubTrace

section TbxTrace
open TbxCommandStreamReceiverHw

theorem tbx_initializeEngine_stream_eq (fam : GfxFamily) (csr : TbxCommandStreamReceiverHw)
    (e : Nat) :
    (initializeEngine fam csr e).stream =
      csr.stream ++ (initializeEngine fam construct e).stream := by
  rw [tbx_initializeEngine_stream fam csr e, tbx_initializeEngine_stream fam construct e]
  simp [construct]

theorem tbx_ensureInitialized_stream_eq (fam : GfxFamily) (csr : TbxCommandStreamReceiverHw)
    (e : Nat) :
    (ensureInitialized fam csr e).stream = csr.stream ++
      (if (csr.engineInfoTable e).pLRCA = none then (initializeEngine fam construct e).stream
        else []) := by
  unfold ensureInitialized
  cases hp : (csr.engineInfoTable e).pLRCA with
  | none => simp [tbx_initializeEngine_stream_eq fam csr e]
  | some p => simp

theorem tbx_ensureInitialized_entry (fam : GfxFamily) (csr : TbxCommandStreamReceiverHw)
    (e : Nat) :
    (ensureInitialized fam csr e).engineInfoTable e =
      (if (csr.engineInfoTable e).pLRCA = none then
        { csr.engineInfoTable e with
          pGlobalHWStatusPage := some (fam.mallocHWSP e)
          ggttHWSP := fam.gttRemapMap (fam.mallocHWSP e) 0x1000
          pLRCA := some (fam.mallocLRCA e)
          sizeRCS := 16384
          pRCS := some (fam.mallocRing e)
          ringMemory := fam.uninitialized (fam.mallocRing e)
          ggttRCS := fam.gttRemapMap (fam.mallocRing e) 16384
          ggttLRCA := fam.gttRemapMap (fam.mallocLRCA e) (fam.sizeLRCA e) }
      else csr.engineInfoTable e) := by
  unfold ensureInitialized
  cases hp : (csr.engineInfoTable e).pLRCA with
  | none => simp [initializeEngine, setEngineInfo]
  | some p => simp

/-- The exact calls a flush adds to the stream, from an engine that is fresh or ready. -/
theorem tbx_flush_trace (fam : GfxFamily) (csr : TbxCommandStreamReceiverHw)
    (bb : BatchBuffer) (e : Nat)
    (hinv : (csr.engineInfoTable e).Fresh ∨ (csr.engineInfoTable e).Ready) :
    ∃ csr' b, flush fam csr bb e = (0, csr') ∧
      csr'.stream = csr.stream ++
        ((if (csr.engineInfoTable e).pLRCA = none then (initializeEngine fam construct e).stream
          else []) ++
        (writeBatchBuffer fam bb ++ (b.events ++
          (dumpRing fam (csr'.engineInfoTable e) b ++ (submitLRCA fam e (contextDescriptor fam
            (csr'.engineInfoTable e).ggttLRCA) ++ pollForCompletion fam e))))) ∧
      (∀ e', e' ≠ e → csr'.engineInfoTable e' = csr.engineInfoTable e') ∧
      (csr'.engineInfoTable e).Ready ∧
      csr'.engineInfoTable e =
        { (ensureInitialized fam csr e).engineInfoTable e with
          tailRCS := b.cursor.tail, ringMemory := b.cursor.ringMemory } ∧
      csr'.taskCount = csr.taskCount ∧
      csr'.memoryManager = csr.memoryManager ∧
      b.previousTail < b.cursor.tail ∧ b.cursor.tail ≤ 16368 ∧
      (b.events = [] ∨ ∃ src, (csr.engineInfoTable e).pLRCA ≠ none ∧
        (csr.engineInfoTable e).tailRCS ≤ 16368 ∧
        b.events = [SinkEvent.addMemoryWrite
          (fam.ggttMap ((csr.engineInfoTable e).ggttRCS +
            (csr.engineInfoTable e).tailRCS) (16384 - (csr.engineInfoTable e).tailRCS))
          src (16384 - (csr.engineInfoTable e).tailRCS)
          AddressSpace.TraceNonlocal DataTypeHint.TraceCommandBuffer]) := by
  have htail := tbx_ensureInitialized_tail fam csr e
  have hsize : ((ensureInitialized fam csr e).engineInfoTable e).sizeRCS = 16384 := by
    apply tbx_ensureInitialized_size
    intro hne
    rcases hinv with hf | hr
    · exact absurd hf.1 hne
    · exact hr.2.1
  have hbound : (csr.engineInfoTable e).tailRCS ≤ 16368 ∧
      (csr.engineInfoTable e).tailRCS % 4 = 0 := by
    rcases hinv with hf | hr
    · rw [hf.2]; omega
    · exact ⟨hr.2.2.2.2, hr.2.2.1⟩
  obtain ⟨b, hb, hb1, hb2, hb3, hb4, hb5, hb6, hb7, hb8, hb9⟩ :=
    tbx_appendCommands_step fam (fam.mmioBase e)
    ((ensureInitialized fam csr e).engineInfoTable e)
    (bb.commandBufferAllocation.underlyingBuffer + bb.startOffset) hsize
    (by rw [htail]; exact hbound.2) (by rw [htail]; exact hbound.1)
  rw [htail] at hb1 hb7 hb8 hb9
  have hev : b.events = [] ∨ ∃ src, (csr.engineInfoTable e).pLRCA ≠ none ∧
      (csr.engineInfoTable e).tailRCS ≤ 16368 ∧
      b.events = [SinkEvent.addMemoryWrite
        (fam.ggttMap ((csr.engineInfoTable e).ggttRCS +
          (csr.engineInfoTable e).tailRCS) (16384 - (csr.engineInfoTable e).tailRCS))
        src (16384 - (csr.engineInfoTable e).tailRCS)
        AddressSpace.TraceNonlocal DataTypeHint.TraceCommandBuffer] := by
    by_cases hz : (csr.engineInfoTable e).tailRCS = 0
    · exact Or.inl (hb7 hz).2.1
    · by_cases hw : (csr.engineInfoTable e).tailRCS + 28 < 16384
      · exact Or.inl (hb8 (by omega) hw).2.1
      · have hready : (csr.engineInfoTable e).pLRCA ≠ none := by
          rcases hinv with hf | hr
          · exact absurd hf.2 hz
          · exact hr.1
        have hsame := tbx_ensureInitialized_of_initialized fam csr e hready
        obtain ⟨-, h2, -, -⟩ := hb9 (by omega)
        rw [hsame] at h2
        exact Or.inr ⟨_, hready, hbound.1, h2⟩
  subst hb
  refine ⟨_, _, rfl, ?_, ?_, ?_, ?_, ?_, ?_, hb2, hb3, hev⟩
  · simp [flush, setEngineInfo, tbx_ensureInitialized_stream_eq]
  · intro e' he'
    simp [flush, setEngineInfo, he', tbx_ensureInitialized_other fam csr e e' he']
  · refine ⟨?_, ?_, ?_, ?_, ?_⟩
    · simpa [flush, setEngineInfo] using tbx_ensureInitialized_pLRCA fam csr e
    · simpa [flush, setEngineInfo] using hsize
    · simpa [flush, setEngineInfo] using hb4
    · simpa [flush, setEngineInfo] using hb5
    · simpa [flush, setEngineInfo] using hb3
  · simp [flush, setEngineInfo]
  · show (ensureInitialized fam csr e).taskCount = csr.taskCount
    unfold ensureInitialized
    split
    · simp [initializeEngine, setEngineInfo]
    · rfl
  · show (ensureInitialized fam csr e).memoryManager = csr.memoryManager
    unfold ensureInitialized
    split
    · simp [initializeEngine, setEngineInfo]
    · rfl
end TbxTrace

/-- Counterexample to C11 as stated: the sample allocation of size zero has
`residencyTaskCount` -1, below the task count 1; two calls of `makeResident` in a row walk no
page and write nothing, and `residencyTaskCount` is still -1, not 1, after the first and after
the second call, on both receivers. -/
theorem makeResident_twice_counterexample :
    sampleEmptyAllocation.residencyTaskCount <
      toInt32 (AUBCommandStreamReceiverHw.construct.withTaskCount 1).taskCount ∧
    (AUBCommandStreamReceiverHw.makeResident sampleFamily
      (AUBCommandStreamReceiverHw.construct.withTaskCount 1)
      sampleEmptyAllocation).2.residencyTaskCount = -1 ∧
    (AUBCommandStreamReceiverHw.makeResident sampleFamily
      (AUBCommandStreamReceiverHw.makeResident sampleFamily
        (AUBCommandStreamReceiverHw.construct.withTaskCount 1) sampleEmptyAllocation).1
      (AUBCommandStreamReceiverHw.makeResident sampleFamily
        (AUBCommandStreamReceiverHw.construct.withTaskCount 1)
        sampleEmptyAllocation).2).2.residencyTaskCount = -1 ∧
    (AUBCommandStreamReceiverHw.makeResident sampleFamily
      (AUBCommandStreamReceiverHw.makeResident sampleFamily
        (AUBCommandStreamReceiverHw.construct.withTaskCount 1) sampleEmptyAllocation).1
      (AUBCommandStreamReceiverHw.makeResident sampleFamily
        (AUBCommandStreamReceiverHw.construct.withTaskCount 1)
        sampleEmptyAllocation).2).1.stream = [] ∧
    (TbxCommandStreamReceiverHw.makeResident sampleFamily
      (TbxCommandStreamReceiverHw.construct.withTaskCount 1)
      sampleEmptyAllocation).2.residencyTaskCount = -1 ∧
    (TbxCommandStreamReceiverHw.makeResident sampleFamily
      (TbxCommandStreamReceiverHw.makeResident sampleFamily
        (TbxCommandStreamReceiverHw.construct.withTaskCount 1) sampleEmptyAllocation).1
      (TbxCommandStreamReceiverHw.makeResident sampleFamily
        (TbxCommandStreamReceiverHw.construct.withTaskCount 1)
        sampleEmptyAllocation).2).2.residencyTaskCount = -1 ∧
    (TbxCommandStreamReceiverHw.makeResident sampleFamily
      (TbxCommandStreamReceiverHw.makeResident sampleFamily
        (TbxCommandStreamReceiverHw.construct.withTaskCount 1) sampleEmptyAllocation).1
      (TbxCommandStreamReceiverHw.makeResident sampleFamily
        (TbxCommandStreamReceiverHw.construct.withTaskCount 1)
        sampleEmptyAllocation).2).1.stream = [] := by
  decide

/-- C11, amended: on both receivers, for every allocation of non-zero size that allows trace
capture and whose `residencyTaskCount` is below the task count (as `makeResident` compares it,
`(int)taskCount`), the first of two calls of `makeResident` in a row with the task count
unchanged walks the pages and writes them and notifies the memory manager once; the second
call returns the receiver and the allocation exactly as the first left them (no call on the
stream, no second notification); `residencyTaskCount` equals `(int)taskCount` after the first
and after the second call. -/
theorem makeResident_twice_transfers_once (fam : GfxFamily)
    (csrA : AUBCommandStreamReceiverHw) (csrT : TbxCommandStreamReceiverHw)
    (g : GraphicsAllocation) (hsize : g.underlyingBufferSize ≠ 0)
    (hallow : g.allowAubFileWrite = true)
    (hA : g.residencyTaskCount < toInt32 csrA.taskCount)
    (hT : g.residencyTaskCount < toInt32 csrT.taskCount) :
    ((AUBCommandStreamReceiverHw.makeResident fam csrA g).1.stream =
        csrA.stream ++ [SinkEvent.addComment "ppgtt: " g.gpuAddress] ++
          (fam.ppgttPageWalk g.gpuAddress g.underlyingBufferSize 0).flatMap
            (residentWalker g.underlyingBuffer g.gpuAddress) ∧
      (AUBCommandStreamReceiverHw.makeResident fam csrA g).1.memoryManager =
        csrA.memoryManager ++ [MemoryManagerCall.pushAllocationForResidency g] ∧
      (AUBCommandStreamReceiverHw.makeResident fam csrA g).1.taskCount = csrA.taskCount ∧
      (AUBCommandStreamReceiverHw.makeResident fam csrA g).2.residencyTaskCount =
        toInt32 csrA.taskCount ∧
      AUBCommandStreamReceiverHw.makeResident fam
          (AUBCommandStreamReceiverHw.makeResident fam csrA g).1
          (AUBCommandStreamReceiverHw.makeResident fam csrA g).2 =
        AUBCommandStreamReceiverHw.makeResident fam csrA g) ∧
    ((TbxCommandStreamReceiverHw.makeResident fam csrT g).1.stream =
        csrT.stream ++
          (fam.ppgttPageWalk g.gpuAddress g.underlyingBufferSize 0).flatMap
            (residentWalker g.underlyingBuffer g.gpuAddress) ∧
      (TbxCommandStreamReceiverHw.makeResident fam csrT g).1.memoryManager =
        csrT.memoryManager ++ [MemoryManagerCall.pushAllocationForResidency g] ∧
      (TbxCommandStreamReceiverHw.makeResident fam csrT g).1.taskCount = csrT.taskCount ∧
      (TbxCommandStreamReceiverHw.makeResident fam csrT g).2.residencyTaskCount =
        toInt32 csrT.taskCount ∧
      TbxCommandStreamReceiverHw.makeResident fam
          (TbxCommandStreamReceiverHw.makeResident fam csrT g).1
          (TbxCommandStreamReceiverHw.makeResident fam csrT g).2 =
        TbxCommandStreamReceiverHw.makeResident fam csrT g) := by
  have h3 : ¬ (g.underlyingBufferSize = 0 ∨ ¬ g.allowAubFileWrite = true) := by
    rintro (h | h)
    · exact hsize h
    · exact h hallow
  have eA : AUBCommandStreamReceiverHw.makeResident fam csrA g =
      ({ csrA with
          stream := csrA.stream ++ [SinkEvent.addComment "ppgtt: " g.gpuAddress] ++
            (fam.ppgttPageWalk g.gpuAddress g.underlyingBufferSize 0).flatMap
              (residentWalker g.underlyingBuffer g.gpuAddress)
          memoryManager := csrA.memoryManager ++
            [MemoryManagerCall.pushAllocationForResidency g] },
       { g with residencyTaskCount := toInt32 csrA.taskCount }) := by
    unfold AUBCommandStreamReceiverHw.makeResident
    simp only [if_pos hA, if_neg h3]
  have eT : TbxCommandStreamReceiverHw.makeResident fam csrT g =
      ({ csrT with
          stream := csrT.stream ++
            (fam.ppgttPageWalk g.gpuAddress g.underlyingBufferSize 0).flatMap
              (residentWalker g.underlyingBuffer g.gpuAddress)
          memoryManager := csrT.memoryManager ++
            [MemoryManagerCall.pushAllocationForResidency g] },
       { g with residencyTaskCount := toInt32 csrT.taskCount }) := by
    unfold TbxCommandStreamReceiverHw.makeResident
    simp only [if_pos hT, if_neg h3]
  refine ⟨⟨?_, ?_, ?_, ?_, ?_⟩, ⟨?_, ?_, ?_, ?_, ?_⟩⟩
  · rw [eA]
  · rw [eA]
  · rw [eA]
  · rw [eA]
  · rw [eA]
    unfold AUBCommandStreamReceiverHw.makeResident
    simp only [lt_self_iff_false, if_false]
  · rw [eT]
  · rw [eT]
  · rw [eT]
  · rw [eT]
  · rw [eT]
    unfold TbxCommandStreamReceiverHw.makeResident
    simp only [lt_self_iff_false, if_false]

/-- Witness of C11, amended: the sample allocation of 4096 bytes, not yet resident, at task
count 1. -/
theorem makeResident_twice_transfers_once_witness :
    (AUBCommandStreamReceiverHw.makeResident sampleFamily
      (AUBCommandStreamReceiverHw.makeResident sampleFamily
        (AUBCommandStreamReceiverHw.construct.withTaskCount 1)
        sampleBatchBuffer.commandBufferAllocation).1
      (AUBCommandStreamReceiverHw.makeResident sampleFamily
        (AUBCommandStreamReceiverHw.construct.withTaskCount 1)
        sampleBatchBuffer.commandBufferAllocation).2) =
      AUBCommandStreamReceiverHw.makeResident sampleFamily
        (AUBCommandStreamReceiverHw.construct.withTaskCount 1)
        sampleBatchBuffer.commandBufferAllocation ∧
    (AUBCommandStreamReceiverHw.makeResident sampleFamily
        (AUBCommandStreamReceiverHw.construct.withTaskCount 1)
        sampleBatchBuffer.commandBufferAllocation).2.residencyTaskCount = 1 ∧
    (TbxCommandStreamReceiverHw.makeResident sampleFamily
        (TbxCommandStreamReceiverHw.construct.withTaskCount 1)
        sampleBatchBuffer.commandBufferAllocation).2.residencyTaskCount = 1 :=
  have h := makeResident_twice_transfers_once sampleFamily
    (AUBCommandStreamReceiverHw.construct.withTaskCount 1)
    (TbxCommandStreamReceiverHw.construct.withTaskCount 1)
    sampleBatchBuffer.commandBufferAllocation (by decide) rfl (by decide) (by decide)
  ⟨h.1.2.2.2.2, h.1.2.2.2.1, h.2.2.2.2.1⟩

/-- C12: `makeNonResident` of the AUB receiver calls `pushAllocationForEviction` exactly once
and sets `residencyTaskCount` to the not-resident sentinel if `residencyTaskCount` differs from
the sentinel on entry; otherwise it changes neither the receiver nor the allocation and
notifies nobody. A second `makeNonResident` right after the first changes nothing, and no call
ever adds an event to the stream. -/
theorem makeNonResident_evicts_exactly_when_resident (csr : AUBCommandStreamReceiverHw)
    (g : GraphicsAllocation) :
    (g.residencyTaskCount ≠ ObjectNotResident →
      (AUBCommandStreamReceiverHw.makeNonResident csr g).1.memoryManager =
        csr.memoryManager ++ [MemoryManagerCall.pushAllocationForEviction g] ∧
      (AUBCommandStreamReceiverHw.makeNonResident csr g).2 =
        { g with residencyTaskCount := ObjectNotResident }) ∧
    (g.residencyTaskCount = ObjectNotResident →
      AUBCommandStreamReceiverHw.makeNonResident csr g = (csr, g)) ∧
    ((AUBCommandStreamReceiverHw.makeNonResident csr g).1.memoryManager =
        csr.memoryManager ++ [MemoryManagerCall.pushAllocationForEviction g] ↔
      g.residencyTaskCount ≠ ObjectNotResident) ∧
    (AUBCommandStreamReceiverHw.makeNonResident csr g).2.residencyTaskCount =
      ObjectNotResident ∧
    AUBCommandStreamReceiverHw.makeNonResident
        (AUBCommandStreamReceiverHw.makeNonResident csr g).1
        (AUBCommandStreamReceiverHw.makeNonResident csr g).2 =
      AUBCommandStreamReceiverHw.makeNonResident csr g ∧
    (AUBCommandStreamReceiverHw.makeNonResident csr g).1.stream = csr.stream ∧
    (AUBCommandStreamReceiverHw.makeNonResident csr g).1.engineInfoTable =
      csr.engineInfoTable ∧
    (AUBCommandStreamReceiverHw.makeNonResident csr g).1.taskCount = csr.taskCount := by
  by_cases h : g.residencyTaskCount = ObjectNotResident
  · have e : AUBCommandStreamReceiverHw.makeNonResident csr g = (csr, g) := by
      unfold AUBCommandStreamReceiverHw.makeNonResident
      simp only [ne_eq, h, not_true_eq_false, if_false]
    refine ⟨fun hne => absurd h hne, fun _ => e, ?_, ?_, ?_, ?_, ?_, ?_⟩
    · rw [e]
      constructor
      · intro hmm
        have := congrArg List.length hmm
        simp at this
      · intro hne
        exact absurd h hne
    · rw [e]; exact h
    · rw [e]; exact e
    · rw [e]
    · rw [e]
    · rw [e]
  · have e : AUBCommandStreamReceiverHw.makeNonResident csr g =
        ({ csr with
            memoryManager := csr.memoryManager ++
              [MemoryManagerCall.pushAllocationForEviction g] },
         { g with residencyTaskCount := ObjectNotResident }) := by
      unfold AUBCommandStreamReceiverHw.makeNonResident
      simp only [ne_eq, h, not_false_eq_true, if_true]
    refine ⟨fun _ => ?_, fun he => absurd he h, ?_, ?_, ?_, ?_, ?_, ?_⟩
    · rw [e]; exact ⟨rfl, rfl⟩
    · rw [e]; exact ⟨fun _ => h, fun _ => rfl⟩
    · rw [e]
    · rw [e]
      unfold AUBCommandStreamReceiverHw.makeNonResident
      simp only [ne_eq, not_true_eq_false, if_false]
    · rw [e]
    · rw [e]
    · rw [e]

/-- Counterexample to C13 as stated: the sample allocation of 4096 bytes is made resident by
the AUB receiver at task count 1 and evicted by `makeNonResident`; `makeResident` at the task
count `2^31`, which is above 1, then adds nothing to the stream and makes no call on the
memory manager, and leaves `residencyTaskCount` at `-2147483648`, not at `2^31`: the cast
`(int)taskCount` is negative, so the sentinel `-1` is not below it. -/
theorem makeResident_after_makeNonResident_counterexample :
    1 < 2 ^ 31 ∧
    sampleBatchBuffer.commandBufferAllocation.underlyingBufferSize ≠ 0 ∧
    sampleBatchBuffer.commandBufferAllocation.allowAubFileWrite = true ∧
    (AUBCommandStreamReceiverHw.makeResident sampleFamily
      (AUBCommandStreamReceiverHw.construct.withTaskCount 1)
      sampleBatchBuffer.commandBufferAllocation).1.stream =
      [SinkEvent.addComment "ppgtt: " 0x200000,
        SinkEvent.reserveAddressPPGTT 0x200000 4096 0x200000,
        SinkEvent.addMemoryWrite 0x200000 (MemSource.host 0x200000) 4096
          AddressSpace.TraceNonlocal DataTypeHint.TraceNotype] ∧
    (AUBCommandStreamReceiverHw.makeResident sampleFamily
      (AUBCommandStreamReceiverHw.construct.withTaskCount 1)
      sampleBatchBuffer.commandBufferAllocation).2.residencyTaskCount = 1 ∧
    toInt32 (2 ^ 31) = -2147483648 ∧
    (AUBCommandStreamReceiverHw.makeResident sampleFamily
      ((AUBCommandStreamReceiverHw.makeNonResident
        (AUBCommandStreamReceiverHw.makeResident sampleFamily
          (AUBCommandStreamReceiverHw.construct.withTaskCount 1)
          sampleBatchBuffer.commandBufferAllocation).1
        (AUBCommandStreamReceiverHw.makeResident sampleFamily
          (AUBCommandStreamReceiverHw.construct.withTaskCount 1)
          sampleBatchBuffer.commandBufferAllocation).2).1.withTaskCount (2 ^ 31))
      (AUBCommandStreamReceiverHw.makeNonResident
        (AUBCommandStreamReceiverHw.makeResident sampleFamily
          (AUBCommandStreamReceiverHw.construct.withTaskCount 1)
          sampleBatchBuffer.commandBufferAllocation).1
        (AUBCommandStreamReceiverHw.makeResident sampleFamily
          (AUBCommandStreamReceiverHw.construct.withTaskCount 1)
          sampleBatchBuffer.commandBufferAllocation).2).2).1.stream =
      (AUBCommandStreamReceiverHw.makeResident sampleFamily
        (AUBCommandStreamReceiverHw.construct.withTaskCount 1)
        sampleBatchBuffer.commandBufferAllocation).1.stream ∧
    (AUBCommandStreamReceiverHw.makeResident sampleFamily
      ((AUBCommandStreamReceiverHw.makeNonResident
        (AUBCommandStreamReceiverHw.makeResident sampleFamily
          (AUBCommandStreamReceiverHw.construct.withTaskCount 1)
          sampleBatchBuffer.commandBufferAllocation).1
        (AUBCommandStreamReceiverHw.makeResident sampleFamily
          (AUBCommandStreamReceiverHw.construct.withTaskCount 1)
          sampleBatchBuffer.commandBufferAllocation).2).1.withTaskCount (2 ^ 31))
      (AUBCommandStreamReceiverHw.makeNonResident
        (AUBCommandStreamReceiverHw.makeResident sampleFamily
          (AUBCommandStreamReceiverHw.construct.withTaskCount 1)
          sampleBatchBuffer.commandBufferAllocation).1
        (AUBCommandStreamReceiverHw.makeResident sampleFamily
          (AUBCommandStreamReceiverHw.construct.withTaskCount 1)
          sampleBatchBuffer.commandBufferAllocation).2).2).1.memoryManager.length = 2 ∧
    (AUBCommandStreamReceiverHw.makeResident sampleFamily
      ((AUBCommandStreamReceiverHw.makeNonResident
        (AUBCommandStreamReceiverHw.makeResident sampleFamily
          (AUBCommandStreamReceiverHw.construct.withTaskCount 1)
          sampleBatchBuffer.commandBufferAllocation).1
        (AUBCommandStreamReceiverHw.makeResident sampleFamily
          (AUBCommandStreamReceiverHw.construct.withTaskCount 1)
          sampleBatchBuffer.commandBufferAllocation).2).1.withTaskCount (2 ^ 31))
      (AUBCommandStreamReceiverHw.makeNonResident
        (AUBCommandStreamReceiverHw.makeResident sampleFamily
          (AUBCommandStreamReceiverHw.construct.withTaskCount 1)
          sampleBatchBuffer.commandBufferAllocation).1
        (AUBCommandStreamReceiverHw.makeResident sampleFamily
          (AUBCommandStreamReceiverHw.construct.withTaskCount 1)
          sampleBatchBuffer.commandBufferAllocation).2).2).2.residencyTaskCount =
      -2147483648 := by
  refine ⟨by decide, by decide, rfl, by decide, by decide, by decide, by decide, by decide,
    by decide⟩

/-- C13, amended: for every allocation of non-zero size that allows trace capture and was made
resident by the AUB receiver at task count `c` (with transfer: its `residencyTaskCount` was
below `c`), `makeNonResident` followed immediately by `makeResident` at a task count `c'` with
`c < c' < 2^31` adds to the stream exactly the events of the first transfer again (the
comment, and for each chunk of the page walk of the whole allocation the reservation of its
page and its memory write), notifies the memory manager again and leaves
`residencyTaskCount` equal to `c'`. -/
theorem makeResident_after_makeNonResident_transfers_again (fam : GfxFamily)
    (csr : AUBCommandStreamReceiverHw) (g : GraphicsAllocation) (c c' : Nat)
    (hc : c < c') (hc' : c' < 2 ^ 31) (hsize : g.underlyingBufferSize ≠ 0)
    (hallow : g.allowAubFileWrite = true) (hstale : g.residencyTaskCount < (c : Int)) :
    (AUBCommandStreamReceiverHw.makeResident fam (csr.withTaskCount c) g).1.stream =
      csr.stream ++ ([SinkEvent.addComment "ppgtt: " g.gpuAddress] ++
        (fam.ppgttPageWalk g.gpuAddress g.underlyingBufferSize 0).flatMap
          (residentWalker g.underlyingBuffer g.gpuAddress)) ∧
    (AUBCommandStreamReceiverHw.makeResident fam (csr.withTaskCount c) g).2.residencyTaskCount =
      (c : Int) ∧
    (AUBCommandStreamReceiverHw.makeNonResident
      (AUBCommandStreamReceiverHw.makeResident fam (csr.withTaskCount c) g).1
      (AUBCommandStreamReceiverHw.makeResident fam (csr.withTaskCount c) g).2).2.residencyTaskCount =
      ObjectNotResident ∧
    (AUBCommandStreamReceiverHw.makeResident fam
      ((AUBCommandStreamReceiverHw.makeNonResident
        (AUBCommandStreamReceiverHw.makeResident fam (csr.withTaskCount c) g).1
        (AUBCommandStreamReceiverHw.makeResident fam (csr.withTaskCount c) g).2).1.withTaskCount c')
      (AUBCommandStreamReceiverHw.makeNonResident
        (AUBCommandStreamReceiverHw.makeResident fam (csr.withTaskCount c) g).1
        (AUBCommandStreamReceiverHw.makeResident fam (csr.withTaskCount c) g).2).2).1.stream =
      (AUBCommandStreamReceiverHw.makeResident fam (csr.withTaskCount c) g).1.stream ++
        ([SinkEvent.addComment "ppgtt: " g.gpuAddress] ++
          (fam.ppgttPageWalk g.gpuAddress g.underlyingBufferSize 0).flatMap
            (residentWalker g.underlyingBuffer g.gpuAddress)) ∧
    (AUBCommandStreamReceiverHw.makeResident fam
      ((AUBCommandStreamReceiverHw.makeNonResident
        (AUBCommandStreamReceiverHw.makeResident fam (csr.withTaskCount c) g).1
        (AUBCommandStreamReceiverHw.makeResident fam (csr.withTaskCount c) g).2).1.withTaskCount c')
      (AUBCommandStreamReceiverHw.makeNonResident
        (AUBCommandStreamReceiverHw.makeResident fam (csr.withTaskCount c) g).1
        (AUBCommandStreamReceiverHw.makeResident fam (csr.withTaskCount c) g).2).2).1.memoryManager =
      csr.memoryManager ++
        [MemoryManagerCall.pushAllocationForResidency g,
         MemoryManagerCall.pushAllocationForEviction { g with residencyTaskCount := (c : Int) },
         MemoryManagerCall.pushAllocationForResidency
           { g with residencyTaskCount := ObjectNotResident }] ∧
    (AUBCommandStreamReceiverHw.makeResident fam
      ((AUBCommandStreamReceiverHw.makeNonResident
        (AUBCommandStreamReceiverHw.makeResident fam (csr.withTaskCount c) g).1
        (AUBCommandStreamReceiverHw.makeResident fam (csr.withTaskCount c) g).2).1.withTaskCount c')
      (AUBCommandStreamReceiverHw.makeNonResident
        (AUBCommandStreamReceiverHw.makeResident fam (csr.withTaskCount c) g).1
        (AUBCommandStreamReceiverHw.makeResident fam (csr.withTaskCount c) g).2).2).2.residencyTaskCount =
      (c' : Int) := by
  have hcl : c < 2 ^ 31 := by omega
  have h3 : ¬ (g.underlyingBufferSize = 0 ∨ ¬ g.allowAubFileWrite = true) := by
    rintro (h | h)
    · exact hsize h
    · exact h hallow
  have hs : g.residencyTaskCount < toInt32 (csr.withTaskCount c).taskCount := by
    show g.residencyTaskCount < toInt32 c
    rw [toInt32_of_lt c hcl]; exact hstale
  have e1 : AUBCommandStreamReceiverHw.makeResident fam (csr.withTaskCount c) g =
      ({ csr.withTaskCount c with
          stream := csr.stream ++ [SinkEvent.addComment "ppgtt: " g.gpuAddress] ++
            (fam.ppgttPageWalk g.gpuAddress g.underlyingBufferSize 0).flatMap
              (residentWalker g.underlyingBuffer g.gpuAddress)
          memoryManager := csr.memoryManager ++
            [MemoryManagerCall.pushAllocationForResidency g] },
       { g with residencyTaskCount := (c : Int) }) := by
    unfold AUBCommandStreamReceiverHw.makeResident
    simp only [if_pos hs, if_neg h3]
    show _ = (_, { g with residencyTaskCount := (c : Int) })
    rw [← toInt32_of_lt c hcl]
    rfl
  have hne : (c : Int) ≠ ObjectNotResident := by
    unfold ObjectNotResident; omega
  rw [e1]
  have e2 : ∀ (s : AUBCommandStreamReceiverHw),
      AUBCommandStreamReceiverHw.makeNonResident s { g with residencyTaskCount := (c : Int) } =
      ({ s with memoryManager := s.memoryManager ++
            [MemoryManagerCall.pushAllocationForEviction
              { g with residencyTaskCount := (c : Int) }] },
       { g with residencyTaskCount := ObjectNotResident }) := by
    intro s
    unfold AUBCommandStreamReceiverHw.makeNonResident
    simp only [ne_eq, hne, not_false_eq_true, if_true]
  simp only [e2]
  have hs' : ∀ (s : AUBCommandStreamReceiverHw),
      ({ g with residencyTaskCount := ObjectNotResident } : GraphicsAllocation).residencyTaskCount <
        toInt32 (s.withTaskCount c').taskCount := by
    intro s
    show ObjectNotResident < toInt32 c'
    rw [toInt32_of_lt c' hc']
    unfold ObjectNotResident; omega
  have e3 : ∀ (s : AUBCommandStreamReceiverHw),
      AUBCommandStreamReceiverHw.makeResident fam (s.withTaskCount c')
        { g with residencyTaskCount := ObjectNotResident } =
      ({ s.withTaskCount c' with
          stream := s.stream ++ [SinkEvent.addComment "ppgtt: " g.gpuAddress] ++
            (fam.ppgttPageWalk g.gpuAddress g.underlyingBufferSize 0).flatMap
              (residentWalker g.underlyingBuffer g.gpuAddress)
          memoryManager := s.memoryManager ++
            [MemoryManagerCall.pushAllocationForResidency
              { g with residencyTaskCount := ObjectNotResident }] },
       { g with residencyTaskCount := (c' : Int) }) := by
    intro s
    unfold AUBCommandStreamReceiverHw.makeResident
    simp only [if_pos (hs' s), if_neg h3]
    show _ = (_, { g with residencyTaskCount := (c' : Int) })
    rw [← toInt32_of_lt c' hc']
    rfl
  simp only [e3]
  refine ⟨?_, trivial, trivial, ?_, ?_, trivial⟩
  · simp only [List.append_assoc]
  · simp only [List.append_assoc]
  · simp only [List.append_assoc, List.singleton_append]
    rfl

/-- Witness of C13: the sample allocation of 4096 bytes, made resident at task count 1, evicted,
and made resident again at task count 2. -/
theorem makeResident_after_makeNonResident_transfers_again_witness :
    (AUBCommandStreamReceiverHw.makeResident sampleFamily
      ((AUBCommandStreamReceiverHw.makeNonResident
        (AUBCommandStreamReceiverHw.makeResident sampleFamily
          (AUBCommandStreamReceiverHw.construct.withTaskCount 1)
          sampleBatchBuffer.commandBufferAllocation).1
        (AUBCommandStreamReceiverHw.makeResident sampleFamily
          (AUBCommandStreamReceiverHw.construct.withTaskCount 1)
          sampleBatchBuffer.commandBufferAllocation).2).1.withTaskCount 2)
      (AUBCommandStreamReceiverHw.makeNonResident
        (AUBCommandStreamReceiverHw.makeResident sampleFamily
          (AUBCommandStreamReceiverHw.construct.withTaskCount 1)
          sampleBatchBuffer.commandBufferAllocation).1
        (AUBCommandStreamReceiverHw.makeResident sampleFamily
          (AUBCommandStreamReceiverHw.construct.withTaskCount 1)
          sampleBatchBuffer.commandBufferAllocation).2).2).2.residencyTaskCount = 2 ∧
    (AUBCommandStreamReceiverHw.makeResident sampleFamily
      ((AUBCommandStreamReceiverHw.makeNonResident
        (AUBCommandStreamReceiverHw.makeResident sampleFamily
          (AUBCommandStreamReceiverHw.construct.withTaskCount 1)
          sampleBatchBuffer.commandBufferAllocation).1
        (AUBCommandStreamReceiverHw.makeResident sampleFamily
          (AUBCommandStreamReceiverHw.construct.withTaskCount 1)
          sampleBatchBuffer.commandBufferAllocation).2).1.withTaskCount 2)
      (AUBCommandStreamReceiverHw.makeNonResident
        (AUBCommandStreamReceiverHw.makeResident sampleFamily
          (AUBCommandStreamReceiverHw.construct.withTaskCount 1)
          sampleBatchBuffer.commandBufferAllocation).1
        (AUBCommandStreamReceiverHw.makeResident sampleFamily
          (AUBCommandStreamReceiverHw.construct.withTaskCount 1)
          sampleBatchBuffer.commandBufferAllocation).2).2).1.stream =
      (AUBCommandStreamReceiverHw.makeResident sampleFamily
          (AUBCommandStreamReceiverHw.construct.withTaskCount 1)
          sampleBatchBuffer.commandBufferAllocation).1.stream ++
        [SinkEvent.addComment "ppgtt: " 0x200000,
          SinkEvent.reserveAddressPPGTT 0x200000 4096 0x200000,
          SinkEvent.addMemoryWrite 0x200000 (MemSource.host 0x200000) 4096
            AddressSpace.TraceNonlocal DataTypeHint.TraceNotype] :=
  have h := makeResident_after_makeNonResident_transfers_again sampleFamily
    AUBCommandStreamReceiverHw.construct sampleBatchBuffer.commandBufferAllocation 1 2
    (by decide) (by decide) (by decide) rfl (by decide)
  ⟨h.2.2.2.2.2, h.2.2.2.1⟩

/-! ## Writes of the logical context image in a trace -/

theorem lrcaWrites_append (e : Nat) (xs ys : List SinkEvent) :
    lrcaWrites e (xs ++ ys) = lrcaWrites e xs ++ lrcaWrites e ys := by
  simp [lrcaWrites]

theorem lrcaWrites_writeMMIO (e : Nat) (pairs : List (Nat × Nat)) :
    lrcaWrites e (pairs.map (fun mmioPair => SinkEvent.writeMMIO mmioPair.1 mmioPair.2)) = [] := by
  induction pairs with
  | nil => rfl
  | cons p rest ih =>
    show lrcaWrites e (SinkEvent.writeMMIO p.1 p.2 ::
      rest.map (fun mmioPair => SinkEvent.writeMMIO mmioPair.1 mmioPair.2)) = _
    unfold lrcaWrites at ih ⊢
    rw [List.filter_cons_of_neg (by simp [SinkEvent.isLrcaWrite]), ih]

theorem lrcaWrites_submitLRCA (e' : Nat) (fam : GfxFamily) (e : Nat)
    (d : MiContextDescriptorReg) : lrcaWrites e' (submitLRCA fam e d) = [] := by
  simp [lrcaWrites, submitLRCA, SinkEvent.isLrcaWrite]

theorem lrcaWrites_pollForCompletion (e' : Nat) (fam : GfxFamily) (e : Nat) :
    lrcaWrites e' (pollForCompletion fam e) = [] := by
  simp [lrcaWrites, pollForCompletion, SinkEvent.isLrcaWrite]

theorem lrcaWrites_wrap_events (e' : Nat) (events : List SinkEvent)
    (h : events = [] ∨ ∃ phys src size, events = [SinkEvent.addMemoryWrite phys src size
      AddressSpace.TraceNonlocal DataTypeHint.TraceCommandBuffer]) :
    lrcaWrites e' events = [] := by
  rcases h with h | ⟨phys, src, size, h⟩
  · rw [h]; rfl
  · rw [h]
    unfold lrcaWrites
    rw [List.filter_cons_of_neg]
    · rfl
    · cases src <;> simp [SinkEvent.isLrcaWrite]

section AubCount
open AUBCommandStreamReceiverHw

theorem aub_lrcaWrites_initializeEngine (e' : Nat) (fam : GfxFamily) (e : Nat) :
    (lrcaWrites e' (initializeEngine fam construct e).stream).length =
      if e' = e then 1 else 0 := by
  rw [aub_initializeEngine_stream]
  simp only [lrcaWrites_append, initGlobalMMIO, initEngineMMIO, lrcaWrites_writeMMIO]
  by_cases h : e' = e
  · subst h
    simp [lrcaWrites, SinkEvent.isLrcaWrite, construct]
  · have h' : ¬ e = e' := fun hh => h hh.symm
    simp [lrcaWrites, SinkEvent.isLrcaWrite, construct, h, h']

theorem aub_lrcaWrites_writeBatchBuffer (e' : Nat) (fam : GfxFamily) (bb : BatchBuffer) :
    lrcaWrites e' (writeBatchBuffer fam bb) = [] := by
  simp [lrcaWrites, writeBatchBuffer, SinkEvent.isLrcaWrite]

theorem aub_lrcaWrites_dumpRing (e' : Nat) (fam : GfxFamily) (info : EngineInfo) (b : RingBlock) :
    lrcaWrites e' (dumpRing fam info b) = [] := by
  simp [lrcaWrites, dumpRing, SinkEvent.isLrcaWrite]

/-- The writes of logical context images after a run, from any receiver whose engines are
fresh or ready. -/
theorem aub_run_lrcaWrites (fam : GfxFamily) (fuel : Nat) :
    ∀ (calls : List FlushCall) (csr : AUBCommandStreamReceiverHw),
      (∀ e, (csr.engineInfoTable e).Fresh ∨ (csr.engineInfoTable e).Ready) →
      ∃ csr', run fam (fuel + 2) csr calls = Except.ok csr' ∧
        (∀ e, (csr'.engineInfoTable e).Fresh ∨ (csr'.engineInfoTable e).Ready) ∧
        (∀ e, (csr'.engineInfoTable e).pLRCA = none ↔
          ((csr.engineInfoTable e).pLRCA = none ∧ ∀ c ∈ calls, c.engineOrdinal ≠ e)) ∧
        (∀ e, (lrcaWrites e csr'.stream).length = (lrcaWrites e csr.stream).length +
          (if (csr.engineInfoTable e).pLRCA = none ∧ e ∈ calls.map FlushCall.engineOrdinal
            then 1 else 0))
  | [], csr, hinv => ⟨csr, rfl, hinv, by simp, by simp⟩
  | call :: rest, csr, hinv => by
    obtain ⟨csr1, b, hfl, hstream, hoth, hready, -, -, -, -, -, hev⟩ :=
      aub_flush_trace fam fuel csr call.batchBuffer call.engineOrdinal (hinv call.engineOrdinal)
    have hinv1 : ∀ e, (csr1.engineInfoTable e).Fresh ∨ (csr1.engineInfoTable e).Ready := by
      intro e
      by_cases he : e = call.engineOrdinal
      · subst he; exact Or.inr hready
      · rw [hoth e he]; exact hinv e
    obtain ⟨csr2, hrun, hinv2, hiff, hcount⟩ := aub_run_lrcaWrites fam fuel rest csr1 hinv1
    have hevs : ∀ e, lrcaWrites e b.events = [] := by
      intro e
      apply lrcaWrites_wrap_events
      rcases hev with h | ⟨src, -, -, h⟩
      · exact Or.inl h
      · exact Or.inr ⟨_, _, _, h⟩
    have hc1 : ∀ e, (lrcaWrites e csr1.stream).length = (lrcaWrites e csr.stream).length +
        (if (csr.engineInfoTable call.engineOrdinal).pLRCA = none ∧ e = call.engineOrdinal
          then 1 else 0) := by
      intro e
      rw [hstream]
      simp only [lrcaWrites_append, aub_lrcaWrites_writeBatchBuffer, hevs,
        aub_lrcaWrites_dumpRing, lrcaWrites_submitLRCA, lrcaWrites_pollForCompletion,
        List.append_nil, List.length_append]
      by_cases hp : (csr.engineInfoTable call.engineOrdinal).pLRCA = none
      · simp only [hp, if_true, true_and, aub_lrcaWrites_initializeEngine]
      · simp only [hp, if_false, false_and]
        rfl
    refine ⟨csr2, ?_, hinv2, ?_, ?_⟩
    · simp only [run, hfl]
      exact hrun
    · intro e
      rw [hiff e]
      by_cases he : e = call.engineOrdinal
      · subst he
        constructor
        · rintro ⟨h, -⟩
          exact absurd h hready.1
        · rintro ⟨-, h⟩
          exact absurd rfl (h call (List.mem_cons_self _ _))
      · rw [hoth e he]
        constructor
        · rintro ⟨h1, h2⟩
          refine ⟨h1, ?_⟩
          intro c hc
          rcases List.mem_cons.mp hc with rfl | hc
          · exact fun hh => he hh.symm
          · exact h2 c hc
        · rintro ⟨h1, h2⟩
          exact ⟨h1, fun c hc => h2 c (List.mem_cons_of_mem _ hc)⟩
    · intro e
      rw [hcount e, hc1 e]
      by_cases he : e = call.engineOrdinal
      · subst he
        have h1 : (csr1.engineInfoTable call.engineOrdinal).pLRCA ≠ none := hready.1
        by_cases hp : (csr.engineInfoTable call.engineOrdinal).pLRCA = none
        · simp [hp, h1]
        · simp [hp, h1]
      · rw [hoth e he]
        have he' : ¬ call.engineOrdinal = e := fun hh => he hh.symm
        simp [he, he']

end AubCount

section TbxCount
open TbxCommandStreamReceiverHw

theorem tbx_lrcaWrites_initializeEngine (e' : Nat) (fam : GfxFamily) (e : Nat) :
    (lrcaWrites e' (initializeEngine fam construct e).stream).length =
      if e' = e then 1 else 0 := by
  rw [tbx_initializeEngine_stream]
  simp only [lrcaWrites_append, initGlobalMMIO, initEngineMMIO, lrcaWrites_writeMMIO]
  by_cases h : e' = e
  · subst h
    simp [lrcaWrites, SinkEvent.isLrcaWrite, construct]
  · have h' : ¬ e = e' := fun hh => h hh.symm
    simp [lrcaWrites, SinkEvent.isLrcaWrite, construct, h, h']

theorem tbx_lrcaWrites_writeBatchBuffer (e' : Nat) (fam : GfxFamily) (bb : BatchBuffer) :
    lrcaWrites e' (writeBatchBuffer fam bb) = [] := by
  simp [lrcaWrites, writeBatchBuffer, SinkEvent.isLrcaWrite]

theorem tbx_lrcaWrites_dumpRing (e' : Nat) (fam : GfxFamily) (info : EngineInfo) (b : RingBlock) :
    lrcaWrites e' (dumpRing fam info b) = [] := by
  simp [lrcaWrites, dumpRing, SinkEvent.isLrcaWrite]

/-- The writes of logical context images after a run, from any receiver whose engines are
fresh or ready. -/
theorem tbx_run_lrcaWrites (fam : GfxFamily) :
    ∀ (calls : List FlushCall) (csr : TbxCommandStreamReceiverHw),
      (∀ e, (csr.engineInfoTable e).Fresh ∨ (csr.engineInfoTable e).Ready) →
        (∀ e, ((run fam csr calls).engineInfoTable e).Fresh ∨
          ((run fam csr calls).engineInfoTable e).Ready) ∧
        (∀ e, ((run fam csr calls).engineInfoTable e).pLRCA = none ↔
          ((csr.engineInfoTable e).pLRCA = none ∧ ∀ c ∈ calls, c.engineOrdinal ≠ e)) ∧
        (∀ e, (lrcaWrites e (run fam csr calls).stream).length =
          (lrcaWrites e csr.stream).length +
          (if (csr.engineInfoTable e).pLRCA = none ∧ e ∈ calls.map FlushCall.engineOrdinal
            then 1 else 0))
  | [], csr, hinv => ⟨hinv, by simp [run], by simp [run]⟩
  | call :: rest, csr, hinv => by
    obtain ⟨csr1, b, hfl, hstream, hoth, hready, -, -, -, -, -, hev⟩ :=
      tbx_flush_trace fam csr call.batchBuffer call.engineOrdinal (hinv call.engineOrdinal)
    have hinv1 : ∀ e, (csr1.engineInfoTable e).Fresh ∨ (csr1.engineInfoTable e).Ready := by
      intro e
      by_cases he : e = call.engineOrdinal
      · subst he; exact Or.inr hready
      · rw [hoth e he]; exact hinv e
    obtain ⟨hinv2, hiff, hcount⟩ := tbx_run_lrcaWrites fam rest csr1 hinv1
    have hrun : run fam csr (call :: rest) = run fam csr1 rest := by
      simp only [run, hfl]
    rw [hrun]
    have hevs : ∀ e, lrcaWrites e b.events = [] := by
      intro e
      apply lrcaWrites_wrap_events
      rcases hev with h | ⟨src, -, -, h⟩
      · exact Or.inl h
      · exact Or.inr ⟨_, _, _, h⟩
    have hc1 : ∀ e, (lrcaWrites e csr1.stream).length = (lrcaWrites e csr.stream).length +
        (if (csr.engineInfoTable call.engineOrdinal).pLRCA = none ∧ e = call.engineOrdinal
          then 1 else 0) := by
      intro e
      rw [hstream]
      simp only [lrcaWrites_append, tbx_lrcaWrites_writeBatchBuffer, hevs,
        tbx_lrcaWrites_dumpRing, lrcaWrites_submitLRCA, lrcaWrites_pollForCompletion,
        List.append_nil, List.length_append]
      by_cases hp : (csr.engineInfoTable call.engineOrdinal).pLRCA = none
      · simp only [hp, if_true, true_and, tbx_lrcaWrites_initializeEngine]
      · simp only [hp, if_false, false_and]
        rfl
    refine ⟨hinv2, ?_, ?_⟩
    · intro e
      rw [hiff e]
      by_cases he : e = call.engineOrdinal
      · subst he
        constructor
        · rintro ⟨h, -⟩
          exact absurd h hready.1
        · rintro ⟨-, h⟩
          exact absurd rfl (h call (List.mem_cons_self _ _))
      · rw [hoth e he]
        constructor
        · rintro ⟨h1, h2⟩
          refine ⟨h1, ?_⟩
          intro c hc
          rcases List.mem_cons.mp hc with rfl | hc
          · exact fun hh => he hh.symm
          · exact h2 c hc
        · rintro ⟨h1, h2⟩
          exact ⟨h1, fun c hc => h2 c (List.mem_cons_of_mem _ hc)⟩
    · intro e
      rw [hcount e, hc1 e]
      by_cases he : e = call.engineOrdinal
      · subst he
        have h1 : (csr1.engineInfoTable call.engineOrdinal).pLRCA ≠ none := hready.1
        by_cases hp : (csr.engineInfoTable call.engineOrdinal).pLRCA = none
        · simp [hp, h1]
        · simp [hp, h1]
      · rw [hoth e he]
        have he' : ¬ call.engineOrdinal = e := fun hh => he hh.symm
        simp [he, he']

end TbxCount

/-- The calls an AUB flush makes after the lazy initialization reserve no GGTT range and write
no MMIO register other than the execlist submit port, which they write four times. -/
theorem aub_flush_rest_no_setup (fam : GfxFamily) (bb : BatchBuffer) (e : Nat)
    (info : AUBCommandStreamReceiverHw.EngineInfo) (b : RingBlock) (descriptor : MiContextDescriptorReg)
    (hev : b.events = [] ∨ ∃ physical source size, b.events =
      [SinkEvent.addMemoryWrite physical source size AddressSpace.TraceNonlocal
        DataTypeHint.TraceCommandBuffer]) :
    (∀ address size physical, SinkEvent.reserveAddressGGTT address size physical ∉
      AUBCommandStreamReceiverHw.writeBatchBuffer fam bb ++ (b.events ++ (AUBCommandStreamReceiverHw.dumpRing fam info b ++
        (submitLRCA fam e descriptor ++ pollForCompletion fam e)))) ∧
    (∀ offset value, SinkEvent.writeMMIO offset value ∈
      AUBCommandStreamReceiverHw.writeBatchBuffer fam bb ++ (b.events ++ (AUBCommandStreamReceiverHw.dumpRing fam info b ++
        (submitLRCA fam e descriptor ++ pollForCompletion fam e))) →
      offset = fam.mmioBase e + 0x2230) ∧
    ((AUBCommandStreamReceiverHw.writeBatchBuffer fam bb ++ (b.events ++ (AUBCommandStreamReceiverHw.dumpRing fam info b ++
        (submitLRCA fam e descriptor ++ pollForCompletion fam e)))).filter
      (fun ev => ev matches SinkEvent.writeMMIO _ _)).length = 4 := by
  rcases hev with h | ⟨physical, source, size, h⟩
  · rw [h]
    refine ⟨?_, ?_, ?_⟩
    · intro address size physical
      simp [AUBCommandStreamReceiverHw.writeBatchBuffer, AUBCommandStreamReceiverHw.dumpRing, submitLRCA, pollForCompletion]
    · intro offset value
      simp only [AUBCommandStreamReceiverHw.writeBatchBuffer, AUBCommandStreamReceiverHw.dumpRing, submitLRCA, pollForCompletion,
        List.nil_append, List.cons_append, List.mem_cons, List.mem_singleton, reduceCtorEq,
        false_or, SinkEvent.writeMMIO.injEq, List.not_mem_nil, or_false]
      rintro (h1 | h1 | h1 | h1) <;> exact h1.1
    · simp [AUBCommandStreamReceiverHw.writeBatchBuffer, AUBCommandStreamReceiverHw.dumpRing, submitLRCA, pollForCompletion]
  · rw [h]
    refine ⟨?_, ?_, ?_⟩
    · intro address size physical
      simp [AUBCommandStreamReceiverHw.writeBatchBuffer, AUBCommandStreamReceiverHw.dumpRing, submitLRCA, pollForCompletion]
    · intro offset value
      simp only [AUBCommandStreamReceiverHw.writeBatchBuffer, AUBCommandStreamReceiverHw.dumpRing, submitLRCA, pollForCompletion,
        List.nil_append, List.cons_append, List.mem_cons, List.mem_singleton, reduceCtorEq,
        false_or, SinkEvent.writeMMIO.injEq, List.not_mem_nil, or_false]
      rintro (h1 | h1 | h1 | h1) <;> exact h1.1
    · simp [AUBCommandStreamReceiverHw.writeBatchBuffer, AUBCommandStreamReceiverHw.dumpRing, submitLRCA, pollForCompletion]

/-- The calls a TBX flush makes after the lazy initialization reserve no GGTT range and write
no MMIO register other than the execlist submit port, which they write four times. -/
theorem tbx_flush_rest_no_setup (fam : GfxFamily) (bb : BatchBuffer) (e : Nat)
    (info : TbxCommandStreamReceiverHw.EngineInfo) (b : RingBlock) (descriptor : MiContextDescriptorReg)
    (hev : b.events = [] ∨ ∃ physical source size, b.events =
      [SinkEvent.addMemoryWrite physical source size AddressSpace.TraceNonlocal
        DataTypeHint.TraceCommandBuffer]) :
    (∀ address size physical, SinkEvent.reserveAddressGGTT address size physical ∉
      TbxCommandStreamReceiverHw.writeBatchBuffer fam bb ++ (b.events ++ (TbxCommandStreamReceiverHw.dumpRing fam info b ++
        (submitLRCA fam e descriptor ++ pollForCompletion fam e)))) ∧
    (∀ offset value, SinkEvent.writeMMIO offset value ∈
      TbxCommandStreamReceiverHw.writeBatchBuffer fam bb ++ (b.events ++ (TbxCommandStreamReceiverHw.dumpRing fam info b ++
        (submitLRCA fam e descriptor ++ pollForCompletion fam e))) →
      offset = fam.mmioBase e + 0x2230) ∧
    ((TbxCommandStreamReceiverHw.writeBatchBuffer fam bb ++ (b.events ++ (TbxCommandStreamReceiverHw.dumpRing fam info b ++
        (submitLRCA fam e descriptor ++ pollForCompletion fam e)))).filter
      (fun ev => ev matches SinkEvent.writeMMIO _ _)).length = 4 := by
  rcases hev with h | ⟨physical, source, size, h⟩
  · rw [h]
    refine ⟨?_, ?_, ?_⟩
    · intro address size physical
      simp [TbxCommandStreamReceiverHw.writeBatchBuffer, TbxCommandStreamReceiverHw.dumpRing, submitLRCA, pollForCompletion]
    · intro offset value
      simp only [TbxCommandStreamReceiverHw.writeBatchBuffer, TbxCommandStreamReceiverHw.dumpRing, submitLRCA, pollForCompletion,
        List.nil_append, List.cons_append, List.mem_cons, List.mem_singleton, reduceCtorEq,
        false_or, SinkEvent.writeMMIO.injEq, List.not_mem_nil, or_false]
      rintro (h1 | h1 | h1 | h1) <;> exact h1.1
    · simp [TbxCommandStreamReceiverHw.writeBatchBuffer, TbxCommandStreamReceiverHw.dumpRing, submitLRCA, pollForCompletion]
  · rw [h]
    refine ⟨?_, ?_, ?_⟩
    · intro address size physical
      simp [TbxCommandStreamReceiverHw.writeBatchBuffer, TbxCommandStreamReceiverHw.dumpRing, submitLRCA, pollForCompletion]
    · intro offset value
      simp only [TbxCommandStreamReceiverHw.writeBatchBuffer, TbxCommandStreamReceiverHw.dumpRing, submitLRCA, pollForCompletion,
        List.nil_append, List.cons_append, List.mem_cons, List.mem_singleton, reduceCtorEq,
        false_or, SinkEvent.writeMMIO.injEq, List.not_mem_nil, or_false]
      rintro (h1 | h1 | h1 | h1) <;> exact h1.1
    · simp [TbxCommandStreamReceiverHw.writeBatchBuffer, TbxCommandStreamReceiverHw.dumpRing, submitLRCA, pollForCompletion]

/-- C14: on both receivers, after any sequence of flushes from construction, a further flush
on engine `e` returns, and it runs `initializeEngine` exactly if the logical context of `e` is
absent (`pLRCA` is null), which is the case exactly if no earlier flush of the sequence was on
`e`. The calls the flush adds to the stream are, in that case only, the calls `init` of
`initializeEngine` (the MMIO writes of the global and of the engine's table, the GGTT
reservations of status page, ring and logical context, the write of the status page register
and the write of the logical context image), followed in every case by the calls `rest`: the
batch buffer, the ring dump of a wraparound if there is one, the dump of the new commands and
of the tail, the four writes to the execlist submit port and the poll. The calls `rest`
contain no GGTT reservation, no MMIO write other than the four to the submit port at
`mmioBase + 0x2230`, and no write of a logical context image, so a later flush repeats no
part of the initialization. On the first flush the status page, ring and logical context
pointers become the newly allocated blocks; on a later flush the three pointers and their
GGTT addresses stay as they were. After the flush the logical context is present. In the
trace after any sequence of flushes, the logical context image of an engine is written
exactly once if the engine was flushed and not at all otherwise. -/
theorem engine_initialized_exactly_on_first_flush (fam : GfxFamily) (fuel : Nat)
    (calls : List FlushCall) (bb : BatchBuffer) (e : Nat) :
    (∃ csr csr1 b init rest,
      AUBCommandStreamReceiverHw.run fam (fuel + 2) AUBCommandStreamReceiverHw.construct calls =
        Except.ok csr ∧
      AUBCommandStreamReceiverHw.flush fam (fuel + 2) csr bb e = Except.ok (0, csr1) ∧
      ((csr.engineInfoTable e).pLRCA = none ↔ ∀ c ∈ calls, c.engineOrdinal ≠ e) ∧
      (csr1.engineInfoTable e).pLRCA ≠ none ∧
      csr1.stream = csr.stream ++
        ((if (csr.engineInfoTable e).pLRCA = none then init else []) ++ rest) ∧
      init = (AUBCommandStreamReceiverHw.initializeEngine fam AUBCommandStreamReceiverHw.construct e).stream ∧
      init =
        fam.globalMMIO.map (fun mmioPair => SinkEvent.writeMMIO mmioPair.1 mmioPair.2) ++
        (fam.perEngineMMIO e).map (fun mmioPair => SinkEvent.writeMMIO mmioPair.1 mmioPair.2) ++
        [SinkEvent.addComment "ggtt: " (fam.gttRemapMap (fam.mallocHWSP e) 0x1000),
         SinkEvent.reserveAddressGGTT (fam.gttRemapMap (fam.mallocHWSP e) 0x1000) 0x1000
           (fam.ggttMap (fam.gttRemapMap (fam.mallocHWSP e) 0x1000) 0x1000),
         SinkEvent.writeMMIO (fam.mmioBase e + 0x2080) (fam.gttRemapMap (fam.mallocHWSP e) 0x1000),
         SinkEvent.addComment "ggtt: " (fam.gttRemapMap (fam.mallocRing e) 16384),
         SinkEvent.reserveAddressGGTT (fam.gttRemapMap (fam.mallocRing e) 16384) 16384
           (fam.ggttMap (fam.gttRemapMap (fam.mallocRing e) 16384) 16384),
         SinkEvent.addComment "ggtt: " (fam.gttRemapMap (fam.mallocLRCA e) (fam.sizeLRCA e)),
         SinkEvent.reserveAddressGGTT (fam.gttRemapMap (fam.mallocLRCA e) (fam.sizeLRCA e))
           (fam.sizeLRCA e)
           (fam.ggttMap (fam.gttRemapMap (fam.mallocLRCA e) (fam.sizeLRCA e)) (fam.sizeLRCA e)),
         SinkEvent.addMemoryWrite
           (fam.ggttMap (fam.gttRemapMap (fam.mallocLRCA e) (fam.sizeLRCA e)) (fam.sizeLRCA e))
           (MemSource.lrca 0 0 (fam.gttRemapMap (fam.mallocRing e) 16384) 0x3001)
           (fam.sizeLRCA e) AddressSpace.TraceNonlocal (DataTypeHint.aubHintLRCA e)] ∧
      rest = AUBCommandStreamReceiverHw.writeBatchBuffer fam bb ++ (b.events ++
        (AUBCommandStreamReceiverHw.dumpRing fam (csr1.engineInfoTable e) b ++
          (submitLRCA fam e (contextDescriptor fam (csr1.engineInfoTable e).ggttLRCA) ++
            pollForCompletion fam e))) ∧
      (b.events = [] ∨ ∃ physical source size, b.events =
        [SinkEvent.addMemoryWrite physical source size AddressSpace.TraceNonlocal
          DataTypeHint.TraceCommandBuffer]) ∧
      (∀ address size physical, SinkEvent.reserveAddressGGTT address size physical ∉ rest) ∧
      (∀ offset value, SinkEvent.writeMMIO offset value ∈ rest →
        offset = fam.mmioBase e + 0x2230) ∧
      (rest.filter (fun ev => ev matches SinkEvent.writeMMIO _ _)).length = 4 ∧
      (∀ e1, lrcaWrites e1 rest = []) ∧
      ((csr.engineInfoTable e).pLRCA = none →
        (csr1.engineInfoTable e).pLRCA = some (fam.mallocLRCA e) ∧
        (csr1.engineInfoTable e).pRingBuffer = some (fam.mallocRing e) ∧
        (csr1.engineInfoTable e).pGlobalHWStatusPage = some (fam.mallocHWSP e)) ∧
      ((csr.engineInfoTable e).pLRCA ≠ none →
        (csr1.engineInfoTable e).pLRCA = (csr.engineInfoTable e).pLRCA ∧
        (csr1.engineInfoTable e).pRingBuffer = (csr.engineInfoTable e).pRingBuffer ∧
        (csr1.engineInfoTable e).pGlobalHWStatusPage =
          (csr.engineInfoTable e).pGlobalHWStatusPage ∧
        (csr1.engineInfoTable e).ggttLRCA = (csr.engineInfoTable e).ggttLRCA ∧
        (csr1.engineInfoTable e).ggttRingBuffer = (csr.engineInfoTable e).ggttRingBuffer ∧
        (csr1.engineInfoTable e).ggttHWSP = (csr.engineInfoTable e).ggttHWSP) ∧
      (∀ e1, (lrcaWrites e1 csr.stream).length =
        if e1 ∈ calls.map FlushCall.engineOrdinal then 1 else 0)) ∧
    (∃ csr csr1 b init rest,
      TbxCommandStreamReceiverHw.run fam TbxCommandStreamReceiverHw.construct calls = csr ∧
      TbxCommandStreamReceiverHw.flush fam csr bb e = (0, csr1) ∧
      ((csr.engineInfoTable e).pLRCA = none ↔ ∀ c ∈ calls, c.engineOrdinal ≠ e) ∧
      (csr1.engineInfoTable e).pLRCA ≠ none ∧
      csr1.stream = csr.stream ++
        ((if (csr.engineInfoTable e).pLRCA = none then init else []) ++ rest) ∧
      init = (TbxCommandStreamReceiverHw.initializeEngine fam TbxCommandStreamReceiverHw.construct e).stream ∧
      init =
        fam.globalMMIO.map (fun mmioPair => SinkEvent.writeMMIO mmioPair.1 mmioPair.2) ++
        (fam.perEngineMMIO e).map (fun mmioPair => SinkEvent.writeMMIO mmioPair.1 mmioPair.2) ++
        [SinkEvent.reserveAddressGGTT (fam.gttRemapMap (fam.mallocHWSP e) 0x1000) 0x1000
           (fam.ggttMap (fam.gttRemapMap (fam.mallocHWSP e) 0x1000) 0x1000),
         SinkEvent.writeMMIO (fam.mmioBase e + 0x2080) (fam.gttRemapMap (fam.mallocHWSP e) 0x1000),
         SinkEvent.reserveAddressGGTT (fam.gttRemapMap (fam.mallocRing e) 16384) 16384
           (fam.ggttMap (fam.gttRemapMap (fam.mallocRing e) 16384) 16384),
         SinkEvent.reserveAddressGGTT (fam.gttRemapMap (fam.mallocLRCA e) (fam.sizeLRCA e))
           (fam.sizeLRCA e)
           (fam.ggttMap (fam.gttRemapMap (fam.mallocLRCA e) (fam.sizeLRCA e)) (fam.sizeLRCA e)),
         SinkEvent.addMemoryWrite
           (fam.ggttMap (fam.gttRemapMap (fam.mallocLRCA e) (fam.sizeLRCA e)) (fam.sizeLRCA e))
           (MemSource.lrca 0 0 (fam.gttRemapMap (fam.mallocRing e) 16384) 0x3001)
           (fam.sizeLRCA e) AddressSpace.TraceNonlocal (DataTypeHint.aubHintLRCA e)] ∧
      rest = TbxCommandStreamReceiverHw.writeBatchBuffer fam bb ++ (b.events ++
        (TbxCommandStreamReceiverHw.dumpRing fam (csr1.engineInfoTable e) b ++
          (submitLRCA fam e (contextDescriptor fam (csr1.engineInfoTable e).ggttLRCA) ++
            pollForCompletion fam e))) ∧
      (b.events = [] ∨ ∃ physical source size, b.events =
        [SinkEvent.addMemoryWrite physical source size AddressSpace.TraceNonlocal
          DataTypeHint.TraceCommandBuffer]) ∧
      (∀ address size physical, SinkEvent.reserveAddressGGTT address size physical ∉ rest) ∧
      (∀ offset value, SinkEvent.writeMMIO offset value ∈ rest →
        offset = fam.mmioBase e + 0x2230) ∧
      (rest.filter (fun ev => ev matches SinkEvent.writeMMIO _ _)).length = 4 ∧
      (∀ e1, lrcaWrites e1 rest = []) ∧
      ((csr.engineInfoTable e).pLRCA = none →
        (csr1.engineInfoTable e).pLRCA = some (fam.mallocLRCA e) ∧
        (csr1.engineInfoTable e).pRCS = some (fam.mallocRing e) ∧
        (csr1.engineInfoTable e).pGlobalHWStatusPage = some (fam.mallocHWSP e)) ∧
      ((csr.engineInfoTable e).pLRCA ≠ none →
        (csr1.engineInfoTable e).pLRCA = (csr.engineInfoTable e).pLRCA ∧
        (csr1.engineInfoTable e).pRCS = (csr.engineInfoTable e).pRCS ∧
        (csr1.engineInfoTable e).pGlobalHWStatusPage =
          (csr.engineInfoTable e).pGlobalHWStatusPage ∧
        (csr1.engineInfoTable e).ggttLRCA = (csr.engineInfoTable e).ggttLRCA ∧
        (csr1.engineInfoTable e).ggttRCS = (csr.engineInfoTable e).ggttRCS ∧
        (csr1.engineInfoTable e).ggttHWSP = (csr.engineInfoTable e).ggttHWSP) ∧
      (∀ e1, (lrcaWrites e1 csr.stream).length =
        if e1 ∈ calls.map FlushCall.engineOrdinal then 1 else 0)) := by
  constructor
  · obtain ⟨csr, hrun, hinv, hiff, hcount⟩ := aub_run_lrcaWrites fam fuel calls
      AUBCommandStreamReceiverHw.construct (fun e => Or.inl (aub_construct_fresh e))
    obtain ⟨csr1, b, hfl, hstream, -, hready, hentry, -, -, -, -, hev⟩ :=
      aub_flush_trace fam fuel csr bb e (hinv e)
    have hentry1 := aub_ensureInitialized_entry fam csr e
    have hinit := aub_initializeEngine_stream fam AUBCommandStreamReceiverHw.construct e
    have hev1 : b.events = [] ∨ ∃ physical source size, b.events =
        [SinkEvent.addMemoryWrite physical source size AddressSpace.TraceNonlocal
          DataTypeHint.TraceCommandBuffer] := by
      rcases hev with h | ⟨src, -, -, h⟩
      · exact Or.inl h
      · exact Or.inr ⟨_, _, _, h⟩
    obtain ⟨hno, hmmio, hfour⟩ := aub_flush_rest_no_setup fam bb e (csr1.engineInfoTable e) b
      (contextDescriptor fam (csr1.engineInfoTable e).ggttLRCA) hev1
    refine ⟨csr, csr1, b, _, _, hrun, hfl, ?_, hready.1, hstream, rfl, ?_, rfl, hev1, hno, hmmio,
      hfour, ?_, ?_, ?_, ?_⟩
    · rw [hiff e]
      simp [AUBCommandStreamReceiverHw.construct]
    · rw [hinit]
      simp [AUBCommandStreamReceiverHw.construct, initGlobalMMIO, initEngineMMIO]
    · intro e1
      have hevs : lrcaWrites e1 b.events = [] := by
        apply lrcaWrites_wrap_events
        rcases hev with h | ⟨src, -, -, h⟩
        · exact Or.inl h
        · exact Or.inr ⟨_, _, _, h⟩
      simp only [lrcaWrites_append, aub_lrcaWrites_writeBatchBuffer, hevs,
        aub_lrcaWrites_dumpRing, lrcaWrites_submitLRCA, lrcaWrites_pollForCompletion,
        List.append_nil]
    · intro hp
      rw [hentry, hentry1, if_pos hp]
      exact ⟨rfl, rfl, rfl⟩
    · intro hp
      rw [hentry, hentry1, if_neg hp]
      exact ⟨rfl, rfl, rfl, rfl, rfl, rfl⟩
    · intro e1
      rw [hcount e1]
      simp [AUBCommandStreamReceiverHw.construct, lrcaWrites]
  · obtain ⟨hinv, hiff, hcount⟩ := tbx_run_lrcaWrites fam calls
      TbxCommandStreamReceiverHw.construct (fun e => Or.inl (tbx_construct_fresh e))
    obtain ⟨csr1, b, hfl, hstream, -, hready, hentry, -, -, -, -, hev⟩ :=
      tbx_flush_trace fam (TbxCommandStreamReceiverHw.run fam
        TbxCommandStreamReceiverHw.construct calls) bb e (hinv e)
    have hentry1 := tbx_ensureInitialized_entry fam (TbxCommandStreamReceiverHw.run fam
        TbxCommandStreamReceiverHw.construct calls) e
    have hinit := tbx_initializeEngine_stream fam TbxCommandStreamReceiverHw.construct e
    have hev1 : b.events = [] ∨ ∃ physical source size, b.events =
        [SinkEvent.addMemoryWrite physical source size AddressSpace.TraceNonlocal
          DataTypeHint.TraceCommandBuffer] := by
      rcases hev with h | ⟨src, -, -, h⟩
      · exact Or.inl h
      · exact Or.inr ⟨_, _, _, h⟩
    obtain ⟨hno, hmmio, hfour⟩ := tbx_flush_rest_no_setup fam bb e (csr1.engineInfoTable e) b
      (contextDescriptor fam (csr1.engineInfoTable e).ggttLRCA) hev1
    refine ⟨_, csr1, b, _, _, rfl, hfl, ?_, hready.1, hstream, rfl, ?_, rfl, hev1, hno, hmmio,
      hfour, ?_, ?_, ?_, ?_⟩
    · rw [hiff e]
      simp [TbxCommandStreamReceiverHw.construct]
    · rw [hinit]
      simp [TbxCommandStreamReceiverHw.construct, initGlobalMMIO, initEngineMMIO]
    · intro e1
      have hevs : lrcaWrites e1 b.events = [] := by
        apply lrcaWrites_wrap_events
        rcases hev with h | ⟨src, -, -, h⟩
        · exact Or.inl h
        · exact Or.inr ⟨_, _, _, h⟩
      simp only [lrcaWrites_append, tbx_lrcaWrites_writeBatchBuffer, hevs,
        tbx_lrcaWrites_dumpRing, lrcaWrites_submitLRCA, lrcaWrites_pollForCompletion,
        List.append_nil]
    · intro hp
      rw [hentry, hentry1, if_pos hp]
      exact ⟨rfl, rfl, rfl⟩
    · intro hp
      rw [hentry, hentry1, if_neg hp]
      exact ⟨rfl, rfl, rfl, rfl, rfl, rfl⟩
    · intro e1
      rw [hcount e1]
      simp [TbxCommandStreamReceiverHw.construct, lrcaWrites]

theorem withoutComments_append (xs ys : List SinkEvent) :
    withoutComments (xs ++ ys) = withoutComments xs ++ withoutComments ys := by
  simp [withoutComments]

theorem withoutComments_writeMMIO (pairs : List (Nat × Nat)) :
    withoutComments (pairs.map (fun mmioPair => SinkEvent.writeMMIO mmioPair.1 mmioPair.2)) =
      pairs.map (fun mmioPair => SinkEvent.writeMMIO mmioPair.1 mmioPair.2) := by
  induction pairs with
  | nil => rfl
  | cons p rest ih =>
    show withoutComments (SinkEvent.writeMMIO p.1 p.2 ::
      rest.map (fun mmioPair => SinkEvent.writeMMIO mmioPair.1 mmioPair.2)) = _
    unfold withoutComments at ih ⊢
    rw [List.filter_cons_of_pos (by rfl), ih]
    rfl

/-- C15: `initializeEngine` adds its calls to the stream in this order, comments left aside
(the TBX receiver makes no comment): one `writeMMIO` per pair of the global MMIO table in
table order, one per pair of the engine's table in table order, the GGTT reservation of the
status page of 4096 bytes, `writeMMIO(mmioBase + 0x2080, status page GGTT address)`, the GGTT
reservation of the ring of 16384 bytes, the GGTT reservation of the logical context, and last
one memory write of the whole logical context, whose image has ring head 0, ring tail 0, ring
base equal to the GGTT address of the ring and ring control `0x3001`, which is
`(16384 - 4096) | 1`. -/
theorem initializeEngine_emits_setup_in_order (fam : GfxFamily)
    (csrA : AUBCommandStreamReceiverHw) (csrT : TbxCommandStreamReceiverHw) (e : Nat) :
    (∃ events, (AUBCommandStreamReceiverHw.initializeEngine fam csrA e).stream =
        csrA.stream ++ events ∧
      withoutComments events =
        fam.globalMMIO.map (fun mmioPair => SinkEvent.writeMMIO mmioPair.1 mmioPair.2) ++
        (fam.perEngineMMIO e).map (fun mmioPair => SinkEvent.writeMMIO mmioPair.1 mmioPair.2) ++
        [SinkEvent.reserveAddressGGTT (fam.gttRemapMap (fam.mallocHWSP e) 4096) 4096
           (fam.ggttMap (fam.gttRemapMap (fam.mallocHWSP e) 4096) 4096),
         SinkEvent.writeMMIO (fam.mmioBase e + 0x2080) (fam.gttRemapMap (fam.mallocHWSP e) 4096),
         SinkEvent.reserveAddressGGTT (fam.gttRemapMap (fam.mallocRing e) 16384) 16384
           (fam.ggttMap (fam.gttRemapMap (fam.mallocRing e) 16384) 16384),
         SinkEvent.reserveAddressGGTT (fam.gttRemapMap (fam.mallocLRCA e) (fam.sizeLRCA e))
           (fam.sizeLRCA e)
           (fam.ggttMap (fam.gttRemapMap (fam.mallocLRCA e) (fam.sizeLRCA e)) (fam.sizeLRCA e)),
         SinkEvent.addMemoryWrite
           (fam.ggttMap (fam.gttRemapMap (fam.mallocLRCA e) (fam.sizeLRCA e)) (fam.sizeLRCA e))
           (MemSource.lrca 0 0 (fam.gttRemapMap (fam.mallocRing e) 16384) 0x3001)
           (fam.sizeLRCA e) AddressSpace.TraceNonlocal (DataTypeHint.aubHintLRCA e)]) ∧
    (TbxCommandStreamReceiverHw.initializeEngine fam csrT e).stream = csrT.stream ++
      (fam.globalMMIO.map (fun mmioPair => SinkEvent.writeMMIO mmioPair.1 mmioPair.2) ++
        (fam.perEngineMMIO e).map (fun mmioPair => SinkEvent.writeMMIO mmioPair.1 mmioPair.2) ++
        [SinkEvent.reserveAddressGGTT (fam.gttRemapMap (fam.mallocHWSP e) 4096) 4096
           (fam.ggttMap (fam.gttRemapMap (fam.mallocHWSP e) 4096) 4096),
         SinkEvent.writeMMIO (fam.mmioBase e + 0x2080) (fam.gttRemapMap (fam.mallocHWSP e) 4096),
         SinkEvent.reserveAddressGGTT (fam.gttRemapMap (fam.mallocRing e) 16384) 16384
           (fam.ggttMap (fam.gttRemapMap (fam.mallocRing e) 16384) 16384),
         SinkEvent.reserveAddressGGTT (fam.gttRemapMap (fam.mallocLRCA e) (fam.sizeLRCA e))
           (fam.sizeLRCA e)
           (fam.ggttMap (fam.gttRemapMap (fam.mallocLRCA e) (fam.sizeLRCA e)) (fam.sizeLRCA e)),
         SinkEvent.addMemoryWrite
           (fam.ggttMap (fam.gttRemapMap (fam.mallocLRCA e) (fam.sizeLRCA e)) (fam.sizeLRCA e))
           (MemSource.lrca 0 0 (fam.gttRemapMap (fam.mallocRing e) 16384) 0x3001)
           (fam.sizeLRCA e) AddressSpace.TraceNonlocal (DataTypeHint.aubHintLRCA e)]) ∧
    (16384 - 4096) ||| 1 = 0x3001 := by
  refine ⟨⟨_, aub_initializeEngine_stream fam csrA e, ?_⟩, tbx_initializeEngine_stream fam csrT e,
    by decide⟩
  rw [withoutComments_append, withoutComments_append]
  unfold initGlobalMMIO initEngineMMIO
  rw [ withoutComments_writeMMIO, withoutComments_writeMMIO]
  rfl

/-- C16: after any sequence of flushes, a further flush on either receiver returns the flush
stamp 0 and the calls it adds to the stream end with exactly these five, in this order:
`writeMMIO(mmioBase + 0x2230, 0)` twice, `writeMMIO(mmioBase + 0x2230, ulData[1])` and
`writeMMIO(mmioBase + 0x2230, ulData[0])` of the context descriptor (its high and its low
dword), and `registerPoll(mmioBase + 0x2234, 0x100, 0x100, false, Abort)`. On the TBX receiver
this holds from every state. -/
theorem flush_ends_with_submission_and_poll (fam : GfxFamily) (fuel : Nat)
    (calls : List FlushCall) (bb : BatchBuffer) (e : Nat) (csrT : TbxCommandStreamReceiverHw) :
    (∃ csr csr' pre,
      AUBCommandStreamReceiverHw.run fam (fuel + 2) AUBCommandStreamReceiverHw.construct calls =
        Except.ok csr ∧
      AUBCommandStreamReceiverHw.flush fam (fuel + 2) csr bb e = Except.ok (0, csr') ∧
      csr'.stream = csr.stream ++ pre ++
        [SinkEvent.writeMMIO (fam.mmioBase e + 0x2230) 0,
         SinkEvent.writeMMIO (fam.mmioBase e + 0x2230) 0,
         SinkEvent.writeMMIO (fam.mmioBase e + 0x2230)
           (fam.ulData (contextDescriptor fam (csr'.engineInfoTable e).ggttLRCA) 1),
         SinkEvent.writeMMIO (fam.mmioBase e + 0x2230)
           (fam.ulData (contextDescriptor fam (csr'.engineInfoTable e).ggttLRCA) 0),
         SinkEvent.registerPoll (fam.mmioBase e + 0x2234) 0x100 0x100 false
           TimeoutAction.Abort]) ∧
    ((TbxCommandStreamReceiverHw.flush fam csrT bb e).1 = 0 ∧
      ∃ pre, (TbxCommandStreamReceiverHw.flush fam csrT bb e).2.stream = csrT.stream ++ pre ++
        [SinkEvent.writeMMIO (fam.mmioBase e + 0x2230) 0,
         SinkEvent.writeMMIO (fam.mmioBase e + 0x2230) 0,
         SinkEvent.writeMMIO (fam.mmioBase e + 0x2230)
           (fam.ulData (contextDescriptor fam
             ((TbxCommandStreamReceiverHw.flush fam csrT bb e).2.engineInfoTable e).ggttLRCA) 1),
         SinkEvent.writeMMIO (fam.mmioBase e + 0x2230)
           (fam.ulData (contextDescriptor fam
             ((TbxCommandStreamReceiverHw.flush fam csrT bb e).2.engineInfoTable e).ggttLRCA) 0),
         SinkEvent.registerPoll (fam.mmioBase e + 0x2234) 0x100 0x100 false
           TimeoutAction.Abort]) := by
  constructor
  · obtain ⟨csr, hrun, hinv, -, -⟩ := aub_run_inv fam fuel calls
      AUBCommandStreamReceiverHw.construct (fun e => Or.inl (aub_construct_fresh e))
      (by intro p hp; cases hp)
    obtain ⟨csr', b, hfl, hstream, -⟩ := aub_flush_trace fam fuel csr bb e (hinv e)
    refine ⟨csr, csr', (if (csr.engineInfoTable e).pLRCA = none then
        (AUBCommandStreamReceiverHw.initializeEngine fam
          AUBCommandStreamReceiverHw.construct e).stream else []) ++
      (AUBCommandStreamReceiverHw.writeBatchBuffer fam bb ++ (b.events ++
        AUBCommandStreamReceiverHw.dumpRing fam (csr'.engineInfoTable e) b)), hrun, hfl, ?_⟩
    rw [hstream]
    simp only [submitLRCA, pollForCompletion, List.append_assoc, List.cons_append,
      List.nil_append]
  · obtain ⟨csr', pre, hfl, -, hstream, -⟩ := tbx_flush_facts fam csrT bb e _ rfl
    rw [hfl]
    refine ⟨rfl, pre ++ ((TbxCommandStreamReceiverHw.appendCommands fam (fam.mmioBase e)
        ((TbxCommandStreamReceiverHw.ensureInitialized fam csrT e).engineInfoTable e)
        (bb.commandBufferAllocation.underlyingBuffer + bb.startOffset)).events ++
      TbxCommandStreamReceiverHw.dumpRing fam (csr'.engineInfoTable e)
        (TbxCommandStreamReceiverHw.appendCommands fam (fam.mmioBase e)
        ((TbxCommandStreamReceiverHw.ensureInitialized fam csrT e).engineInfoTable e)
        (bb.commandBufferAllocation.underlyingBuffer + bb.startOffset))), ?_⟩
    show csr'.stream = _
    rw [hstream]
    simp only [submitLRCA, pollForCompletion, List.append_assoc, List.cons_append,
      List.nil_append]

/-! ## Memory writes and the reservations before them -/

theorem writesReservedAfter_append (xs : List SinkEvent) :
    ∀ (earlier ys : List SinkEvent), writesReservedAfter earlier (xs ++ ys) =
      (writesReservedAfter earlier xs && writesReservedAfter (earlier ++ xs) ys) := by
  induction xs with
  | nil => intro earlier ys; simp [writesReservedAfter]
  | cons x rest ih =>
    intro earlier ys
    have h := ih (earlier ++ [x]) ys
    rw [List.append_assoc, List.singleton_append] at h
    show (x.reservedIn earlier && writesReservedAfter (earlier ++ [x]) (rest ++ ys)) = _
    rw [h]
    simp only [writesReservedAfter, Bool.and_assoc]

theorem any_reserves_mono (physical size : Nat) (e1 e2 : List SinkEvent)
    (hsub : ∀ ev ∈ e1, ev ∈ e2) (h : e1.any (SinkEvent.reserves physical size) = true) :
    e2.any (SinkEvent.reserves physical size) = true := by
  rw [List.any_eq_true] at h ⊢
  obtain ⟨ev, hev, hr⟩ := h
  exact ⟨ev, hsub ev hev, hr⟩

theorem writesReservedAfter_mono (xs : List SinkEvent) :
    ∀ (e1 e2 : List SinkEvent), (∀ ev ∈ e1, ev ∈ e2) → writesReservedAfter e1 xs = true →
      writesReservedAfter e2 xs = true := by
  induction xs with
  | nil => intro e1 e2 _ _; rfl
  | cons x rest ih =>
    intro e1 e2 hsub h
    simp only [writesReservedAfter, Bool.and_eq_true] at h ⊢
    refine ⟨?_, ih (e1 ++ [x]) (e2 ++ [x]) ?_ h.2⟩
    · cases x with
      | addMemoryWrite physical source size sp hint =>
        exact any_reserves_mono physical size e1 e2 hsub h.1
      | _ => rfl
    · intro ev hev
      rcases List.mem_append.mp hev with hev | hev
      · exact List.mem_append_left _ (hsub ev hev)
      · exact List.mem_append_right _ hev

theorem writesReservedAfter_writeMMIO (earlier : List SinkEvent) (pairs : List (Nat × Nat)) :
    writesReservedAfter earlier
      (pairs.map (fun mmioPair => SinkEvent.writeMMIO mmioPair.1 mmioPair.2)) = true := by
  induction pairs generalizing earlier with
  | nil => rfl
  | cons p rest ih =>
    show writesReservedAfter earlier (SinkEvent.writeMMIO p.1 p.2 ::
      rest.map (fun mmioPair => SinkEvent.writeMMIO mmioPair.1 mmioPair.2)) = true
    simp only [writesReservedAfter, SinkEvent.reservedIn, Bool.true_and]
    exact ih _

theorem writesReservedAfter_submitLRCA (earlier : List SinkEvent) (fam : GfxFamily) (e : Nat)
    (d : MiContextDescriptorReg) : writesReservedAfter earlier (submitLRCA fam e d) = true := by
  simp [submitLRCA, writesReservedAfter, SinkEvent.reservedIn]

theorem writesReservedAfter_pollForCompletion (earlier : List SinkEvent) (fam : GfxFamily)
    (e : Nat) : writesReservedAfter earlier (pollForCompletion fam e) = true := by
  simp [pollForCompletion, writesReservedAfter, SinkEvent.reservedIn]

theorem reserves_of_mem_GGTT (earlier : List SinkEvent) (a n p physical size : Nat)
    (hmem : SinkEvent.reserveAddressGGTT a n p ∈ earlier) (h1 : p ≤ physical)
    (h2 : physical + size ≤ p + n) :
    earlier.any (SinkEvent.reserves physical size) = true := by
  rw [List.any_eq_true]
  exact ⟨_, hmem, by simp [SinkEvent.reserves, h1, h2]⟩

theorem reserves_of_mem_PPGTT (earlier : List SinkEvent) (a n p physical size : Nat)
    (hmem : SinkEvent.reserveAddressPPGTT a n p ∈ earlier) (h1 : p ≤ physical)
    (h2 : physical + size ≤ p + n) :
    earlier.any (SinkEvent.reserves physical size) = true := by
  rw [List.any_eq_true]
  exact ⟨_, hmem, by simp [SinkEvent.reserves, h1, h2]⟩

/-- The walk of `makeResident`: each chunk that stays inside its page is written after the
reservation of that page. -/
theorem writesReservedAfter_residentWalker (cpuAddress gpuAddress : Nat)
    (chunks : List PageChunk)
    (hchunk : ∀ chunk ∈ chunks, chunk.physAddress < 2 ^ 64 ∧
      chunk.physAddress % 4096 + chunk.size ≤ 4096) :
    ∀ earlier, writesReservedAfter earlier
      (chunks.flatMap (residentWalker cpuAddress gpuAddress)) = true := by
  induction chunks with
  | nil => intro earlier; rfl
  | cons c rest ih =>
    intro earlier
    rw [List.flatMap_cons, writesReservedAfter_append, Bool.and_eq_true]
    refine ⟨?_, ih (fun chunk hc => hchunk chunk (List.mem_cons_of_mem _ hc)) _⟩
    obtain ⟨h1, h2⟩ := hchunk c (List.mem_cons_self _ _)
    simp only [residentWalker, writesReservedAfter, SinkEvent.reservedIn, Bool.true_and,
      Bool.and_true]
    apply reserves_of_mem_PPGTT _ (pageAlignDown (gpuAddress + c.offset)) pageSize
      (pageAlignDown c.physAddress)
    · simp
    · unfold pageAlignDown toSizeT pageSize
      rw [Nat.mod_eq_of_lt h1]
      omega
    · unfold pageAlignDown toSizeT pageSize
      rw [Nat.mod_eq_of_lt h1]
      omega

section AubReserved
open AUBCommandStreamReceiverHw

theorem aub_reserved_initializeEngine (fam : GfxFamily) (e : Nat) (earlier : List SinkEvent) :
    writesReservedAfter earlier (initializeEngine fam construct e).stream = true := by
  rw [aub_initializeEngine_stream]
  simp only [construct, List.nil_append, initGlobalMMIO, initEngineMMIO,
    writesReservedAfter_append, writesReservedAfter_writeMMIO, Bool.true_and]
  simp [writesReservedAfter, SinkEvent.reservedIn, SinkEvent.reserves]

theorem aub_reserved_writeBatchBuffer (fam : GfxFamily) (bb : BatchBuffer)
    (earlier : List SinkEvent) :
    writesReservedAfter earlier (writeBatchBuffer fam bb) = true := by
  simp [writeBatchBuffer, writesReservedAfter, SinkEvent.reservedIn, SinkEvent.reserves]

theorem aub_reserved_dumpRing (fam : GfxFamily) (e : Nat) (info : EngineInfo) (b : RingBlock)
    (earlier : List SinkEvent)
    (hlrca : 0x1020 ≤ fam.sizeLRCA e)
    (hring : ∀ off len, off + len ≤ 16384 →
      fam.ggttMap (fam.gttRemapMap (fam.mallocRing e) 16384 + off) len =
        fam.ggttMap (fam.gttRemapMap (fam.mallocRing e) 16384) 16384 + off)
    (hctx : fam.ggttMap (fam.gttRemapMap (fam.mallocLRCA e) (fam.sizeLRCA e)) 4 =
      fam.ggttMap (fam.gttRemapMap (fam.mallocLRCA e) (fam.sizeLRCA e)) (fam.sizeLRCA e))
    (hr : info.ggttRingBuffer = fam.gttRemapMap (fam.mallocRing e) 16384)
    (hc : info.ggttLRCA = fam.gttRemapMap (fam.mallocLRCA e) (fam.sizeLRCA e))
    (hmr : SinkEvent.reserveAddressGGTT (fam.gttRemapMap (fam.mallocRing e) 16384) 16384
      (fam.ggttMap (fam.gttRemapMap (fam.mallocRing e) 16384) 16384) ∈ earlier)
    (hmc : SinkEvent.reserveAddressGGTT (fam.gttRemapMap (fam.mallocLRCA e) (fam.sizeLRCA e))
      (fam.sizeLRCA e)
      (fam.ggttMap (fam.gttRemapMap (fam.mallocLRCA e) (fam.sizeLRCA e)) (fam.sizeLRCA e)) ∈
        earlier)
    (hlt : b.previousTail < b.cursor.tail) (hle : b.cursor.tail ≤ 16368) :
    writesReservedAfter earlier (dumpRing fam info b) = true := by
  have hsub : subUInt32 b.cursor.tail b.previousTail = b.cursor.tail - b.previousTail :=
    subUInt32_of_le _ _ (by omega) (by omega)
  simp only [dumpRing, writesReservedAfter, SinkEvent.reservedIn, Bool.true_and, Bool.and_true,
    Bool.and_eq_true, hsub, hr, hc]
  constructor
  · rw [hring b.previousTail (b.cursor.tail - b.previousTail) (by omega)]
    apply reserves_of_mem_GGTT _ _ _ _ _ _ (List.mem_append_left _ hmr)
    · omega
    · omega
  · rw [hctx]
    apply reserves_of_mem_GGTT _ _ _ _ _ _
      (List.mem_append_left _ (List.mem_append_left _ (List.mem_append_left _ hmc)))
    · omega
    · omega

theorem aub_initializeEngine_reservations (fam : GfxFamily) (e : Nat) :
    SinkEvent.reserveAddressGGTT (fam.gttRemapMap (fam.mallocRing e) 16384) 16384
      (fam.ggttMap (fam.gttRemapMap (fam.mallocRing e) 16384) 16384) ∈
        (initializeEngine fam construct e).stream ∧
    SinkEvent.reserveAddressGGTT (fam.gttRemapMap (fam.mallocLRCA e) (fam.sizeLRCA e))
      (fam.sizeLRCA e)
      (fam.ggttMap (fam.gttRemapMap (fam.mallocLRCA e) (fam.sizeLRCA e)) (fam.sizeLRCA e)) ∈
        (initializeEngine fam construct e).stream := by
  rw [aub_initializeEngine_stream]
  simp

/-- A flush keeps every memory write of the trace behind a reservation that holds it, and
leaves the reservations of the engine's ring and logical context in the trace. -/
theorem aub_flush_reserved (fam : GfxFamily) (fuel : Nat) (csr : AUBCommandStreamReceiverHw)
    (bb : BatchBuffer) (e : Nat)
    (hlrca : 0x1020 ≤ fam.sizeLRCA e)
    (hring : ∀ off len, off + len ≤ 16384 →
      fam.ggttMap (fam.gttRemapMap (fam.mallocRing e) 16384 + off) len =
        fam.ggttMap (fam.gttRemapMap (fam.mallocRing e) 16384) 16384 + off)
    (hctx : fam.ggttMap (fam.gttRemapMap (fam.mallocLRCA e) (fam.sizeLRCA e)) 4 =
      fam.ggttMap (fam.gttRemapMap (fam.mallocLRCA e) (fam.sizeLRCA e)) (fam.sizeLRCA e))
    (hinv : (csr.engineInfoTable e).Fresh ∨ (csr.engineInfoTable e).Ready)
    (hres : writesReserved csr.stream = true)
    (hknown : (csr.engineInfoTable e).pLRCA ≠ none →
      (csr.engineInfoTable e).ggttRingBuffer = fam.gttRemapMap (fam.mallocRing e) 16384 ∧
      (csr.engineInfoTable e).ggttLRCA = fam.gttRemapMap (fam.mallocLRCA e) (fam.sizeLRCA e) ∧
      SinkEvent.reserveAddressGGTT (fam.gttRemapMap (fam.mallocRing e) 16384) 16384
        (fam.ggttMap (fam.gttRemapMap (fam.mallocRing e) 16384) 16384) ∈ csr.stream ∧
      SinkEvent.reserveAddressGGTT (fam.gttRemapMap (fam.mallocLRCA e) (fam.sizeLRCA e))
        (fam.sizeLRCA e)
        (fam.ggttMap (fam.gttRemapMap (fam.mallocLRCA e) (fam.sizeLRCA e)) (fam.sizeLRCA e)) ∈
          csr.stream) :
    ∃ csr' added, flush fam (fuel + 2) csr bb e = Except.ok (0, csr') ∧
      csr'.stream = csr.stream ++ added ∧
      writesReserved csr'.stream = true ∧
      (∀ e', e' ≠ e → csr'.engineInfoTable e' = csr.engineInfoTable e') ∧
      (csr'.engineInfoTable e).Ready ∧
      (csr'.engineInfoTable e).ggttRingBuffer = fam.gttRemapMap (fam.mallocRing e) 16384 ∧
      (csr'.engineInfoTable e).ggttLRCA = fam.gttRemapMap (fam.mallocLRCA e) (fam.sizeLRCA e) ∧
      SinkEvent.reserveAddressGGTT (fam.gttRemapMap (fam.mallocRing e) 16384) 16384
        (fam.ggttMap (fam.gttRemapMap (fam.mallocRing e) 16384) 16384) ∈ csr'.stream ∧
      SinkEvent.reserveAddressGGTT (fam.gttRemapMap (fam.mallocLRCA e) (fam.sizeLRCA e))
        (fam.sizeLRCA e)
        (fam.ggttMap (fam.gttRemapMap (fam.mallocLRCA e) (fam.sizeLRCA e)) (fam.sizeLRCA e)) ∈
          csr'.stream := by
  obtain ⟨csr', b, hfl, hstream, hoth, hready, hentry, -, -, hlt, hle, hev⟩ :=
    aub_flush_trace fam fuel csr bb e hinv
  have hentry' := aub_ensureInitialized_entry fam csr e
  -- the engine's addresses after the flush, and its reservations before the batch buffer
  have hfacts : (csr'.engineInfoTable e).ggttRingBuffer =
        fam.gttRemapMap (fam.mallocRing e) 16384 ∧
      (csr'.engineInfoTable e).ggttLRCA = fam.gttRemapMap (fam.mallocLRCA e) (fam.sizeLRCA e) ∧
      SinkEvent.reserveAddressGGTT (fam.gttRemapMap (fam.mallocRing e) 16384) 16384
        (fam.ggttMap (fam.gttRemapMap (fam.mallocRing e) 16384) 16384) ∈
        csr.stream ++ (if (csr.engineInfoTable e).pLRCA = none then
          (initializeEngine fam construct e).stream else []) ∧
      SinkEvent.reserveAddressGGTT (fam.gttRemapMap (fam.mallocLRCA e) (fam.sizeLRCA e))
        (fam.sizeLRCA e)
        (fam.ggttMap (fam.gttRemapMap (fam.mallocLRCA e) (fam.sizeLRCA e)) (fam.sizeLRCA e)) ∈
        csr.stream ++ (if (csr.engineInfoTable e).pLRCA = none then
          (initializeEngine fam construct e).stream else []) := by
    by_cases hp : (csr.engineInfoTable e).pLRCA = none
    · rw [hentry, hentry', if_pos hp, if_pos hp]
      obtain ⟨h1, h2⟩ := aub_initializeEngine_reservations fam e
      exact ⟨rfl, rfl, List.mem_append_right _ h1, List.mem_append_right _ h2⟩
    · rw [hentry, hentry', if_neg hp, if_neg hp]
      obtain ⟨h1, h2, h3, h4⟩ := hknown hp
      exact ⟨h1, h2, List.mem_append_left _ h3, List.mem_append_left _ h4⟩
  obtain ⟨hr, hc, hmr, hmc⟩ := hfacts
  refine ⟨csr', _, hfl, hstream, ?_, hoth, hready, hr, hc, ?_, ?_⟩
  · rw [hstream]
    unfold writesReserved at hres ⊢
    rw [writesReservedAfter_append, hres, Bool.true_and, List.nil_append,
      writesReservedAfter_append, writesReservedAfter_append, writesReservedAfter_append,
      writesReservedAfter_append, writesReservedAfter_append]
    simp only [Bool.and_eq_true]
    refine ⟨?_, ?_, ?_, ?_, ?_, ?_⟩
    · by_cases hp : (csr.engineInfoTable e).pLRCA = none
      · rw [if_pos hp]; exact aub_reserved_initializeEngine fam e _
      · rw [if_neg hp]; rfl
    · exact aub_reserved_writeBatchBuffer fam bb _
    · rcases hev with h | ⟨src, hp, ht, h⟩
      · rw [h]; rfl
      · rw [h]
        simp only [writesReservedAfter, SinkEvent.reservedIn, Bool.and_true]
        obtain ⟨h1, -, -, -⟩ := hknown hp
        rw [h1, hring _ _ (by omega)]
        apply reserves_of_mem_GGTT _ _ _ _ _ _ (List.mem_append_left _ hmr)
        · omega
        · omega
    · exact aub_reserved_dumpRing fam e _ b _ hlrca hring hctx hr hc
        (List.mem_append_left _ (List.mem_append_left _ hmr))
        (List.mem_append_left _ (List.mem_append_left _ hmc)) hlt hle
    · exact writesReservedAfter_submitLRCA _ _ _ _
    · exact writesReservedAfter_pollForCompletion _ _ _
  · rw [hstream, ← List.append_assoc]
    exact List.mem_append_left _ hmr
  · rw [hstream, ← List.append_assoc]
    exact List.mem_append_left _ hmc

end AubReserved

section AubReservedRun
open AUBCommandStreamReceiverHw

theorem aub_makeResident_reserved (fam : GfxFamily) (csr : AUBCommandStreamReceiverHw)
    (g : GraphicsAllocation)
    (hchunk : ∀ a n o, ∀ chunk ∈ fam.ppgttPageWalk a n o, chunk.physAddress < 2 ^ 64 ∧
      chunk.physAddress % 4096 + chunk.size ≤ 4096)
    (hres : writesReserved csr.stream = true) :
    writesReserved (makeResident fam csr g).1.stream = true ∧
    (makeResident fam csr g).1.engineInfoTable = csr.engineInfoTable ∧
    ∃ added, (makeResident fam csr g).1.stream = csr.stream ++ added := by
  unfold makeResident
  by_cases h1 : g.residencyTaskCount < toInt32 csr.taskCount
  · by_cases h2 : g.underlyingBufferSize = 0 ∨ ¬ g.allowAubFileWrite = true
    · simp only [if_pos h1, if_pos h2]
      exact ⟨hres, trivial, [], by simp⟩
    · simp only [if_pos h1, if_neg h2]
      refine ⟨?_, trivial, _, List.append_assoc _ _ _⟩
      unfold writesReserved at hres ⊢
      rw [writesReservedAfter_append, writesReservedAfter_append, hres, Bool.true_and,
        Bool.and_eq_true]
      exact ⟨rfl, writesReservedAfter_residentWalker _ _ _ (hchunk _ _ _) _⟩
  · simp only [if_neg h1]
    exact ⟨hres, trivial, [], by simp⟩

/-- Every run of flushes and `makeResident` calls returns and keeps every memory write of the
trace behind a reservation that holds it. -/
theorem aub_runCalls_reserved (fam : GfxFamily) (fuel : Nat)
    (hchunk : ∀ a n o, ∀ chunk ∈ fam.ppgttPageWalk a n o, chunk.physAddress < 2 ^ 64 ∧
      chunk.physAddress % 4096 + chunk.size ≤ 4096)
    (hlrca : ∀ e, 0x1020 ≤ fam.sizeLRCA e)
    (hring : ∀ e off len, off + len ≤ 16384 →
      fam.ggttMap (fam.gttRemapMap (fam.mallocRing e) 16384 + off) len =
        fam.ggttMap (fam.gttRemapMap (fam.mallocRing e) 16384) 16384 + off)
    (hctx : ∀ e, fam.ggttMap (fam.gttRemapMap (fam.mallocLRCA e) (fam.sizeLRCA e)) 4 =
      fam.ggttMap (fam.gttRemapMap (fam.mallocLRCA e) (fam.sizeLRCA e)) (fam.sizeLRCA e)) :
    ∀ (calls : List ReceiverCall) (csr : AUBCommandStreamReceiverHw),
      (∀ e, (csr.engineInfoTable e).Fresh ∨ (csr.engineInfoTable e).Ready) →
      writesReserved csr.stream = true →
      (∀ e, (csr.engineInfoTable e).pLRCA ≠ none →
        (csr.engineInfoTable e).ggttRingBuffer = fam.gttRemapMap (fam.mallocRing e) 16384 ∧
        (csr.engineInfoTable e).ggttLRCA = fam.gttRemapMap (fam.mallocLRCA e) (fam.sizeLRCA e) ∧
        SinkEvent.reserveAddressGGTT (fam.gttRemapMap (fam.mallocRing e) 16384) 16384
          (fam.ggttMap (fam.gttRemapMap (fam.mallocRing e) 16384) 16384) ∈ csr.stream ∧
        SinkEvent.reserveAddressGGTT (fam.gttRemapMap (fam.mallocLRCA e) (fam.sizeLRCA e))
          (fam.sizeLRCA e)
          (fam.ggttMap (fam.gttRemapMap (fam.mallocLRCA e) (fam.sizeLRCA e)) (fam.sizeLRCA e)) ∈
            csr.stream) →
      ∃ csr', runCalls fam (fuel + 2) csr calls = Except.ok csr' ∧
        writesReserved csr'.stream = true
  | [], csr, _, hres, _ => ⟨csr, rfl, hres⟩
  | ReceiverCall.flush bb e :: rest, csr, hinv, hres, hknown => by
    obtain ⟨csr1, added, hfl, hstream, hres1, hoth, hready, hr, hc, hmr, hmc⟩ :=
      aub_flush_reserved fam fuel csr bb e (hlrca e) (hring e) (hctx e) (hinv e) hres (hknown e)
    have hinv1 : ∀ e', (csr1.engineInfoTable e').Fresh ∨ (csr1.engineInfoTable e').Ready := by
      intro e'
      by_cases he : e' = e
      · subst he; exact Or.inr hready
      · rw [hoth e' he]; exact hinv e'
    obtain ⟨csr2, hrun, hres2⟩ := aub_runCalls_reserved fam fuel hchunk hlrca hring hctx rest csr1
      hinv1 hres1 (by
        intro e' hp
        by_cases he : e' = e
        · subst he; exact ⟨hr, hc, hmr, hmc⟩
        · rw [hoth e' he] at hp ⊢
          obtain ⟨h1, h2, h3, h4⟩ := hknown e' hp
          rw [hstream]
          exact ⟨h1, h2, List.mem_append_left _ h3, List.mem_append_left _ h4⟩)
    refine ⟨csr2, ?_, hres2⟩
    simp only [runCalls, hfl]
    exact hrun
  | ReceiverCall.makeResident tc g :: rest, csr, hinv, hres, hknown => by
    obtain ⟨hres1, htable, added, hstream⟩ :=
      aub_makeResident_reserved fam (csr.withTaskCount tc) g hchunk hres
    obtain ⟨csr2, hrun, hres2⟩ := aub_runCalls_reserved fam fuel hchunk hlrca hring hctx rest
      (makeResident fam (csr.withTaskCount tc) g).1
      (by intro e; rw [htable]; exact hinv e) hres1 (by
        intro e hp
        rw [htable] at hp ⊢
        obtain ⟨h1, h2, h3, h4⟩ := hknown e hp
        rw [hstream]
        exact ⟨h1, h2, List.mem_append_left _ h3, List.mem_append_left _ h4⟩)
    refine ⟨csr2, ?_, hres2⟩
    simp only [runCalls]
    exact hrun

end AubReservedRun

section TbxReserved
open TbxCommandStreamReceiverHw

theorem tbx_reserved_initializeEngine (fam : GfxFamily) (e : Nat) (earlier : List SinkEvent) :
    writesReservedAfter earlier (initializeEngine fam construct e).stream = true := by
  rw [tbx_initializeEngine_stream]
  simp only [construct, List.nil_append, initGlobalMMIO, initEngineMMIO,
    writesReservedAfter_append, writesReservedAfter_writeMMIO, Bool.true_and]
  simp [writesReservedAfter, SinkEvent.reservedIn, SinkEvent.reserves]

theorem tbx_reserved_writeBatchBuffer (fam : GfxFamily) (bb : BatchBuffer)
    (earlier : List SinkEvent) :
    writesReservedAfter earlier (writeBatchBuffer fam bb) = true := by
  simp [writeBatchBuffer, writesReservedAfter, SinkEvent.reservedIn, SinkEvent.reserves]

theorem tbx_reserved_dumpRing (fam : GfxFamily) (e : Nat) (info : EngineInfo) (b : RingBlock)
    (earlier : List SinkEvent)
    (hlrca : 0x1020 ≤ fam.sizeLRCA e)
    (hring : ∀ off len, off + len ≤ 16384 →
      fam.ggttMap (fam.gttRemapMap (fam.mallocRing e) 16384 + off) len =
        fam.ggttMap (fam.gttRemapMap (fam.mallocRing e) 16384) 16384 + off)
    (hctx : fam.ggttMap (fam.gttRemapMap (fam.mallocLRCA e) (fam.sizeLRCA e)) 4 =
      fam.ggttMap (fam.gttRemapMap (fam.mallocLRCA e) (fam.sizeLRCA e)) (fam.sizeLRCA e))
    (hr : info.ggttRCS = fam.gttRemapMap (fam.mallocRing e) 16384)
    (hc : info.ggttLRCA = fam.gttRemapMap (fam.mallocLRCA e) (fam.sizeLRCA e))
    (hmr : SinkEvent.reserveAddressGGTT (fam.gttRemapMap (fam.mallocRing e) 16384) 16384
      (fam.ggttMap (fam.gttRemapMap (fam.mallocRing e) 16384) 16384) ∈ earlier)
    (hmc : SinkEvent.reserveAddressGGTT (fam.gttRemapMap (fam.mallocLRCA e) (fam.sizeLRCA e))
      (fam.sizeLRCA e)
      (fam.ggttMap (fam.gttRemapMap (fam.mallocLRCA e) (fam.sizeLRCA e)) (fam.sizeLRCA e)) ∈
        earlier)
    (hlt : b.previousTail < b.cursor.tail) (hle : b.cursor.tail ≤ 16368) :
    writesReservedAfter earlier (dumpRing fam info b) = true := by
  have hsub : subUInt32 b.cursor.tail b.previousTail = b.cursor.tail - b.previousTail :=
    subUInt32_of_le _ _ (by omega) (by omega)
  simp only [dumpRing, writesReservedAfter, SinkEvent.reservedIn, Bool.true_and, Bool.and_true,
    Bool.and_eq_true, hsub, hr, hc]
  constructor
  · rw [hring b.previousTail (b.cursor.tail - b.previousTail) (by omega)]
    apply reserves_of_mem_GGTT _ _ _ _ _ _ hmr
    · omega
    · omega
  · rw [hctx]
    apply reserves_of_mem_GGTT _ _ _ _ _ _ (List.mem_append_left _ hmc)
    · omega
    · omega

theorem tbx_initializeEngine_reservations (fam : GfxFamily) (e : Nat) :
    SinkEvent.reserveAddressGGTT (fam.gttRemapMap (fam.mallocRing e) 16384) 16384
      (fam.ggttMap (fam.gttRemapMap (fam.mallocRing e) 16384) 16384) ∈
        (initializeEngine fam construct e).stream ∧
    SinkEvent.reserveAddressGGTT (fam.gttRemapMap (fam.mallocLRCA e) (fam.sizeLRCA e))
      (fam.sizeLRCA e)
      (fam.ggttMap (fam.gttRemapMap (fam.mallocLRCA e) (fam.sizeLRCA e)) (fam.sizeLRCA e)) ∈
        (initializeEngine fam construct e).stream := by
  rw [tbx_initializeEngine_stream]
  simp

/-- A flush keeps every memory write of the trace behind a reservation that holds it, and
leaves the reservations of the engine's ring and logical context in the trace. -/
theorem tbx_flush_reserved (fam : GfxFamily) (csr : TbxCommandStreamReceiverHw)
    (bb : BatchBuffer) (e : Nat)
    (hlrca : 0x1020 ≤ fam.sizeLRCA e)
    (hring : ∀ off len, off + len ≤ 16384 →
      fam.ggttMap (fam.gttRemapMap (fam.mallocRing e) 16384 + off) len =
        fam.ggttMap (fam.gttRemapMap (fam.mallocRing e) 16384) 16384 + off)
    (hctx : fam.ggttMap (fam.gttRemapMap (fam.mallocLRCA e) (fam.sizeLRCA e)) 4 =
      fam.ggttMap (fam.gttRemapMap (fam.mallocLRCA e) (fam.sizeLRCA e)) (fam.sizeLRCA e))
    (hinv : (csr.engineInfoTable e).Fresh ∨ (csr.engineInfoTable e).Ready)
    (hres : writesReserved csr.stream = true)
    (hknown : (csr.engineInfoTable e).pLRCA ≠ none →
      (csr.engineInfoTable e).ggttRCS = fam.gttRemapMap (fam.mallocRing e) 16384 ∧
      (csr.engineInfoTable e).ggttLRCA = fam.gttRemapMap (fam.mallocLRCA e) (fam.sizeLRCA e) ∧
      SinkEvent.reserveAddressGGTT (fam.gttRemapMap (fam.mallocRing e) 16384) 16384
        (fam.ggttMap (fam.gttRemapMap (fam.mallocRing e) 16384) 16384) ∈ csr.stream ∧
      SinkEvent.reserveAddressGGTT (fam.gttRemapMap (fam.mallocLRCA e) (fam.sizeLRCA e))
        (fam.sizeLRCA e)
        (fam.ggttMap (fam.gttRemapMap (fam.mallocLRCA e) (fam.sizeLRCA e)) (fam.sizeLRCA e)) ∈
          csr.stream) :
    ∃ csr' added, flush fam csr bb e = (0, csr') ∧
      csr'.stream = csr.stream ++ added ∧
      writesReserved csr'.stream = true ∧
      (∀ e', e' ≠ e → csr'.engineInfoTable e' = csr.engineInfoTable e') ∧
      (csr'.engineInfoTable e).Ready ∧
      (csr'.engineInfoTable e).ggttRCS = fam.gttRemapMap (fam.mallocRing e) 16384 ∧
      (csr'.engineInfoTable e).ggttLRCA = fam.gttRemapMap (fam.mallocLRCA e) (fam.sizeLRCA e) ∧
      SinkEvent.reserveAddressGGTT (fam.gttRemapMap (fam.mallocRing e) 16384) 16384
        (fam.ggttMap (fam.gttRemapMap (fam.mallocRing e) 16384) 16384) ∈ csr'.stream ∧
      SinkEvent.reserveAddressGGTT (fam.gttRemapMap (fam.mallocLRCA e) (fam.sizeLRCA e))
        (fam.sizeLRCA e)
        (fam.ggttMap (fam.gttRemapMap (fam.mallocLRCA e) (fam.sizeLRCA e)) (fam.sizeLRCA e)) ∈
          csr'.stream := by
  obtain ⟨csr', b, hfl, hstream, hoth, hready, hentry, -, -, hlt, hle, hev⟩ :=
    tbx_flush_trace fam csr bb e hinv
  have hentry' := tbx_ensureInitialized_entry fam csr e
  -- the engine's addresses after the flush, and its reservations before the batch buffer
  have hfacts : (csr'.engineInfoTable e).ggttRCS =
        fam.gttRemapMap (fam.mallocRing e) 16384 ∧
      (csr'.engineInfoTable e).ggttLRCA = fam.gttRemapMap (fam.mallocLRCA e) (fam.sizeLRCA e) ∧
      SinkEvent.reserveAddressGGTT (fam.gttRemapMap (fam.mallocRing e) 16384) 16384
        (fam.ggttMap (fam.gttRemapMap (fam.mallocRing e) 16384) 16384) ∈
        csr.stream ++ (if (csr.engineInfoTable e).pLRCA = none then
          (initializeEngine fam construct e).stream else []) ∧
      SinkEvent.reserveAddressGGTT (fam.gttRemapMap (fam.mallocLRCA e) (fam.sizeLRCA e))
        (fam.sizeLRCA e)
        (fam.ggttMap (fam.gttRemapMap (fam.mallocLRCA e) (fam.sizeLRCA e)) (fam.sizeLRCA e)) ∈
        csr.stream ++ (if (csr.engineInfoTable e).pLRCA = none then
          (initializeEngine fam construct e).stream else []) := by
    by_cases hp : (csr.engineInfoTable e).pLRCA = none
    · rw [hentry, hentry', if_pos hp, if_pos hp]
      obtain ⟨h1, h2⟩ := tbx_initializeEngine_reservations fam e
      exact ⟨rfl, rfl, List.mem_append_right _ h1, List.mem_append_right _ h2⟩
    · rw [hentry, hentry', if_neg hp, if_neg hp]
      obtain ⟨h1, h2, h3, h4⟩ := hknown hp
      exact ⟨h1, h2, List.mem_append_left _ h3, List.mem_append_left _ h4⟩
  obtain ⟨hr, hc, hmr, hmc⟩ := hfacts
  refine ⟨csr', _, hfl, hstream, ?_, hoth, hready, hr, hc, ?_, ?_⟩
  · rw [hstream]
    unfold writesReserved at hres ⊢
    rw [writesReservedAfter_append, hres, Bool.true_and, List.nil_append,
      writesReservedAfter_append, writesReservedAfter_append, writesReservedAfter_append,
      writesReservedAfter_append, writesReservedAfter_append]
    simp only [Bool.and_eq_true]
    refine ⟨?_, ?_, ?_, ?_, ?_, ?_⟩
    · by_cases hp : (csr.engineInfoTable e).pLRCA = none
      · rw [if_pos hp]; exact tbx_reserved_initializeEngine fam e _
      · rw [if_neg hp]; rfl
    · exact tbx_reserved_writeBatchBuffer fam bb _
    · rcases hev with h | ⟨src, hp, ht, h⟩
      · rw [h]; rfl
      · rw [h]
        simp only [writesReservedAfter, SinkEvent.reservedIn, Bool.and_true]
        obtain ⟨h1, -, -, -⟩ := hknown hp
        rw [h1, hring _ _ (by omega)]
        apply reserves_of_mem_GGTT _ _ _ _ _ _ (List.mem_append_left _ hmr)
        · omega
        · omega
    · exact tbx_reserved_dumpRing fam e _ b _ hlrca hring hctx hr hc
        (List.mem_append_left _ (List.mem_append_left _ hmr))
        (List.mem_append_left _ (List.mem_append_left _ hmc)) hlt hle
    · exact writesReservedAfter_submitLRCA _ _ _ _
    · exact writesReservedAfter_pollForCompletion _ _ _
  · rw [hstream, ← List.append_assoc]
    exact List.mem_append_left _ hmr
  · rw [hstream, ← List.append_assoc]
    exact List.mem_append_left _ hmc



theorem tbx_makeResident_reserved (fam : GfxFamily) (csr : TbxCommandStreamReceiverHw)
    (g : GraphicsAllocation)
    (hchunk : ∀ a n o, ∀ chunk ∈ fam.ppgttPageWalk a n o, chunk.physAddress < 2 ^ 64 ∧
      chunk.physAddress % 4096 + chunk.size ≤ 4096)
    (hres : writesReserved csr.stream = true) :
    writesReserved (makeResident fam csr g).1.stream = true ∧
    (makeResident fam csr g).1.engineInfoTable = csr.engineInfoTable ∧
    ∃ added, (makeResident fam csr g).1.stream = csr.stream ++ added := by
  unfold makeResident
  by_cases h1 : g.residencyTaskCount < toInt32 csr.taskCount
  · by_cases h2 : g.underlyingBufferSize = 0 ∨ ¬ g.allowAubFileWrite = true
    · simp only [if_pos h1, if_pos h2]
      exact ⟨hres, trivial, [], by simp⟩
    · simp only [if_pos h1, if_neg h2]
      refine ⟨?_, trivial, _, rfl⟩
      unfold writesReserved at hres ⊢
      rw [writesReservedAfter_append, hres, Bool.true_and]
      exact writesReservedAfter_residentWalker _ _ _ (hchunk _ _ _) _
  · simp only [if_neg h1]
    exact ⟨hres, trivial, [], by simp⟩

/-- Every run of flushes and `makeResident` calls returns and keeps every memory write of the
trace behind a reservation that holds it. -/
theorem tbx_runCalls_reserved (fam : GfxFamily)
    (hchunk : ∀ a n o, ∀ chunk ∈ fam.ppgttPageWalk a n o, chunk.physAddress < 2 ^ 64 ∧
      chunk.physAddress % 4096 + chunk.size ≤ 4096)
    (hlrca : ∀ e, 0x1020 ≤ fam.sizeLRCA e)
    (hring : ∀ e off len, off + len ≤ 16384 →
      fam.ggttMap (fam.gttRemapMap (fam.mallocRing e) 16384 + off) len =
        fam.ggttMap (fam.gttRemapMap (fam.mallocRing e) 16384) 16384 + off)
    (hctx : ∀ e, fam.ggttMap (fam.gttRemapMap (fam.mallocLRCA e) (fam.sizeLRCA e)) 4 =
      fam.ggttMap (fam.gttRemapMap (fam.mallocLRCA e) (fam.sizeLRCA e)) (fam.sizeLRCA e)) :
    ∀ (calls : List ReceiverCall) (csr : TbxCommandStreamReceiverHw),
      (∀ e, (csr.engineInfoTable e).Fresh ∨ (csr.engineInfoTable e).Ready) →
      writesReserved csr.stream = true →
      (∀ e, (csr.engineInfoTable e).pLRCA ≠ none →
        (csr.engineInfoTable e).ggttRCS = fam.gttRemapMap (fam.mallocRing e) 16384 ∧
        (csr.engineInfoTable e).ggttLRCA = fam.gttRemapMap (fam.mallocLRCA e) (fam.sizeLRCA e) ∧
        SinkEvent.reserveAddressGGTT (fam.gttRemapMap (fam.mallocRing e) 16384) 16384
          (fam.ggttMap (fam.gttRemapMap (fam.mallocRing e) 16384) 16384) ∈ csr.stream ∧
        SinkEvent.reserveAddressGGTT (fam.gttRemapMap (fam.mallocLRCA e) (fam.sizeLRCA e))
          (fam.sizeLRCA e)
          (fam.ggttMap (fam.gttRemapMap (fam.mallocLRCA e) (fam.sizeLRCA e)) (fam.sizeLRCA e)) ∈
            csr.stream) →
      writesReserved (runCalls fam csr calls).stream = true
  | [], csr, _, hres, _ => hres
  | ReceiverCall.flush bb e :: rest, csr, hinv, hres, hknown => by
    obtain ⟨csr1, added, hfl, hstream, hres1, hoth, hready, hr, hc, hmr, hmc⟩ :=
      tbx_flush_reserved fam csr bb e (hlrca e) (hring e) (hctx e) (hinv e) hres (hknown e)
    have hinv1 : ∀ e', (csr1.engineInfoTable e').Fresh ∨ (csr1.engineInfoTable e').Ready := by
      intro e'
      by_cases he : e' = e
      · subst he; exact Or.inr hready
      · rw [hoth e' he]; exact hinv e'
    have hres2 := tbx_runCalls_reserved fam hchunk hlrca hring hctx rest csr1
      hinv1 hres1 (by
        intro e' hp
        by_cases he : e' = e
        · subst he; exact ⟨hr, hc, hmr, hmc⟩
        · rw [hoth e' he] at hp ⊢
          obtain ⟨h1, h2, h3, h4⟩ := hknown e' hp
          rw [hstream]
          exact ⟨h1, h2, List.mem_append_left _ h3, List.mem_append_left _ h4⟩)
    simp only [runCalls, hfl]
    exact hres2
  | ReceiverCall.makeResident tc g :: rest, csr, hinv, hres, hknown => by
    obtain ⟨hres1, htable, added, hstream⟩ :=
      tbx_makeResident_reserved fam (csr.withTaskCount tc) g hchunk hres
    have hres2 := tbx_runCalls_reserved fam hchunk hlrca hring hctx rest
      (makeResident fam (csr.withTaskCount tc) g).1
      (by intro e; rw [htable]; exact hinv e) hres1 (by
        intro e hp
        rw [htable] at hp ⊢
        obtain ⟨h1, h2, h3, h4⟩ := hknown e hp
        rw [hstream]
        exact ⟨h1, h2, List.mem_append_left _ h3, List.mem_append_left _ h4⟩)
    simp only [runCalls]
    exact hres2

end TbxReserved

theorem pageChunks_within_page (address size offset : Nat) :
    ∀ chunk ∈ pageChunks address size offset, chunk.physAddress < 2 ^ 64 ∧
      chunk.physAddress % 4096 + chunk.size ≤ 4096 := by
  intro chunk hmem
  unfold pageChunks at hmem
  obtain ⟨i, -, rfl⟩ := List.mem_map.mp hmem
  simp only [pageSize, toSizeT]
  refine ⟨Nat.mod_lt _ (by decide), ?_⟩
  have h64 : ∀ x : Nat, x % 2 ^ 64 % 4096 = x % 4096 := by
    intro x; omega
  rw [h64]
  rcases Nat.eq_zero_or_pos i with hi | hi
  · subst hi
    have h1 : max address (address / 4096 * 4096 + 0 * 4096) = address := by omega
    rw [h1]
    omega
  · have h1 : max address (address / 4096 * 4096 + i * 4096) =
        address / 4096 * 4096 + i * 4096 := by omega
    rw [h1]
    omega

/-- C17: given a page walk whose chunks never cross a page, a logical context of at least
`0x1020` bytes for every engine, and a global page table `ggtt.map` that translates an address
inside the ring or the logical context of an engine to the physical address at the same
offset from the start of that range, every run of `flush` and `makeResident` calls from
construction returns on both receivers, and in its trace every memory write falls in a
physical range reserved by an earlier call of the same trace. -/
theorem memory_writes_follow_reservations (fam : GfxFamily) (fuel : Nat)
    (calls : List ReceiverCall)
    (hchunk : ∀ a n o, ∀ chunk ∈ fam.ppgttPageWalk a n o, chunk.physAddress < 2 ^ 64 ∧
      chunk.physAddress % 4096 + chunk.size ≤ 4096)
    (hlrca : ∀ e, 0x1020 ≤ fam.sizeLRCA e)
    (hring : ∀ e off len, off + len ≤ 16384 →
      fam.ggttMap (fam.gttRemapMap (fam.mallocRing e) 16384 + off) len =
        fam.ggttMap (fam.gttRemapMap (fam.mallocRing e) 16384) 16384 + off)
    (hctx : ∀ e, fam.ggttMap (fam.gttRemapMap (fam.mallocLRCA e) (fam.sizeLRCA e)) 4 =
      fam.ggttMap (fam.gttRemapMap (fam.mallocLRCA e) (fam.sizeLRCA e)) (fam.sizeLRCA e)) :
    (∃ csr, AUBCommandStreamReceiverHw.runCalls fam (fuel + 2)
        AUBCommandStreamReceiverHw.construct calls = Except.ok csr ∧
      writesReserved csr.stream = true) ∧
    writesReserved (TbxCommandStreamReceiverHw.runCalls fam
      TbxCommandStreamReceiverHw.construct calls).stream = true := by
  constructor
  · exact aub_runCalls_reserved fam fuel hchunk hlrca hring hctx calls
      AUBCommandStreamReceiverHw.construct (fun e => Or.inl (aub_construct_fresh e)) rfl
      (fun e hp => absurd rfl hp)
  · exact tbx_runCalls_reserved fam hchunk hlrca hring hctx calls
      TbxCommandStreamReceiverHw.construct (fun e => Or.inl (tbx_construct_fresh e)) rfl
      (fun e hp => absurd rfl hp)

/-- Witness of C17: with the page-splitting sample family, `makeResident` of an allocation of
8192 bytes that starts in the middle of a page, followed by two flushes on engine 0. -/
theorem memory_writes_follow_reservations_witness :
    (∃ csr, AUBCommandStreamReceiverHw.runCalls pagedFamily 2
        AUBCommandStreamReceiverHw.construct
        [ReceiverCall.makeResident 1 sampleUnalignedAllocation,
         ReceiverCall.flush sampleBatchBuffer 0, ReceiverCall.flush sampleBatchBuffer 0] =
          Except.ok csr ∧
      writesReserved csr.stream = true) ∧
    writesReserved (TbxCommandStreamReceiverHw.runCalls pagedFamily
      TbxCommandStreamReceiverHw.construct
      [ReceiverCall.makeResident 1 sampleUnalignedAllocation,
       ReceiverCall.flush sampleBatchBuffer 0, ReceiverCall.flush sampleBatchBuffer 0]).stream =
      true :=
  memory_writes_follow_reservations pagedFamily 0
    [ReceiverCall.makeResident 1 sampleUnalignedAllocation,
     ReceiverCall.flush sampleBatchBuffer 0, ReceiverCall.flush sampleBatchBuffer 0]
    (fun a n o => pageChunks_within_page a n o) (fun _ => (by decide : 0x1020 ≤ 0x2000))
    (fun _ _ _ _ => rfl) (fun _ => rfl)

/-- Counterexample to C18 as stated: when no file can be opened for writing, `create` still
returns a receiver, the same one it returns after a successful open, and it still calls
`init`, which adds the file header, on the stream whose file is not open. -/
theorem create_reports_open_failure_counterexample :
    (AUBCommandStreamReceiverHw.create (fun _ => false) 0 0 "aub_out/a.aub").fileHandleIsOpen =
      false ∧
    (AUBCommandStreamReceiverHw.create (fun _ => false) 0 0 "aub_out/a.aub").csr.isSome = true ∧
    (AUBCommandStreamReceiverHw.create (fun _ => false) 0 0 "aub_out/a.aub").csr =
      (AUBCommandStreamReceiverHw.create (fun _ => true) 0 0 "aub_out/a.aub").csr ∧
    (AUBCommandStreamReceiverHw.create (fun _ => false) 0 0 "aub_out/a.aub").lifecycle =
      [LifecycleCall.openFile "aub_out/a.aub", LifecycleCall.init 0 0] ∧
    (AUBCommandStreamReceiverHw.create (fun _ => false) 0 0 "aub_out/a.aub").lifecycle =
      (AUBCommandStreamReceiverHw.create (fun _ => true) 0 0 "aub_out/a.aub").lifecycle :=
  ⟨rfl, rfl, rfl, rfl, rfl⟩

/-- C18, amended: whether or not the destination can be opened for writing, `create` of the
AUB receiver opens the stream, calls `init` to add the file header, and returns the newly
constructed receiver; a destination that cannot be opened only makes it reach
`DEBUG_BREAK_IF(true)` once (a break in a debug build, nothing in a release build) and leaves
the file handle closed. -/
theorem create_signals_open_failure_by_debug_break_only (opens : String → Bool)
    (steppingA device : Nat) (fileName : String) :
    (AUBCommandStreamReceiverHw.create opens steppingA device fileName).csr =
      some AUBCommandStreamReceiverHw.construct ∧
    (AUBCommandStreamReceiverHw.create opens steppingA device fileName).lifecycle =
      [LifecycleCall.openFile fileName, LifecycleCall.init steppingA device] ∧
    (AUBCommandStreamReceiverHw.create opens steppingA device fileName).fileHandleIsOpen =
      opens fileName ∧
    (AUBCommandStreamReceiverHw.create opens steppingA device fileName).debugBreaks =
      (if opens fileName = true then 0 else 1) := by
  refine ⟨rfl, rfl, rfl, ?_⟩
  unfold AUBCommandStreamReceiverHw.create
  cases opens fileName <;> rfl

/-! ## The CPU data transfer, phase by phase -/

section TransferLemmas
open CommandQueue

theorem onEvent_memObj (st : TransferState) (c : EventCall) :
    (st.onEvent c).memObj = st.memObj := rfl

theorem onEvent_retVal (st : TransferState) (c : EventCall) :
    (st.onEvent c).retVal = st.retVal := rfl

theorem call_memObj (st : TransferState) (c : TransferCall) :
    (st.call c).memObj = st.memObj := rfl

theorem call_retVal (st : TransferState) (c : TransferCall) :
    (st.call c).retVal = st.retVal := rfl

theorem hint_memObj (st : TransferState) (env : TransferEnvironment) (l : DiagnosticsLevel)
    (h : PerformanceHint) : (st.hint env l h).memObj = st.memObj := by
  unfold TransferState.hint
  split <;> rfl

theorem hint_retVal (st : TransferState) (env : TransferEnvironment) (l : DiagnosticsLevel)
    (h : PerformanceHint) : (st.hint env l h).retVal = st.retVal := by
  unfold TransferState.hint
  split <;> rfl

theorem beginTransfer_memObj (env : TransferEnvironment) (p : TransferProperties)
    (req : EventsRequest) (retVal : Int) : (beginTransfer env p req retVal).memObj = p.memObj := by
  simp only [beginTransfer, apply_ite TransferState.memObj, call_memObj, onEvent_memObj, ite_self]

theorem beginTransfer_retVal (env : TransferEnvironment) (p : TransferProperties)
    (req : EventsRequest) (retVal : Int) :
    (beginTransfer env p req retVal).retVal = CL_SUCCESS := by
  simp only [beginTransfer, apply_ite TransferState.retVal, call_retVal, onEvent_retVal, ite_self]
  rfl

/-- The head of the handler does not read the caller's `retVal`. -/
theorem beginTransfer_overwrites (env : TransferEnvironment) (p : TransferProperties)
    (req : EventsRequest) (retVal retVal2 : Int) :
    beginTransfer env p req retVal = beginTransfer env p req retVal2 := rfl

/-- The object and the error code after the `switch`. -/
theorem transferSwitch_spec (env : TransferEnvironment) (p : TransferProperties)
    (st : TransferState) :
    (p.cmdType = CL_COMMAND_MAP_IMAGE ∧ st.memObj.image = none ∧
      transferSwitch env p st = none) ∨
    (∃ st', transferSwitch env p st = some st' ∧
      (p.cmdType = CL_COMMAND_MAP_IMAGE → st.memObj.image ≠ none) ∧
      st'.retVal =
        (if p.cmdType = CL_COMMAND_MAP_BUFFER ∨ p.cmdType = CL_COMMAND_MAP_IMAGE ∨
            p.cmdType = CL_COMMAND_UNMAP_MEM_OBJECT ∨ p.cmdType = CL_COMMAND_READ_BUFFER ∨
            p.cmdType = CL_COMMAND_WRITE_BUFFER ∨ p.cmdType = CL_COMMAND_MARKER
          then st.retVal else CL_INVALID_OPERATION) ∧
      st'.memObj =
        (if p.cmdType = CL_COMMAND_MAP_BUFFER ∨ p.cmdType = CL_COMMAND_MAP_IMAGE
          then st.memObj.incMapCount
          else if p.cmdType = CL_COMMAND_UNMAP_MEM_OBJECT then st.memObj.decMapCount
          else st.memObj)) := by
  unfold transferSwitch
  by_cases h1 : p.cmdType = CL_COMMAND_MAP_BUFFER
  · right
    simp only [h1, if_true, true_or]
    refine ⟨_, rfl, fun h => absurd h (by decide), ?_, ?_⟩
    · split <;> simp only [hint_retVal, call_retVal]
    · split <;> simp only [hint_memObj, call_memObj]
  · by_cases h2 : p.cmdType = CL_COMMAND_MAP_IMAGE
    · cases hi : st.memObj.image with
      | none =>
        left
        simp only [h1, h2, if_false, if_true]
        exact ⟨trivial, trivial, rfl⟩
      | some image =>
        right
        simp only [h1, h2, if_false, if_true, true_or, or_true]
        refine ⟨_, rfl, fun _ => by simp, ?_, ?_⟩
        · split <;> simp only [hint_retVal, call_retVal]
        · split <;> simp only [hint_memObj, call_memObj]
    · by_cases h3 : p.cmdType = CL_COMMAND_UNMAP_MEM_OBJECT
      · right
        simp only [h1, h2, h3, if_false, if_true, true_or, or_true, or_self, false_or]
        refine ⟨_, rfl, fun h => absurd h (by decide), ?_, ?_⟩
        · split <;> simp only [hint_retVal, call_retVal]
        · have hne1 : ¬ CL_COMMAND_UNMAP_MEM_OBJECT = CL_COMMAND_MAP_BUFFER := by decide
          have hne2 : ¬ CL_COMMAND_UNMAP_MEM_OBJECT = CL_COMMAND_MAP_IMAGE := by decide
          simp only [hne1, hne2, or_self, if_false]
          split <;> simp only [hint_memObj, call_memObj]
      · by_cases h4 : p.cmdType = CL_COMMAND_READ_BUFFER
        · right
          simp only [h1, h2, h3, h4, if_false, if_true, true_or, or_true, or_self, false_or]
          have hne1 : ¬ CL_COMMAND_READ_BUFFER = CL_COMMAND_MAP_BUFFER := by decide
          have hne2 : ¬ CL_COMMAND_READ_BUFFER = CL_COMMAND_MAP_IMAGE := by decide
          have hne3 : ¬ CL_COMMAND_READ_BUFFER = CL_COMMAND_UNMAP_MEM_OBJECT := by decide
          simp only [hne1, hne2, hne3, or_self, if_false, false_or, if_true]
          exact ⟨_, rfl, fun h => absurd h (by decide), by simp only [hint_retVal, call_retVal],
            by simp only [hint_memObj, call_memObj]⟩
        · by_cases h5 : p.cmdType = CL_COMMAND_WRITE_BUFFER
          · right
            simp only [h1, h2, h3, h4, h5, if_false, if_true, true_or, or_true, or_self, false_or]
            have hne1 : ¬ CL_COMMAND_WRITE_BUFFER = CL_COMMAND_MAP_BUFFER := by decide
            have hne2 : ¬ CL_COMMAND_WRITE_BUFFER = CL_COMMAND_MAP_IMAGE := by decide
            have hne3 : ¬ CL_COMMAND_WRITE_BUFFER = CL_COMMAND_UNMAP_MEM_OBJECT := by decide
            have hne4 : ¬ CL_COMMAND_WRITE_BUFFER = CL_COMMAND_READ_BUFFER := by decide
            simp only [hne1, hne2, hne3, hne4, or_self, if_false, false_or, if_true]
            exact ⟨_, rfl, fun h => absurd h (by decide),
              by simp only [hint_retVal, call_retVal], by simp only [hint_memObj, call_memObj]⟩
          · by_cases h6 : p.cmdType = CL_COMMAND_MARKER
            · right
              have hne1 : ¬ CL_COMMAND_MARKER = CL_COMMAND_MAP_BUFFER := by decide
              have hne2 : ¬ CL_COMMAND_MARKER = CL_COMMAND_MAP_IMAGE := by decide
              have hne3 : ¬ CL_COMMAND_MARKER = CL_COMMAND_UNMAP_MEM_OBJECT := by decide
              have hne4 : ¬ CL_COMMAND_MARKER = CL_COMMAND_READ_BUFFER := by decide
              have hne5 : ¬ CL_COMMAND_MARKER = CL_COMMAND_WRITE_BUFFER := by decide
              simp only [h6, hne1, hne2, hne3, hne4, hne5, or_self, if_false, false_or, if_true,
                or_true]
              exact ⟨_, rfl, fun h => absurd h (by decide), rfl, rfl⟩
            · right
              simp only [h1, h2, h3, h4, h5, h6, if_false, or_self]
              exact ⟨_, rfl, fun h => absurd h (by simp), rfl, rfl⟩

end TransferLemmas

section TransferLemmas2
open CommandQueue

/-- The object and the error code after the block `if (!blockQueue || blocking)`. -/
theorem waitAndTransfer_spec (env : TransferEnvironment) (p : TransferProperties)
    (req : EventsRequest) (st : TransferState) :
    (p.cmdType = CL_COMMAND_MAP_IMAGE ∧ st.memObj.image = none ∧
      waitAndTransfer env p req st = none) ∨
    (∃ st', waitAndTransfer env p req st = some st' ∧
      st'.retVal =
        (if ¬ env.blockQueue = true ∨ p.blocking = true then
          (if p.cmdType = CL_COMMAND_MAP_BUFFER ∨ p.cmdType = CL_COMMAND_MAP_IMAGE ∨
              p.cmdType = CL_COMMAND_UNMAP_MEM_OBJECT ∨ p.cmdType = CL_COMMAND_READ_BUFFER ∨
              p.cmdType = CL_COMMAND_WRITE_BUFFER ∨ p.cmdType = CL_COMMAND_MARKER
            then env.waitForEvents else CL_INVALID_OPERATION)
          else st.retVal) ∧
      st'.memObj =
        (if ¬ env.blockQueue = true ∨ p.blocking = true then
          (if p.cmdType = CL_COMMAND_MAP_BUFFER ∨ p.cmdType = CL_COMMAND_MAP_IMAGE
            then st.memObj.incMapCount
            else if p.cmdType = CL_COMMAND_UNMAP_MEM_OBJECT then st.memObj.decMapCount
            else st.memObj)
          else st.memObj)) := by
  unfold waitAndTransfer
  by_cases hw : ¬ env.blockQueue = true ∨ p.blocking = true
  · simp only [if_pos hw]
    generalize hst1 : TransferState.onEvent _ EventCall.setStartTimeStamp = st1
    have hm : st1.memObj = st.memObj := by
      rw [← hst1]
      simp only [onEvent_memObj, apply_ite TransferState.memObj, call_memObj, ite_self]
    have hr : st1.retVal = env.waitForEvents := by
      rw [← hst1]
      simp only [onEvent_retVal, apply_ite TransferState.retVal, call_retVal, ite_self]
      rfl
    rcases transferSwitch_spec env p st1 with ⟨h1, h2, h3⟩ | ⟨st2, h1, -, h2, h3⟩
    · left
      rw [h3]
      exact ⟨h1, hm ▸ h2, rfl⟩
    · right
      rw [h1]
      refine ⟨_, rfl, ?_, ?_⟩
      · simp only [apply_ite TransferState.retVal, onEvent_retVal, ite_self, h2, hr]
      · simp only [apply_ite TransferState.memObj, onEvent_memObj, ite_self, h3, hm]
  · right
    simp only [if_neg hw]
    exact ⟨st, rfl, rfl, rfl⟩

theorem incMapCount_image (m : MemObj) : m.incMapCount.image = m.image := rfl

theorem decMapCount_image (m : MemObj) : m.decMapCount.image = m.image := by
  unfold MemObj.decMapCount
  rfl

/-- The handler returns unless it is asked to map, as an image, an object that is not one;
the state it reaches before it computes the returned pointer. -/
theorem cpuDataTransferHandler_spec (env : TransferEnvironment) (p : TransferProperties)
    (req : EventsRequest) (retVal : Int)
    (himg : p.cmdType = CL_COMMAND_MAP_IMAGE → p.memObj.image ≠ none) :
    ∃ st r, waitAndTransfer env p req (beginTransfer env p req retVal) = some st ∧
      returnPointer p st = some r ∧
      cpuDataTransferHandler env p req retVal = some r ∧
      st.retVal =
        (if ¬ env.blockQueue = true ∨ p.blocking = true then
          (if p.cmdType = CL_COMMAND_MAP_BUFFER ∨ p.cmdType = CL_COMMAND_MAP_IMAGE ∨
              p.cmdType = CL_COMMAND_UNMAP_MEM_OBJECT ∨ p.cmdType = CL_COMMAND_READ_BUFFER ∨
              p.cmdType = CL_COMMAND_WRITE_BUFFER ∨ p.cmdType = CL_COMMAND_MARKER
            then env.waitForEvents else CL_INVALID_OPERATION)
          else CL_SUCCESS) ∧
      st.memObj =
        (if ¬ env.blockQueue = true ∨ p.blocking = true then
          (if p.cmdType = CL_COMMAND_MAP_BUFFER ∨ p.cmdType = CL_COMMAND_MAP_IMAGE
            then p.memObj.incMapCount
            else if p.cmdType = CL_COMMAND_UNMAP_MEM_OBJECT then p.memObj.decMapCount
            else p.memObj)
          else p.memObj) := by
  have hb := beginTransfer_memObj env p req retVal
  have hbr := beginTransfer_retVal env p req retVal
  rcases waitAndTransfer_spec env p req (beginTransfer env p req retVal) with
    ⟨h1, h2, -⟩ | ⟨st, h1, h2, h3⟩
  · rw [hb] at h2
    exact absurd h2 (himg h1)
  · rw [hb] at h3
    rw [hbr] at h2
    have himage : st.memObj.image = p.memObj.image := by
      rw [h3]
      simp only [apply_ite MemObj.image, incMapCount_image, decMapCount_image, ite_self]
    have hret : ∃ r, returnPointer p st = some r := by
      unfold returnPointer
      by_cases c1 : p.cmdType = CL_COMMAND_MAP_BUFFER
      · simp only [if_pos c1]
        exact ⟨_, rfl⟩
      · by_cases c2 : p.cmdType = CL_COMMAND_MAP_IMAGE
        · simp only [if_neg c1, if_pos c2]
          cases hi : st.memObj.image with
          | none =>
            rw [himage] at hi
            exact absurd hi (himg c2)
          | some image => exact ⟨_, rfl⟩
        · simp only [if_neg c1, if_neg c2]
          exact ⟨_, rfl⟩
    obtain ⟨r, hr⟩ := hret
    refine ⟨st, r, h1, hr, ?_, h2, h3⟩
    unfold cpuDataTransferHandler
    rw [h1]
    exact hr

end TransferLemmas2

/-- C19: for every memory object, every offset and every state of the queue,
`cpuDataTransferHandler` returns on a `CL_COMMAND_MAP_BUFFER`, and the pointer it returns is
`base + offset`, where `base` is the host pointer if the flags of the object contain
`CL_MEM_USE_HOST_PTR` and the memory storage otherwise; the same pointer is stored as the
mapped pointer of the object, so `getMappedPtr` returns it when the object has no separately
allocated mapped pointer. -/
theorem map_buffer_returns_base_plus_offset (env : TransferEnvironment)
    (p : TransferProperties) (req : EventsRequest) (retVal : Int)
    (hcmd : p.cmdType = CL_COMMAND_MAP_BUFFER) :
    ∃ r, CommandQueue.cpuDataTransferHandler env p req retVal = some r ∧
      r.ptr = (if p.memObj.flags &&& CL_MEM_USE_HOST_PTR ≠ 0 then p.memObj.hostPtr
        else p.memObj.memoryStorage) + p.offset 0 ∧
      r.memObj.mappedPtr = r.ptr ∧
      r.memObj.allocatedMappedPtr = p.memObj.allocatedMappedPtr ∧
      (p.memObj.allocatedMappedPtr = 0 → r.memObj.getMappedPtr = r.ptr) := by
  have hne : ¬ CL_COMMAND_MAP_BUFFER = CL_COMMAND_MAP_IMAGE := by decide
  obtain ⟨st, r, -, hret, hh, -, hm⟩ := cpuDataTransferHandler_spec env p req retVal
    (fun h => absurd (hcmd ▸ h) hne)
  have hfields : st.memObj.flags = p.memObj.flags ∧ st.memObj.hostPtr = p.memObj.hostPtr ∧
      st.memObj.memoryStorage = p.memObj.memoryStorage ∧
      st.memObj.allocatedMappedPtr = p.memObj.allocatedMappedPtr := by
    rw [hm]
    simp only [hcmd, true_or, if_true]
    split <;> exact ⟨rfl, rfl, rfl, rfl⟩
  obtain ⟨hf, hh1, hs, ha⟩ := hfields
  unfold CommandQueue.returnPointer at hret
  simp only [if_pos hcmd, Option.some.injEq] at hret
  subst hret
  refine ⟨_, hh, ?_, rfl, ha, ?_⟩
  · simp only [MemObj.setAndReturnMappedPtr, ptrOffset, MemObj.getCpuAddressForMapping, hf, hh1,
      hs]
  · intro h0
    simp only [MemObj.getMappedPtr, MemObj.setAndReturnMappedPtr, MemObj.incMapCount,
      MemObj.setMappedPtr, ha, h0, ne_eq, not_true_eq_false, if_false]

/-- Witness of C19: the sample buffer created with `CL_MEM_USE_HOST_PTR` over the host block
at `0x7000`, mapped at offset 2, returns `0x7002`. -/
theorem map_buffer_returns_base_plus_offset_witness :
    ∃ r, CommandQueue.cpuDataTransferHandler sampleEnvironment
        (mapBufferAt sampleUseHostPtrBuffer 2)
        { numEventsInWaitList := 0, outEvent := false } CL_SUCCESS = some r ∧
      r.ptr = 0x7002 ∧ r.memObj.mappedPtr = 0x7002 ∧ r.memObj.getMappedPtr = 0x7002 := by
  obtain ⟨r, h1, h2, h3, -, h5⟩ := map_buffer_returns_base_plus_offset sampleEnvironment
    (mapBufferAt sampleUseHostPtrBuffer 2) { numEventsInWaitList := 0, outEvent := false }
    CL_SUCCESS rfl
  have hp : r.ptr = 0x7002 := by
    rw [h2]
    decide
  exact ⟨r, h1, hp, h3.trans hp, (h5 rfl).trans hp⟩

/-- C20: unless it is asked to map, as an image, an object that is not an image,
`cpuDataTransferHandler` returns, and what it returns does not depend on the value `retVal`
held on entry. If the queue is not blocked or the transfer is blocking, `retVal` is the
result of the wait for the events for the six command types map buffer, map image, unmap,
read buffer, write buffer and marker (so `CL_SUCCESS` when the wait succeeds), and
`CL_INVALID_OPERATION` for every other command type; otherwise no wait takes place and
`retVal` is `CL_SUCCESS`. The returned pointer is null for every command type other than the
two map commands. -/
theorem transfer_handler_overwrites_retVal (env : TransferEnvironment)
    (p : TransferProperties) (req : EventsRequest) (retVal : Int)
    (himg : p.cmdType = CL_COMMAND_MAP_IMAGE → p.memObj.image ≠ none) :
    ∃ r, CommandQueue.cpuDataTransferHandler env p req retVal = some r ∧
      (∀ retVal2, CommandQueue.cpuDataTransferHandler env p req retVal2 = some r) ∧
      r.retVal =
        (if ¬ env.blockQueue = true ∨ p.blocking = true then
          (if p.cmdType = CL_COMMAND_MAP_BUFFER ∨ p.cmdType = CL_COMMAND_MAP_IMAGE ∨
              p.cmdType = CL_COMMAND_UNMAP_MEM_OBJECT ∨ p.cmdType = CL_COMMAND_READ_BUFFER ∨
              p.cmdType = CL_COMMAND_WRITE_BUFFER ∨ p.cmdType = CL_COMMAND_MARKER
            then env.waitForEvents else CL_INVALID_OPERATION)
          else CL_SUCCESS) ∧
      ((p.cmdType = CL_COMMAND_MAP_BUFFER ∨ p.cmdType = CL_COMMAND_MAP_IMAGE ∨
          p.cmdType = CL_COMMAND_UNMAP_MEM_OBJECT ∨ p.cmdType = CL_COMMAND_READ_BUFFER ∨
          p.cmdType = CL_COMMAND_WRITE_BUFFER ∨ p.cmdType = CL_COMMAND_MARKER) →
        ((¬ env.blockQueue = true ∨ p.blocking = true) → env.waitForEvents = CL_SUCCESS) →
        r.retVal = CL_SUCCESS) ∧
      ((¬ env.blockQueue = true ∨ p.blocking = true) →
        ¬ (p.cmdType = CL_COMMAND_MAP_BUFFER ∨ p.cmdType = CL_COMMAND_MAP_IMAGE ∨
          p.cmdType = CL_COMMAND_UNMAP_MEM_OBJECT ∨ p.cmdType = CL_COMMAND_READ_BUFFER ∨
          p.cmdType = CL_COMMAND_WRITE_BUFFER ∨ p.cmdType = CL_COMMAND_MARKER) →
        r.retVal = CL_INVALID_OPERATION) ∧
      (r.ptr ≠ 0 → p.cmdType = CL_COMMAND_MAP_BUFFER ∨ p.cmdType = CL_COMMAND_MAP_IMAGE) ∧
      (p.cmdType ≠ CL_COMMAND_MAP_BUFFER → p.cmdType ≠ CL_COMMAND_MAP_IMAGE → r.ptr = 0) := by
  obtain ⟨st, r, -, hret, hh, hrv, -⟩ := cpuDataTransferHandler_spec env p req retVal himg
  have hrr : r.retVal = st.retVal := by
    unfold CommandQueue.returnPointer at hret
    by_cases c1 : p.cmdType = CL_COMMAND_MAP_BUFFER
    · simp only [if_pos c1, Option.some.injEq] at hret
      rw [← hret]
    · by_cases c2 : p.cmdType = CL_COMMAND_MAP_IMAGE
      · simp only [if_neg c1, if_pos c2] at hret
        cases hi : st.memObj.image with
        | none => rw [hi] at hret; cases hret
        | some image =>
          rw [hi] at hret
          simp only [Option.some.injEq] at hret
          rw [← hret]
      · simp only [if_neg c1, if_neg c2, Option.some.injEq] at hret
        rw [← hret]
  have hptr : p.cmdType ≠ CL_COMMAND_MAP_BUFFER → p.cmdType ≠ CL_COMMAND_MAP_IMAGE →
      r.ptr = 0 := by
    intro c1 c2
    unfold CommandQueue.returnPointer at hret
    simp only [if_neg c1, if_neg c2, Option.some.injEq] at hret
    rw [← hret]
  refine ⟨r, hh, fun retVal2 => ?_, hrr.trans hrv, ?_, ?_, ?_, hptr⟩
  · unfold CommandQueue.cpuDataTransferHandler at hh ⊢
    rw [beginTransfer_overwrites env p req retVal2 retVal]
    exact hh
  · intro hs hwait
    rw [hrr, hrv]
    by_cases hw : ¬ env.blockQueue = true ∨ p.blocking = true
    · rw [if_pos hw, if_pos hs]
      exact hwait hw
    · rw [if_neg hw]
  · intro hw hs
    rw [hrr, hrv, if_pos hw, if_neg hs]
  · intro hne
    by_contra hc
    push_neg at hc
    exact hne (hptr hc.1 hc.2)

/-- Witness of C20: with `retVal` holding `CL_INVALID_VALUE` on entry, a blocking map of the
sample buffer leaves `CL_SUCCESS` in `retVal` and returns a pointer that is not null. -/
theorem transfer_handler_overwrites_retVal_witness :
    ∃ r, CommandQueue.cpuDataTransferHandler sampleEnvironment
        (mapBufferAt sampleUseHostPtrBuffer 0)
        { numEventsInWaitList := 0, outEvent := false } CL_INVALID_VALUE = some r ∧
      r.retVal = CL_SUCCESS ∧ r.ptr ≠ 0 := by
  obtain ⟨r, h1, -, -, h4, -⟩ := transfer_handler_overwrites_retVal sampleEnvironment
    (mapBufferAt sampleUseHostPtrBuffer 0) { numEventsInWaitList := 0, outEvent := false }
    CL_INVALID_VALUE (fun h => absurd h (by decide))
  refine ⟨r, h1, h4 (Or.inl rfl) (fun _ => rfl), ?_⟩
  have hr : some r = CommandQueue.cpuDataTransferHandler sampleEnvironment
      (mapBufferAt sampleUseHostPtrBuffer 0)
      { numEventsInWaitList := 0, outEvent := false } CL_INVALID_VALUE := h1.symm
  have hp : (CommandQueue.cpuDataTransferHandler sampleEnvironment
      (mapBufferAt sampleUseHostPtrBuffer 0)
      { numEventsInWaitList := 0, outEvent := false } CL_INVALID_VALUE).map TransferResult.ptr =
        some 0x7000 := by decide
  rw [← hr] at hp
  simp only [Option.map_some', Option.some.injEq] at hp
  rw [hp]
  decide

/-! ## One flush, case by case -/

/-- The tail and the ring stores of an AUB flush from an engine that is fresh or ready, by the
three cases of the ring block. -/
theorem aub_flush_cases (fam : GfxFamily) (fuel : Nat) (csr : AUBCommandStreamReceiverHw)
    (bb : BatchBuffer) (e : Nat)
    (hinv : (csr.engineInfoTable e).Fresh ∨ (csr.engineInfoTable e).Ready) :
    ∃ csr' stores, AUBCommandStreamReceiverHw.flush fam (fuel + 2) csr bb e =
        Except.ok (0, csr') ∧
      csr'.ringStores = csr.ringStores ++ stores.map (fun st => (e, st)) ∧
      (∀ e', e' ≠ e → csr'.engineInfoTable e' = csr.engineInfoTable e') ∧
      (csr'.engineInfoTable e).Ready ∧
      ((AUBCommandStreamReceiverHw.ensureInitialized fam csr e).engineInfoTable e).sizeRingBuffer =
        16384 ∧
      ((csr.engineInfoTable e).tailRingBuffer = 0 →
        (csr'.engineInfoTable e).tailRingBuffer = 24 ∧
        stores = [RingStore.loadRegisterImm 0 (fam.mmioBase e + 0x2244) 0x00010000,
          RingStore.batchBufferStart 12
            (fam.ptrToPPGTT (bb.commandBufferAllocation.underlyingBuffer + bb.startOffset))]) ∧
      (0 < (csr.engineInfoTable e).tailRingBuffer →
        (csr.engineInfoTable e).tailRingBuffer + 24 < 16384 →
        (csr'.engineInfoTable e).tailRingBuffer = (csr.engineInfoTable e).tailRingBuffer + 16 ∧
        stores = [RingStore.batchBufferStart (csr.engineInfoTable e).tailRingBuffer
            (fam.ptrToPPGTT (bb.commandBufferAllocation.underlyingBuffer + bb.startOffset)),
          RingStore.noop ((csr.engineInfoTable e).tailRingBuffer + 12)]) ∧
      ((csr.engineInfoTable e).tailRingBuffer + 24 ≥ 16384 →
        (csr'.engineInfoTable e).tailRingBuffer = 16 ∧
        stores = [RingStore.memset (csr.engineInfoTable e).tailRingBuffer
            (16384 - (csr.engineInfoTable e).tailRingBuffer),
          RingStore.batchBufferStart 0
            (fam.ptrToPPGTT (bb.commandBufferAllocation.underlyingBuffer + bb.startOffset)),
          RingStore.noop 12]) := by
  obtain ⟨csr', b, pre, hfl, -, -, hst, hoth, hready, ht, -, -, -, -, h0, h1, h2⟩ :=
    aub_flush_step fam fuel csr bb e hinv
  have hsize : ((AUBCommandStreamReceiverHw.ensureInitialized fam csr e).engineInfoTable
      e).sizeRingBuffer = 16384 := by
    apply aub_ensureInitialized_size
    intro hne
    rcases hinv with hf | hr
    · exact absurd hf.1 hne
    · exact hr.2.1
  refine ⟨csr', b.cursor.stores, hfl, hst, hoth, hready, hsize, ?_, ?_, ?_⟩
  · intro h; rw [ht]; exact ⟨(h0 h).1, (h0 h).2.2⟩
  · intro h h'; rw [ht]; exact ⟨(h1 h h').1, (h1 h h').2.2⟩
  · intro h; rw [ht]; exact ⟨(h2 h).1, (h2 h).2.2.1⟩

/-- The tail and the ring stores of a TBX flush from an engine that is fresh or ready, by the
three cases of the ring block. -/
theorem tbx_flush_cases (fam : GfxFamily) (csr : TbxCommandStreamReceiverHw)
    (bb : BatchBuffer) (e : Nat)
    (hinv : (csr.engineInfoTable e).Fresh ∨ (csr.engineInfoTable e).Ready) :
    ∃ csr' stores, TbxCommandStreamReceiverHw.flush fam csr bb e = (0, csr') ∧
      csr'.ringStores = csr.ringStores ++ stores.map (fun st => (e, st)) ∧
      (∀ e', e' ≠ e → csr'.engineInfoTable e' = csr.engineInfoTable e') ∧
      (csr'.engineInfoTable e).Ready ∧
      ((TbxCommandStreamReceiverHw.ensureInitialized fam csr e).engineInfoTable e).sizeRCS =
        16384 ∧
      ((csr.engineInfoTable e).tailRCS = 0 →
        (csr'.engineInfoTable e).tailRCS = 28 ∧
        stores = [RingStore.loadRegisterImm 0 (fam.mmioBase e + 0x2244) 0x00010000,
          RingStore.batchBufferStart 12
            (fam.ptrToPPGTT (bb.commandBufferAllocation.underlyingBuffer + bb.startOffset)),
          RingStore.noop 24]) ∧
      (0 < (csr.engineInfoTable e).tailRCS →
        (csr.engineInfoTable e).tailRCS + 28 < 16384 →
        (csr'.engineInfoTable e).tailRCS = (csr.engineInfoTable e).tailRCS + 16 ∧
        stores = [RingStore.batchBufferStart (csr.engineInfoTable e).tailRCS
            (fam.ptrToPPGTT (bb.commandBufferAllocation.underlyingBuffer + bb.startOffset)),
          RingStore.noop ((csr.engineInfoTable e).tailRCS + 12)]) ∧
      ((csr.engineInfoTable e).tailRCS + 28 ≥ 16384 →
        (csr'.engineInfoTable e).tailRCS = 16 ∧
        stores = [RingStore.memset (csr.engineInfoTable e).tailRCS
            (16384 - (csr.engineInfoTable e).tailRCS),
          RingStore.batchBufferStart 0
            (fam.ptrToPPGTT (bb.commandBufferAllocation.underlyingBuffer + bb.startOffset)),
          RingStore.noop 12]) := by
  obtain ⟨csr', b, pre, hfl, -, -, hst, hoth, hready, ht, -, -, -, -, h0, h1, h2⟩ :=
    tbx_flush_step fam csr bb e hinv
  have hsize : ((TbxCommandStreamReceiverHw.ensureInitialized fam csr e).engineInfoTable
      e).sizeRCS = 16384 := by
    apply tbx_ensureInitialized_size
    intro hne
    rcases hinv with hf | hr
    · exact absurd hf.1 hne
    · exact hr.2.1
  refine ⟨csr', b.cursor.stores, hfl, hst, hoth, hready, hsize, ?_, ?_, ?_⟩
  · intro h; rw [ht]; exact ⟨(h0 h).1, (h0 h).2.2⟩
  · intro h h'; rw [ht]; exact ⟨(h1 h h').1, (h1 h h').2.2⟩
  · intro h; rw [ht]; exact ⟨(h2 h).1, (h2 h).2.2.1⟩

theorem aub_sizeNeeded_eq (info : AUBCommandStreamReceiverHw.EngineInfo) :
    AUBCommandStreamReceiverHw.sizeNeeded info = 24 := by
  simp [AUBCommandStreamReceiverHw.sizeNeeded, alignUp, sizeofMI_BATCH_BUFFER_START,
    sizeofMI_LOAD_REGISTER_IMM, AUBCommandStreamReceiverHw.tailAlignment]

theorem tbx_sizeNeeded_eq (info : TbxCommandStreamReceiverHw.EngineInfo) :
    TbxCommandStreamReceiverHw.sizeNeeded info = 28 := by
  simp [TbxCommandStreamReceiverHw.sizeNeeded, sizeofMI_BATCH_BUFFER_START,
    sizeofMI_LOAD_REGISTER_IMM, sizeofMI_NOOP]

theorem aub_sampleAt_ready (tail : Nat) (h8 : tail % 8 = 0) (h16 : 16 ≤ tail)
    (hle : tail ≤ 16368) :
    ((AUBCommandStreamReceiverHw.sampleAt tail).engineInfoTable 0).Ready := by
  refine ⟨?_, ?_, ?_, ?_, ?_⟩
  · simp [AUBCommandStreamReceiverHw.sampleAt, AUBCommandStreamReceiverHw.setEngineInfo,
      AUBCommandStreamReceiverHw.initializeEngine]
  · simp [AUBCommandStreamReceiverHw.sampleAt, AUBCommandStreamReceiverHw.setEngineInfo,
      AUBCommandStreamReceiverHw.initializeEngine]
  · simpa [AUBCommandStreamReceiverHw.sampleAt, AUBCommandStreamReceiverHw.setEngineInfo] using h8
  · simpa [AUBCommandStreamReceiverHw.sampleAt, AUBCommandStreamReceiverHw.setEngineInfo] using h16
  · simpa [AUBCommandStreamReceiverHw.sampleAt, AUBCommandStreamReceiverHw.setEngineInfo] using hle

theorem tbx_sampleAt_ready (tail : Nat) (h4 : tail % 4 = 0) (h16 : 16 ≤ tail)
    (hle : tail ≤ 16368) :
    ((TbxCommandStreamReceiverHw.sampleAt tail).engineInfoTable 0).Ready := by
  refine ⟨?_, ?_, ?_, ?_, ?_⟩
  · simp [TbxCommandStreamReceiverHw.sampleAt, TbxCommandStreamReceiverHw.setEngineInfo,
      TbxCommandStreamReceiverHw.initializeEngine]
  · simp [TbxCommandStreamReceiverHw.sampleAt, TbxCommandStreamReceiverHw.setEngineInfo,
      TbxCommandStreamReceiverHw.initializeEngine]
  · simpa [TbxCommandStreamReceiverHw.sampleAt, TbxCommandStreamReceiverHw.setEngineInfo] using h4
  · simpa [TbxCommandStreamReceiverHw.sampleAt, TbxCommandStreamReceiverHw.setEngineInfo] using h16
  · simpa [TbxCommandStreamReceiverHw.sampleAt, TbxCommandStreamReceiverHw.setEngineInfo] using hle

/-! ## Ring arithmetic of single flushes and of runs to one engine -/

/-- Counterexample to C22 as stated: for the AUB engine with its tail at 16360 the sum of the
tail and `sizeNeeded` equals the ring size 16384 and is not greater, yet the flush takes the
wraparound branch: it zero-fills the 24 bytes from 16360 on, stores the batch-buffer-start at
offset 0 and leaves the tail at 16. -/
theorem wrap_only_when_strictly_greater_counterexample :
    ((AUBCommandStreamReceiverHw.sampleAt 16360).engineInfoTable 0).tailRingBuffer +
      AUBCommandStreamReceiverHw.sizeNeeded
        ((AUBCommandStreamReceiverHw.sampleAt 16360).engineInfoTable 0) =
      ((AUBCommandStreamReceiverHw.sampleAt 16360).engineInfoTable 0).sizeRingBuffer ∧
    AUBCommandStreamReceiverHw.wraps
      ((AUBCommandStreamReceiverHw.ensureInitialized sampleFamily
        (AUBCommandStreamReceiverHw.sampleAt 16360) 0).engineInfoTable 0) = true ∧
    ∃ csr', AUBCommandStreamReceiverHw.flush sampleFamily 2
        (AUBCommandStreamReceiverHw.sampleAt 16360) sampleBatchBuffer 0 = Except.ok (0, csr') ∧
      (csr'.engineInfoTable 0).tailRingBuffer = 16 ∧
      csr'.ringStores = [(0, RingStore.memset 16360 24),
        (0, RingStore.batchBufferStart 0 0x200000), (0, RingStore.noop 12)] := by
  refine ⟨by decide, by decide, ?_⟩
  obtain ⟨csr', stores, hfl, hst, -, -, -, -, -, hw⟩ := aub_flush_cases sampleFamily 0
    (AUBCommandStreamReceiverHw.sampleAt 16360) sampleBatchBuffer 0
    (Or.inr (aub_sampleAt_ready 16360 (by decide) (by decide) (by decide)))
  obtain ⟨ht, hs⟩ := hw (by decide)
  refine ⟨csr', hfl, ht, ?_⟩
  rw [hst, hs]
  rfl

/-- C22, amended: on both receivers a flush from an engine that is fresh or ready takes the
wraparound branch exactly if the tail plus `sizeNeeded` (24 on AUB, 28 on TBX) is greater than
or equal to the ring size 16384. In that case, which includes the AUB tail 16360 where the sum
equals the ring size, it zero-fills the ring from the tail to its end, stores the
batch-buffer-start at offset 0 and a no-op at 12, and leaves the tail at 16; otherwise it
stores the commands in place at the tail and leaves the tail 24 (AUB) or 28 (TBX) bytes
further on the first submission and 16 bytes further on a later one. -/
theorem flush_wraps_when_tail_plus_size_reaches_capacity (fam : GfxFamily) (fuel : Nat)
    (csrA : AUBCommandStreamReceiverHw) (csrT : TbxCommandStreamReceiverHw)
    (bb : BatchBuffer) (e : Nat)
    (hA : (csrA.engineInfoTable e).Fresh ∨ (csrA.engineInfoTable e).Ready)
    (hT : (csrT.engineInfoTable e).Fresh ∨ (csrT.engineInfoTable e).Ready) :
    (∃ csr' stores, AUBCommandStreamReceiverHw.flush fam (fuel + 2) csrA bb e =
        Except.ok (0, csr') ∧
      csr'.ringStores = csrA.ringStores ++ stores.map (fun st => (e, st)) ∧
      (AUBCommandStreamReceiverHw.wraps
          ((AUBCommandStreamReceiverHw.ensureInitialized fam csrA e).engineInfoTable e) = true ↔
        (csrA.engineInfoTable e).tailRingBuffer + AUBCommandStreamReceiverHw.sizeNeeded
            ((AUBCommandStreamReceiverHw.ensureInitialized fam csrA e).engineInfoTable e) ≥
          ((AUBCommandStreamReceiverHw.ensureInitialized fam csrA e).engineInfoTable
            e).sizeRingBuffer) ∧
      (AUBCommandStreamReceiverHw.wraps
          ((AUBCommandStreamReceiverHw.ensureInitialized fam csrA e).engineInfoTable e) = true →
        (csr'.engineInfoTable e).tailRingBuffer = 16 ∧
        stores = [RingStore.memset (csrA.engineInfoTable e).tailRingBuffer
            (16384 - (csrA.engineInfoTable e).tailRingBuffer),
          RingStore.batchBufferStart 0
            (fam.ptrToPPGTT (bb.commandBufferAllocation.underlyingBuffer + bb.startOffset)),
          RingStore.noop 12]) ∧
      (AUBCommandStreamReceiverHw.wraps
          ((AUBCommandStreamReceiverHw.ensureInitialized fam csrA e).engineInfoTable e) = false →
        (csr'.engineInfoTable e).tailRingBuffer = (csrA.engineInfoTable e).tailRingBuffer +
          (if (csrA.engineInfoTable e).tailRingBuffer = 0 then 24 else 16) ∧
        stores = (if (csrA.engineInfoTable e).tailRingBuffer = 0 then
          [RingStore.loadRegisterImm 0 (fam.mmioBase e + 0x2244) 0x00010000,
            RingStore.batchBufferStart 12
              (fam.ptrToPPGTT (bb.commandBufferAllocation.underlyingBuffer + bb.startOffset))]
          else
          [RingStore.batchBufferStart (csrA.engineInfoTable e).tailRingBuffer
              (fam.ptrToPPGTT (bb.commandBufferAllocation.underlyingBuffer + bb.startOffset)),
            RingStore.noop ((csrA.engineInfoTable e).tailRingBuffer + 12)]))) ∧
    (∃ csr' stores, TbxCommandStreamReceiverHw.flush fam csrT bb e = (0, csr') ∧
      csr'.ringStores = csrT.ringStores ++ stores.map (fun st => (e, st)) ∧
      (TbxCommandStreamReceiverHw.wraps
          ((TbxCommandStreamReceiverHw.ensureInitialized fam csrT e).engineInfoTable e) = true ↔
        (csrT.engineInfoTable e).tailRCS + TbxCommandStreamReceiverHw.sizeNeeded
            ((TbxCommandStreamReceiverHw.ensureInitialized fam csrT e).engineInfoTable e) ≥
          ((TbxCommandStreamReceiverHw.ensureInitialized fam csrT e).engineInfoTable e).sizeRCS) ∧
      (TbxCommandStreamReceiverHw.wraps
          ((TbxCommandStreamReceiverHw.ensureInitialized fam csrT e).engineInfoTable e) = true →
        (csr'.engineInfoTable e).tailRCS = 16 ∧
        stores = [RingStore.memset (csrT.engineInfoTable e).tailRCS
            (16384 - (csrT.engineInfoTable e).tailRCS),
          RingStore.batchBufferStart 0
            (fam.ptrToPPGTT (bb.commandBufferAllocation.underlyingBuffer + bb.startOffset)),
          RingStore.noop 12]) ∧
      (TbxCommandStreamReceiverHw.wraps
          ((TbxCommandStreamReceiverHw.ensureInitialized fam csrT e).engineInfoTable e) = false →
        (csr'.engineInfoTable e).tailRCS = (csrT.engineInfoTable e).tailRCS +
          (if (csrT.engineInfoTable e).tailRCS = 0 then 28 else 16) ∧
        stores = (if (csrT.engineInfoTable e).tailRCS = 0 then
          [RingStore.loadRegisterImm 0 (fam.mmioBase e + 0x2244) 0x00010000,
            RingStore.batchBufferStart 12
              (fam.ptrToPPGTT (bb.commandBufferAllocation.underlyingBuffer + bb.startOffset)),
            RingStore.noop 24]
          else
          [RingStore.batchBufferStart (csrT.engineInfoTable e).tailRCS
              (fam.ptrToPPGTT (bb.commandBufferAllocation.underlyingBuffer + bb.startOffset)),
            RingStore.noop ((csrT.engineInfoTable e).tailRCS + 12)]))) := by
  constructor
  · obtain ⟨csr', stores, hfl, hst, -, -, hsize, h0, h1, h2⟩ :=
      aub_flush_cases fam fuel csrA bb e hA
    have htail := aub_ensureInitialized_tail fam csrA e
    have hw : AUBCommandStreamReceiverHw.wraps
        ((AUBCommandStreamReceiverHw.ensureInitialized fam csrA e).engineInfoTable e) =
        decide ((csrA.engineInfoTable e).tailRingBuffer + 24 ≥ 16384) := by
      rw [aub_wraps_eq, htail, hsize]
    refine ⟨csr', stores, hfl, hst, ?_, ?_, ?_⟩
    · rw [hw, aub_sizeNeeded_eq, hsize]
      simp
    · intro h
      rw [hw] at h
      exact h2 (by simpa using h)
    · intro h
      rw [hw] at h
      have hlt : (csrA.engineInfoTable e).tailRingBuffer + 24 < 16384 := by
        simp at h; omega
      by_cases hz : (csrA.engineInfoTable e).tailRingBuffer = 0
      · obtain ⟨a, b⟩ := h0 hz
        rw [if_pos hz, if_pos hz, hz]
        exact ⟨a, b⟩
      · obtain ⟨a, b⟩ := h1 (Nat.pos_of_ne_zero hz) hlt
        rw [if_neg hz, if_neg hz]
        exact ⟨a, b⟩
  · obtain ⟨csr', stores, hfl, hst, -, -, hsize, h0, h1, h2⟩ :=
      tbx_flush_cases fam csrT bb e hT
    have htail := tbx_ensureInitialized_tail fam csrT e
    have hw : TbxCommandStreamReceiverHw.wraps
        ((TbxCommandStreamReceiverHw.ensureInitialized fam csrT e).engineInfoTable e) =
        decide ((csrT.engineInfoTable e).tailRCS + 28 ≥ 16384) := by
      rw [tbx_wraps_eq, htail, hsize]
    refine ⟨csr', stores, hfl, hst, ?_, ?_, ?_⟩
    · rw [hw, tbx_sizeNeeded_eq, hsize]
      simp
    · intro h
      rw [hw] at h
      exact h2 (by simpa using h)
    · intro h
      rw [hw] at h
      have hlt : (csrT.engineInfoTable e).tailRCS + 28 < 16384 := by
        simp at h; omega
      by_cases hz : (csrT.engineInfoTable e).tailRCS = 0
      · obtain ⟨a, b⟩ := h0 hz
        rw [if_pos hz, if_pos hz, hz]
        exact ⟨a, b⟩
      · obtain ⟨a, b⟩ := h1 (Nat.pos_of_ne_zero hz) hlt
        rw [if_neg hz, if_neg hz]
        exact ⟨a, b⟩

/-- Witness of C22, amended: the AUB engine at tail 16360 and the TBX engine at tail 16356,
where the tail plus `sizeNeeded` equals the ring size: both flushes wrap and leave the tail
at 16. -/
theorem flush_wraps_when_tail_plus_size_reaches_capacity_witness :
    (∃ csr', AUBCommandStreamReceiverHw.flush sampleFamily 2
        (AUBCommandStreamReceiverHw.sampleAt 16360) sampleBatchBuffer 0 = Except.ok (0, csr') ∧
      (csr'.engineInfoTable 0).tailRingBuffer = 16) ∧
    (∃ csr', TbxCommandStreamReceiverHw.flush sampleFamily
        (TbxCommandStreamReceiverHw.sampleAt 16356) sampleBatchBuffer 0 = (0, csr') ∧
      (csr'.engineInfoTable 0).tailRCS = 16) := by
  obtain ⟨⟨csrA, _, hflA, -, -, hwA, -⟩, ⟨csrT, _, hflT, -, -, hwT, -⟩⟩ :=
    flush_wraps_when_tail_plus_size_reaches_capacity sampleFamily 0
      (AUBCommandStreamReceiverHw.sampleAt 16360) (TbxCommandStreamReceiverHw.sampleAt 16356)
      sampleBatchBuffer 0
      (Or.inr (aub_sampleAt_ready 16360 (by decide) (by decide) (by decide)))
      (Or.inr (tbx_sampleAt_ready 16356 (by decide) (by decide) (by decide)))
  exact ⟨⟨csrA, hflA, (hwA (by decide)).1⟩, ⟨csrT, hflT, (hwT (by decide)).1⟩⟩

/-- C23: after any sequence of flushes from construction, a further TBX flush stores exactly
one no-op, directly after the batch-buffer-start, whatever alignment results; the tail
advances by exactly 28 bytes (load-register-immediate, batch-buffer-start, no-op) on the first
submission to the engine, by exactly 16 bytes (batch-buffer-start, no-op) on a later
submission that does not wrap, and is 16 after a submission that wraps. -/
theorem tbx_flush_appends_exactly_one_noop (fam : GfxFamily) (calls : List FlushCall)
    (bb : BatchBuffer) (e : Nat) :
    ∃ csr' stores pre o,
      TbxCommandStreamReceiverHw.flush fam
        (TbxCommandStreamReceiverHw.run fam TbxCommandStreamReceiverHw.construct calls) bb e =
          (0, csr') ∧
      csr'.ringStores =
        (TbxCommandStreamReceiverHw.run fam TbxCommandStreamReceiverHw.construct calls).ringStores ++
          stores.map (fun st => (e, st)) ∧
      stores = pre ++ [RingStore.batchBufferStart o
          (fam.ptrToPPGTT (bb.commandBufferAllocation.underlyingBuffer + bb.startOffset)),
        RingStore.noop (o + sizeofMI_BATCH_BUFFER_START)] ∧
      stores.filter RingStore.isNoop = [RingStore.noop (o + sizeofMI_BATCH_BUFFER_START)] ∧
      (((TbxCommandStreamReceiverHw.run fam TbxCommandStreamReceiverHw.construct
          calls).engineInfoTable e).tailRCS = 0 →
        (csr'.engineInfoTable e).tailRCS = 28 ∧
        28 = sizeofMI_LOAD_REGISTER_IMM + sizeofMI_BATCH_BUFFER_START + sizeofMI_NOOP) ∧
      (0 < ((TbxCommandStreamReceiverHw.run fam TbxCommandStreamReceiverHw.construct
          calls).engineInfoTable e).tailRCS →
        TbxCommandStreamReceiverHw.wraps ((TbxCommandStreamReceiverHw.ensureInitialized fam
          (TbxCommandStreamReceiverHw.run fam TbxCommandStreamReceiverHw.construct calls)
            e).engineInfoTable e) = false →
        (csr'.engineInfoTable e).tailRCS =
          ((TbxCommandStreamReceiverHw.run fam TbxCommandStreamReceiverHw.construct
            calls).engineInfoTable e).tailRCS + 16 ∧
        16 = sizeofMI_BATCH_BUFFER_START + sizeofMI_NOOP) ∧
      (TbxCommandStreamReceiverHw.wraps ((TbxCommandStreamReceiverHw.ensureInitialized fam
          (TbxCommandStreamReceiverHw.run fam TbxCommandStreamReceiverHw.construct calls)
            e).engineInfoTable e) = true →
        (csr'.engineInfoTable e).tailRCS = 16) := by
  obtain ⟨hinv, -, -⟩ := tbx_run_inv fam calls TbxCommandStreamReceiverHw.construct
    (fun e => Or.inl (tbx_construct_fresh e)) (by intro p hp; cases hp)
  generalize TbxCommandStreamReceiverHw.run fam TbxCommandStreamReceiverHw.construct calls = csr
    at hinv ⊢
  obtain ⟨csr', stores, hfl, hst, -, -, hsize, h0, h1, h2⟩ := tbx_flush_cases fam csr bb e (hinv e)
  have htail := tbx_ensureInitialized_tail fam csr e
  have hw : TbxCommandStreamReceiverHw.wraps
      ((TbxCommandStreamReceiverHw.ensureInitialized fam csr e).engineInfoTable e) =
      decide ((csr.engineInfoTable e).tailRCS + 28 ≥ 16384) := by
    rw [tbx_wraps_eq, htail, hsize]
  have hshape : ∃ pre o, stores = pre ++ [RingStore.batchBufferStart o
        (fam.ptrToPPGTT (bb.commandBufferAllocation.underlyingBuffer + bb.startOffset)),
      RingStore.noop (o + sizeofMI_BATCH_BUFFER_START)] ∧
      stores.filter RingStore.isNoop = [RingStore.noop (o + sizeofMI_BATCH_BUFFER_START)] := by
    by_cases hge : (csr.engineInfoTable e).tailRCS + 28 ≥ 16384
    · refine ⟨[RingStore.memset (csr.engineInfoTable e).tailRCS
        (16384 - (csr.engineInfoTable e).tailRCS)], 0, ?_, ?_⟩
      · rw [(h2 hge).2]; rfl
      · rw [(h2 hge).2]; rfl
    · by_cases hz : (csr.engineInfoTable e).tailRCS = 0
      · refine ⟨[RingStore.loadRegisterImm 0 (fam.mmioBase e + 0x2244) 0x00010000], 12, ?_, ?_⟩
        · rw [(h0 hz).2]; rfl
        · rw [(h0 hz).2]; rfl
      · refine ⟨[], (csr.engineInfoTable e).tailRCS, ?_, ?_⟩
        · rw [(h1 (Nat.pos_of_ne_zero hz) (by omega)).2]; rfl
        · rw [(h1 (Nat.pos_of_ne_zero hz) (by omega)).2]; rfl
  obtain ⟨pre, o, hs1, hs2⟩ := hshape
  refine ⟨csr', stores, pre, o, hfl, hst, hs1, hs2, ?_, ?_, ?_⟩
  · intro hz
    exact ⟨(h0 hz).1, by decide⟩
  · intro hpos hnw
    rw [hw] at hnw
    have hlt : (csr.engineInfoTable e).tailRCS + 28 < 16384 := by
      simp at hnw; omega
    exact ⟨(h1 hpos hlt).1, by decide⟩
  · intro hwr
    rw [hw] at hwr
    exact (h2 (by simpa using hwr)).1

/-- C24, what the code does: the first flush to an engine of a freshly constructed TBX
receiver stores a load-register-immediate at 0, a batch-buffer-start at 12 and a no-op at 24
and leaves the ring tail at 28, which is a multiple of 4 and not a multiple of 8, so the tail
is not QWORD-aligned after that flush. -/
theorem tbx_first_flush_leaves_tail_unaligned (fam : GfxFamily) (bb : BatchBuffer) (e : Nat) :
    ((TbxCommandStreamReceiverHw.flush fam TbxCommandStreamReceiverHw.construct bb
      e).2.engineInfoTable e).tailRCS = 28 ∧
    ((TbxCommandStreamReceiverHw.flush fam TbxCommandStreamReceiverHw.construct bb
      e).2.engineInfoTable e).tailRCS % 8 = 4 ∧
    (TbxCommandStreamReceiverHw.flush fam TbxCommandStreamReceiverHw.construct bb
      e).2.ringStores =
      [(e, RingStore.loadRegisterImm 0 (fam.mmioBase e + 0x2244) 0x00010000),
        (e, RingStore.batchBufferStart 12
          (fam.ptrToPPGTT (bb.commandBufferAllocation.underlyingBuffer + bb.startOffset))),
        (e, RingStore.noop 24)] := by
  obtain ⟨csr', stores, hfl, hst, -, -, -, h0, -, -⟩ :=
    tbx_flush_cases fam TbxCommandStreamReceiverHw.construct bb e
      (Or.inl (tbx_construct_fresh e))
  have hz := (tbx_construct_fresh e).2
  rw [hfl]
  refine ⟨(h0 hz).1, by rw [(h0 hz).1], ?_⟩
  show csr'.ringStores = _
  rw [hst, (h0 hz).2]
  rfl

/-- C25: after any sequence of flushes from construction, a further AUB flush returns for every
bound of at least two on the evaluations of the condition of the padding loop, and it stores
at most one no-op: none on the first submission to the engine, which leaves the tail at 24,
and exactly one on every other submission; the tail before the padding, which is the new tail
less four bytes for each no-op, is a multiple of 4, and the new tail is a multiple of 8. -/
theorem aub_padding_terminates_with_at_most_one_noop (fam : GfxFamily) (fuel : Nat)
    (calls : List FlushCall) (bb : BatchBuffer) (e : Nat) :
    ∃ (csr csr1 : AUBCommandStreamReceiverHw) (stores : List RingStore),
      AUBCommandStreamReceiverHw.run fam (fuel + 2) AUBCommandStreamReceiverHw.construct calls =
        Except.ok csr ∧
      AUBCommandStreamReceiverHw.flush fam (fuel + 2) csr bb e = Except.ok (0, csr1) ∧
      csr1.ringStores = csr.ringStores ++ stores.map (fun st => (e, st)) ∧
      (stores.filter RingStore.isNoop).length ≤ 1 ∧
      ((csr.engineInfoTable e).tailRingBuffer = 0 →
        stores.filter RingStore.isNoop = [] ∧ (csr1.engineInfoTable e).tailRingBuffer = 24) ∧
      ((csr.engineInfoTable e).tailRingBuffer ≠ 0 →
        (stores.filter RingStore.isNoop).length = 1) ∧
      (∀ st ∈ stores.filter RingStore.isNoop, st.size = 4) ∧
      ((csr1.engineInfoTable e).tailRingBuffer -
        sizeofMI_NOOP * (stores.filter RingStore.isNoop).length) % 4 = 0 ∧
      (csr1.engineInfoTable e).tailRingBuffer % 8 = 0 := by
  obtain ⟨csr, hrun, hinv, -, -⟩ := aub_run_inv fam fuel calls
    AUBCommandStreamReceiverHw.construct
    (fun e => Or.inl (aub_construct_fresh e)) (by intro p hp; cases hp)
  obtain ⟨csr', stores, hfl, hst, -, hready, -, h0, h1, h2⟩ :=
    aub_flush_cases fam fuel csr bb e (hinv e)
  have hmod : (csr.engineInfoTable e).tailRingBuffer % 8 = 0 := by
    rcases hinv e with hf | hr
    · rw [hf.2]
    · exact hr.2.2.1
  refine ⟨csr, csr', stores, hrun, hfl, hst, ?_⟩
  by_cases hz : (csr.engineInfoTable e).tailRingBuffer = 0
  · obtain ⟨ht, hs⟩ := h0 hz
    subst hs
    rw [ht]
    refine ⟨by simp [List.filter, RingStore.isNoop], fun _ => ⟨rfl, rfl⟩,
      fun h => absurd hz h, ?_, by simp [List.filter, RingStore.isNoop], by decide⟩
    intro st hst
    cases hst
  · by_cases hge : (csr.engineInfoTable e).tailRingBuffer + 24 ≥ 16384
    · obtain ⟨ht, hs⟩ := h2 hge
      subst hs
      rw [ht]
      refine ⟨by simp [List.filter, RingStore.isNoop], fun h => absurd h hz, fun _ => rfl, ?_,
        by simp [List.filter, RingStore.isNoop, sizeofMI_NOOP], by decide⟩
      intro st hst
      simp only [List.filter, RingStore.isNoop, List.mem_singleton] at hst
      subst hst
      rfl
    · obtain ⟨ht, hs⟩ := h1 (Nat.pos_of_ne_zero hz) (by omega)
      subst hs
      rw [ht]
      refine ⟨by simp [List.filter, RingStore.isNoop], fun h => absurd h hz,
        fun _ => by simp [List.filter, RingStore.isNoop], ?_, ?_, by omega⟩
      · intro st hst
        simp only [List.filter, RingStore.isNoop, List.mem_singleton] at hst
        subst hst
        rfl
      · simp only [List.filter, RingStore.isNoop, List.length_singleton, sizeofMI_NOOP]
        omega

/-! ## The tail after a number of flushes to one engine -/

/-- From an AUB engine whose tail is the one after `m` flushes, a run of further flushes to
that engine that keeps the total at 1022 or less returns, never wraps, and leaves the tail of
the total number of flushes. -/
theorem aub_run_tail_closed_form (fam : GfxFamily) (fuel e : Nat) :
    ∀ (bbs : List BatchBuffer) (csr : AUBCommandStreamReceiverHw) (m : Nat),
      ((csr.engineInfoTable e).Fresh ∨ (csr.engineInfoTable e).Ready) →
      (csr.engineInfoTable e).tailRingBuffer = (if m = 0 then 0 else 24 + 16 * (m - 1)) →
      m + bbs.length ≤ 1022 →
      ∃ csr', AUBCommandStreamReceiverHw.run fam (fuel + 2) csr
          (bbs.map (fun bb => FlushCall.mk bb e)) = Except.ok csr' ∧
        ((csr'.engineInfoTable e).Fresh ∨ (csr'.engineInfoTable e).Ready) ∧
        (csr'.engineInfoTable e).tailRingBuffer =
          (if m + bbs.length = 0 then 0 else 24 + 16 * (m + bbs.length - 1)) ∧
        AUBCommandStreamReceiverHw.runsWithoutWrap fam (fuel + 2) csr
          (bbs.map (fun bb => FlushCall.mk bb e)) = true
  | [], csr, m, hinv, ht, _ => ⟨csr, rfl, hinv, by simpa using ht, rfl⟩
  | bb :: rest, csr, m, hinv, ht, hlen => by
    obtain ⟨csr1, stores, hfl, -, -, hready, hsize, h0, h1, -⟩ :=
      aub_flush_cases fam fuel csr bb e hinv
    simp only [List.length_cons] at hlen
    have hlt : (csr.engineInfoTable e).tailRingBuffer + 24 < 16384 := by
      rw [ht]; split <;> omega
    have ht1 : (csr1.engineInfoTable e).tailRingBuffer =
        (if m + 1 = 0 then 0 else 24 + 16 * (m + 1 - 1)) := by
      rw [if_neg (by omega)]
      by_cases hm : m = 0
      · subst hm
        rw [(h0 (by simpa using ht)).1]
      · rw [if_neg hm] at ht
        rw [(h1 (by omega) hlt).1, ht]
        omega
    obtain ⟨csr2, hrun, hinv2, ht2, hnw⟩ :=
      aub_run_tail_closed_form fam fuel e rest csr1 (m + 1) (Or.inr hready) ht1 (by omega)
    have hw : AUBCommandStreamReceiverHw.wraps
        ((AUBCommandStreamReceiverHw.ensureInitialized fam csr e).engineInfoTable e) = false := by
      rw [aub_wraps_eq, aub_ensureInitialized_tail, hsize]
      simp
      omega
    refine ⟨csr2, ?_, hinv2, ?_, ?_⟩
    · simp only [List.map_cons, AUBCommandStreamReceiverHw.run, hfl]
      exact hrun
    · rw [ht2]
      simp only [List.length_cons]
      rw [show m + 1 + rest.length = m + (rest.length + 1) by omega]
    · simp only [List.map_cons, AUBCommandStreamReceiverHw.runsWithoutWrap, hw, hfl]
      simpa using hnw

/-- From a TBX engine whose tail is the one after `m` flushes, a run of further flushes to
that engine that keeps the total at 1022 or less never wraps and leaves the tail of the total
number of flushes. -/
theorem tbx_run_tail_closed_form (fam : GfxFamily) (e : Nat) :
    ∀ (bbs : List BatchBuffer) (csr : TbxCommandStreamReceiverHw) (m : Nat),
      ((csr.engineInfoTable e).Fresh ∨ (csr.engineInfoTable e).Ready) →
      (csr.engineInfoTable e).tailRCS = (if m = 0 then 0 else 28 + 16 * (m - 1)) →
      m + bbs.length ≤ 1022 →
      (((TbxCommandStreamReceiverHw.run fam csr
          (bbs.map (fun bb => FlushCall.mk bb e))).engineInfoTable e).Fresh ∨
        ((TbxCommandStreamReceiverHw.run fam csr
          (bbs.map (fun bb => FlushCall.mk bb e))).engineInfoTable e).Ready) ∧
        ((TbxCommandStreamReceiverHw.run fam csr
          (bbs.map (fun bb => FlushCall.mk bb e))).engineInfoTable e).tailRCS =
          (if m + bbs.length = 0 then 0 else 28 + 16 * (m + bbs.length - 1)) ∧
        TbxCommandStreamReceiverHw.runsWithoutWrap fam csr
          (bbs.map (fun bb => FlushCall.mk bb e)) = true
  | [], csr, m, hinv, ht, _ => ⟨hinv, by simpa [TbxCommandStreamReceiverHw.run] using ht, rfl⟩
  | bb :: rest, csr, m, hinv, ht, hlen => by
    obtain ⟨csr1, stores, hfl, -, -, hready, hsize, h0, h1, -⟩ :=
      tbx_flush_cases fam csr bb e hinv
    simp only [List.length_cons] at hlen
    have hlt : (csr.engineInfoTable e).tailRCS + 28 < 16384 := by
      rw [ht]; split <;> omega
    have ht1 : (csr1.engineInfoTable e).tailRCS =
        (if m + 1 = 0 then 0 else 28 + 16 * (m + 1 - 1)) := by
      rw [if_neg (by omega)]
      by_cases hm : m = 0
      · subst hm
        rw [(h0 (by simpa using ht)).1]
      · rw [if_neg hm] at ht
        rw [(h1 (by omega) hlt).1, ht]
        omega
    obtain ⟨hinv2, ht2, hnw⟩ :=
      tbx_run_tail_closed_form fam e rest csr1 (m + 1) (Or.inr hready) ht1 (by omega)
    have hw : TbxCommandStreamReceiverHw.wraps
        ((TbxCommandStreamReceiverHw.ensureInitialized fam csr e).engineInfoTable e) = false := by
      rw [tbx_wraps_eq, tbx_ensureInitialized_tail, hsize]
      simp
      omega
    simp only [List.map_cons, TbxCommandStreamReceiverHw.run,
      TbxCommandStreamReceiverHw.runsWithoutWrap, hw, hfl, List.length_cons]
    refine ⟨hinv2, ?_, by simpa using hnw⟩
    rw [ht2, show m + 1 + rest.length = m + (rest.length + 1) by omega]

/-- C27: on a freshly constructed receiver with the ring capacity 16384, a run of n flushes to
one engine with n at most 1022 returns, takes the wraparound branch in no flush, and leaves
the tail at 24 + 16 (n - 1) on the AUB receiver and at 28 + 16 (n - 1) on the TBX receiver
(at 0 for n = 0); after 1022 flushes the tail is 16360 (AUB) and 16364 (TBX), and the next
flush, the 1023rd, takes the wraparound branch and leaves the tail at 16. -/
theorem tail_closed_form_and_first_wrap_at_flush_1023 (fam : GfxFamily) (fuel e : Nat)
    (bbs : List BatchBuffer) (hn : bbs.length ≤ 1022) :
    (∃ csr, AUBCommandStreamReceiverHw.run fam (fuel + 2) AUBCommandStreamReceiverHw.construct
        (bbs.map (fun bb => FlushCall.mk bb e)) = Except.ok csr ∧
      (csr.engineInfoTable e).tailRingBuffer =
        (if bbs.length = 0 then 0 else 24 + 16 * (bbs.length - 1)) ∧
      AUBCommandStreamReceiverHw.runsWithoutWrap fam (fuel + 2)
        AUBCommandStreamReceiverHw.construct (bbs.map (fun bb => FlushCall.mk bb e)) = true ∧
      (bbs.length = 1022 → ∀ bb : BatchBuffer,
        (csr.engineInfoTable e).tailRingBuffer = 16360 ∧
        AUBCommandStreamReceiverHw.wraps
          ((AUBCommandStreamReceiverHw.ensureInitialized fam csr e).engineInfoTable e) = true ∧
        ∃ csr1 : AUBCommandStreamReceiverHw,
          AUBCommandStreamReceiverHw.flush fam (fuel + 2) csr bb e = Except.ok (0, csr1) ∧
          (csr1.engineInfoTable e).tailRingBuffer = 16)) ∧
    (((TbxCommandStreamReceiverHw.run fam TbxCommandStreamReceiverHw.construct
        (bbs.map (fun bb => FlushCall.mk bb e))).engineInfoTable e).tailRCS =
        (if bbs.length = 0 then 0 else 28 + 16 * (bbs.length - 1)) ∧
      TbxCommandStreamReceiverHw.runsWithoutWrap fam TbxCommandStreamReceiverHw.construct
        (bbs.map (fun bb => FlushCall.mk bb e)) = true ∧
      (bbs.length = 1022 → ∀ bb : BatchBuffer,
        ((TbxCommandStreamReceiverHw.run fam TbxCommandStreamReceiverHw.construct
          (bbs.map (fun bb => FlushCall.mk bb e))).engineInfoTable e).tailRCS = 16364 ∧
        TbxCommandStreamReceiverHw.wraps
          ((TbxCommandStreamReceiverHw.ensureInitialized fam
            (TbxCommandStreamReceiverHw.run fam TbxCommandStreamReceiverHw.construct
              (bbs.map (fun bb => FlushCall.mk bb e))) e).engineInfoTable e) = true ∧
        ((TbxCommandStreamReceiverHw.flush fam
          (TbxCommandStreamReceiverHw.run fam TbxCommandStreamReceiverHw.construct
            (bbs.map (fun bb => FlushCall.mk bb e))) bb e).2.engineInfoTable e).tailRCS =
          16)) := by
  constructor
  · obtain ⟨csr, hrun, hinv, ht, hnw⟩ := aub_run_tail_closed_form fam fuel e bbs
      AUBCommandStreamReceiverHw.construct 0 (Or.inl (aub_construct_fresh e))
      (by rw [if_pos rfl]; exact (aub_construct_fresh e).2) (by omega)
    simp only [Nat.zero_add] at ht
    refine ⟨csr, hrun, ht, hnw, ?_⟩
    intro hlen bb
    rw [hlen] at ht
    have ht0 : (csr.engineInfoTable e).tailRingBuffer = 16360 := by rw [ht]; rfl
    obtain ⟨csr1, stores, hfl, -, -, -, hsize, -, -, h2⟩ :=
      aub_flush_cases fam fuel csr bb e hinv
    refine ⟨ht0, ?_, csr1, hfl, (h2 (by omega)).1⟩
    rw [aub_wraps_eq, aub_ensureInitialized_tail, hsize, ht0]
    rfl
  · obtain ⟨hinv, ht, hnw⟩ := tbx_run_tail_closed_form fam e bbs
      TbxCommandStreamReceiverHw.construct 0 (Or.inl (tbx_construct_fresh e))
      (by rw [if_pos rfl]; exact (tbx_construct_fresh e).2) (by omega)
    simp only [Nat.zero_add] at ht
    refine ⟨ht, hnw, ?_⟩
    intro hlen bb
    generalize TbxCommandStreamReceiverHw.run fam TbxCommandStreamReceiverHw.construct
      (bbs.map (fun bb => FlushCall.mk bb e)) = csr at hinv ht ⊢
    rw [hlen] at ht
    have ht0 : (csr.engineInfoTable e).tailRCS = 16364 := by rw [ht]; rfl
    obtain ⟨csr1, stores, hfl, -, -, -, hsize, -, -, h2⟩ :=
      tbx_flush_cases fam csr bb e hinv
    refine ⟨ht0, ?_, ?_⟩
    · rw [tbx_wraps_eq, tbx_ensureInitialized_tail, hsize, ht0]
      rfl
    · rw [hfl]
      exact (h2 (by omega)).1

/-- Witness of C27: 1022 flushes of the sample batch buffer to engine 0 of the sample family
leave the tail at 16360 on the AUB receiver and at 16364 on the TBX receiver without a wrap,
and one more flush leaves it at 16 on both. -/
theorem tail_closed_form_and_first_wrap_at_flush_1023_witness :
    (List.replicate 1022 sampleBatchBuffer).length ≤ 1022 ∧
    (∃ csr csr1, AUBCommandStreamReceiverHw.run sampleFamily 2
        AUBCommandStreamReceiverHw.construct
        ((List.replicate 1022 sampleBatchBuffer).map (fun bb => FlushCall.mk bb 0)) =
          Except.ok csr ∧
      (csr.engineInfoTable 0).tailRingBuffer = 16360 ∧
      AUBCommandStreamReceiverHw.flush sampleFamily 2 csr sampleBatchBuffer 0 =
        Except.ok (0, csr1) ∧
      (csr1.engineInfoTable 0).tailRingBuffer = 16) ∧
    ((TbxCommandStreamReceiverHw.run sampleFamily TbxCommandStreamReceiverHw.construct
        ((List.replicate 1022 sampleBatchBuffer).map (fun bb => FlushCall.mk bb 0))
        ).engineInfoTable 0).tailRCS = 16364 ∧
    ((TbxCommandStreamReceiverHw.flush sampleFamily
      (TbxCommandStreamReceiverHw.run sampleFamily TbxCommandStreamReceiverHw.construct
        ((List.replicate 1022 sampleBatchBuffer).map (fun bb => FlushCall.mk bb 0)))
      sampleBatchBuffer 0).2.engineInfoTable 0).tailRCS = 16 := by
  have hlen : (List.replicate 1022 sampleBatchBuffer).length = 1022 := List.length_replicate _ _
  obtain ⟨⟨csr, hrun, -, -, hA⟩, -, -, hT⟩ :=
    tail_closed_form_and_first_wrap_at_flush_1023 sampleFamily 0 0
      (List.replicate 1022 sampleBatchBuffer) (le_of_eq hlen)
  obtain ⟨htA, -, csr1, hflA, htA1⟩ := hA hlen sampleBatchBuffer
  obtain ⟨htT, -, htT1⟩ := hT hlen sampleBatchBuffer
  exact ⟨le_of_eq hlen, ⟨csr, csr1, hrun, htA, hflA, htA1⟩, htT, htT1⟩

/-! ## The two receivers side by side -/

/-- From corresponding engine entries with a ring of 16384 bytes and a tail that is non-zero, a
multiple of 8 and below 16384, the ring blocks of the AUB flush and of the TBX flush are the
same block. -/
theorem appendCommands_agree (fam : GfxFamily) (fuel mmioBase p : Nat)
    (infoA : AUBCommandStreamReceiverHw.EngineInfo)
    (infoT : TbxCommandStreamReceiverHw.EngineInfo)
    (hsizeA : infoA.sizeRingBuffer = 16384) (hsizeT : infoT.sizeRCS = 16384)
    (hring : infoT.ggttRCS = infoA.ggttRingBuffer)
    (hmem : infoT.ringMemory = infoA.ringMemory)
    (htail : infoT.tailRCS = infoA.tailRingBuffer)
    (h0 : infoA.tailRingBuffer ≠ 0) (h8 : infoA.tailRingBuffer % 8 = 0)
    (hlt : infoA.tailRingBuffer < 16384) :
    AUBCommandStreamReceiverHw.wraps infoA = TbxCommandStreamReceiverHw.wraps infoT ∧
    ∃ b : RingBlock,
      AUBCommandStreamReceiverHw.appendCommands fam (fuel + 2) mmioBase infoA p = Except.ok b ∧
      TbxCommandStreamReceiverHw.appendCommands fam mmioBase infoT p = b ∧
      withoutComments b.events = b.events ∧
      (AUBCommandStreamReceiverHw.wraps infoA = true → b.cursor.tail = 16) ∧
      b.cursor.tail ≠ 0 ∧ b.cursor.tail % 8 = 0 ∧ b.cursor.tail < 16384 := by
  have hwA : AUBCommandStreamReceiverHw.wraps infoA =
      decide (infoA.tailRingBuffer + 24 ≥ 16384) := by
    rw [aub_wraps_eq, hsizeA]
  have hwT : TbxCommandStreamReceiverHw.wraps infoT =
      decide (infoA.tailRingBuffer + 28 ≥ 16384) := by
    rw [tbx_wraps_eq, hsizeT, htail]
  have hsame : AUBCommandStreamReceiverHw.wraps infoA = TbxCommandStreamReceiverHw.wraps infoT := by
    rw [hwA, hwT]
    by_cases h : infoA.tailRingBuffer + 24 ≥ 16384
    · rw [decide_eq_true h, decide_eq_true (by omega)]
    · rw [decide_eq_false h, decide_eq_false (by omega)]
  refine ⟨hsame, ?_⟩
  by_cases hw : AUBCommandStreamReceiverHw.wraps infoA = true
  · have hw1 : TbxCommandStreamReceiverHw.wraps infoT = true := by rw [← hsame]; exact hw
    have hbA := aub_appendCommands_wrap fam fuel mmioBase infoA p hw
    have hbT := tbx_appendCommands_wrap fam mmioBase infoT p hw1
    rw [hsizeT, htail, hmem, hring] at hbT
    rw [hsizeA] at hbA
    exact ⟨_, hbA, hbT, rfl, fun _ => rfl, (by decide : (16 : Nat) ≠ 0),
      (by decide : 16 % 8 = 0), (by decide : 16 < 16384)⟩
  · have hwf : AUBCommandStreamReceiverHw.wraps infoA = false := by
      cases h : AUBCommandStreamReceiverHw.wraps infoA
      · rfl
      · exact absurd h hw
    have hw1 : TbxCommandStreamReceiverHw.wraps infoT = false := by rw [← hsame]; exact hwf
    have hbA := aub_appendCommands_next fam fuel mmioBase infoA p hwf h0 h8 (by omega)
    have hbT := tbx_appendCommands_next fam mmioBase infoT p hw1 (by rw [htail]; exact h0)
      (by rw [htail]; omega)
    rw [htail, hmem] at hbT
    have hnw : infoA.tailRingBuffer + 24 < 16384 := by
      rw [hwA] at hwf
      simp at hwf
      omega
    refine ⟨_, hbA, hbT, rfl, fun h => absurd h hw, ?_, ?_, ?_⟩
    · show infoA.tailRingBuffer + 16 ≠ 0
      omega
    · show (infoA.tailRingBuffer + 16) % 8 = 0
      omega
    · show infoA.tailRingBuffer + 16 < 16384
      omega

/-- The AUB calls that dump the new ring commands and the new tail are, comments apart, the
TBX calls. -/
theorem dumpRing_agree (fam : GfxFamily) (infoA : AUBCommandStreamReceiverHw.EngineInfo)
    (infoT : TbxCommandStreamReceiverHw.EngineInfo) (b : RingBlock)
    (hring : infoT.ggttRCS = infoA.ggttRingBuffer) (hlrca : infoT.ggttLRCA = infoA.ggttLRCA) :
    withoutComments (AUBCommandStreamReceiverHw.dumpRing fam infoA b) =
      TbxCommandStreamReceiverHw.dumpRing fam infoT b := by
  unfold AUBCommandStreamReceiverHw.dumpRing TbxCommandStreamReceiverHw.dumpRing
  rw [hring, hlrca]
  rfl

/-- C28: for an engine that is initialized on an AUB receiver and on a TBX receiver with the
same ring (capacity 16384, same graphics addresses, same contents) and the same tail, where
the tail is non-zero, a multiple of 8 and below 16384, and for every batch buffer, the AUB
flush returns and the two flushes agree: both take the wraparound branch or both do not, they
make the same stores into the ring and leave the same ring contents and the same tail, and
the calls the AUB flush makes on the stream, with the comments removed, are the calls of the
TBX flush. The tail is 16 after a wraparound, and the two engines are afterwards again in a
state of this kind, so the agreement carries on to every later flush. -/
theorem aub_and_tbx_flush_agree_from_aligned_tail (fam : GfxFamily) (fuel : Nat)
    (csrA : AUBCommandStreamReceiverHw) (csrT : TbxCommandStreamReceiverHw)
    (bb : BatchBuffer) (e : Nat)
    (hA : (csrA.engineInfoTable e).pLRCA ≠ none)
    (hT : (csrT.engineInfoTable e).pLRCA ≠ none)
    (hsizeA : (csrA.engineInfoTable e).sizeRingBuffer = 16384)
    (hsizeT : (csrT.engineInfoTable e).sizeRCS = 16384)
    (hring : (csrT.engineInfoTable e).ggttRCS = (csrA.engineInfoTable e).ggttRingBuffer)
    (hlrca : (csrT.engineInfoTable e).ggttLRCA = (csrA.engineInfoTable e).ggttLRCA)
    (hmem : (csrT.engineInfoTable e).ringMemory = (csrA.engineInfoTable e).ringMemory)
    (htail : (csrT.engineInfoTable e).tailRCS = (csrA.engineInfoTable e).tailRingBuffer)
    (h0 : (csrA.engineInfoTable e).tailRingBuffer ≠ 0)
    (h8 : (csrA.engineInfoTable e).tailRingBuffer % 8 = 0)
    (hlt : (csrA.engineInfoTable e).tailRingBuffer < 16384) :
    ∃ (csrA1 : AUBCommandStreamReceiverHw) (csrT1 : TbxCommandStreamReceiverHw)
      (stores : List RingStore) (evA evT : List SinkEvent),
      AUBCommandStreamReceiverHw.flush fam (fuel + 2) csrA bb e = Except.ok (0, csrA1) ∧
      TbxCommandStreamReceiverHw.flush fam csrT bb e = (0, csrT1) ∧
      AUBCommandStreamReceiverHw.wraps
        ((AUBCommandStreamReceiverHw.ensureInitialized fam csrA e).engineInfoTable e) =
        TbxCommandStreamReceiverHw.wraps
          ((TbxCommandStreamReceiverHw.ensureInitialized fam csrT e).engineInfoTable e) ∧
      csrA1.ringStores = csrA.ringStores ++ stores.map (fun st => (e, st)) ∧
      csrT1.ringStores = csrT.ringStores ++ stores.map (fun st => (e, st)) ∧
      (csrT1.engineInfoTable e).ringMemory = (csrA1.engineInfoTable e).ringMemory ∧
      (csrT1.engineInfoTable e).tailRCS = (csrA1.engineInfoTable e).tailRingBuffer ∧
      csrA1.stream = csrA.stream ++ evA ∧
      csrT1.stream = csrT.stream ++ evT ∧
      withoutComments evA = evT ∧
      (AUBCommandStreamReceiverHw.wraps
        ((AUBCommandStreamReceiverHw.ensureInitialized fam csrA e).engineInfoTable e) = true →
        (csrA1.engineInfoTable e).tailRingBuffer = 16) ∧
      (csrA1.engineInfoTable e).pLRCA ≠ none ∧
      (csrT1.engineInfoTable e).pLRCA ≠ none ∧
      (csrA1.engineInfoTable e).sizeRingBuffer = 16384 ∧
      (csrT1.engineInfoTable e).sizeRCS = 16384 ∧
      (csrT1.engineInfoTable e).ggttRCS = (csrA1.engineInfoTable e).ggttRingBuffer ∧
      (csrT1.engineInfoTable e).ggttLRCA = (csrA1.engineInfoTable e).ggttLRCA ∧
      (csrA1.engineInfoTable e).tailRingBuffer ≠ 0 ∧
      (csrA1.engineInfoTable e).tailRingBuffer % 8 = 0 ∧
      (csrA1.engineInfoTable e).tailRingBuffer < 16384 := by
  have hiA := aub_ensureInitialized_of_initialized fam csrA e hA
  have hiT := tbx_ensureInitialized_of_initialized fam csrT e hT
  obtain ⟨hsame, b, hbA, hbT, hev, hw16, hb0, hb8, hblt⟩ :=
    appendCommands_agree fam fuel (fam.mmioBase e)
      (bb.commandBufferAllocation.underlyingBuffer + bb.startOffset)
      (csrA.engineInfoTable e) (csrT.engineInfoTable e) hsizeA hsizeT hring hmem htail h0 h8 hlt
  obtain ⟨csrA1, preA, hflA, -, hstA, hrsA, -, htA, hmA, hpA, hszA, hrgA, hlrA, -, -, hpreA⟩ :=
    aub_flush_facts fam (fuel + 2) csrA bb e b (by rw [hiA]; exact hbA)
  obtain ⟨csrT1, preT, hflT, -, hstT, hrsT, -, htT, hmT, hpT, hszT, hrgT, hlrT, -, -, hpreT⟩ :=
    tbx_flush_facts fam csrT bb e b (by rw [hiT]; exact hbT)
  rw [hiA] at hszA hrgA hlrA
  rw [hiT] at hszT hrgT hlrT
  rw [hiA, hiT]
  have hring1 : (csrT1.engineInfoTable e).ggttRCS = (csrA1.engineInfoTable e).ggttRingBuffer := by
    rw [hrgT, hrgA, hring]
  have hlrca1 : (csrT1.engineInfoTable e).ggttLRCA = (csrA1.engineInfoTable e).ggttLRCA := by
    rw [hlrT, hlrA, hlrca]
  refine ⟨csrA1, csrT1, b.cursor.stores, _, _, hflA, hflT, hsame, hrsA, hrsT, ?_, ?_, hstA, hstT,
    ?_, ?_, hpA, hpT, ?_, ?_, hring1, hlrca1, ?_, ?_, ?_⟩
  · rw [hmT, hmA]
  · rw [htT, htA]
  · rw [hpreA hA, hpreT hT, withoutComments_append, withoutComments_append,
      withoutComments_append, withoutComments_append, hev,
      dumpRing_agree fam _ _ b hring1 hlrca1, hlrca1]
    rfl
  · intro hw
    rw [htA]
    exact hw16 hw
  · rw [hszA, hsizeA]
  · rw [hszT, hsizeT]
  · rw [htA]; exact hb0
  · rw [htA]; exact hb8
  · rw [htA]; exact hblt

/-- Witness of C28: engine 0 of the sample receivers with the tail at 16, the tail that a
wraparound leaves. Both flushes store a batch-buffer-start at 16 and a no-op at 28 and leave
the tail at 32. -/
theorem aub_and_tbx_flush_agree_from_aligned_tail_witness :
    ∃ (csrA1 : AUBCommandStreamReceiverHw) (csrT1 : TbxCommandStreamReceiverHw),
      AUBCommandStreamReceiverHw.flush sampleFamily 2 (AUBCommandStreamReceiverHw.sampleAt 16)
        sampleBatchBuffer 0 = Except.ok (0, csrA1) ∧
      TbxCommandStreamReceiverHw.flush sampleFamily (TbxCommandStreamReceiverHw.sampleAt 16)
        sampleBatchBuffer 0 = (0, csrT1) ∧
      (csrT1.engineInfoTable 0).tailRCS = (csrA1.engineInfoTable 0).tailRingBuffer ∧
      (csrA1.engineInfoTable 0).tailRingBuffer = 32 ∧
      csrA1.ringStores = csrT1.ringStores ∧
      csrT1.ringStores = [(0, RingStore.batchBufferStart 16 0x200000), (0, RingStore.noop 28)] := by
  obtain ⟨csrA1, csrT1, stores, evA, evT, hflA, hflT, -, hrsA, hrsT, -, ht, -⟩ :=
    aub_and_tbx_flush_agree_from_aligned_tail sampleFamily 0
      (AUBCommandStreamReceiverHw.sampleAt 16) (TbxCommandStreamReceiverHw.sampleAt 16)
      sampleBatchBuffer 0 (by decide) (by decide) (by decide) (by decide) (by decide) (by decide)
      rfl (by decide) (by decide) (by decide) (by decide)
  have hT : csrT1 = (TbxCommandStreamReceiverHw.flush sampleFamily
      (TbxCommandStreamReceiverHw.sampleAt 16) sampleBatchBuffer 0).2 := by rw [hflT]
  have hrsT1 : csrT1.ringStores =
      [(0, RingStore.batchBufferStart 16 0x200000), (0, RingStore.noop 28)] := by
    rw [hT]; decide
  have htT1 : (csrT1.engineInfoTable 0).tailRCS = 32 := by
    rw [hT]; decide
  refine ⟨csrA1, csrT1, hflA, hflT, ht, by rw [← ht]; exact htT1, ?_, hrsT1⟩
  rw [hrsA]
  rw [hrsT] at hrsT1
  have h0 : (AUBCommandStreamReceiverHw.sampleAt 16).ringStores = [] := by decide
  have h1 : (TbxCommandStreamReceiverHw.sampleAt 16).ringStores = [] := by decide
  rw [h0]
  rw [h1] at hrsT1
  rw [hrsT, h1]

/-! ## Map commands and the map count -/

/-- C21: on a queue that is not blocked, `cpuDataTransferHandler` handling
`CL_COMMAND_MAP_BUFFER` returns, and it calls `finish` exactly if the object is not zero-copy
or the call is blocking. For a non-blocking map of a zero-copy object the only calls are the
wait for the events of the wait list and the performance hint (no `finish`, no transfer), and
the calls on the returned event end with `updateExecutionStatus`, not with
`setStatus(CL_COMPLETE)`. For an object that is not zero-copy the calls are the wait for the
events, `finish(true)`, the hint and `transferDataToHostPtr` of the whole object
(`{size, 0, 0}` at `{0, 0, 0}`), and the calls on the event end with
`setStatus(CL_COMPLETE)`. -/
theorem map_buffer_waits_unless_zero_copy_and_non_blocking (env : TransferEnvironment)
    (p : TransferProperties) (req : EventsRequest) (retVal : Int)
    (hcmd : p.cmdType = CL_COMMAND_MAP_BUFFER) (hq : env.blockQueue = false) :
    ∃ r, CommandQueue.cpuDataTransferHandler env p req retVal = some r ∧
      (TransferCall.finish true ∈ r.calls ↔
        (p.memObj.isZeroCopy = false ∨ p.blocking = true)) ∧
      (p.memObj.isZeroCopy = true → p.blocking = false →
        r.calls = [TransferCall.waitForEvents req.numEventsInWaitList] ++
          (if env.isProvidingPerformanceHints then
            [TransferCall.providePerformanceHint
              DiagnosticsLevel.CL_CONTEXT_DIAGNOSTICS_LEVEL_GOOD_INTEL
              PerformanceHint.CL_ENQUEUE_MAP_BUFFER_DOESNT_REQUIRE_COPY_DATA] else []) ∧
        r.event = (if req.outEvent then
          some [EventCall.setQueueTimeStamp, EventCall.setCPUProfilingPath true,
            EventCall.setTaskLevel env.taskLevel, EventCall.setSubmitTimeStamp,
            EventCall.setStartTimeStamp, EventCall.setEndTimeStamp,
            EventCall.updateTaskCount env.taskCount, EventCall.updateExecutionStatus]
          else none)) ∧
      (p.memObj.isZeroCopy = false →
        r.calls = [TransferCall.waitForEvents req.numEventsInWaitList,
            TransferCall.finish true] ++
          (if env.isProvidingPerformanceHints then
            [TransferCall.providePerformanceHint
              DiagnosticsLevel.CL_CONTEXT_DIAGNOSTICS_LEVEL_BAD_INTEL
              PerformanceHint.CL_ENQUEUE_MAP_BUFFER_REQUIRES_COPY_DATA] else []) ++
          [TransferCall.transferDataToHostPtr (p.memObj.size, 0, 0) (0, 0, 0)] ∧
        r.event = (if req.outEvent then
          some [EventCall.setQueueTimeStamp, EventCall.setCPUProfilingPath true,
            EventCall.setTaskLevel env.taskLevel, EventCall.setSubmitTimeStamp,
            EventCall.setStartTimeStamp, EventCall.setEndTimeStamp,
            EventCall.updateTaskCount env.taskCount, EventCall.setStatus CL_COMPLETE]
          else none)) := by
  obtain ⟨memObj, cmdType, blocking, offset, size, ptr⟩ := p
  obtain ⟨bq, tl, wfe, hints, gvp, tc⟩ := env
  obtain ⟨n, outEvent⟩ := req
  simp only at hcmd hq
  subst hcmd
  subst hq
  cases hz : memObj.isZeroCopy <;> cases blocking <;> cases outEvent <;> cases hints <;>
    simp [CommandQueue.cpuDataTransferHandler, CommandQueue.beginTransfer,
      CommandQueue.waitAndTransfer, CommandQueue.transferSwitch, CommandQueue.returnPointer,
      TransferState.onEvent, TransferState.call, TransferState.hint, MemObj.isMemObjZeroCopy,
      MemObj.getSize, ErrorCodeHelper.set, hz, CL_COMMAND_MAP_BUFFER,
      CL_COMMAND_UNMAP_MEM_OBJECT, CL_COMMAND_MAP_IMAGE, MemObj.incMapCount]

/-- Witness of C21: a non-blocking map of the sample buffer, which is not zero-copy, on the
sample queue, which is not blocked, with an event requested. -/
theorem map_buffer_waits_unless_zero_copy_and_non_blocking_witness :
    ∃ r, CommandQueue.cpuDataTransferHandler sampleEnvironment
        { mapBufferAt sampleUseHostPtrBuffer 0 with blocking := false }
        { numEventsInWaitList := 0, outEvent := true } CL_SUCCESS = some r ∧
      TransferCall.finish true ∈ r.calls ∧
      r.calls = [TransferCall.waitForEvents 0, TransferCall.finish true,
        TransferCall.transferDataToHostPtr (128, 0, 0) (0, 0, 0)] ∧
      r.event = some [EventCall.setQueueTimeStamp, EventCall.setCPUProfilingPath true,
        EventCall.setTaskLevel 0, EventCall.setSubmitTimeStamp, EventCall.setStartTimeStamp,
        EventCall.setEndTimeStamp, EventCall.updateTaskCount 5,
        EventCall.setStatus CL_COMPLETE] := by
  obtain ⟨r, h1, h2, -, h4⟩ := map_buffer_waits_unless_zero_copy_and_non_blocking
    sampleEnvironment { mapBufferAt sampleUseHostPtrBuffer 0 with blocking := false }
    { numEventsInWaitList := 0, outEvent := true } CL_SUCCESS rfl rfl
  exact ⟨r, h1, h2.mpr (Or.inl rfl), (h4 rfl).1, (h4 rfl).2⟩

/-- C26, what the code does: on a queue that is not blocked, `cpuDataTransferHandler`
handling `CL_COMMAND_MAP_BUFFER` raises the map count of the object twice, once by
`incMapCount` in the `switch` and once more inside `setAndReturnMappedPtr`; the
`CL_COMMAND_UNMAP_MEM_OBJECT` that follows lowers it once, so the count ends one above its
value before the map (for the sample buffer: 0, then 2, then 1). -/
theorem map_buffer_counts_the_map_twice (env : TransferEnvironment) (memObj : MemObj)
    (offset : Nat) (blocking : Bool) (req : EventsRequest) (retVal : Int) :
    ∃ r r2,
      CommandQueue.cpuDataTransferHandler { env with blockQueue := false }
        { memObj := memObj, cmdType := CL_COMMAND_MAP_BUFFER, blocking := blocking,
          offset := fun _ => offset, size := 0, ptr := 0 } req retVal = some r ∧
      CommandQueue.cpuDataTransferHandler { env with blockQueue := false }
        { memObj := r.memObj, cmdType := CL_COMMAND_UNMAP_MEM_OBJECT, blocking := blocking,
          offset := fun _ => 0, size := 0, ptr := r.ptr } req retVal = some r2 ∧
      r.memObj.mapCount = toUInt32 (toUInt32 (memObj.mapCount + 1) + 1) ∧
      r2.memObj.mapCount = subUInt32 r.memObj.mapCount 1 ∧
      (memObj.mapCount + 2 < 2 ^ 32 →
        r.memObj.mapCount = memObj.mapCount + 2 ∧ r2.memObj.mapCount = memObj.mapCount + 1) ∧
      ((CommandQueue.cpuDataTransferHandler sampleEnvironment
          (mapBufferAt sampleUseHostPtrBuffer 0)
          { numEventsInWaitList := 0, outEvent := false } CL_SUCCESS).map
            (fun r => r.memObj.mapCount) = some 2) := by
  have hne : ¬ CL_COMMAND_MAP_BUFFER = CL_COMMAND_MAP_IMAGE := by decide
  have hne2 : ¬ CL_COMMAND_UNMAP_MEM_OBJECT = CL_COMMAND_MAP_IMAGE := by decide
  have hne3 : ¬ CL_COMMAND_UNMAP_MEM_OBJECT = CL_COMMAND_MAP_BUFFER := by decide
  obtain ⟨st, r, -, hret, hh, -, hm⟩ := cpuDataTransferHandler_spec { env with blockQueue := false }
    { memObj := memObj, cmdType := CL_COMMAND_MAP_BUFFER, blocking := blocking,
      offset := fun _ => offset, size := 0, ptr := 0 } req retVal (fun h => absurd h hne)
  simp only [Bool.false_eq_true, not_false_eq_true, true_or, if_true] at hm
  unfold CommandQueue.returnPointer at hret
  simp only [if_true, Option.some.injEq] at hret
  have hr : r.memObj.mapCount = toUInt32 (toUInt32 (memObj.mapCount + 1) + 1) := by
    rw [← hret, hm]
    rfl
  obtain ⟨st2, r2, -, hret2, hh2, -, hm2⟩ := cpuDataTransferHandler_spec
    { env with blockQueue := false }
    { memObj := r.memObj, cmdType := CL_COMMAND_UNMAP_MEM_OBJECT, blocking := blocking,
      offset := fun _ => 0, size := 0, ptr := r.ptr } req retVal (fun h => absurd h hne2)
  simp only [Bool.false_eq_true, not_false_eq_true, true_or, if_true, hne3, hne2, or_self,
    if_false] at hm2
  unfold CommandQueue.returnPointer at hret2
  simp only [hne3, hne2, if_false, Option.some.injEq] at hret2
  have hr2 : r2.memObj.mapCount = subUInt32 r.memObj.mapCount 1 := by
    rw [← hret2, hm2]
    rfl
  refine ⟨r, r2, hh, hh2, hr, hr2, ?_, by decide⟩
  intro hlt
  rw [hr2, hr]
  unfold subUInt32 toUInt32
  omega

/-! ## The destructor of a memory object -/

/-- Registering a sequence of callbacks appends them, in order, and changes nothing else. -/
theorem setDestructorCallbacks_eq : ∀ (regs : List (Nat × Nat)) (memObj : MemObj),
    memObj.setDestructorCallbacks regs =
      { memObj with
        destructorCallbacks :=
          (memObj.destructorCallbacks ++ regs.map (fun r => DestructorCallback.mk r.1 r.2)) }
  | [], memObj => by simp [MemObj.setDestructorCallbacks]
  | r :: rest, memObj => by
    rw [MemObj.setDestructorCallbacks, setDestructorCallbacks_eq rest]
    simp [MemObj.setDestructorCallback]

/-- No call of `destroyGraphicsAllocation` is a callback. -/
theorem destroyGraphicsAllocation_no_callback (env : DestructionEnvironment) (g : Nat)
    (asyncDestroy : Bool) :
    ∀ a ∈ MemObj.destroyGraphicsAllocation env g asyncDestroy, a.isCallback = false := by
  intro a ha
  unfold MemObj.destroyGraphicsAllocation at ha
  split at ha
  · simp only at ha
    split at ha <;> simp only [List.mem_singleton] at ha <;> subst ha <;> rfl
  · simp only [List.mem_singleton] at ha
    subst ha
    rfl

/-- The calls of `destroyGraphicsAllocation` on another allocation do not give up `g`. -/
theorem destroyGraphicsAllocation_other (env : DestructionEnvironment) (g g1 : Nat)
    (asyncDestroy : Bool) (h : g1 ≠ g) :
    ∀ a ∈ MemObj.destroyGraphicsAllocation env g1 asyncDestroy, a.releases g = false := by
  intro a ha
  unfold MemObj.destroyGraphicsAllocation at ha
  split at ha
  · simp only at ha
    split at ha <;> simp only [List.mem_singleton] at ha <;> subst ha <;>
      simp [DestructorAction.releases, h]
  · simp only [List.mem_singleton] at ha
    subst ha
    simp [DestructorAction.releases, h]

/-- The block of `~MemObj` for the graphics allocation the object owns, when it owns one. -/
theorem destroyOwnedAllocation_owned (env : DestructionEnvironment) (memObj : MemObj)
    (h : memObj.graphicsAllocation ≠ 0 ∧ memObj.associatedMemObject = 0 ∧
      ¬ memObj.isObjectRedescribed = true ∧ ¬ memObj.isHostPtrSVM = true) :
    memObj.destroyOwnedAllocation env =
      ((if (env.EnableAsyncDestroyAllocations = false ∨ memObj.needWait = true) ∧
            env.taskCount memObj.graphicsAllocation ≠ ObjectNotUsed then
          memObj.waitForCsrCompletion env
        else []) ++
        MemObj.destroyGraphicsAllocation env memObj.graphicsAllocation
          env.EnableAsyncDestroyAllocations, 0) := by
  unfold MemObj.destroyOwnedAllocation
  rw [if_pos h]
  cases ha : env.EnableAsyncDestroyAllocations <;> cases hn : memObj.needWait <;> simp

/-- The block of `~MemObj` for the graphics allocation the object owns, when it owns none. -/
theorem destroyOwnedAllocation_not_owned (env : DestructionEnvironment) (memObj : MemObj)
    (h : ¬ (memObj.graphicsAllocation ≠ 0 ∧ memObj.associatedMemObject = 0 ∧
      ¬ memObj.isObjectRedescribed = true ∧ ¬ memObj.isHostPtrSVM = true)) :
    memObj.destroyOwnedAllocation env = ([], memObj.graphicsAllocation) := by
  unfold MemObj.destroyOwnedAllocation
  rw [if_neg h]

/-- No call of `waitForCsrCompletion` is a callback. -/
theorem waitForCsrCompletion_no_callback (env : DestructionEnvironment) (memObj : MemObj) :
    ∀ a ∈ memObj.waitForCsrCompletion env, a.isCallback = false := by
  intro a ha
  unfold MemObj.waitForCsrCompletion at ha
  split at ha
  · simp only [List.mem_singleton] at ha
    subst ha
    rfl
  · cases ha

/-- The block of `~MemObj` under `if (memoryManager)` invokes no callback. -/
theorem releaseResources_no_callback (env : DestructionEnvironment) (memObj : MemObj) :
    ∀ a ∈ memObj.releaseResources env, a.isCallback = false := by
  intro a ha
  unfold MemObj.releaseResources at ha
  split at ha
  · simp only [List.mem_append] at ha
    rcases ha with (((ha | ha) | ha) | ha) | ha
    · by_cases h : memObj.graphicsAllocation ≠ 0 ∧ memObj.associatedMemObject = 0 ∧
          ¬ memObj.isObjectRedescribed = true ∧ ¬ memObj.isHostPtrSVM = true
      · rw [destroyOwnedAllocation_owned env memObj h] at ha
        simp only [List.mem_append] at ha
        rcases ha with ha | ha
        · split at ha
          · exact waitForCsrCompletion_no_callback env memObj a ha
          · cases ha
        · exact destroyGraphicsAllocation_no_callback env _ _ a ha
      · rw [destroyOwnedAllocation_not_owned env memObj h] at ha
        cases ha
    · unfold MemObj.releaseAllocatedMappedPtr at ha
      split at ha
      · simp only [List.mem_singleton] at ha
        subst ha
        rfl
      · cases ha
    · split at ha
      · exact destroyGraphicsAllocation_no_callback env _ _ a ha
      · cases ha
    · split at ha
      · simp only [List.mem_singleton] at ha
        subst ha
        rfl
      · cases ha
    · split at ha
      · simp only [List.mem_append, List.mem_singleton] at ha
        rcases ha with ha | ha
        · split at ha
          · exact destroyGraphicsAllocation_no_callback env _ _ a ha
          · cases ha
        · subst ha
          rfl
      · cases ha
  · cases ha

/-- The calls of `~MemObj`: the release block, then the callbacks last registered first. -/
theorem destroy_eq (env : DestructionEnvironment) (self : Nat) (memObj : MemObj) :
    MemObj.destroy env self memObj = memObj.releaseResources env ++
      memObj.destructorCallbacks.reverse.map
        (fun cb => DestructorAction.funcNotify cb.funcNotify self cb.userData) := by
  unfold MemObj.destroy
  congr 1
  split
  · rfl
  · rename_i h
    have hnil : memObj.destructorCallbacks = [] := by
      cases hc : memObj.destructorCallbacks with
      | nil => rfl
      | cons c cs => rw [hc] at h; simp at h
    rw [hnil]
    rfl

/-- C29: `setDestructorCallback` returns `CL_SUCCESS` and appends the callback to the end of
the list, changing nothing else; and when an object on which a sequence of callbacks was
registered is destroyed, the calls of the destructor are the calls that release what the
object holds, none of which is a callback, followed by one invocation of every registered
callback with that object and the user data of the callback, the last registered first. An
object with a memory manager that owns its graphics allocation has given it up, by freeing or
by storing it, among the calls before the first callback. -/
theorem destructor_callbacks_run_last_in_reverse_order (env : DestructionEnvironment)
    (self : Nat) (memObj : MemObj) (funcNotify userData : Nat) (regs : List (Nat × Nat)) :
    (memObj.setDestructorCallback funcNotify userData).1 = CL_SUCCESS ∧
    (memObj.setDestructorCallback funcNotify userData).2 =
      { memObj with
        destructorCallbacks :=
          (memObj.destructorCallbacks ++ [DestructorCallback.mk funcNotify userData]) } ∧
    memObj.setDestructorCallbacks regs =
      { memObj with
        destructorCallbacks :=
          (memObj.destructorCallbacks ++ regs.map (fun r => DestructorCallback.mk r.1 r.2)) } ∧
    MemObj.destroy env self (memObj.setDestructorCallbacks regs) =
      (memObj.setDestructorCallbacks regs).releaseResources env ++
        ((memObj.destructorCallbacks ++
          regs.map (fun r => DestructorCallback.mk r.1 r.2)).reverse.map
            (fun cb => DestructorAction.funcNotify cb.funcNotify self cb.userData)) ∧
    (∀ a ∈ (memObj.setDestructorCallbacks regs).releaseResources env, a.isCallback = false) ∧
    (MemObj.destroy env self (memObj.setDestructorCallbacks regs)).filter
        DestructorAction.isCallback =
      (regs.reverse.map (fun r => DestructorAction.funcNotify r.1 self r.2)) ++
        memObj.destructorCallbacks.reverse.map
          (fun cb => DestructorAction.funcNotify cb.funcNotify self cb.userData) ∧
    (memObj.memoryManager ≠ 0 → memObj.graphicsAllocation ≠ 0 →
      memObj.associatedMemObject = 0 → memObj.isObjectRedescribed = false →
      memObj.isHostPtrSVM = false →
      ∃ a ∈ (memObj.setDestructorCallbacks regs).releaseResources env,
        a.releases memObj.graphicsAllocation = true) := by
  have hreg := setDestructorCallbacks_eq regs memObj
  have hcb : (memObj.setDestructorCallbacks regs).destructorCallbacks =
      memObj.destructorCallbacks ++ regs.map (fun r => DestructorCallback.mk r.1 r.2) := by
    rw [hreg]
  have hdes := destroy_eq env self (memObj.setDestructorCallbacks regs)
  rw [hcb] at hdes
  have hno := releaseResources_no_callback env (memObj.setDestructorCallbacks regs)
  refine ⟨rfl, rfl, hreg, hdes, hno, ?_, ?_⟩
  · rw [hdes, List.filter_append]
    have h1 : ((memObj.setDestructorCallbacks regs).releaseResources env).filter
        DestructorAction.isCallback = [] := by
      rw [List.filter_eq_nil_iff]
      intro a ha
      rw [hno a ha]
      simp
    have h2 : ∀ l : List DestructorCallback,
        (l.map (fun cb => DestructorAction.funcNotify cb.funcNotify self cb.userData)).filter
          DestructorAction.isCallback =
        l.map (fun cb => DestructorAction.funcNotify cb.funcNotify self cb.userData) := by
      intro l
      rw [List.filter_eq_self]
      intro a ha
      obtain ⟨cb, -, rfl⟩ := List.mem_map.mp ha
      rfl
    rw [h1, h2, List.nil_append, List.reverse_append, List.map_append, ← List.map_reverse,
      List.map_map]
    rfl
  · intro hmm hg hassoc hred hsvm
    have hown : (memObj.setDestructorCallbacks regs).graphicsAllocation ≠ 0 ∧
        (memObj.setDestructorCallbacks regs).associatedMemObject = 0 ∧
        ¬ (memObj.setDestructorCallbacks regs).isObjectRedescribed = true ∧
        ¬ (memObj.setDestructorCallbacks regs).isHostPtrSVM = true := by
      rw [hreg]
      exact ⟨hg, hassoc, by simp [hred], by simp [hsvm]⟩
    have hmm1 : (memObj.setDestructorCallbacks regs).memoryManager ≠ 0 := by
      rw [hreg]; exact hmm
    have hg1 : (memObj.setDestructorCallbacks regs).graphicsAllocation =
        memObj.graphicsAllocation := by rw [hreg]
    have hmem : ∀ (asyncDestroy : Bool), ∃ a ∈ MemObj.destroyGraphicsAllocation env
        memObj.graphicsAllocation asyncDestroy, a.releases memObj.graphicsAllocation = true := by
      intro asyncDestroy
      unfold MemObj.destroyGraphicsAllocation
      split
      · simp only
        split
        · exact ⟨_, List.mem_singleton.mpr rfl, by simp [DestructorAction.releases]⟩
        · exact ⟨_, List.mem_singleton.mpr rfl, by simp [DestructorAction.releases]⟩
      · exact ⟨_, List.mem_singleton.mpr rfl, by simp [DestructorAction.releases]⟩
    obtain ⟨a, ha, hrel⟩ := hmem env.EnableAsyncDestroyAllocations
    refine ⟨a, ?_, hrel⟩
    unfold MemObj.releaseResources
    rw [if_pos hmm1]
    simp only [destroyOwnedAllocation_owned env _ hown, hg1, List.mem_append]
    exact Or.inl (Or.inl (Or.inl (Or.inl (Or.inr ha))))

/-- C30: when an object that has a memory manager with a device and owns its graphics
allocation (no associated object, not redescribed, host pointer not SVM, the MCS allocation a
different one) is destroyed and the allocation was used, the destructor makes exactly one call
that gives the allocation up, either `freeGraphicsMemory` or `storeAllocation`. The calls
before it are the wait for the task count of the allocation when asynchronous destruction is
disabled or a wait is needed, and nothing otherwise. The allocation is freed only after that
wait or with the tag at or above the task count; it is stored exactly if asynchronous
destruction is enabled and the tag is below the task count, so without a wait and with the
tag below the task count it is stored and not freed. -/
theorem owned_allocation_freed_after_wait_or_stored (env : DestructionEnvironment)
    (self : Nat) (memObj : MemObj)
    (hmm : memObj.memoryManager ≠ 0) (hdev : env.device = true)
    (hg : memObj.graphicsAllocation ≠ 0) (hassoc : memObj.associatedMemObject = 0)
    (hred : memObj.isObjectRedescribed = false) (hsvm : memObj.isHostPtrSVM = false)
    (hmcs : memObj.mcsAllocation ≠ memObj.graphicsAllocation)
    (hused : env.taskCount memObj.graphicsAllocation ≠ ObjectNotUsed) :
    ∃ (pre : List DestructorAction) (action : DestructorAction) (post : List DestructorAction),
      MemObj.destroy env self memObj = pre ++ action :: post ∧
      (action = DestructorAction.freeGraphicsMemory memObj.graphicsAllocation ∨
        action = DestructorAction.storeAllocation memObj.graphicsAllocation) ∧
      (∀ a ∈ pre ++ post, a.releases memObj.graphicsAllocation = false) ∧
      pre = (if env.EnableAsyncDestroyAllocations = false ∨ memObj.needWait = true then
          [DestructorAction.waitForCompletionWithTimeout false
            (env.taskCount memObj.graphicsAllocation)]
        else []) ∧
      (action = DestructorAction.freeGraphicsMemory memObj.graphicsAllocation →
        DestructorAction.waitForCompletionWithTimeout false
            (env.taskCount memObj.graphicsAllocation) ∈ pre ∨
          env.taskCount memObj.graphicsAllocation ≤ env.currentTag) ∧
      (action = DestructorAction.storeAllocation memObj.graphicsAllocation ↔
        env.EnableAsyncDestroyAllocations = true ∧
          env.currentTag < env.taskCount memObj.graphicsAllocation) ∧
      (DestructorAction.waitForCompletionWithTimeout false
            (env.taskCount memObj.graphicsAllocation) ∉ pre →
        env.currentTag < env.taskCount memObj.graphicsAllocation →
        action = DestructorAction.storeAllocation memObj.graphicsAllocation ∧
          env.EnableAsyncDestroyAllocations = true ∧ memObj.needWait = false) := by
  have hown : memObj.graphicsAllocation ≠ 0 ∧ memObj.associatedMemObject = 0 ∧
      ¬ memObj.isObjectRedescribed = true ∧ ¬ memObj.isHostPtrSVM = true :=
    ⟨hg, hassoc, by simp [hred], by simp [hsvm]⟩
  have hw : memObj.waitForCsrCompletion env =
      [DestructorAction.waitForCompletionWithTimeout false
        (env.taskCount memObj.graphicsAllocation)] := by
    unfold MemObj.waitForCsrCompletion
    rw [if_pos ⟨hdev, hg⟩]
  have hd : MemObj.destroyGraphicsAllocation env memObj.graphicsAllocation
      env.EnableAsyncDestroyAllocations =
      [if env.EnableAsyncDestroyAllocations = true ∧
          env.currentTag < env.taskCount memObj.graphicsAllocation then
        DestructorAction.storeAllocation memObj.graphicsAllocation
      else DestructorAction.freeGraphicsMemory memObj.graphicsAllocation] := by
    unfold MemObj.destroyGraphicsAllocation
    by_cases ha : env.EnableAsyncDestroyAllocations = true
    · by_cases ht : env.currentTag < env.taskCount memObj.graphicsAllocation
      · simp [ha, hdev, hused, ht]
      · simp [ha, hdev, hused, ht]
    · simp [ha]
  have hdes := destroy_eq env self memObj
  unfold MemObj.releaseResources at hdes
  rw [if_pos hmm] at hdes
  simp only [destroyOwnedAllocation_owned env memObj hown, hw, hd, hassoc, ne_eq,
    not_true_eq_false, if_false, List.append_nil, List.append_assoc, List.singleton_append,
    hused, not_false_eq_true, and_true] at hdes
  refine ⟨_, _, _, hdes, ?_, ?_, rfl, ?_, ?_, ?_⟩
  · split
    · exact Or.inr rfl
    · exact Or.inl rfl
  · intro a ha
    simp only [List.append_eq, List.mem_append] at ha
    rcases ha with ha | ha | ha | ha | ha
    · split at ha
      · simp only [List.mem_singleton] at ha
        subst ha
        rfl
      · cases ha
    · unfold MemObj.releaseAllocatedMappedPtr at ha
      split at ha
      · simp only [List.mem_singleton] at ha
        subst ha
        rfl
      · cases ha
    · split at ha
      · exact destroyGraphicsAllocation_other env _ _ false hmcs a ha
      · cases ha
    · split at ha
      · simp only [List.mem_singleton] at ha
        subst ha
        rfl
      · cases ha
    · obtain ⟨cb, -, rfl⟩ := List.mem_map.mp ha
      rfl
  · intro hfree
    split at hfree
    · cases hfree
    · rename_i hns
      by_cases ha : env.EnableAsyncDestroyAllocations = true
      · right
        have : ¬ env.currentTag < env.taskCount memObj.graphicsAllocation :=
          fun ht => hns ⟨ha, ht⟩
        omega
      · left
        have ha1 : env.EnableAsyncDestroyAllocations = false := by
          cases h : env.EnableAsyncDestroyAllocations
          · rfl
          · exact absurd h ha
        rw [if_pos (Or.inl ha1)]
        exact List.mem_singleton.mpr rfl
  · constructor
    · intro hst
      split at hst
      · assumption
      · cases hst
    · intro h
      rw [if_pos h]
  · intro hnw ht
    by_cases hc : env.EnableAsyncDestroyAllocations = false ∨ memObj.needWait = true
    · rw [if_pos hc] at hnw
      exact absurd (List.mem_singleton.mpr rfl) hnw
    · have ha : env.EnableAsyncDestroyAllocations = true := by
        cases h : env.EnableAsyncDestroyAllocations
        · exact absurd (Or.inl h) hc
        · rfl
      have hn : memObj.needWait = false := by
        cases h : memObj.needWait
        · rfl
        · exact absurd (Or.inr h) hc
      exact ⟨by rw [if_pos ⟨ha, ht⟩], ha, hn⟩

/-- Witness of C30: the sample buffer, which owns the allocation at `0x5000` with task count 5
and has nothing that needs a wait, destroyed with asynchronous destruction enabled and the tag
at 3: the only call of the destructor stores the allocation. -/
theorem owned_allocation_freed_after_wait_or_stored_witness :
    MemObj.destroy sampleDestructionEnvironment 0x40 sampleOwnedBuffer =
      [DestructorAction.storeAllocation 0x5000] ∧
    ∃ (pre : List DestructorAction) (action : DestructorAction) (post : List DestructorAction),
      MemObj.destroy sampleDestructionEnvironment 0x40 sampleOwnedBuffer =
        pre ++ action :: post ∧
      pre = [] ∧
      (action = DestructorAction.storeAllocation 0x5000 ↔
        sampleDestructionEnvironment.EnableAsyncDestroyAllocations = true ∧
          sampleDestructionEnvironment.currentTag <
            sampleDestructionEnvironment.taskCount 0x5000) := by
  obtain ⟨pre, action, post, hdes, -, -, hpre, -, hiff, -⟩ :=
    owned_allocation_freed_after_wait_or_stored sampleDestructionEnvironment 0x40
      sampleOwnedBuffer (by decide) rfl (by decide) rfl rfl rfl (by decide) (by decide)
  exact ⟨by decide, pre, action, post, hdes, by rw [hpre]; decide, hiff⟩

end OCLRT
